import Mathlib

set_option maxRecDepth 8000

-- Data tables transcribed from src/asmjit/x86/x86inst.cpp.

/-- Instruction encoding kinds (the `Enc(...)` tags of the instruction table).
The numeric values assigned in the (absent) header are irrelevant: only the tag
identity is ever consulted. -/
inductive Encoding where
  | None
  | X86Arith
  | X86Rm
  | ExtRm
  | ExtRmi
  | VexRvm_Wx
  | VexRmv_Wx
  | VexVm_Wx
  | ExtRmXMM0
  | X86Bswap
  | X86Bt
  | X86Call
  | X86OpAx
  | X86OpDxAx
  | X86Op
  | X86M_Only
  | X86Cmpxchg
  | X86Crc
  | ExtRm_Wx
  | X86IncDec
  | X86M_Bx_MulDiv
  | X86Enter
  | ExtExtract
  | ExtExtrq
  | FpuOp
  | FpuArith
  | FpuRDef
  | FpuR
  | FpuCom
  | FpuM
  | FpuFldFst
  | FpuStsw
  | X86Imul
  | ExtInsertq
  | X86Int
  | X86Jcc
  | X86Jecxz
  | X86Jmp
  | VexRvm
  | VexKmov
  | VexRm
  | VexRmi
  | X86Lea
  | X86Fence
  | ExtRmZDI
  | X86Mov
  | ExtMov
  | ExtMovbe
  | ExtMovd
  | ExtMovnti
  | ExtMovq
  | X86MovsxMovzx
  | VexRvmZDX_Wx
  | X86M_Bx
  | ExtRm_P
  | ExtRmi_P
  | Ext3dNow
  | X86Op_O
  | ExtPextrw
  | X86Pop
  | X86Prefetch
  | ExtRmRi_P
  | ExtRmRi
  | X86Push
  | X86Rot
  | X86M
  | X86Rep
  | X86Ret
  | VexRmi_Wx
  | X86Set
  | X86ShldShrd
  | X86Test
  | VexRvm_Lx
  | VexRvmi_Lx
  | VexRvmr_Lx
  | VexRm_Lx
  | VexRvmi
  | VexMr_Lx
  | VexMri_Lx
  | VexMri
  | Fma4_Lx
  | Fma4
  | VexRmi_Lx
  | VexRmvRm_VM
  | VexM_VM
  | VexM
  | VexRmZDI
  | VexRvmMvr_Lx
  | VexRmMr_Lx
  | VexMovDQ
  | VexRvmMr
  | VexMovSsSd
  | VexRvmr
  | VexRvrmRvmr_Lx
  | VexRvrmiRvmri_Lx
  | VexRvmRmi_Lx
  | VexRvrmRvmr
  | VexVmi_Lx
  | VexRvmRmvRmi
  | VexMr_VM
  | VexRvmRmv
  | VexRvmVmi_Lx
  | VexEvexVmi_Lx
  | VexOp
  | X86Xadd
  | X86Xchg
deriving DecidableEq

/-- Instruction flags (`F(...)` and the `A512(...)` expansion of x86inst.cpp).
Modelled as a set of named flags; the bit positions assigned in the (absent)
header are irrelevant, the code only tests membership. -/
inductive InstFlag where
  | RW
  | Lock
  | WO
  | Special
  | RO
  | Flow
  | Volatile
  | Fp
  | FPU_M4
  | FPU_M8
  | FPU_M2
  | FPU_M10
  | Vex
  | ZeroIfMem
  | Evex
  | EvexSet_F_
  | EvexVL
  | EvexKZ
  | EvexK_
  | EvexER
  | EvexB8
  | EvexB4
  | EvexSet_DQ
  | EvexSet_BW
  | EvexSAE
  | EvexSet_ERI
  | Vex_VM
  | VM
  | EvexSet_PFI
  | EvexSet_CDI
  | EvexSet_VBMI
  | EvexSet_IFMA
  | Xchg
deriving DecidableEq

/-- Operand-signature flags (`X86Inst::kOp...`). Bit positions are irrelevant:
the validator only forms unions and tests intersection non-emptiness. -/
inductive OpFlag where
  | W
  | GpbLo
  | GpbHi
  | Mem
  | R
  | I8
  | Gpw
  | Seg
  | I16
  | Gpd
  | I32
  | Gpq
  | Cr
  | Dr
  | I64
  | X
  | Implicit
  | Mm
  | Xmm
  | Ymm
  | Zmm
  | Vm
  | I4
  | Fp
  | K
  | Rel32
  | Rel8
  | Bnd
deriving DecidableEq

/-- Memory-operand flags (`X86Inst::kMemOp...`). -/
inductive MemFlag where
  | M8
  | M16
  | M32
  | M64
  | M128
  | M256
  | M512
  | Vm32x
  | Vm32y
  | Vm32z
  | Vm64x
  | Vm64y
  | Vm64z
  | Any
  | M80
  | M1024
deriving DecidableEq

/-- One row of `_x86InstOSignatureData`: operand flags, memory flags and the
fixed register id (0xFF = any). The always-zero `extFlags` column is dropped. -/
structure OSignature where
  flags : List OpFlag
  memFlags : List MemFlag
  regId : Nat
deriving DecidableEq

/-- One row of `_x86InstISignatureData`: operand count, architecture mask
(bit 1 = x86, bit 2 = x64, from the ISIGNATURE macro), implicit-operand count
and the six operand-signature indexes. -/
structure ISignature where
  opCount : Nat
  archMask : Nat
  implicit : Nat
  operands : List Nat
deriving DecidableEq

/-- One row of `X86InstDB::commonData`, keeping the fields the validator reads:
the instruction flag set, `_iSignatureIndex` and `_iSignatureCount` (7th and 8th
columns of the C initializer). -/
structure CommonData where
  flags : List InstFlag
  iSignatureIndex : Nat
  iSignatureCount : Nat

/-- One row of `X86InstDB::instData`, keeping the fields used by name lookup,
the condition-code tables and the validator: the encoding tag, `_nameDataIndex`
and `_commonDataIndex`. -/
structure InstRow where
  encoding : Encoding
  nameDataIndex : Nat
  commonDataIndex : Nat

/-- Bytes 0-479 of `X86InstDB::nameData`. -/
def nameDataPart0 : List Nat := [
  0, 97, 100, 99, 0, 97, 100, 99, 120, 0, 97, 100, 111, 120, 0, 98, 101, 120, 116, 114, 0, 98, 108, 99,
  102, 105, 108, 108, 0, 98, 108, 99, 105, 0, 98, 108, 99, 105, 99, 0, 98, 108, 99, 109, 115, 107, 0, 98,
  108, 99, 115, 0, 98, 108, 115, 102, 105, 108, 108, 0, 98, 108, 115, 105, 0, 98, 108, 115, 105, 99, 0, 98,
  108, 115, 109, 115, 107, 0, 98, 108, 115, 114, 0, 98, 115, 102, 0, 98, 115, 114, 0, 98, 115, 119, 97, 112,
  0, 98, 116, 0, 98, 116, 99, 0, 98, 116, 114, 0, 98, 116, 115, 0, 98, 122, 104, 105, 0, 99, 97, 108,
  108, 0, 99, 98, 119, 0, 99, 100, 113, 0, 99, 100, 113, 101, 0, 99, 108, 97, 99, 0, 99, 108, 99, 0,
  99, 108, 100, 0, 99, 108, 102, 108, 117, 115, 104, 0, 99, 108, 102, 108, 117, 115, 104, 111, 112, 116, 0, 99,
  108, 119, 98, 0, 99, 108, 122, 101, 114, 111, 0, 99, 109, 99, 0, 99, 109, 111, 118, 97, 0, 99, 109, 111,
  118, 97, 101, 0, 99, 109, 111, 118, 99, 0, 99, 109, 111, 118, 103, 0, 99, 109, 111, 118, 103, 101, 0, 99,
  109, 111, 118, 108, 0, 99, 109, 111, 118, 108, 101, 0, 99, 109, 111, 118, 110, 97, 0, 99, 109, 111, 118, 110,
  97, 101, 0, 99, 109, 111, 118, 110, 99, 0, 99, 109, 111, 118, 110, 103, 0, 99, 109, 111, 118, 110, 103, 101,
  0, 99, 109, 111, 118, 110, 108, 0, 99, 109, 111, 118, 110, 108, 101, 0, 99, 109, 111, 118, 110, 111, 0, 99,
  109, 111, 118, 110, 112, 0, 99, 109, 111, 118, 110, 115, 0, 99, 109, 111, 118, 110, 122, 0, 99, 109, 111, 118,
  111, 0, 99, 109, 111, 118, 112, 0, 99, 109, 111, 118, 112, 101, 0, 99, 109, 111, 118, 112, 111, 0, 99, 109,
  111, 118, 115, 0, 99, 109, 111, 118, 122, 0, 99, 109, 112, 0, 99, 109, 112, 120, 99, 104, 103, 0, 99, 109,
  112, 120, 99, 104, 103, 49, 54, 98, 0, 99, 109, 112, 120, 99, 104, 103, 56, 98, 0, 99, 112, 117, 105, 100,
  0, 99, 113, 111, 0, 99, 114, 99, 51, 50, 0, 99, 118, 116, 112, 100, 50, 112, 105, 0, 99, 118, 116, 112,
  105, 50, 112, 100, 0, 99, 118, 116, 112, 105, 50, 112, 115, 0, 99, 118, 116, 112, 115, 50, 112, 105, 0, 99,
  118, 116, 116, 112, 100, 50, 112, 105, 0, 99, 118, 116, 116, 112, 115, 50, 112, 105, 0, 99, 119, 100, 0, 99,
  119, 100, 101, 0, 100, 97, 97, 0, 100, 97, 115, 0, 101, 110, 116, 101, 114, 0, 102, 50, 120, 109, 49, 0
]

/-- Bytes 480-959 of `X86InstDB::nameData`. -/
def nameDataPart1 : List Nat := [
  102, 97, 98, 115, 0, 102, 97, 100, 100, 112, 0, 102, 98, 108, 100, 0, 102, 98, 115, 116, 112, 0, 102, 99,
  104, 115, 0, 102, 99, 108, 101, 120, 0, 102, 99, 109, 111, 118, 98, 0, 102, 99, 109, 111, 118, 98, 101, 0,
  102, 99, 109, 111, 118, 101, 0, 102, 99, 109, 111, 118, 110, 98, 0, 102, 99, 109, 111, 118, 110, 98, 101, 0,
  102, 99, 109, 111, 118, 110, 101, 0, 102, 99, 109, 111, 118, 110, 117, 0, 102, 99, 109, 111, 118, 117, 0, 102,
  99, 111, 109, 0, 102, 99, 111, 109, 105, 0, 102, 99, 111, 109, 105, 112, 0, 102, 99, 111, 109, 112, 0, 102,
  99, 111, 109, 112, 112, 0, 102, 99, 111, 115, 0, 102, 100, 101, 99, 115, 116, 112, 0, 102, 100, 105, 118, 0,
  102, 100, 105, 118, 112, 0, 102, 100, 105, 118, 114, 0, 102, 100, 105, 118, 114, 112, 0, 102, 101, 109, 109, 115,
  0, 102, 102, 114, 101, 101, 0, 102, 105, 97, 100, 100, 0, 102, 105, 99, 111, 109, 0, 102, 105, 99, 111, 109,
  112, 0, 102, 105, 100, 105, 118, 0, 102, 105, 100, 105, 118, 114, 0, 102, 105, 108, 100, 0, 102, 105, 109, 117,
  108, 0, 102, 105, 110, 99, 115, 116, 112, 0, 102, 105, 110, 105, 116, 0, 102, 105, 115, 116, 0, 102, 105, 115,
  116, 112, 0, 102, 105, 115, 116, 116, 112, 0, 102, 105, 115, 117, 98, 0, 102, 105, 115, 117, 98, 114, 0, 102,
  108, 100, 0, 102, 108, 100, 49, 0, 102, 108, 100, 99, 119, 0, 102, 108, 100, 101, 110, 118, 0, 102, 108, 100,
  108, 50, 101, 0, 102, 108, 100, 108, 50, 116, 0, 102, 108, 100, 108, 103, 50, 0, 102, 108, 100, 108, 110, 50,
  0, 102, 108, 100, 112, 105, 0, 102, 108, 100, 122, 0, 102, 109, 117, 108, 112, 0, 102, 110, 99, 108, 101, 120,
  0, 102, 110, 105, 110, 105, 116, 0, 102, 110, 111, 112, 0, 102, 110, 115, 97, 118, 101, 0, 102, 110, 115, 116,
  99, 119, 0, 102, 110, 115, 116, 101, 110, 118, 0, 102, 110, 115, 116, 115, 119, 0, 102, 112, 97, 116, 97, 110,
  0, 102, 112, 114, 101, 109, 0, 102, 112, 114, 101, 109, 49, 0, 102, 112, 116, 97, 110, 0, 102, 114, 110, 100,
  105, 110, 116, 0, 102, 114, 115, 116, 111, 114, 0, 102, 115, 97, 118, 101, 0, 102, 115, 99, 97, 108, 101, 0,
  102, 115, 105, 110, 0, 102, 115, 105, 110, 99, 111, 115, 0, 102, 115, 113, 114, 116, 0, 102, 115, 116, 0, 102,
  115, 116, 99, 119, 0, 102, 115, 116, 101, 110, 118, 0, 102, 115, 116, 112, 0, 102, 115, 116, 115, 119, 0, 102
]

/-- Bytes 960-1439 of `X86InstDB::nameData`. -/
def nameDataPart2 : List Nat := [
  115, 117, 98, 112, 0, 102, 115, 117, 98, 114, 112, 0, 102, 116, 115, 116, 0, 102, 117, 99, 111, 109, 0, 102,
  117, 99, 111, 109, 105, 0, 102, 117, 99, 111, 109, 105, 112, 0, 102, 117, 99, 111, 109, 112, 0, 102, 117, 99,
  111, 109, 112, 112, 0, 102, 119, 97, 105, 116, 0, 102, 120, 97, 109, 0, 102, 120, 99, 104, 0, 102, 120, 114,
  115, 116, 111, 114, 0, 102, 120, 114, 115, 116, 111, 114, 54, 52, 0, 102, 120, 115, 97, 118, 101, 0, 102, 120,
  115, 97, 118, 101, 54, 52, 0, 102, 120, 116, 114, 97, 99, 116, 0, 102, 121, 108, 50, 120, 0, 102, 121, 108,
  50, 120, 112, 49, 0, 105, 110, 99, 0, 105, 110, 115, 101, 114, 116, 113, 0, 105, 110, 116, 51, 0, 105, 110,
  116, 111, 0, 106, 97, 0, 106, 97, 101, 0, 106, 98, 0, 106, 98, 101, 0, 106, 99, 0, 106, 101, 0, 106,
  101, 99, 120, 122, 0, 106, 103, 0, 106, 103, 101, 0, 106, 108, 0, 106, 108, 101, 0, 106, 109, 112, 0, 106,
  110, 97, 0, 106, 110, 97, 101, 0, 106, 110, 98, 0, 106, 110, 98, 101, 0, 106, 110, 99, 0, 106, 110, 101,
  0, 106, 110, 103, 0, 106, 110, 103, 101, 0, 106, 110, 108, 0, 106, 110, 108, 101, 0, 106, 110, 111, 0, 106,
  110, 112, 0, 106, 110, 115, 0, 106, 110, 122, 0, 106, 111, 0, 106, 112, 0, 106, 112, 101, 0, 106, 112, 111,
  0, 106, 115, 0, 106, 122, 0, 107, 97, 100, 100, 98, 0, 107, 97, 100, 100, 100, 0, 107, 97, 100, 100, 113,
  0, 107, 97, 100, 100, 119, 0, 107, 97, 110, 100, 98, 0, 107, 97, 110, 100, 100, 0, 107, 97, 110, 100, 110,
  98, 0, 107, 97, 110, 100, 110, 100, 0, 107, 97, 110, 100, 110, 113, 0, 107, 97, 110, 100, 110, 119, 0, 107,
  97, 110, 100, 113, 0, 107, 97, 110, 100, 119, 0, 107, 109, 111, 118, 98, 0, 107, 109, 111, 118, 119, 0, 107,
  110, 111, 116, 98, 0, 107, 110, 111, 116, 100, 0, 107, 110, 111, 116, 113, 0, 107, 110, 111, 116, 119, 0, 107,
  111, 114, 98, 0, 107, 111, 114, 100, 0, 107, 111, 114, 113, 0, 107, 111, 114, 116, 101, 115, 116, 98, 0, 107,
  111, 114, 116, 101, 115, 116, 100, 0, 107, 111, 114, 116, 101, 115, 116, 113, 0, 107, 111, 114, 116, 101, 115, 116,
  119, 0, 107, 111, 114, 119, 0, 107, 115, 104, 105, 102, 116, 108, 98, 0, 107, 115, 104, 105, 102, 116, 108, 100,
  0, 107, 115, 104, 105, 102, 116, 108, 113, 0, 107, 115, 104, 105, 102, 116, 108, 119, 0, 107, 115, 104, 105, 102
]

/-- Bytes 1440-1919 of `X86InstDB::nameData`. -/
def nameDataPart3 : List Nat := [
  116, 114, 98, 0, 107, 115, 104, 105, 102, 116, 114, 100, 0, 107, 115, 104, 105, 102, 116, 114, 113, 0, 107, 115,
  104, 105, 102, 116, 114, 119, 0, 107, 116, 101, 115, 116, 98, 0, 107, 116, 101, 115, 116, 100, 0, 107, 116, 101,
  115, 116, 113, 0, 107, 116, 101, 115, 116, 119, 0, 107, 117, 110, 112, 99, 107, 98, 119, 0, 107, 117, 110, 112,
  99, 107, 100, 113, 0, 107, 117, 110, 112, 99, 107, 119, 100, 0, 107, 120, 110, 111, 114, 98, 0, 107, 120, 110,
  111, 114, 100, 0, 107, 120, 110, 111, 114, 113, 0, 107, 120, 110, 111, 114, 119, 0, 107, 120, 111, 114, 98, 0,
  107, 120, 111, 114, 100, 0, 107, 120, 111, 114, 113, 0, 107, 120, 111, 114, 119, 0, 108, 97, 104, 102, 0, 108,
  101, 97, 0, 108, 101, 97, 118, 101, 0, 108, 102, 101, 110, 99, 101, 0, 108, 122, 99, 110, 116, 0, 109, 102,
  101, 110, 99, 101, 0, 109, 111, 110, 105, 116, 111, 114, 0, 109, 111, 118, 100, 113, 50, 113, 0, 109, 111, 118,
  110, 116, 105, 0, 109, 111, 118, 110, 116, 113, 0, 109, 111, 118, 110, 116, 115, 100, 0, 109, 111, 118, 110, 116,
  115, 115, 0, 109, 111, 118, 113, 50, 100, 113, 0, 109, 111, 118, 115, 120, 0, 109, 111, 118, 115, 120, 100, 0,
  109, 111, 118, 122, 120, 0, 109, 117, 108, 120, 0, 109, 119, 97, 105, 116, 0, 110, 101, 103, 0, 110, 111, 116,
  0, 112, 97, 117, 115, 101, 0, 112, 97, 118, 103, 117, 115, 98, 0, 112, 99, 111, 109, 109, 105, 116, 0, 112,
  100, 101, 112, 0, 112, 101, 120, 116, 0, 112, 102, 50, 105, 100, 0, 112, 102, 50, 105, 119, 0, 112, 102, 97,
  99, 99, 0, 112, 102, 97, 100, 100, 0, 112, 102, 99, 109, 112, 101, 113, 0, 112, 102, 99, 109, 112, 103, 101,
  0, 112, 102, 99, 109, 112, 103, 116, 0, 112, 102, 109, 97, 120, 0, 112, 102, 109, 105, 110, 0, 112, 102, 109,
  117, 108, 0, 112, 102, 110, 97, 99, 99, 0, 112, 102, 112, 110, 97, 99, 99, 0, 112, 102, 114, 99, 112, 0,
  112, 102, 114, 99, 112, 105, 116, 49, 0, 112, 102, 114, 99, 112, 105, 116, 50, 0, 112, 102, 114, 99, 112, 118,
  0, 112, 102, 114, 115, 113, 105, 116, 49, 0, 112, 102, 114, 115, 113, 114, 116, 0, 112, 102, 114, 115, 113, 114,
  116, 118, 0, 112, 102, 115, 117, 98, 0, 112, 102, 115, 117, 98, 114, 0, 112, 105, 50, 102, 100, 0, 112, 105,
  50, 102, 119, 0, 112, 109, 117, 108, 104, 114, 119, 0, 112, 111, 112, 0, 112, 111, 112, 97, 0, 112, 111, 112
]

/-- Bytes 1920-2399 of `X86InstDB::nameData`. -/
def nameDataPart4 : List Nat := [
  99, 110, 116, 0, 112, 111, 112, 102, 0, 112, 114, 101, 102, 101, 116, 99, 104, 0, 112, 114, 101, 102, 101, 116,
  99, 104, 51, 100, 110, 111, 119, 0, 112, 114, 101, 102, 101, 116, 99, 104, 119, 0, 112, 114, 101, 102, 101, 116,
  99, 104, 119, 116, 49, 0, 112, 115, 104, 117, 102, 119, 0, 112, 115, 119, 97, 112, 100, 0, 112, 117, 115, 104,
  0, 112, 117, 115, 104, 97, 0, 112, 117, 115, 104, 102, 0, 114, 99, 108, 0, 114, 99, 114, 0, 114, 100, 102,
  115, 98, 97, 115, 101, 0, 114, 100, 103, 115, 98, 97, 115, 101, 0, 114, 100, 114, 97, 110, 100, 0, 114, 100,
  115, 101, 101, 100, 0, 114, 100, 116, 115, 99, 0, 114, 100, 116, 115, 99, 112, 0, 114, 101, 112, 32, 108, 111,
  100, 115, 95, 98, 0, 114, 101, 112, 32, 108, 111, 100, 115, 95, 100, 0, 114, 101, 112, 32, 108, 111, 100, 115,
  95, 113, 0, 114, 101, 112, 32, 108, 111, 100, 115, 95, 119, 0, 114, 101, 112, 32, 109, 111, 118, 115, 95, 98,
  0, 114, 101, 112, 32, 109, 111, 118, 115, 95, 100, 0, 114, 101, 112, 32, 109, 111, 118, 115, 95, 113, 0, 114,
  101, 112, 32, 109, 111, 118, 115, 95, 119, 0, 114, 101, 112, 32, 115, 116, 111, 115, 95, 98, 0, 114, 101, 112,
  32, 115, 116, 111, 115, 95, 100, 0, 114, 101, 112, 32, 115, 116, 111, 115, 95, 113, 0, 114, 101, 112, 32, 115,
  116, 111, 115, 95, 119, 0, 114, 101, 112, 101, 32, 99, 109, 112, 115, 95, 98, 0, 114, 101, 112, 101, 32, 99,
  109, 112, 115, 95, 100, 0, 114, 101, 112, 101, 32, 99, 109, 112, 115, 95, 113, 0, 114, 101, 112, 101, 32, 99,
  109, 112, 115, 95, 119, 0, 114, 101, 112, 101, 32, 115, 99, 97, 115, 95, 98, 0, 114, 101, 112, 101, 32, 115,
  99, 97, 115, 95, 100, 0, 114, 101, 112, 101, 32, 115, 99, 97, 115, 95, 113, 0, 114, 101, 112, 101, 32, 115,
  99, 97, 115, 95, 119, 0, 114, 101, 112, 110, 101, 32, 99, 109, 112, 115, 95, 98, 0, 114, 101, 112, 110, 101,
  32, 99, 109, 112, 115, 95, 100, 0, 114, 101, 112, 110, 101, 32, 99, 109, 112, 115, 95, 113, 0, 114, 101, 112,
  110, 101, 32, 99, 109, 112, 115, 95, 119, 0, 114, 101, 112, 110, 101, 32, 115, 99, 97, 115, 95, 98, 0, 114,
  101, 112, 110, 101, 32, 115, 99, 97, 115, 95, 100, 0, 114, 101, 112, 110, 101, 32, 115, 99, 97, 115, 95, 113,
  0, 114, 101, 112, 110, 101, 32, 115, 99, 97, 115, 95, 119, 0, 114, 101, 116, 0, 114, 111, 108, 0, 114, 111
]

/-- Bytes 2400-2879 of `X86InstDB::nameData`. -/
def nameDataPart5 : List Nat := [
  114, 0, 114, 111, 114, 120, 0, 115, 97, 104, 102, 0, 115, 97, 108, 0, 115, 97, 114, 0, 115, 97, 114, 120,
  0, 115, 98, 98, 0, 115, 101, 116, 97, 0, 115, 101, 116, 97, 101, 0, 115, 101, 116, 98, 0, 115, 101, 116,
  98, 101, 0, 115, 101, 116, 99, 0, 115, 101, 116, 101, 0, 115, 101, 116, 103, 0, 115, 101, 116, 103, 101, 0,
  115, 101, 116, 108, 0, 115, 101, 116, 108, 101, 0, 115, 101, 116, 110, 97, 0, 115, 101, 116, 110, 97, 101, 0,
  115, 101, 116, 110, 98, 0, 115, 101, 116, 110, 98, 101, 0, 115, 101, 116, 110, 99, 0, 115, 101, 116, 110, 101,
  0, 115, 101, 116, 110, 103, 0, 115, 101, 116, 110, 103, 101, 0, 115, 101, 116, 110, 108, 0, 115, 101, 116, 110,
  108, 101, 0, 115, 101, 116, 110, 111, 0, 115, 101, 116, 110, 112, 0, 115, 101, 116, 110, 115, 0, 115, 101, 116,
  110, 122, 0, 115, 101, 116, 111, 0, 115, 101, 116, 112, 0, 115, 101, 116, 112, 101, 0, 115, 101, 116, 112, 111,
  0, 115, 101, 116, 115, 0, 115, 101, 116, 122, 0, 115, 102, 101, 110, 99, 101, 0, 115, 104, 97, 49, 109, 115,
  103, 49, 0, 115, 104, 97, 49, 109, 115, 103, 50, 0, 115, 104, 97, 49, 110, 101, 120, 116, 101, 0, 115, 104,
  97, 49, 114, 110, 100, 115, 52, 0, 115, 104, 97, 50, 53, 54, 109, 115, 103, 49, 0, 115, 104, 97, 50, 53,
  54, 109, 115, 103, 50, 0, 115, 104, 97, 50, 53, 54, 114, 110, 100, 115, 50, 0, 115, 104, 108, 0, 115, 104,
  108, 120, 0, 115, 104, 114, 0, 115, 104, 114, 100, 0, 115, 104, 114, 120, 0, 115, 116, 97, 99, 0, 115, 116,
  99, 0, 115, 116, 105, 0, 116, 49, 109, 115, 107, 99, 0, 116, 122, 99, 110, 116, 0, 116, 122, 109, 115, 107,
  0, 117, 100, 50, 0, 118, 97, 100, 100, 112, 100, 0, 118, 97, 100, 100, 112, 115, 0, 118, 97, 100, 100, 115,
  100, 0, 118, 97, 100, 100, 115, 115, 0, 118, 97, 100, 100, 115, 117, 98, 112, 100, 0, 118, 97, 100, 100, 115,
  117, 98, 112, 115, 0, 118, 97, 101, 115, 100, 101, 99, 0, 118, 97, 101, 115, 100, 101, 99, 108, 97, 115, 116,
  0, 118, 97, 101, 115, 101, 110, 99, 0, 118, 97, 101, 115, 101, 110, 99, 108, 97, 115, 116, 0, 118, 97, 101,
  115, 105, 109, 99, 0, 118, 97, 101, 115, 107, 101, 121, 103, 101, 110, 97, 115, 115, 105, 115, 116, 0, 118, 97,
  108, 105, 103, 110, 100, 0, 118, 97, 108, 105, 103, 110, 113, 0, 118, 97, 110, 100, 110, 112, 100, 0, 118, 97
]

/-- Bytes 2880-3359 of `X86InstDB::nameData`. -/
def nameDataPart6 : List Nat := [
  110, 100, 110, 112, 115, 0, 118, 97, 110, 100, 112, 100, 0, 118, 97, 110, 100, 112, 115, 0, 118, 98, 108, 101,
  110, 100, 109, 98, 0, 118, 98, 108, 101, 110, 100, 109, 100, 0, 118, 98, 108, 101, 110, 100, 109, 112, 100, 0,
  118, 98, 108, 101, 110, 100, 109, 112, 115, 0, 118, 98, 108, 101, 110, 100, 109, 113, 0, 118, 98, 108, 101, 110,
  100, 109, 119, 0, 118, 98, 108, 101, 110, 100, 112, 100, 0, 118, 98, 108, 101, 110, 100, 112, 115, 0, 118, 98,
  108, 101, 110, 100, 118, 112, 100, 0, 118, 98, 108, 101, 110, 100, 118, 112, 115, 0, 118, 98, 114, 111, 97, 100,
  99, 97, 115, 116, 102, 49, 50, 56, 0, 118, 98, 114, 111, 97, 100, 99, 97, 115, 116, 102, 51, 50, 120, 50,
  0, 118, 98, 114, 111, 97, 100, 99, 97, 115, 116, 102, 51, 50, 120, 52, 0, 118, 98, 114, 111, 97, 100, 99,
  97, 115, 116, 102, 51, 50, 120, 56, 0, 118, 98, 114, 111, 97, 100, 99, 97, 115, 116, 102, 54, 52, 120, 50,
  0, 118, 98, 114, 111, 97, 100, 99, 97, 115, 116, 102, 54, 52, 120, 52, 0, 118, 98, 114, 111, 97, 100, 99,
  97, 115, 116, 105, 49, 50, 56, 0, 118, 98, 114, 111, 97, 100, 99, 97, 115, 116, 105, 51, 50, 120, 50, 0,
  118, 98, 114, 111, 97, 100, 99, 97, 115, 116, 105, 51, 50, 120, 52, 0, 118, 98, 114, 111, 97, 100, 99, 97,
  115, 116, 105, 51, 50, 120, 56, 0, 118, 98, 114, 111, 97, 100, 99, 97, 115, 116, 105, 54, 52, 120, 50, 0,
  118, 98, 114, 111, 97, 100, 99, 97, 115, 116, 105, 54, 52, 120, 52, 0, 118, 98, 114, 111, 97, 100, 99, 97,
  115, 116, 115, 100, 0, 118, 98, 114, 111, 97, 100, 99, 97, 115, 116, 115, 115, 0, 118, 99, 109, 112, 112, 100,
  0, 118, 99, 109, 112, 112, 115, 0, 118, 99, 109, 112, 115, 100, 0, 118, 99, 109, 112, 115, 115, 0, 118, 99,
  111, 109, 105, 115, 100, 0, 118, 99, 111, 109, 105, 115, 115, 0, 118, 99, 111, 109, 112, 114, 101, 115, 115, 112,
  100, 0, 118, 99, 111, 109, 112, 114, 101, 115, 115, 112, 115, 0, 118, 99, 118, 116, 100, 113, 50, 112, 100, 0,
  118, 99, 118, 116, 100, 113, 50, 112, 115, 0, 118, 99, 118, 116, 112, 100, 50, 100, 113, 0, 118, 99, 118, 116,
  112, 100, 50, 112, 115, 0, 118, 99, 118, 116, 112, 100, 50, 113, 113, 0, 118, 99, 118, 116, 112, 100, 50, 117,
  100, 113, 0, 118, 99, 118, 116, 112, 100, 50, 117, 113, 113, 0, 118, 99, 118, 116, 112, 104, 50, 112, 115, 0
]

/-- Bytes 3360-3839 of `X86InstDB::nameData`. -/
def nameDataPart7 : List Nat := [
  118, 99, 118, 116, 112, 115, 50, 100, 113, 0, 118, 99, 118, 116, 112, 115, 50, 112, 100, 0, 118, 99, 118, 116,
  112, 115, 50, 112, 104, 0, 118, 99, 118, 116, 112, 115, 50, 113, 113, 0, 118, 99, 118, 116, 112, 115, 50, 117,
  100, 113, 0, 118, 99, 118, 116, 112, 115, 50, 117, 113, 113, 0, 118, 99, 118, 116, 113, 113, 50, 112, 100, 0,
  118, 99, 118, 116, 113, 113, 50, 112, 115, 0, 118, 99, 118, 116, 115, 100, 50, 115, 105, 0, 118, 99, 118, 116,
  115, 100, 50, 115, 115, 0, 118, 99, 118, 116, 115, 100, 50, 117, 115, 105, 0, 118, 99, 118, 116, 115, 105, 50,
  115, 100, 0, 118, 99, 118, 116, 115, 105, 50, 115, 115, 0, 118, 99, 118, 116, 115, 115, 50, 115, 100, 0, 118,
  99, 118, 116, 115, 115, 50, 115, 105, 0, 118, 99, 118, 116, 115, 115, 50, 117, 115, 105, 0, 118, 99, 118, 116,
  116, 112, 100, 50, 100, 113, 0, 118, 99, 118, 116, 116, 112, 100, 50, 113, 113, 0, 118, 99, 118, 116, 116, 112,
  100, 50, 117, 100, 113, 0, 118, 99, 118, 116, 116, 112, 100, 50, 117, 113, 113, 0, 118, 99, 118, 116, 116, 112,
  115, 50, 100, 113, 0, 118, 99, 118, 116, 116, 112, 115, 50, 113, 113, 0, 118, 99, 118, 116, 116, 112, 115, 50,
  117, 100, 113, 0, 118, 99, 118, 116, 116, 112, 115, 50, 117, 113, 113, 0, 118, 99, 118, 116, 116, 115, 100, 50,
  115, 105, 0, 118, 99, 118, 116, 116, 115, 100, 50, 117, 115, 105, 0, 118, 99, 118, 116, 116, 115, 115, 50, 115,
  105, 0, 118, 99, 118, 116, 116, 115, 115, 50, 117, 115, 105, 0, 118, 99, 118, 116, 117, 100, 113, 50, 112, 100,
  0, 118, 99, 118, 116, 117, 100, 113, 50, 112, 115, 0, 118, 99, 118, 116, 117, 113, 113, 50, 112, 100, 0, 118,
  99, 118, 116, 117, 113, 113, 50, 112, 115, 0, 118, 99, 118, 116, 117, 115, 105, 50, 115, 100, 0, 118, 99, 118,
  116, 117, 115, 105, 50, 115, 115, 0, 118, 100, 98, 112, 115, 97, 100, 98, 119, 0, 118, 100, 105, 118, 112, 100,
  0, 118, 100, 105, 118, 112, 115, 0, 118, 100, 105, 118, 115, 100, 0, 118, 100, 105, 118, 115, 115, 0, 118, 100,
  112, 112, 100, 0, 118, 100, 112, 112, 115, 0, 118, 101, 120, 112, 50, 112, 100, 0, 118, 101, 120, 112, 50, 112,
  115, 0, 118, 101, 120, 112, 97, 110, 100, 112, 100, 0, 118, 101, 120, 112, 97, 110, 100, 112, 115, 0, 118, 101,
  120, 116, 114, 97, 99, 116, 102, 49, 50, 56, 0, 118, 101, 120, 116, 114, 97, 99, 116, 102, 51, 50, 120, 52
]

/-- Bytes 3840-4319 of `X86InstDB::nameData`. -/
def nameDataPart8 : List Nat := [
  0, 118, 101, 120, 116, 114, 97, 99, 116, 102, 51, 50, 120, 56, 0, 118, 101, 120, 116, 114, 97, 99, 116, 102,
  54, 52, 120, 50, 0, 118, 101, 120, 116, 114, 97, 99, 116, 102, 54, 52, 120, 52, 0, 118, 101, 120, 116, 114,
  97, 99, 116, 105, 49, 50, 56, 0, 118, 101, 120, 116, 114, 97, 99, 116, 105, 51, 50, 120, 52, 0, 118, 101,
  120, 116, 114, 97, 99, 116, 105, 51, 50, 120, 56, 0, 118, 101, 120, 116, 114, 97, 99, 116, 105, 54, 52, 120,
  50, 0, 118, 101, 120, 116, 114, 97, 99, 116, 105, 54, 52, 120, 52, 0, 118, 101, 120, 116, 114, 97, 99, 116,
  112, 115, 0, 118, 102, 105, 120, 117, 112, 105, 109, 109, 112, 100, 0, 118, 102, 105, 120, 117, 112, 105, 109, 109,
  112, 115, 0, 118, 102, 105, 120, 117, 112, 105, 109, 109, 115, 100, 0, 118, 102, 105, 120, 117, 112, 105, 109, 109,
  115, 115, 0, 118, 102, 109, 97, 100, 100, 49, 51, 50, 112, 100, 0, 118, 102, 109, 97, 100, 100, 49, 51, 50,
  112, 115, 0, 118, 102, 109, 97, 100, 100, 49, 51, 50, 115, 100, 0, 118, 102, 109, 97, 100, 100, 49, 51, 50,
  115, 115, 0, 118, 102, 109, 97, 100, 100, 50, 49, 51, 112, 100, 0, 118, 102, 109, 97, 100, 100, 50, 49, 51,
  112, 115, 0, 118, 102, 109, 97, 100, 100, 50, 49, 51, 115, 100, 0, 118, 102, 109, 97, 100, 100, 50, 49, 51,
  115, 115, 0, 118, 102, 109, 97, 100, 100, 50, 51, 49, 112, 100, 0, 118, 102, 109, 97, 100, 100, 50, 51, 49,
  112, 115, 0, 118, 102, 109, 97, 100, 100, 50, 51, 49, 115, 100, 0, 118, 102, 109, 97, 100, 100, 50, 51, 49,
  115, 115, 0, 118, 102, 109, 97, 100, 100, 112, 100, 0, 118, 102, 109, 97, 100, 100, 112, 115, 0, 118, 102, 109,
  97, 100, 100, 115, 100, 0, 118, 102, 109, 97, 100, 100, 115, 115, 0, 118, 102, 109, 97, 100, 100, 115, 117, 98,
  49, 51, 50, 112, 100, 0, 118, 102, 109, 97, 100, 100, 115, 117, 98, 49, 51, 50, 112, 115, 0, 118, 102, 109,
  97, 100, 100, 115, 117, 98, 50, 49, 51, 112, 100, 0, 118, 102, 109, 97, 100, 100, 115, 117, 98, 50, 49, 51,
  112, 115, 0, 118, 102, 109, 97, 100, 100, 115, 117, 98, 50, 51, 49, 112, 100, 0, 118, 102, 109, 97, 100, 100,
  115, 117, 98, 50, 51, 49, 112, 115, 0, 118, 102, 109, 97, 100, 100, 115, 117, 98, 112, 100, 0, 118, 102, 109,
  97, 100, 100, 115, 117, 98, 112, 115, 0, 118, 102, 109, 115, 117, 98, 49, 51, 50, 112, 100, 0, 118, 102, 109
]

/-- Bytes 4320-4799 of `X86InstDB::nameData`. -/
def nameDataPart9 : List Nat := [
  115, 117, 98, 49, 51, 50, 112, 115, 0, 118, 102, 109, 115, 117, 98, 49, 51, 50, 115, 100, 0, 118, 102, 109,
  115, 117, 98, 49, 51, 50, 115, 115, 0, 118, 102, 109, 115, 117, 98, 50, 49, 51, 112, 100, 0, 118, 102, 109,
  115, 117, 98, 50, 49, 51, 112, 115, 0, 118, 102, 109, 115, 117, 98, 50, 49, 51, 115, 100, 0, 118, 102, 109,
  115, 117, 98, 50, 49, 51, 115, 115, 0, 118, 102, 109, 115, 117, 98, 50, 51, 49, 112, 100, 0, 118, 102, 109,
  115, 117, 98, 50, 51, 49, 112, 115, 0, 118, 102, 109, 115, 117, 98, 50, 51, 49, 115, 100, 0, 118, 102, 109,
  115, 117, 98, 50, 51, 49, 115, 115, 0, 118, 102, 109, 115, 117, 98, 97, 100, 100, 49, 51, 50, 112, 100, 0,
  118, 102, 109, 115, 117, 98, 97, 100, 100, 49, 51, 50, 112, 115, 0, 118, 102, 109, 115, 117, 98, 97, 100, 100,
  50, 49, 51, 112, 100, 0, 118, 102, 109, 115, 117, 98, 97, 100, 100, 50, 49, 51, 112, 115, 0, 118, 102, 109,
  115, 117, 98, 97, 100, 100, 50, 51, 49, 112, 100, 0, 118, 102, 109, 115, 117, 98, 97, 100, 100, 50, 51, 49,
  112, 115, 0, 118, 102, 109, 115, 117, 98, 97, 100, 100, 112, 100, 0, 118, 102, 109, 115, 117, 98, 97, 100, 100,
  112, 115, 0, 118, 102, 109, 115, 117, 98, 112, 100, 0, 118, 102, 109, 115, 117, 98, 112, 115, 0, 118, 102, 109,
  115, 117, 98, 115, 100, 0, 118, 102, 109, 115, 117, 98, 115, 115, 0, 118, 102, 110, 109, 97, 100, 100, 49, 51,
  50, 112, 100, 0, 118, 102, 110, 109, 97, 100, 100, 49, 51, 50, 112, 115, 0, 118, 102, 110, 109, 97, 100, 100,
  49, 51, 50, 115, 100, 0, 118, 102, 110, 109, 97, 100, 100, 49, 51, 50, 115, 115, 0, 118, 102, 110, 109, 97,
  100, 100, 50, 49, 51, 112, 100, 0, 118, 102, 110, 109, 97, 100, 100, 50, 49, 51, 112, 115, 0, 118, 102, 110,
  109, 97, 100, 100, 50, 49, 51, 115, 100, 0, 118, 102, 110, 109, 97, 100, 100, 50, 49, 51, 115, 115, 0, 118,
  102, 110, 109, 97, 100, 100, 50, 51, 49, 112, 100, 0, 118, 102, 110, 109, 97, 100, 100, 50, 51, 49, 112, 115,
  0, 118, 102, 110, 109, 97, 100, 100, 50, 51, 49, 115, 100, 0, 118, 102, 110, 109, 97, 100, 100, 50, 51, 49,
  115, 115, 0, 118, 102, 110, 109, 97, 100, 100, 112, 100, 0, 118, 102, 110, 109, 97, 100, 100, 112, 115, 0, 118,
  102, 110, 109, 97, 100, 100, 115, 100, 0, 118, 102, 110, 109, 97, 100, 100, 115, 115, 0, 118, 102, 110, 109, 115
]

/-- Bytes 4800-5279 of `X86InstDB::nameData`. -/
def nameDataPart10 : List Nat := [
  117, 98, 49, 51, 50, 112, 100, 0, 118, 102, 110, 109, 115, 117, 98, 49, 51, 50, 112, 115, 0, 118, 102, 110,
  109, 115, 117, 98, 49, 51, 50, 115, 100, 0, 118, 102, 110, 109, 115, 117, 98, 49, 51, 50, 115, 115, 0, 118,
  102, 110, 109, 115, 117, 98, 50, 49, 51, 112, 100, 0, 118, 102, 110, 109, 115, 117, 98, 50, 49, 51, 112, 115,
  0, 118, 102, 110, 109, 115, 117, 98, 50, 49, 51, 115, 100, 0, 118, 102, 110, 109, 115, 117, 98, 50, 49, 51,
  115, 115, 0, 118, 102, 110, 109, 115, 117, 98, 50, 51, 49, 112, 100, 0, 118, 102, 110, 109, 115, 117, 98, 50,
  51, 49, 112, 115, 0, 118, 102, 110, 109, 115, 117, 98, 50, 51, 49, 115, 100, 0, 118, 102, 110, 109, 115, 117,
  98, 50, 51, 49, 115, 115, 0, 118, 102, 110, 109, 115, 117, 98, 112, 100, 0, 118, 102, 110, 109, 115, 117, 98,
  112, 115, 0, 118, 102, 110, 109, 115, 117, 98, 115, 100, 0, 118, 102, 110, 109, 115, 117, 98, 115, 115, 0, 118,
  102, 112, 99, 108, 97, 115, 115, 112, 100, 0, 118, 102, 112, 99, 108, 97, 115, 115, 112, 115, 0, 118, 102, 112,
  99, 108, 97, 115, 115, 115, 100, 0, 118, 102, 112, 99, 108, 97, 115, 115, 115, 115, 0, 118, 102, 114, 99, 122,
  112, 100, 0, 118, 102, 114, 99, 122, 112, 115, 0, 118, 102, 114, 99, 122, 115, 100, 0, 118, 102, 114, 99, 122,
  115, 115, 0, 118, 103, 97, 116, 104, 101, 114, 100, 112, 100, 0, 118, 103, 97, 116, 104, 101, 114, 100, 112, 115,
  0, 118, 103, 97, 116, 104, 101, 114, 112, 102, 48, 100, 112, 100, 0, 118, 103, 97, 116, 104, 101, 114, 112, 102,
  48, 100, 112, 115, 0, 118, 103, 97, 116, 104, 101, 114, 112, 102, 48, 113, 112, 100, 0, 118, 103, 97, 116, 104,
  101, 114, 112, 102, 48, 113, 112, 115, 0, 118, 103, 97, 116, 104, 101, 114, 112, 102, 49, 100, 112, 100, 0, 118,
  103, 97, 116, 104, 101, 114, 112, 102, 49, 100, 112, 115, 0, 118, 103, 97, 116, 104, 101, 114, 112, 102, 49, 113,
  112, 100, 0, 118, 103, 97, 116, 104, 101, 114, 112, 102, 49, 113, 112, 115, 0, 118, 103, 97, 116, 104, 101, 114,
  113, 112, 100, 0, 118, 103, 97, 116, 104, 101, 114, 113, 112, 115, 0, 118, 103, 101, 116, 101, 120, 112, 112, 100,
  0, 118, 103, 101, 116, 101, 120, 112, 112, 115, 0, 118, 103, 101, 116, 101, 120, 112, 115, 100, 0, 118, 103, 101,
  116, 101, 120, 112, 115, 115, 0, 118, 103, 101, 116, 109, 97, 110, 116, 112, 100, 0, 118, 103, 101, 116, 109, 97
]

/-- Bytes 5280-5759 of `X86InstDB::nameData`. -/
def nameDataPart11 : List Nat := [
  110, 116, 112, 115, 0, 118, 103, 101, 116, 109, 97, 110, 116, 115, 100, 0, 118, 103, 101, 116, 109, 97, 110, 116,
  115, 115, 0, 118, 104, 97, 100, 100, 112, 100, 0, 118, 104, 97, 100, 100, 112, 115, 0, 118, 104, 115, 117, 98,
  112, 100, 0, 118, 104, 115, 117, 98, 112, 115, 0, 118, 105, 110, 115, 101, 114, 116, 102, 49, 50, 56, 0, 118,
  105, 110, 115, 101, 114, 116, 102, 51, 50, 120, 52, 0, 118, 105, 110, 115, 101, 114, 116, 102, 51, 50, 120, 56,
  0, 118, 105, 110, 115, 101, 114, 116, 102, 54, 52, 120, 50, 0, 118, 105, 110, 115, 101, 114, 116, 102, 54, 52,
  120, 52, 0, 118, 105, 110, 115, 101, 114, 116, 105, 49, 50, 56, 0, 118, 105, 110, 115, 101, 114, 116, 105, 51,
  50, 120, 52, 0, 118, 105, 110, 115, 101, 114, 116, 105, 51, 50, 120, 56, 0, 118, 105, 110, 115, 101, 114, 116,
  105, 54, 52, 120, 50, 0, 118, 105, 110, 115, 101, 114, 116, 105, 54, 52, 120, 52, 0, 118, 105, 110, 115, 101,
  114, 116, 112, 115, 0, 118, 108, 100, 100, 113, 117, 0, 118, 108, 100, 109, 120, 99, 115, 114, 0, 118, 109, 97,
  115, 107, 109, 111, 118, 100, 113, 117, 0, 118, 109, 97, 115, 107, 109, 111, 118, 112, 100, 0, 118, 109, 97, 115,
  107, 109, 111, 118, 112, 115, 0, 118, 109, 97, 120, 112, 100, 0, 118, 109, 97, 120, 112, 115, 0, 118, 109, 97,
  120, 115, 100, 0, 118, 109, 97, 120, 115, 115, 0, 118, 109, 105, 110, 112, 100, 0, 118, 109, 105, 110, 112, 115,
  0, 118, 109, 105, 110, 115, 100, 0, 118, 109, 105, 110, 115, 115, 0, 118, 109, 111, 118, 97, 112, 100, 0, 118,
  109, 111, 118, 97, 112, 115, 0, 118, 109, 111, 118, 100, 0, 118, 109, 111, 118, 100, 100, 117, 112, 0, 118, 109,
  111, 118, 100, 113, 97, 0, 118, 109, 111, 118, 100, 113, 97, 51, 50, 0, 118, 109, 111, 118, 100, 113, 97, 54,
  52, 0, 118, 109, 111, 118, 100, 113, 117, 0, 118, 109, 111, 118, 100, 113, 117, 49, 54, 0, 118, 109, 111, 118,
  100, 113, 117, 51, 50, 0, 118, 109, 111, 118, 100, 113, 117, 54, 52, 0, 118, 109, 111, 118, 100, 113, 117, 56,
  0, 118, 109, 111, 118, 104, 108, 112, 115, 0, 118, 109, 111, 118, 104, 112, 100, 0, 118, 109, 111, 118, 104, 112,
  115, 0, 118, 109, 111, 118, 108, 104, 112, 115, 0, 118, 109, 111, 118, 108, 112, 100, 0, 118, 109, 111, 118, 108,
  112, 115, 0, 118, 109, 111, 118, 109, 115, 107, 112, 100, 0, 118, 109, 111, 118, 109, 115, 107, 112, 115, 0, 118
]

/-- Bytes 5760-6239 of `X86InstDB::nameData`. -/
def nameDataPart12 : List Nat := [
  109, 111, 118, 110, 116, 100, 113, 0, 118, 109, 111, 118, 110, 116, 100, 113, 97, 0, 118, 109, 111, 118, 110, 116,
  112, 100, 0, 118, 109, 111, 118, 110, 116, 112, 115, 0, 118, 109, 111, 118, 113, 0, 118, 109, 111, 118, 115, 100,
  0, 118, 109, 111, 118, 115, 104, 100, 117, 112, 0, 118, 109, 111, 118, 115, 108, 100, 117, 112, 0, 118, 109, 111,
  118, 115, 115, 0, 118, 109, 111, 118, 117, 112, 100, 0, 118, 109, 111, 118, 117, 112, 115, 0, 118, 109, 112, 115,
  97, 100, 98, 119, 0, 118, 109, 117, 108, 112, 100, 0, 118, 109, 117, 108, 112, 115, 0, 118, 109, 117, 108, 115,
  100, 0, 118, 109, 117, 108, 115, 115, 0, 118, 111, 114, 112, 100, 0, 118, 111, 114, 112, 115, 0, 118, 112, 97,
  98, 115, 98, 0, 118, 112, 97, 98, 115, 100, 0, 118, 112, 97, 98, 115, 113, 0, 118, 112, 97, 98, 115, 119,
  0, 118, 112, 97, 99, 107, 115, 115, 100, 119, 0, 118, 112, 97, 99, 107, 115, 115, 119, 98, 0, 118, 112, 97,
  99, 107, 117, 115, 100, 119, 0, 118, 112, 97, 99, 107, 117, 115, 119, 98, 0, 118, 112, 97, 100, 100, 98, 0,
  118, 112, 97, 100, 100, 100, 0, 118, 112, 97, 100, 100, 113, 0, 118, 112, 97, 100, 100, 115, 98, 0, 118, 112,
  97, 100, 100, 115, 119, 0, 118, 112, 97, 100, 100, 117, 115, 98, 0, 118, 112, 97, 100, 100, 117, 115, 119, 0,
  118, 112, 97, 100, 100, 119, 0, 118, 112, 97, 108, 105, 103, 110, 114, 0, 118, 112, 97, 110, 100, 0, 118, 112,
  97, 110, 100, 100, 0, 118, 112, 97, 110, 100, 110, 0, 118, 112, 97, 110, 100, 110, 100, 0, 118, 112, 97, 110,
  100, 110, 113, 0, 118, 112, 97, 110, 100, 113, 0, 118, 112, 97, 118, 103, 98, 0, 118, 112, 97, 118, 103, 119,
  0, 118, 112, 98, 108, 101, 110, 100, 100, 0, 118, 112, 98, 108, 101, 110, 100, 118, 98, 0, 118, 112, 98, 108,
  101, 110, 100, 119, 0, 118, 112, 98, 114, 111, 97, 100, 99, 97, 115, 116, 98, 0, 118, 112, 98, 114, 111, 97,
  100, 99, 97, 115, 116, 100, 0, 118, 112, 98, 114, 111, 97, 100, 99, 97, 115, 116, 109, 98, 50, 100, 0, 118,
  112, 98, 114, 111, 97, 100, 99, 97, 115, 116, 109, 98, 50, 113, 0, 118, 112, 98, 114, 111, 97, 100, 99, 97,
  115, 116, 113, 0, 118, 112, 98, 114, 111, 97, 100, 99, 97, 115, 116, 119, 0, 118, 112, 99, 108, 109, 117, 108,
  113, 100, 113, 0, 118, 112, 99, 109, 111, 118, 0, 118, 112, 99, 109, 112, 98, 0, 118, 112, 99, 109, 112, 100
]

/-- Bytes 6240-6719 of `X86InstDB::nameData`. -/
def nameDataPart13 : List Nat := [
  0, 118, 112, 99, 109, 112, 101, 113, 98, 0, 118, 112, 99, 109, 112, 101, 113, 100, 0, 118, 112, 99, 109, 112,
  101, 113, 113, 0, 118, 112, 99, 109, 112, 101, 113, 119, 0, 118, 112, 99, 109, 112, 101, 115, 116, 114, 105, 0,
  118, 112, 99, 109, 112, 101, 115, 116, 114, 109, 0, 118, 112, 99, 109, 112, 103, 116, 98, 0, 118, 112, 99, 109,
  112, 103, 116, 100, 0, 118, 112, 99, 109, 112, 103, 116, 113, 0, 118, 112, 99, 109, 112, 103, 116, 119, 0, 118,
  112, 99, 109, 112, 105, 115, 116, 114, 105, 0, 118, 112, 99, 109, 112, 105, 115, 116, 114, 109, 0, 118, 112, 99,
  109, 112, 113, 0, 118, 112, 99, 109, 112, 117, 98, 0, 118, 112, 99, 109, 112, 117, 100, 0, 118, 112, 99, 109,
  112, 117, 113, 0, 118, 112, 99, 109, 112, 117, 119, 0, 118, 112, 99, 109, 112, 119, 0, 118, 112, 99, 111, 109,
  98, 0, 118, 112, 99, 111, 109, 100, 0, 118, 112, 99, 111, 109, 112, 114, 101, 115, 115, 100, 0, 118, 112, 99,
  111, 109, 112, 114, 101, 115, 115, 113, 0, 118, 112, 99, 111, 109, 113, 0, 118, 112, 99, 111, 109, 117, 98, 0,
  118, 112, 99, 111, 109, 117, 100, 0, 118, 112, 99, 111, 109, 117, 113, 0, 118, 112, 99, 111, 109, 117, 119, 0,
  118, 112, 99, 111, 109, 119, 0, 118, 112, 99, 111, 110, 102, 108, 105, 99, 116, 100, 0, 118, 112, 99, 111, 110,
  102, 108, 105, 99, 116, 113, 0, 118, 112, 101, 114, 109, 50, 102, 49, 50, 56, 0, 118, 112, 101, 114, 109, 50,
  105, 49, 50, 56, 0, 118, 112, 101, 114, 109, 98, 0, 118, 112, 101, 114, 109, 100, 0, 118, 112, 101, 114, 109,
  105, 50, 98, 0, 118, 112, 101, 114, 109, 105, 50, 100, 0, 118, 112, 101, 114, 109, 105, 50, 112, 100, 0, 118,
  112, 101, 114, 109, 105, 50, 112, 115, 0, 118, 112, 101, 114, 109, 105, 50, 113, 0, 118, 112, 101, 114, 109, 105,
  50, 119, 0, 118, 112, 101, 114, 109, 105, 108, 50, 112, 100, 0, 118, 112, 101, 114, 109, 105, 108, 50, 112, 115,
  0, 118, 112, 101, 114, 109, 105, 108, 112, 100, 0, 118, 112, 101, 114, 109, 105, 108, 112, 115, 0, 118, 112, 101,
  114, 109, 112, 100, 0, 118, 112, 101, 114, 109, 112, 115, 0, 118, 112, 101, 114, 109, 113, 0, 118, 112, 101, 114,
  109, 116, 50, 98, 0, 118, 112, 101, 114, 109, 116, 50, 100, 0, 118, 112, 101, 114, 109, 116, 50, 112, 100, 0,
  118, 112, 101, 114, 109, 116, 50, 112, 115, 0, 118, 112, 101, 114, 109, 116, 50, 113, 0, 118, 112, 101, 114, 109
]

/-- Bytes 6720-7199 of `X86InstDB::nameData`. -/
def nameDataPart14 : List Nat := [
  116, 50, 119, 0, 118, 112, 101, 114, 109, 119, 0, 118, 112, 101, 120, 112, 97, 110, 100, 100, 0, 118, 112, 101,
  120, 112, 97, 110, 100, 113, 0, 118, 112, 101, 120, 116, 114, 98, 0, 118, 112, 101, 120, 116, 114, 100, 0, 118,
  112, 101, 120, 116, 114, 113, 0, 118, 112, 101, 120, 116, 114, 119, 0, 118, 112, 103, 97, 116, 104, 101, 114, 100,
  100, 0, 118, 112, 103, 97, 116, 104, 101, 114, 100, 113, 0, 118, 112, 103, 97, 116, 104, 101, 114, 113, 100, 0,
  118, 112, 103, 97, 116, 104, 101, 114, 113, 113, 0, 118, 112, 104, 97, 100, 100, 98, 100, 0, 118, 112, 104, 97,
  100, 100, 98, 113, 0, 118, 112, 104, 97, 100, 100, 98, 119, 0, 118, 112, 104, 97, 100, 100, 100, 0, 118, 112,
  104, 97, 100, 100, 100, 113, 0, 118, 112, 104, 97, 100, 100, 115, 119, 0, 118, 112, 104, 97, 100, 100, 117, 98,
  100, 0, 118, 112, 104, 97, 100, 100, 117, 98, 113, 0, 118, 112, 104, 97, 100, 100, 117, 98, 119, 0, 118, 112,
  104, 97, 100, 100, 117, 100, 113, 0, 118, 112, 104, 97, 100, 100, 117, 119, 100, 0, 118, 112, 104, 97, 100, 100,
  117, 119, 113, 0, 118, 112, 104, 97, 100, 100, 119, 0, 118, 112, 104, 97, 100, 100, 119, 100, 0, 118, 112, 104,
  97, 100, 100, 119, 113, 0, 118, 112, 104, 109, 105, 110, 112, 111, 115, 117, 119, 0, 118, 112, 104, 115, 117, 98,
  98, 119, 0, 118, 112, 104, 115, 117, 98, 100, 0, 118, 112, 104, 115, 117, 98, 100, 113, 0, 118, 112, 104, 115,
  117, 98, 115, 119, 0, 118, 112, 104, 115, 117, 98, 119, 0, 118, 112, 104, 115, 117, 98, 119, 100, 0, 118, 112,
  105, 110, 115, 114, 98, 0, 118, 112, 105, 110, 115, 114, 100, 0, 118, 112, 105, 110, 115, 114, 113, 0, 118, 112,
  105, 110, 115, 114, 119, 0, 118, 112, 108, 122, 99, 110, 116, 100, 0, 118, 112, 108, 122, 99, 110, 116, 113, 0,
  118, 112, 109, 97, 99, 115, 100, 100, 0, 118, 112, 109, 97, 99, 115, 100, 113, 104, 0, 118, 112, 109, 97, 99,
  115, 100, 113, 108, 0, 118, 112, 109, 97, 99, 115, 115, 100, 100, 0, 118, 112, 109, 97, 99, 115, 115, 100, 113,
  104, 0, 118, 112, 109, 97, 99, 115, 115, 100, 113, 108, 0, 118, 112, 109, 97, 99, 115, 115, 119, 100, 0, 118,
  112, 109, 97, 99, 115, 115, 119, 119, 0, 118, 112, 109, 97, 99, 115, 119, 100, 0, 118, 112, 109, 97, 99, 115,
  119, 119, 0, 118, 112, 109, 97, 100, 99, 115, 115, 119, 100, 0, 118, 112, 109, 97, 100, 99, 115, 119, 100, 0
]

/-- Bytes 7200-7679 of `X86InstDB::nameData`. -/
def nameDataPart15 : List Nat := [
  118, 112, 109, 97, 100, 100, 53, 50, 104, 117, 113, 0, 118, 112, 109, 97, 100, 100, 53, 50, 108, 117, 113, 0,
  118, 112, 109, 97, 100, 100, 117, 98, 115, 119, 0, 118, 112, 109, 97, 100, 100, 119, 100, 0, 118, 112, 109, 97,
  115, 107, 109, 111, 118, 100, 0, 118, 112, 109, 97, 115, 107, 109, 111, 118, 113, 0, 118, 112, 109, 97, 120, 115,
  98, 0, 118, 112, 109, 97, 120, 115, 100, 0, 118, 112, 109, 97, 120, 115, 113, 0, 118, 112, 109, 97, 120, 115,
  119, 0, 118, 112, 109, 97, 120, 117, 98, 0, 118, 112, 109, 97, 120, 117, 100, 0, 118, 112, 109, 97, 120, 117,
  113, 0, 118, 112, 109, 97, 120, 117, 119, 0, 118, 112, 109, 105, 110, 115, 98, 0, 118, 112, 109, 105, 110, 115,
  100, 0, 118, 112, 109, 105, 110, 115, 113, 0, 118, 112, 109, 105, 110, 115, 119, 0, 118, 112, 109, 105, 110, 117,
  98, 0, 118, 112, 109, 105, 110, 117, 100, 0, 118, 112, 109, 105, 110, 117, 113, 0, 118, 112, 109, 105, 110, 117,
  119, 0, 118, 112, 109, 111, 118, 98, 50, 109, 0, 118, 112, 109, 111, 118, 100, 50, 109, 0, 118, 112, 109, 111,
  118, 100, 98, 0, 118, 112, 109, 111, 118, 100, 119, 0, 118, 112, 109, 111, 118, 109, 50, 98, 0, 118, 112, 109,
  111, 118, 109, 50, 100, 0, 118, 112, 109, 111, 118, 109, 50, 113, 0, 118, 112, 109, 111, 118, 109, 50, 119, 0,
  118, 112, 109, 111, 118, 109, 115, 107, 98, 0, 118, 112, 109, 111, 118, 113, 50, 109, 0, 118, 112, 109, 111, 118,
  113, 98, 0, 118, 112, 109, 111, 118, 113, 100, 0, 118, 112, 109, 111, 118, 113, 119, 0, 118, 112, 109, 111, 118,
  115, 100, 98, 0, 118, 112, 109, 111, 118, 115, 100, 119, 0, 118, 112, 109, 111, 118, 115, 113, 98, 0, 118, 112,
  109, 111, 118, 115, 113, 100, 0, 118, 112, 109, 111, 118, 115, 113, 119, 0, 118, 112, 109, 111, 118, 115, 119, 98,
  0, 118, 112, 109, 111, 118, 115, 120, 98, 100, 0, 118, 112, 109, 111, 118, 115, 120, 98, 113, 0, 118, 112, 109,
  111, 118, 115, 120, 98, 119, 0, 118, 112, 109, 111, 118, 115, 120, 100, 113, 0, 118, 112, 109, 111, 118, 115, 120,
  119, 100, 0, 118, 112, 109, 111, 118, 115, 120, 119, 113, 0, 118, 112, 109, 111, 118, 117, 115, 100, 98, 0, 118,
  112, 109, 111, 118, 117, 115, 100, 119, 0, 118, 112, 109, 111, 118, 117, 115, 113, 98, 0, 118, 112, 109, 111, 118,
  117, 115, 113, 100, 0, 118, 112, 109, 111, 118, 117, 115, 113, 119, 0, 118, 112, 109, 111, 118, 117, 115, 119, 98
]

/-- Bytes 7680-8159 of `X86InstDB::nameData`. -/
def nameDataPart16 : List Nat := [
  0, 118, 112, 109, 111, 118, 119, 50, 109, 0, 118, 112, 109, 111, 118, 119, 98, 0, 118, 112, 109, 111, 118, 122,
  120, 98, 100, 0, 118, 112, 109, 111, 118, 122, 120, 98, 113, 0, 118, 112, 109, 111, 118, 122, 120, 98, 119, 0,
  118, 112, 109, 111, 118, 122, 120, 100, 113, 0, 118, 112, 109, 111, 118, 122, 120, 119, 100, 0, 118, 112, 109, 111,
  118, 122, 120, 119, 113, 0, 118, 112, 109, 117, 108, 100, 113, 0, 118, 112, 109, 117, 108, 104, 114, 115, 119, 0,
  118, 112, 109, 117, 108, 104, 117, 119, 0, 118, 112, 109, 117, 108, 104, 119, 0, 118, 112, 109, 117, 108, 108, 100,
  0, 118, 112, 109, 117, 108, 108, 113, 0, 118, 112, 109, 117, 108, 108, 119, 0, 118, 112, 109, 117, 108, 116, 105,
  115, 104, 105, 102, 116, 113, 98, 0, 118, 112, 109, 117, 108, 117, 100, 113, 0, 118, 112, 111, 114, 0, 118, 112,
  111, 114, 100, 0, 118, 112, 111, 114, 113, 0, 118, 112, 112, 101, 114, 109, 0, 118, 112, 114, 111, 108, 100, 0,
  118, 112, 114, 111, 108, 113, 0, 118, 112, 114, 111, 108, 118, 100, 0, 118, 112, 114, 111, 108, 118, 113, 0, 118,
  112, 114, 111, 114, 100, 0, 118, 112, 114, 111, 114, 113, 0, 118, 112, 114, 111, 114, 118, 100, 0, 118, 112, 114,
  111, 114, 118, 113, 0, 118, 112, 114, 111, 116, 98, 0, 118, 112, 114, 111, 116, 100, 0, 118, 112, 114, 111, 116,
  113, 0, 118, 112, 114, 111, 116, 119, 0, 118, 112, 115, 97, 100, 98, 119, 0, 118, 112, 115, 99, 97, 116, 116,
  101, 114, 100, 100, 0, 118, 112, 115, 99, 97, 116, 116, 101, 114, 100, 113, 0, 118, 112, 115, 99, 97, 116, 116,
  101, 114, 113, 100, 0, 118, 112, 115, 99, 97, 116, 116, 101, 114, 113, 113, 0, 118, 112, 115, 104, 97, 98, 0,
  118, 112, 115, 104, 97, 100, 0, 118, 112, 115, 104, 97, 113, 0, 118, 112, 115, 104, 97, 119, 0, 118, 112, 115,
  104, 108, 98, 0, 118, 112, 115, 104, 108, 100, 0, 118, 112, 115, 104, 108, 113, 0, 118, 112, 115, 104, 108, 119,
  0, 118, 112, 115, 104, 117, 102, 98, 0, 118, 112, 115, 104, 117, 102, 100, 0, 118, 112, 115, 104, 117, 102, 104,
  119, 0, 118, 112, 115, 104, 117, 102, 108, 119, 0, 118, 112, 115, 105, 103, 110, 98, 0, 118, 112, 115, 105, 103,
  110, 100, 0, 118, 112, 115, 105, 103, 110, 119, 0, 118, 112, 115, 108, 108, 100, 0, 118, 112, 115, 108, 108, 100,
  113, 0, 118, 112, 115, 108, 108, 113, 0, 118, 112, 115, 108, 108, 118, 100, 0, 118, 112, 115, 108, 108, 118, 113
]

/-- Bytes 8160-8639 of `X86InstDB::nameData`. -/
def nameDataPart17 : List Nat := [
  0, 118, 112, 115, 108, 108, 118, 119, 0, 118, 112, 115, 108, 108, 119, 0, 118, 112, 115, 114, 97, 100, 0, 118,
  112, 115, 114, 97, 113, 0, 118, 112, 115, 114, 97, 118, 100, 0, 118, 112, 115, 114, 97, 118, 113, 0, 118, 112,
  115, 114, 97, 118, 119, 0, 118, 112, 115, 114, 97, 119, 0, 118, 112, 115, 114, 108, 100, 0, 118, 112, 115, 114,
  108, 100, 113, 0, 118, 112, 115, 114, 108, 113, 0, 118, 112, 115, 114, 108, 118, 100, 0, 118, 112, 115, 114, 108,
  118, 113, 0, 118, 112, 115, 114, 108, 118, 119, 0, 118, 112, 115, 114, 108, 119, 0, 118, 112, 115, 117, 98, 98,
  0, 118, 112, 115, 117, 98, 100, 0, 118, 112, 115, 117, 98, 113, 0, 118, 112, 115, 117, 98, 115, 98, 0, 118,
  112, 115, 117, 98, 115, 119, 0, 118, 112, 115, 117, 98, 117, 115, 98, 0, 118, 112, 115, 117, 98, 117, 115, 119,
  0, 118, 112, 115, 117, 98, 119, 0, 118, 112, 116, 101, 114, 110, 108, 111, 103, 100, 0, 118, 112, 116, 101, 114,
  110, 108, 111, 103, 113, 0, 118, 112, 116, 101, 115, 116, 0, 118, 112, 116, 101, 115, 116, 109, 98, 0, 118, 112,
  116, 101, 115, 116, 109, 100, 0, 118, 112, 116, 101, 115, 116, 109, 113, 0, 118, 112, 116, 101, 115, 116, 109, 119,
  0, 118, 112, 116, 101, 115, 116, 110, 109, 98, 0, 118, 112, 116, 101, 115, 116, 110, 109, 100, 0, 118, 112, 116,
  101, 115, 116, 110, 109, 113, 0, 118, 112, 116, 101, 115, 116, 110, 109, 119, 0, 118, 112, 117, 110, 112, 99, 107,
  104, 98, 119, 0, 118, 112, 117, 110, 112, 99, 107, 104, 100, 113, 0, 118, 112, 117, 110, 112, 99, 107, 104, 113,
  100, 113, 0, 118, 112, 117, 110, 112, 99, 107, 104, 119, 100, 0, 118, 112, 117, 110, 112, 99, 107, 108, 98, 119,
  0, 118, 112, 117, 110, 112, 99, 107, 108, 100, 113, 0, 118, 112, 117, 110, 112, 99, 107, 108, 113, 100, 113, 0,
  118, 112, 117, 110, 112, 99, 107, 108, 119, 100, 0, 118, 112, 120, 111, 114, 0, 118, 112, 120, 111, 114, 100, 0,
  118, 112, 120, 111, 114, 113, 0, 118, 114, 97, 110, 103, 101, 112, 100, 0, 118, 114, 97, 110, 103, 101, 112, 115,
  0, 118, 114, 97, 110, 103, 101, 115, 100, 0, 118, 114, 97, 110, 103, 101, 115, 115, 0, 118, 114, 99, 112, 49,
  52, 112, 100, 0, 118, 114, 99, 112, 49, 52, 112, 115, 0, 118, 114, 99, 112, 49, 52, 115, 100, 0, 118, 114,
  99, 112, 49, 52, 115, 115, 0, 118, 114, 99, 112, 50, 56, 112, 100, 0, 118, 114, 99, 112, 50, 56, 112, 115
]

/-- Bytes 8640-9119 of `X86InstDB::nameData`. -/
def nameDataPart18 : List Nat := [
  0, 118, 114, 99, 112, 50, 56, 115, 100, 0, 118, 114, 99, 112, 50, 56, 115, 115, 0, 118, 114, 99, 112, 112,
  115, 0, 118, 114, 99, 112, 115, 115, 0, 118, 114, 101, 100, 117, 99, 101, 112, 100, 0, 118, 114, 101, 100, 117,
  99, 101, 112, 115, 0, 118, 114, 101, 100, 117, 99, 101, 115, 100, 0, 118, 114, 101, 100, 117, 99, 101, 115, 115,
  0, 118, 114, 110, 100, 115, 99, 97, 108, 101, 112, 100, 0, 118, 114, 110, 100, 115, 99, 97, 108, 101, 112, 115,
  0, 118, 114, 110, 100, 115, 99, 97, 108, 101, 115, 100, 0, 118, 114, 110, 100, 115, 99, 97, 108, 101, 115, 115,
  0, 118, 114, 111, 117, 110, 100, 112, 100, 0, 118, 114, 111, 117, 110, 100, 112, 115, 0, 118, 114, 111, 117, 110,
  100, 115, 100, 0, 118, 114, 111, 117, 110, 100, 115, 115, 0, 118, 114, 115, 113, 114, 116, 49, 52, 112, 100, 0,
  118, 114, 115, 113, 114, 116, 49, 52, 112, 115, 0, 118, 114, 115, 113, 114, 116, 49, 52, 115, 100, 0, 118, 114,
  115, 113, 114, 116, 49, 52, 115, 115, 0, 118, 114, 115, 113, 114, 116, 50, 56, 112, 100, 0, 118, 114, 115, 113,
  114, 116, 50, 56, 112, 115, 0, 118, 114, 115, 113, 114, 116, 50, 56, 115, 100, 0, 118, 114, 115, 113, 114, 116,
  50, 56, 115, 115, 0, 118, 114, 115, 113, 114, 116, 112, 115, 0, 118, 114, 115, 113, 114, 116, 115, 115, 0, 118,
  115, 99, 97, 108, 101, 102, 112, 100, 0, 118, 115, 99, 97, 108, 101, 102, 112, 115, 0, 118, 115, 99, 97, 108,
  101, 102, 115, 100, 0, 118, 115, 99, 97, 108, 101, 102, 115, 115, 0, 118, 115, 99, 97, 116, 116, 101, 114, 100,
  112, 100, 0, 118, 115, 99, 97, 116, 116, 101, 114, 100, 112, 115, 0, 118, 115, 99, 97, 116, 116, 101, 114, 112,
  102, 48, 100, 112, 100, 0, 118, 115, 99, 97, 116, 116, 101, 114, 112, 102, 48, 100, 112, 115, 0, 118, 115, 99,
  97, 116, 116, 101, 114, 112, 102, 48, 113, 112, 100, 0, 118, 115, 99, 97, 116, 116, 101, 114, 112, 102, 48, 113,
  112, 115, 0, 118, 115, 99, 97, 116, 116, 101, 114, 112, 102, 49, 100, 112, 100, 0, 118, 115, 99, 97, 116, 116,
  101, 114, 112, 102, 49, 100, 112, 115, 0, 118, 115, 99, 97, 116, 116, 101, 114, 112, 102, 49, 113, 112, 100, 0,
  118, 115, 99, 97, 116, 116, 101, 114, 112, 102, 49, 113, 112, 115, 0, 118, 115, 99, 97, 116, 116, 101, 114, 113,
  112, 100, 0, 118, 115, 99, 97, 116, 116, 101, 114, 113, 112, 115, 0, 118, 115, 104, 117, 102, 102, 51, 50, 120
]

/-- Bytes 9120-9454 of `X86InstDB::nameData`. -/
def nameDataPart19 : List Nat := [
  52, 0, 118, 115, 104, 117, 102, 102, 54, 52, 120, 50, 0, 118, 115, 104, 117, 102, 105, 51, 50, 120, 52, 0,
  118, 115, 104, 117, 102, 105, 54, 52, 120, 50, 0, 118, 115, 104, 117, 102, 112, 100, 0, 118, 115, 104, 117, 102,
  112, 115, 0, 118, 115, 113, 114, 116, 112, 100, 0, 118, 115, 113, 114, 116, 112, 115, 0, 118, 115, 113, 114, 116,
  115, 100, 0, 118, 115, 113, 114, 116, 115, 115, 0, 118, 115, 116, 109, 120, 99, 115, 114, 0, 118, 115, 117, 98,
  112, 100, 0, 118, 115, 117, 98, 112, 115, 0, 118, 115, 117, 98, 115, 100, 0, 118, 115, 117, 98, 115, 115, 0,
  118, 116, 101, 115, 116, 112, 100, 0, 118, 116, 101, 115, 116, 112, 115, 0, 118, 117, 99, 111, 109, 105, 115, 100,
  0, 118, 117, 99, 111, 109, 105, 115, 115, 0, 118, 117, 110, 112, 99, 107, 104, 112, 100, 0, 118, 117, 110, 112,
  99, 107, 104, 112, 115, 0, 118, 117, 110, 112, 99, 107, 108, 112, 100, 0, 118, 117, 110, 112, 99, 107, 108, 112,
  115, 0, 118, 120, 111, 114, 112, 100, 0, 118, 120, 111, 114, 112, 115, 0, 118, 122, 101, 114, 111, 97, 108, 108,
  0, 118, 122, 101, 114, 111, 117, 112, 112, 101, 114, 0, 119, 114, 102, 115, 98, 97, 115, 101, 0, 119, 114, 103,
  115, 98, 97, 115, 101, 0, 120, 97, 100, 100, 0, 120, 103, 101, 116, 98, 118, 0, 120, 114, 115, 116, 111, 114,
  115, 0, 120, 114, 115, 116, 111, 114, 115, 54, 52, 0, 120, 115, 97, 118, 101, 99, 0, 120, 115, 97, 118, 101,
  99, 54, 52, 0, 120, 115, 97, 118, 101, 111, 112, 116, 0, 120, 115, 97, 118, 101, 111, 112, 116, 54, 52, 0,
  120, 115, 97, 118, 101, 115, 0, 120, 115, 97, 118, 101, 115, 54, 52, 0, 120, 115, 101, 116, 98, 118, 0
]

/-- `X86InstDB::nameData`: the zero-separated instruction-name blob, as bytes,
including the final NUL that terminates the C string literal. -/
def nameData : List Nat := nameDataPart0 ++ (nameDataPart1 ++ (nameDataPart2 ++ (nameDataPart3 ++ (nameDataPart4 ++ (nameDataPart5 ++ (nameDataPart6 ++ (nameDataPart7 ++ (nameDataPart8 ++ (nameDataPart9 ++ (nameDataPart10 ++ (nameDataPart11 ++ (nameDataPart12 ++ (nameDataPart13 ++ (nameDataPart14 ++ (nameDataPart15 ++ (nameDataPart16 ++ (nameDataPart17 ++ (nameDataPart18 ++ (nameDataPart19)))))))))))))))))))

/-- Rows 0-399 of the table. -/
def instDataPart0 : List InstRow := [
  InstRow.mk Encoding.None 0 0, -- #0 None
  InstRow.mk Encoding.X86Arith 1 1, -- #1 Adc
  InstRow.mk Encoding.X86Rm 5 2, -- #2 Adcx
  InstRow.mk Encoding.X86Arith 657 3, -- #3 Add
  InstRow.mk Encoding.ExtRm 4545 4, -- #4 Addpd
  InstRow.mk Encoding.ExtRm 4557 4, -- #5 Addps
  InstRow.mk Encoding.ExtRm 4779 5, -- #6 Addsd
  InstRow.mk Encoding.ExtRm 4789 6, -- #7 Addss
  InstRow.mk Encoding.ExtRm 4284 4, -- #8 Addsubpd
  InstRow.mk Encoding.ExtRm 4296 4, -- #9 Addsubps
  InstRow.mk Encoding.X86Rm 10 7, -- #10 Adox
  InstRow.mk Encoding.ExtRm 2790 4, -- #11 Aesdec
  InstRow.mk Encoding.ExtRm 2798 4, -- #12 Aesdeclast
  InstRow.mk Encoding.ExtRm 2810 4, -- #13 Aesenc
  InstRow.mk Encoding.ExtRm 2818 4, -- #14 Aesenclast
  InstRow.mk Encoding.ExtRm 2830 8, -- #15 Aesimc
  InstRow.mk Encoding.ExtRmi 2838 9, -- #16 Aeskeygenassist
  InstRow.mk Encoding.X86Arith 2034 3, -- #17 And
  InstRow.mk Encoding.VexRvm_Wx 6055 10, -- #18 Andn
  InstRow.mk Encoding.ExtRm 2871 4, -- #19 Andnpd
  InstRow.mk Encoding.ExtRm 2879 4, -- #20 Andnps
  InstRow.mk Encoding.ExtRm 3798 4, -- #21 Andpd
  InstRow.mk Encoding.ExtRm 3808 4, -- #22 Andps
  InstRow.mk Encoding.VexRmv_Wx 15 11, -- #23 Bextr
  InstRow.mk Encoding.VexVm_Wx 21 12, -- #24 Blcfill
  InstRow.mk Encoding.VexVm_Wx 29 12, -- #25 Blci
  InstRow.mk Encoding.VexVm_Wx 34 12, -- #26 Blcic
  InstRow.mk Encoding.VexVm_Wx 40 12, -- #27 Blcmsk
  InstRow.mk Encoding.VexVm_Wx 47 12, -- #28 Blcs
  InstRow.mk Encoding.ExtRmi 2957 13, -- #29 Blendpd
  InstRow.mk Encoding.ExtRmi 2966 13, -- #30 Blendps
  InstRow.mk Encoding.ExtRmXMM0 2975 14, -- #31 Blendvpd
  InstRow.mk Encoding.ExtRmXMM0 2985 14, -- #32 Blendvps
  InstRow.mk Encoding.VexVm_Wx 52 12, -- #33 Blsfill
  InstRow.mk Encoding.VexVm_Wx 60 15, -- #34 Blsi
  InstRow.mk Encoding.VexVm_Wx 65 12, -- #35 Blsic
  InstRow.mk Encoding.VexVm_Wx 71 15, -- #36 Blsmsk
  InstRow.mk Encoding.VexVm_Wx 78 15, -- #37 Blsr
  InstRow.mk Encoding.X86Rm 83 16, -- #38 Bsf
  InstRow.mk Encoding.X86Rm 87 16, -- #39 Bsr
  InstRow.mk Encoding.X86Bswap 91 17, -- #40 Bswap
  InstRow.mk Encoding.X86Bt 97 18, -- #41 Bt
  InstRow.mk Encoding.X86Bt 100 19, -- #42 Btc
  InstRow.mk Encoding.X86Bt 104 20, -- #43 Btr
  InstRow.mk Encoding.X86Bt 108 21, -- #44 Bts
  InstRow.mk Encoding.VexRmv_Wx 112 11, -- #45 Bzhi
  InstRow.mk Encoding.X86Call 117 22, -- #46 Call
  InstRow.mk Encoding.X86OpAx 122 23, -- #47 Cbw
  InstRow.mk Encoding.X86OpDxAx 126 24, -- #48 Cdq
  InstRow.mk Encoding.X86OpAx 130 25, -- #49 Cdqe
  InstRow.mk Encoding.X86Op 135 26, -- #50 Clac
  InstRow.mk Encoding.X86Op 140 27, -- #51 Clc
  InstRow.mk Encoding.X86Op 144 28, -- #52 Cld
  InstRow.mk Encoding.X86M_Only 148 29, -- #53 Clflush
  InstRow.mk Encoding.X86M_Only 156 29, -- #54 Clflushopt
  InstRow.mk Encoding.X86M_Only 167 29, -- #55 Clwb
  InstRow.mk Encoding.X86Op 172 30, -- #56 Clzero
  InstRow.mk Encoding.X86Op 179 31, -- #57 Cmc
  InstRow.mk Encoding.X86Rm 183 32, -- #58 Cmova
  InstRow.mk Encoding.X86Rm 189 33, -- #59 Cmovae
  InstRow.mk Encoding.X86Rm 514 33, -- #60 Cmovb
  InstRow.mk Encoding.X86Rm 521 32, -- #61 Cmovbe
  InstRow.mk Encoding.X86Rm 196 33, -- #62 Cmovc
  InstRow.mk Encoding.X86Rm 529 34, -- #63 Cmove
  InstRow.mk Encoding.X86Rm 202 35, -- #64 Cmovg
  InstRow.mk Encoding.X86Rm 208 36, -- #65 Cmovge
  InstRow.mk Encoding.X86Rm 215 36, -- #66 Cmovl
  InstRow.mk Encoding.X86Rm 221 35, -- #67 Cmovle
  InstRow.mk Encoding.X86Rm 228 32, -- #68 Cmovna
  InstRow.mk Encoding.X86Rm 235 33, -- #69 Cmovnae
  InstRow.mk Encoding.X86Rm 536 33, -- #70 Cmovnb
  InstRow.mk Encoding.X86Rm 544 32, -- #71 Cmovnbe
  InstRow.mk Encoding.X86Rm 243 33, -- #72 Cmovnc
  InstRow.mk Encoding.X86Rm 553 34, -- #73 Cmovne
  InstRow.mk Encoding.X86Rm 250 35, -- #74 Cmovng
  InstRow.mk Encoding.X86Rm 257 36, -- #75 Cmovnge
  InstRow.mk Encoding.X86Rm 265 36, -- #76 Cmovnl
  InstRow.mk Encoding.X86Rm 272 35, -- #77 Cmovnle
  InstRow.mk Encoding.X86Rm 280 37, -- #78 Cmovno
  InstRow.mk Encoding.X86Rm 287 38, -- #79 Cmovnp
  InstRow.mk Encoding.X86Rm 294 39, -- #80 Cmovns
  InstRow.mk Encoding.X86Rm 301 34, -- #81 Cmovnz
  InstRow.mk Encoding.X86Rm 308 37, -- #82 Cmovo
  InstRow.mk Encoding.X86Rm 314 38, -- #83 Cmovp
  InstRow.mk Encoding.X86Rm 320 38, -- #84 Cmovpe
  InstRow.mk Encoding.X86Rm 327 38, -- #85 Cmovpo
  InstRow.mk Encoding.X86Rm 334 39, -- #86 Cmovs
  InstRow.mk Encoding.X86Rm 340 34, -- #87 Cmovz
  InstRow.mk Encoding.X86Arith 346 40, -- #88 Cmp
  InstRow.mk Encoding.ExtRmi 3211 13, -- #89 Cmppd
  InstRow.mk Encoding.ExtRmi 3218 13, -- #90 Cmpps
  InstRow.mk Encoding.X86Op 2292 41, -- #91 CmpsB
  InstRow.mk Encoding.X86Op 2305 41, -- #92 CmpsD
  InstRow.mk Encoding.X86Op 2318 41, -- #93 CmpsQ
  InstRow.mk Encoding.X86Op 2331 41, -- #94 CmpsW
  InstRow.mk Encoding.ExtRmi 3225 42, -- #95 Cmpsd
  InstRow.mk Encoding.ExtRmi 3232 43, -- #96 Cmpss
  InstRow.mk Encoding.X86Cmpxchg 350 44, -- #97 Cmpxchg
  InstRow.mk Encoding.X86M_Only 358 45, -- #98 Cmpxchg16b
  InstRow.mk Encoding.X86M_Only 369 46, -- #99 Cmpxchg8b
  InstRow.mk Encoding.ExtRm 9258 47, -- #100 Comisd
  InstRow.mk Encoding.ExtRm 9267 48, -- #101 Comiss
  InstRow.mk Encoding.X86Op 379 49, -- #102 Cpuid
  InstRow.mk Encoding.X86OpDxAx 385 50, -- #103 Cqo
  InstRow.mk Encoding.X86Crc 389 51, -- #104 Crc32
  InstRow.mk Encoding.ExtRm 3279 52, -- #105 Cvtdq2pd
  InstRow.mk Encoding.ExtRm 3289 53, -- #106 Cvtdq2ps
  InstRow.mk Encoding.ExtRm 3299 53, -- #107 Cvtpd2dq
  InstRow.mk Encoding.ExtRm 395 54, -- #108 Cvtpd2pi
  InstRow.mk Encoding.ExtRm 3309 53, -- #109 Cvtpd2ps
  InstRow.mk Encoding.ExtRm 404 55, -- #110 Cvtpi2pd
  InstRow.mk Encoding.ExtRm 413 56, -- #111 Cvtpi2ps
  InstRow.mk Encoding.ExtRm 3361 53, -- #112 Cvtps2dq
  InstRow.mk Encoding.ExtRm 3371 52, -- #113 Cvtps2pd
  InstRow.mk Encoding.ExtRm 422 57, -- #114 Cvtps2pi
  InstRow.mk Encoding.ExtRm_Wx 3443 58, -- #115 Cvtsd2si
  InstRow.mk Encoding.ExtRm 3453 59, -- #116 Cvtsd2ss
  InstRow.mk Encoding.ExtRm_Wx 3474 60, -- #117 Cvtsi2sd
  InstRow.mk Encoding.ExtRm_Wx 3484 61, -- #118 Cvtsi2ss
  InstRow.mk Encoding.ExtRm 3494 62, -- #119 Cvtss2sd
  InstRow.mk Encoding.ExtRm_Wx 3504 63, -- #120 Cvtss2si
  InstRow.mk Encoding.ExtRm 3525 53, -- #121 Cvttpd2dq
  InstRow.mk Encoding.ExtRm 431 54, -- #122 Cvttpd2pi
  InstRow.mk Encoding.ExtRm 3571 53, -- #123 Cvttps2dq
  InstRow.mk Encoding.ExtRm 441 57, -- #124 Cvttps2pi
  InstRow.mk Encoding.ExtRm_Wx 3617 58, -- #125 Cvttsd2si
  InstRow.mk Encoding.ExtRm_Wx 3640 63, -- #126 Cvttss2si
  InstRow.mk Encoding.X86OpDxAx 451 64, -- #127 Cwd
  InstRow.mk Encoding.X86OpAx 455 65, -- #128 Cwde
  InstRow.mk Encoding.X86Op 460 66, -- #129 Daa
  InstRow.mk Encoding.X86Op 464 66, -- #130 Das
  InstRow.mk Encoding.X86IncDec 2793 67, -- #131 Dec
  InstRow.mk Encoding.X86M_Bx_MulDiv 676 68, -- #132 Div
  InstRow.mk Encoding.ExtRm 3739 4, -- #133 Divpd
  InstRow.mk Encoding.ExtRm 3746 4, -- #134 Divps
  InstRow.mk Encoding.ExtRm 3753 5, -- #135 Divsd
  InstRow.mk Encoding.ExtRm 3760 6, -- #136 Divss
  InstRow.mk Encoding.ExtRmi 3767 13, -- #137 Dppd
  InstRow.mk Encoding.ExtRmi 3773 13, -- #138 Dpps
  InstRow.mk Encoding.X86Op 644 69, -- #139 Emms
  InstRow.mk Encoding.X86Enter 468 70, -- #140 Enter
  InstRow.mk Encoding.ExtExtract 3953 71, -- #141 Extractps
  InstRow.mk Encoding.ExtExtrq 6769 72, -- #142 Extrq
  InstRow.mk Encoding.FpuOp 474 73, -- #143 F2xm1
  InstRow.mk Encoding.FpuOp 480 73, -- #144 Fabs
  InstRow.mk Encoding.FpuArith 1756 74, -- #145 Fadd
  InstRow.mk Encoding.FpuRDef 485 75, -- #146 Faddp
  InstRow.mk Encoding.X86M_Only 491 76, -- #147 Fbld
  InstRow.mk Encoding.X86M_Only 496 76, -- #148 Fbstp
  InstRow.mk Encoding.FpuOp 502 73, -- #149 Fchs
  InstRow.mk Encoding.FpuOp 507 73, -- #150 Fclex
  InstRow.mk Encoding.FpuR 513 77, -- #151 Fcmovb
  InstRow.mk Encoding.FpuR 520 78, -- #152 Fcmovbe
  InstRow.mk Encoding.FpuR 528 79, -- #153 Fcmove
  InstRow.mk Encoding.FpuR 535 77, -- #154 Fcmovnb
  InstRow.mk Encoding.FpuR 543 78, -- #155 Fcmovnbe
  InstRow.mk Encoding.FpuR 552 79, -- #156 Fcmovne
  InstRow.mk Encoding.FpuR 560 80, -- #157 Fcmovnu
  InstRow.mk Encoding.FpuR 568 80, -- #158 Fcmovu
  InstRow.mk Encoding.FpuCom 575 81, -- #159 Fcom
  InstRow.mk Encoding.FpuR 580 82, -- #160 Fcomi
  InstRow.mk Encoding.FpuR 586 82, -- #161 Fcomip
  InstRow.mk Encoding.FpuCom 593 81, -- #162 Fcomp
  InstRow.mk Encoding.FpuOp 599 73, -- #163 Fcompp
  InstRow.mk Encoding.FpuOp 606 73, -- #164 Fcos
  InstRow.mk Encoding.FpuOp 611 73, -- #165 Fdecstp
  InstRow.mk Encoding.FpuArith 619 74, -- #166 Fdiv
  InstRow.mk Encoding.FpuRDef 624 75, -- #167 Fdivp
  InstRow.mk Encoding.FpuArith 630 74, -- #168 Fdivr
  InstRow.mk Encoding.FpuRDef 636 75, -- #169 Fdivrp
  InstRow.mk Encoding.X86Op 643 73, -- #170 Femms
  InstRow.mk Encoding.FpuR 649 83, -- #171 Ffree
  InstRow.mk Encoding.FpuM 655 84, -- #172 Fiadd
  InstRow.mk Encoding.FpuM 661 84, -- #173 Ficom
  InstRow.mk Encoding.FpuM 667 84, -- #174 Ficomp
  InstRow.mk Encoding.FpuM 674 84, -- #175 Fidiv
  InstRow.mk Encoding.FpuM 680 84, -- #176 Fidivr
  InstRow.mk Encoding.FpuM 687 85, -- #177 Fild
  InstRow.mk Encoding.FpuM 692 84, -- #178 Fimul
  InstRow.mk Encoding.FpuOp 698 73, -- #179 Fincstp
  InstRow.mk Encoding.FpuOp 706 73, -- #180 Finit
  InstRow.mk Encoding.FpuM 712 84, -- #181 Fist
  InstRow.mk Encoding.FpuM 717 86, -- #182 Fistp
  InstRow.mk Encoding.FpuM 723 87, -- #183 Fisttp
  InstRow.mk Encoding.FpuM 730 84, -- #184 Fisub
  InstRow.mk Encoding.FpuM 736 84, -- #185 Fisubr
  InstRow.mk Encoding.FpuFldFst 743 88, -- #186 Fld
  InstRow.mk Encoding.FpuOp 747 73, -- #187 Fld1
  InstRow.mk Encoding.X86M_Only 752 89, -- #188 Fldcw
  InstRow.mk Encoding.X86M_Only 758 90, -- #189 Fldenv
  InstRow.mk Encoding.FpuOp 765 73, -- #190 Fldl2e
  InstRow.mk Encoding.FpuOp 772 73, -- #191 Fldl2t
  InstRow.mk Encoding.FpuOp 779 73, -- #192 Fldlg2
  InstRow.mk Encoding.FpuOp 786 73, -- #193 Fldln2
  InstRow.mk Encoding.FpuOp 793 73, -- #194 Fldpi
  InstRow.mk Encoding.FpuOp 799 73, -- #195 Fldz
  InstRow.mk Encoding.FpuArith 1798 74, -- #196 Fmul
  InstRow.mk Encoding.FpuRDef 804 75, -- #197 Fmulp
  InstRow.mk Encoding.FpuOp 810 73, -- #198 Fnclex
  InstRow.mk Encoding.FpuOp 817 73, -- #199 Fninit
  InstRow.mk Encoding.FpuOp 824 73, -- #200 Fnop
  InstRow.mk Encoding.X86M_Only 829 90, -- #201 Fnsave
  InstRow.mk Encoding.X86M_Only 836 89, -- #202 Fnstcw
  InstRow.mk Encoding.X86M_Only 843 90, -- #203 Fnstenv
  InstRow.mk Encoding.FpuStsw 851 91, -- #204 Fnstsw
  InstRow.mk Encoding.FpuOp 858 73, -- #205 Fpatan
  InstRow.mk Encoding.FpuOp 865 73, -- #206 Fprem
  InstRow.mk Encoding.FpuOp 871 73, -- #207 Fprem1
  InstRow.mk Encoding.FpuOp 878 73, -- #208 Fptan
  InstRow.mk Encoding.FpuOp 884 73, -- #209 Frndint
  InstRow.mk Encoding.X86M_Only 892 90, -- #210 Frstor
  InstRow.mk Encoding.X86M_Only 899 90, -- #211 Fsave
  InstRow.mk Encoding.FpuOp 905 73, -- #212 Fscale
  InstRow.mk Encoding.FpuOp 912 73, -- #213 Fsin
  InstRow.mk Encoding.FpuOp 917 73, -- #214 Fsincos
  InstRow.mk Encoding.FpuOp 925 73, -- #215 Fsqrt
  InstRow.mk Encoding.FpuFldFst 931 92, -- #216 Fst
  InstRow.mk Encoding.X86M_Only 935 89, -- #217 Fstcw
  InstRow.mk Encoding.X86M_Only 941 90, -- #218 Fstenv
  InstRow.mk Encoding.FpuFldFst 948 93, -- #219 Fstp
  InstRow.mk Encoding.FpuStsw 953 94, -- #220 Fstsw
  InstRow.mk Encoding.FpuArith 1876 74, -- #221 Fsub
  InstRow.mk Encoding.FpuRDef 959 75, -- #222 Fsubp
  InstRow.mk Encoding.FpuArith 1882 74, -- #223 Fsubr
  InstRow.mk Encoding.FpuRDef 965 75, -- #224 Fsubrp
  InstRow.mk Encoding.FpuOp 972 73, -- #225 Ftst
  InstRow.mk Encoding.FpuRDef 977 75, -- #226 Fucom
  InstRow.mk Encoding.FpuR 983 82, -- #227 Fucomi
  InstRow.mk Encoding.FpuR 990 82, -- #228 Fucomip
  InstRow.mk Encoding.FpuRDef 998 75, -- #229 Fucomp
  InstRow.mk Encoding.FpuOp 1005 73, -- #230 Fucompp
  InstRow.mk Encoding.X86Op 1013 95, -- #231 Fwait
  InstRow.mk Encoding.FpuOp 1019 73, -- #232 Fxam
  InstRow.mk Encoding.FpuR 1024 75, -- #233 Fxch
  InstRow.mk Encoding.X86M_Only 1029 90, -- #234 Fxrstor
  InstRow.mk Encoding.X86M_Only 1037 96, -- #235 Fxrstor64
  InstRow.mk Encoding.X86M_Only 1047 90, -- #236 Fxsave
  InstRow.mk Encoding.X86M_Only 1054 96, -- #237 Fxsave64
  InstRow.mk Encoding.FpuOp 1063 73, -- #238 Fxtract
  InstRow.mk Encoding.FpuOp 1071 73, -- #239 Fyl2x
  InstRow.mk Encoding.FpuOp 1077 73, -- #240 Fyl2xp1
  InstRow.mk Encoding.ExtRm 5308 4, -- #241 Haddpd
  InstRow.mk Encoding.ExtRm 5316 4, -- #242 Haddps
  InstRow.mk Encoding.ExtRm 5324 4, -- #243 Hsubpd
  InstRow.mk Encoding.ExtRm 5332 4, -- #244 Hsubps
  InstRow.mk Encoding.X86M_Bx_MulDiv 675 97, -- #245 Idiv
  InstRow.mk Encoding.X86Imul 693 98, -- #246 Imul
  InstRow.mk Encoding.X86IncDec 1085 99, -- #247 Inc
  InstRow.mk Encoding.ExtRmi 5468 43, -- #248 Insertps
  InstRow.mk Encoding.ExtInsertq 1089 100, -- #249 Insertq
  InstRow.mk Encoding.X86Int 888 101, -- #250 Int
  InstRow.mk Encoding.X86Op 1097 102, -- #251 Int3
  InstRow.mk Encoding.X86Op 1102 102, -- #252 Into
  InstRow.mk Encoding.X86Jcc 1107 103, -- #253 Ja
  InstRow.mk Encoding.X86Jcc 1110 104, -- #254 Jae
  InstRow.mk Encoding.X86Jcc 1114 104, -- #255 Jb
  InstRow.mk Encoding.X86Jcc 1117 103, -- #256 Jbe
  InstRow.mk Encoding.X86Jcc 1121 105, -- #257 Jc
  InstRow.mk Encoding.X86Jcc 1124 106, -- #258 Je
  InstRow.mk Encoding.X86Jcc 1133 107, -- #259 Jg
  InstRow.mk Encoding.X86Jcc 1136 108, -- #260 Jge
  InstRow.mk Encoding.X86Jcc 1140 108, -- #261 Jl
  InstRow.mk Encoding.X86Jcc 1143 107, -- #262 Jle
  InstRow.mk Encoding.X86Jcc 1151 103, -- #263 Jna
  InstRow.mk Encoding.X86Jcc 1155 104, -- #264 Jnae
  InstRow.mk Encoding.X86Jcc 1160 104, -- #265 Jnb
  InstRow.mk Encoding.X86Jcc 1164 103, -- #266 Jnbe
  InstRow.mk Encoding.X86Jcc 1169 105, -- #267 Jnc
  InstRow.mk Encoding.X86Jcc 1173 106, -- #268 Jne
  InstRow.mk Encoding.X86Jcc 1177 107, -- #269 Jng
  InstRow.mk Encoding.X86Jcc 1181 108, -- #270 Jnge
  InstRow.mk Encoding.X86Jcc 1186 108, -- #271 Jnl
  InstRow.mk Encoding.X86Jcc 1190 107, -- #272 Jnle
  InstRow.mk Encoding.X86Jcc 1195 109, -- #273 Jno
  InstRow.mk Encoding.X86Jcc 1199 110, -- #274 Jnp
  InstRow.mk Encoding.X86Jcc 1203 111, -- #275 Jns
  InstRow.mk Encoding.X86Jcc 1207 106, -- #276 Jnz
  InstRow.mk Encoding.X86Jcc 1211 109, -- #277 Jo
  InstRow.mk Encoding.X86Jcc 1214 110, -- #278 Jp
  InstRow.mk Encoding.X86Jcc 1217 110, -- #279 Jpe
  InstRow.mk Encoding.X86Jcc 1221 110, -- #280 Jpo
  InstRow.mk Encoding.X86Jcc 1225 111, -- #281 Js
  InstRow.mk Encoding.X86Jcc 1228 106, -- #282 Jz
  InstRow.mk Encoding.X86Jecxz 1127 112, -- #283 Jecxz
  InstRow.mk Encoding.X86Jmp 1147 113, -- #284 Jmp
  InstRow.mk Encoding.VexRvm 1231 114, -- #285 Kaddb
  InstRow.mk Encoding.VexRvm 1237 114, -- #286 Kaddd
  InstRow.mk Encoding.VexRvm 1243 114, -- #287 Kaddq
  InstRow.mk Encoding.VexRvm 1249 114, -- #288 Kaddw
  InstRow.mk Encoding.VexRvm 1255 114, -- #289 Kandb
  InstRow.mk Encoding.VexRvm 1261 114, -- #290 Kandd
  InstRow.mk Encoding.VexRvm 1267 114, -- #291 Kandnb
  InstRow.mk Encoding.VexRvm 1274 114, -- #292 Kandnd
  InstRow.mk Encoding.VexRvm 1281 114, -- #293 Kandnq
  InstRow.mk Encoding.VexRvm 1288 114, -- #294 Kandnw
  InstRow.mk Encoding.VexRvm 1295 114, -- #295 Kandq
  InstRow.mk Encoding.VexRvm 1301 114, -- #296 Kandw
  InstRow.mk Encoding.VexKmov 1307 115, -- #297 Kmovb
  InstRow.mk Encoding.VexKmov 7249 116, -- #298 Kmovd
  InstRow.mk Encoding.VexKmov 7260 117, -- #299 Kmovq
  InstRow.mk Encoding.VexKmov 1313 118, -- #300 Kmovw
  InstRow.mk Encoding.VexRm 1319 119, -- #301 Knotb
  InstRow.mk Encoding.VexRm 1325 119, -- #302 Knotd
  InstRow.mk Encoding.VexRm 1331 119, -- #303 Knotq
  InstRow.mk Encoding.VexRm 1337 119, -- #304 Knotw
  InstRow.mk Encoding.VexRvm 1343 114, -- #305 Korb
  InstRow.mk Encoding.VexRvm 1348 114, -- #306 Kord
  InstRow.mk Encoding.VexRvm 1353 114, -- #307 Korq
  InstRow.mk Encoding.VexRm 1358 120, -- #308 Kortestb
  InstRow.mk Encoding.VexRm 1367 120, -- #309 Kortestd
  InstRow.mk Encoding.VexRm 1376 120, -- #310 Kortestq
  InstRow.mk Encoding.VexRm 1385 120, -- #311 Kortestw
  InstRow.mk Encoding.VexRvm 1394 114, -- #312 Korw
  InstRow.mk Encoding.VexRmi 1399 121, -- #313 Kshiftlb
  InstRow.mk Encoding.VexRmi 1408 121, -- #314 Kshiftld
  InstRow.mk Encoding.VexRmi 1417 121, -- #315 Kshiftlq
  InstRow.mk Encoding.VexRmi 1426 121, -- #316 Kshiftlw
  InstRow.mk Encoding.VexRmi 1435 121, -- #317 Kshiftrb
  InstRow.mk Encoding.VexRmi 1444 121, -- #318 Kshiftrd
  InstRow.mk Encoding.VexRmi 1453 121, -- #319 Kshiftrq
  InstRow.mk Encoding.VexRmi 1462 121, -- #320 Kshiftrw
  InstRow.mk Encoding.VexRm 1471 120, -- #321 Ktestb
  InstRow.mk Encoding.VexRm 1478 120, -- #322 Ktestd
  InstRow.mk Encoding.VexRm 1485 120, -- #323 Ktestq
  InstRow.mk Encoding.VexRm 1492 120, -- #324 Ktestw
  InstRow.mk Encoding.VexRvm 1499 114, -- #325 Kunpckbw
  InstRow.mk Encoding.VexRvm 1508 114, -- #326 Kunpckdq
  InstRow.mk Encoding.VexRvm 1517 114, -- #327 Kunpckwd
  InstRow.mk Encoding.VexRvm 1526 114, -- #328 Kxnorb
  InstRow.mk Encoding.VexRvm 1533 114, -- #329 Kxnord
  InstRow.mk Encoding.VexRvm 1540 114, -- #330 Kxnorq
  InstRow.mk Encoding.VexRvm 1547 114, -- #331 Kxnorw
  InstRow.mk Encoding.VexRvm 1554 114, -- #332 Kxorb
  InstRow.mk Encoding.VexRvm 1560 114, -- #333 Kxord
  InstRow.mk Encoding.VexRvm 1566 114, -- #334 Kxorq
  InstRow.mk Encoding.VexRvm 1572 114, -- #335 Kxorw
  InstRow.mk Encoding.X86Op 1578 122, -- #336 Lahf
  InstRow.mk Encoding.ExtRm 5478 123, -- #337 Lddqu
  InstRow.mk Encoding.X86M_Only 5485 124, -- #338 Ldmxcsr
  InstRow.mk Encoding.X86Lea 1583 125, -- #339 Lea
  InstRow.mk Encoding.X86Op 1587 126, -- #340 Leave
  InstRow.mk Encoding.X86Fence 1593 69, -- #341 Lfence
  InstRow.mk Encoding.X86Op 2062 127, -- #342 LodsB
  InstRow.mk Encoding.X86Op 2073 128, -- #343 LodsD
  InstRow.mk Encoding.X86Op 2084 129, -- #344 LodsQ
  InstRow.mk Encoding.X86Op 2095 130, -- #345 LodsW
  InstRow.mk Encoding.X86Rm 1600 131, -- #346 Lzcnt
  InstRow.mk Encoding.ExtRmZDI 5494 132, -- #347 Maskmovdqu
  InstRow.mk Encoding.ExtRmZDI 7257 133, -- #348 Maskmovq
  InstRow.mk Encoding.ExtRm 5528 4, -- #349 Maxpd
  InstRow.mk Encoding.ExtRm 5535 4, -- #350 Maxps
  InstRow.mk Encoding.ExtRm 7276 5, -- #351 Maxsd
  InstRow.mk Encoding.ExtRm 5549 6, -- #352 Maxss
  InstRow.mk Encoding.X86Fence 1606 134, -- #353 Mfence
  InstRow.mk Encoding.ExtRm 5556 4, -- #354 Minpd
  InstRow.mk Encoding.ExtRm 5563 4, -- #355 Minps
  InstRow.mk Encoding.ExtRm 7340 5, -- #356 Minsd
  InstRow.mk Encoding.ExtRm 5577 6, -- #357 Minss
  InstRow.mk Encoding.X86Op 1613 135, -- #358 Monitor
  InstRow.mk Encoding.X86Mov 6223 136, -- #359 Mov
  InstRow.mk Encoding.ExtMov 5584 137, -- #360 Movapd
  InstRow.mk Encoding.ExtMov 5592 138, -- #361 Movaps
  InstRow.mk Encoding.ExtMovbe 522 139, -- #362 Movbe
  InstRow.mk Encoding.ExtMovd 7250 140, -- #363 Movd
  InstRow.mk Encoding.ExtMov 5606 52, -- #364 Movddup
  InstRow.mk Encoding.ExtMov 1621 141, -- #365 Movdq2q
  InstRow.mk Encoding.ExtMov 5615 142, -- #366 Movdqa
  InstRow.mk Encoding.ExtMov 5498 143, -- #367 Movdqu
  InstRow.mk Encoding.ExtMov 5690 144, -- #368 Movhlps
  InstRow.mk Encoding.ExtMov 5699 145, -- #369 Movhpd
  InstRow.mk Encoding.ExtMov 5707 146, -- #370 Movhps
  InstRow.mk Encoding.ExtMov 5715 147, -- #371 Movlhps
  InstRow.mk Encoding.ExtMov 5724 148, -- #372 Movlpd
  InstRow.mk Encoding.ExtMov 5732 149, -- #373 Movlps
  InstRow.mk Encoding.ExtMov 5740 150, -- #374 Movmskpd
  InstRow.mk Encoding.ExtMov 5750 150, -- #375 Movmskps
  InstRow.mk Encoding.ExtMov 5760 151, -- #376 Movntdq
  InstRow.mk Encoding.ExtMov 5769 123, -- #377 Movntdqa
  InstRow.mk Encoding.ExtMovnti 1629 152, -- #378 Movnti
  InstRow.mk Encoding.ExtMov 5779 153, -- #379 Movntpd
  InstRow.mk Encoding.ExtMov 5788 154, -- #380 Movntps
  InstRow.mk Encoding.ExtMov 1636 155, -- #381 Movntq
  InstRow.mk Encoding.ExtMov 1643 156, -- #382 Movntsd
  InstRow.mk Encoding.ExtMov 1651 157, -- #383 Movntss
  InstRow.mk Encoding.ExtMovq 7261 158, -- #384 Movq
  InstRow.mk Encoding.ExtRm 1659 159, -- #385 Movq2dq
  InstRow.mk Encoding.X86Op 2106 160, -- #386 MovsB
  InstRow.mk Encoding.X86Op 2117 160, -- #387 MovsD
  InstRow.mk Encoding.X86Op 2128 160, -- #388 MovsQ
  InstRow.mk Encoding.X86Op 2139 160, -- #389 MovsW
  InstRow.mk Encoding.ExtMov 5803 161, -- #390 Movsd
  InstRow.mk Encoding.ExtRm 5810 53, -- #391 Movshdup
  InstRow.mk Encoding.ExtRm 5820 53, -- #392 Movsldup
  InstRow.mk Encoding.ExtMov 5830 162, -- #393 Movss
  InstRow.mk Encoding.X86MovsxMovzx 1667 163, -- #394 Movsx
  InstRow.mk Encoding.X86Rm 1673 164, -- #395 Movsxd
  InstRow.mk Encoding.ExtMov 5837 165, -- #396 Movupd
  InstRow.mk Encoding.ExtMov 5845 166, -- #397 Movups
  InstRow.mk Encoding.X86MovsxMovzx 1680 163, -- #398 Movzx
  InstRow.mk Encoding.ExtRmi 5853 13 -- #399 Mpsadbw
]

/-- Rows 400-799 of the table. -/
def instDataPart1 : List InstRow := [
  InstRow.mk Encoding.X86M_Bx_MulDiv 694 167, -- #400 Mul
  InstRow.mk Encoding.ExtRm 5862 4, -- #401 Mulpd
  InstRow.mk Encoding.ExtRm 5869 4, -- #402 Mulps
  InstRow.mk Encoding.ExtRm 5876 5, -- #403 Mulsd
  InstRow.mk Encoding.ExtRm 5883 6, -- #404 Mulss
  InstRow.mk Encoding.VexRvmZDX_Wx 1686 168, -- #405 Mulx
  InstRow.mk Encoding.X86Op 1691 135, -- #406 Mwait
  InstRow.mk Encoding.X86M_Bx 1697 169, -- #407 Neg
  InstRow.mk Encoding.X86Op 825 170, -- #408 Nop
  InstRow.mk Encoding.X86M_Bx 1701 171, -- #409 Not
  InstRow.mk Encoding.X86Arith 1034 3, -- #410 Or
  InstRow.mk Encoding.ExtRm 9316 4, -- #411 Orpd
  InstRow.mk Encoding.ExtRm 9323 4, -- #412 Orps
  InstRow.mk Encoding.ExtRm_P 5902 172, -- #413 Pabsb
  InstRow.mk Encoding.ExtRm_P 5909 172, -- #414 Pabsd
  InstRow.mk Encoding.ExtRm_P 5923 172, -- #415 Pabsw
  InstRow.mk Encoding.ExtRm_P 5930 172, -- #416 Packssdw
  InstRow.mk Encoding.ExtRm_P 5940 172, -- #417 Packsswb
  InstRow.mk Encoding.ExtRm 5950 4, -- #418 Packusdw
  InstRow.mk Encoding.ExtRm_P 5960 172, -- #419 Packuswb
  InstRow.mk Encoding.ExtRm_P 5970 172, -- #420 Paddb
  InstRow.mk Encoding.ExtRm_P 5977 172, -- #421 Paddd
  InstRow.mk Encoding.ExtRm_P 5984 172, -- #422 Paddq
  InstRow.mk Encoding.ExtRm_P 5991 172, -- #423 Paddsb
  InstRow.mk Encoding.ExtRm_P 5999 172, -- #424 Paddsw
  InstRow.mk Encoding.ExtRm_P 6007 172, -- #425 Paddusb
  InstRow.mk Encoding.ExtRm_P 6016 172, -- #426 Paddusw
  InstRow.mk Encoding.ExtRm_P 6025 172, -- #427 Paddw
  InstRow.mk Encoding.ExtRmi_P 6032 173, -- #428 Palignr
  InstRow.mk Encoding.ExtRm_P 6041 172, -- #429 Pand
  InstRow.mk Encoding.ExtRm_P 6054 172, -- #430 Pandn
  InstRow.mk Encoding.X86Op 1705 174, -- #431 Pause
  InstRow.mk Encoding.ExtRm_P 6084 172, -- #432 Pavgb
  InstRow.mk Encoding.Ext3dNow 1711 175, -- #433 Pavgusb
  InstRow.mk Encoding.ExtRm_P 6091 172, -- #434 Pavgw
  InstRow.mk Encoding.ExtRmXMM0 6107 14, -- #435 Pblendvb
  InstRow.mk Encoding.ExtRmi 6117 13, -- #436 Pblendw
  InstRow.mk Encoding.ExtRmi 6210 13, -- #437 Pclmulqdq
  InstRow.mk Encoding.ExtRm_P 6242 172, -- #438 Pcmpeqb
  InstRow.mk Encoding.ExtRm_P 6251 172, -- #439 Pcmpeqd
  InstRow.mk Encoding.ExtRm 6260 4, -- #440 Pcmpeqq
  InstRow.mk Encoding.ExtRm_P 6269 172, -- #441 Pcmpeqw
  InstRow.mk Encoding.ExtRmi 6278 176, -- #442 Pcmpestri
  InstRow.mk Encoding.ExtRmi 6289 177, -- #443 Pcmpestrm
  InstRow.mk Encoding.ExtRm_P 6300 172, -- #444 Pcmpgtb
  InstRow.mk Encoding.ExtRm_P 6309 172, -- #445 Pcmpgtd
  InstRow.mk Encoding.ExtRm 6318 4, -- #446 Pcmpgtq
  InstRow.mk Encoding.ExtRm_P 6327 172, -- #447 Pcmpgtw
  InstRow.mk Encoding.ExtRmi 6336 178, -- #448 Pcmpistri
  InstRow.mk Encoding.ExtRmi 6347 179, -- #449 Pcmpistrm
  InstRow.mk Encoding.X86Op_O 1719 69, -- #450 Pcommit
  InstRow.mk Encoding.VexRvm_Wx 1727 180, -- #451 Pdep
  InstRow.mk Encoding.VexRvm_Wx 1732 180, -- #452 Pext
  InstRow.mk Encoding.ExtExtract 6752 181, -- #453 Pextrb
  InstRow.mk Encoding.ExtExtract 6760 71, -- #454 Pextrd
  InstRow.mk Encoding.ExtExtract 6768 182, -- #455 Pextrq
  InstRow.mk Encoding.ExtPextrw 6776 183, -- #456 Pextrw
  InstRow.mk Encoding.Ext3dNow 1737 184, -- #457 Pf2id
  InstRow.mk Encoding.Ext3dNow 1743 184, -- #458 Pf2iw
  InstRow.mk Encoding.Ext3dNow 1749 175, -- #459 Pfacc
  InstRow.mk Encoding.Ext3dNow 1755 175, -- #460 Pfadd
  InstRow.mk Encoding.Ext3dNow 1761 175, -- #461 Pfcmpeq
  InstRow.mk Encoding.Ext3dNow 1769 175, -- #462 Pfcmpge
  InstRow.mk Encoding.Ext3dNow 1777 175, -- #463 Pfcmpgt
  InstRow.mk Encoding.Ext3dNow 1785 175, -- #464 Pfmax
  InstRow.mk Encoding.Ext3dNow 1791 175, -- #465 Pfmin
  InstRow.mk Encoding.Ext3dNow 1797 175, -- #466 Pfmul
  InstRow.mk Encoding.Ext3dNow 1803 175, -- #467 Pfnacc
  InstRow.mk Encoding.Ext3dNow 1810 175, -- #468 Pfpnacc
  InstRow.mk Encoding.Ext3dNow 1818 184, -- #469 Pfrcp
  InstRow.mk Encoding.Ext3dNow 1824 175, -- #470 Pfrcpit1
  InstRow.mk Encoding.Ext3dNow 1833 175, -- #471 Pfrcpit2
  InstRow.mk Encoding.Ext3dNow 1842 175, -- #472 Pfrcpv
  InstRow.mk Encoding.Ext3dNow 1849 185, -- #473 Pfrsqit1
  InstRow.mk Encoding.Ext3dNow 1858 185, -- #474 Pfrsqrt
  InstRow.mk Encoding.Ext3dNow 1866 175, -- #475 Pfrsqrtv
  InstRow.mk Encoding.Ext3dNow 1875 175, -- #476 Pfsub
  InstRow.mk Encoding.Ext3dNow 1881 175, -- #477 Pfsubr
  InstRow.mk Encoding.ExtRm_P 6855 172, -- #478 Phaddd
  InstRow.mk Encoding.ExtRm_P 6872 172, -- #479 Phaddsw
  InstRow.mk Encoding.ExtRm_P 6941 172, -- #480 Phaddw
  InstRow.mk Encoding.ExtRm 6967 4, -- #481 Phminposuw
  InstRow.mk Encoding.ExtRm_P 6988 172, -- #482 Phsubd
  InstRow.mk Encoding.ExtRm_P 7005 172, -- #483 Phsubsw
  InstRow.mk Encoding.ExtRm_P 7014 172, -- #484 Phsubw
  InstRow.mk Encoding.Ext3dNow 1888 184, -- #485 Pi2fd
  InstRow.mk Encoding.Ext3dNow 1894 184, -- #486 Pi2fw
  InstRow.mk Encoding.ExtRmi 7031 186, -- #487 Pinsrb
  InstRow.mk Encoding.ExtRmi 7039 187, -- #488 Pinsrd
  InstRow.mk Encoding.ExtRmi 7047 188, -- #489 Pinsrq
  InstRow.mk Encoding.ExtRmi_P 7055 189, -- #490 Pinsrw
  InstRow.mk Encoding.ExtRm_P 7225 172, -- #491 Pmaddubsw
  InstRow.mk Encoding.ExtRm_P 7236 172, -- #492 Pmaddwd
  InstRow.mk Encoding.ExtRm 7267 4, -- #493 Pmaxsb
  InstRow.mk Encoding.ExtRm 7275 4, -- #494 Pmaxsd
  InstRow.mk Encoding.ExtRm_P 7291 172, -- #495 Pmaxsw
  InstRow.mk Encoding.ExtRm_P 7299 172, -- #496 Pmaxub
  InstRow.mk Encoding.ExtRm 7307 4, -- #497 Pmaxud
  InstRow.mk Encoding.ExtRm 7323 4, -- #498 Pmaxuw
  InstRow.mk Encoding.ExtRm 7331 4, -- #499 Pminsb
  InstRow.mk Encoding.ExtRm 7339 4, -- #500 Pminsd
  InstRow.mk Encoding.ExtRm_P 7355 172, -- #501 Pminsw
  InstRow.mk Encoding.ExtRm_P 7363 172, -- #502 Pminub
  InstRow.mk Encoding.ExtRm 7371 4, -- #503 Pminud
  InstRow.mk Encoding.ExtRm 7387 4, -- #504 Pminuw
  InstRow.mk Encoding.ExtRm_P 7465 190, -- #505 Pmovmskb
  InstRow.mk Encoding.ExtRm 7562 191, -- #506 Pmovsxbd
  InstRow.mk Encoding.ExtRm 7572 192, -- #507 Pmovsxbq
  InstRow.mk Encoding.ExtRm 7582 52, -- #508 Pmovsxbw
  InstRow.mk Encoding.ExtRm 7592 52, -- #509 Pmovsxdq
  InstRow.mk Encoding.ExtRm 7602 52, -- #510 Pmovsxwd
  InstRow.mk Encoding.ExtRm 7612 191, -- #511 Pmovsxwq
  InstRow.mk Encoding.ExtRm 7699 191, -- #512 Pmovzxbd
  InstRow.mk Encoding.ExtRm 7709 192, -- #513 Pmovzxbq
  InstRow.mk Encoding.ExtRm 7719 52, -- #514 Pmovzxbw
  InstRow.mk Encoding.ExtRm 7729 52, -- #515 Pmovzxdq
  InstRow.mk Encoding.ExtRm 7739 52, -- #516 Pmovzxwd
  InstRow.mk Encoding.ExtRm 7749 191, -- #517 Pmovzxwq
  InstRow.mk Encoding.ExtRm 7759 4, -- #518 Pmuldq
  InstRow.mk Encoding.ExtRm_P 7767 172, -- #519 Pmulhrsw
  InstRow.mk Encoding.Ext3dNow 1900 175, -- #520 Pmulhrw
  InstRow.mk Encoding.ExtRm_P 7777 172, -- #521 Pmulhuw
  InstRow.mk Encoding.ExtRm_P 7786 172, -- #522 Pmulhw
  InstRow.mk Encoding.ExtRm 7794 4, -- #523 Pmulld
  InstRow.mk Encoding.ExtRm_P 7810 172, -- #524 Pmullw
  InstRow.mk Encoding.ExtRm_P 7833 172, -- #525 Pmuludq
  InstRow.mk Encoding.X86Pop 1908 193, -- #526 Pop
  InstRow.mk Encoding.X86Op 1912 194, -- #527 Popa
  InstRow.mk Encoding.X86Rm 1917 195, -- #528 Popcnt
  InstRow.mk Encoding.X86Op 1924 196, -- #529 Popf
  InstRow.mk Encoding.ExtRm_P 7842 172, -- #530 Por
  InstRow.mk Encoding.X86Prefetch 1929 197, -- #531 Prefetch
  InstRow.mk Encoding.X86M_Only 1938 29, -- #532 Prefetch3dNow
  InstRow.mk Encoding.X86M_Only 1952 198, -- #533 Prefetchw
  InstRow.mk Encoding.X86M_Only 1962 198, -- #534 Prefetchwt1
  InstRow.mk Encoding.ExtRm_P 3731 172, -- #535 Psadbw
  InstRow.mk Encoding.ExtRm_P 8066 199, -- #536 Pshufb
  InstRow.mk Encoding.ExtRmi 8074 200, -- #537 Pshufd
  InstRow.mk Encoding.ExtRmi 8082 200, -- #538 Pshufhw
  InstRow.mk Encoding.ExtRmi 8091 200, -- #539 Pshuflw
  InstRow.mk Encoding.ExtRmi_P 1974 201, -- #540 Pshufw
  InstRow.mk Encoding.ExtRm_P 8100 172, -- #541 Psignb
  InstRow.mk Encoding.ExtRm_P 8108 172, -- #542 Psignd
  InstRow.mk Encoding.ExtRm_P 8116 172, -- #543 Psignw
  InstRow.mk Encoding.ExtRmRi_P 8124 202, -- #544 Pslld
  InstRow.mk Encoding.ExtRmRi 8131 203, -- #545 Pslldq
  InstRow.mk Encoding.ExtRmRi_P 8139 204, -- #546 Psllq
  InstRow.mk Encoding.ExtRmRi_P 8170 205, -- #547 Psllw
  InstRow.mk Encoding.ExtRmRi_P 8177 206, -- #548 Psrad
  InstRow.mk Encoding.ExtRmRi_P 8215 207, -- #549 Psraw
  InstRow.mk Encoding.ExtRmRi_P 8222 208, -- #550 Psrld
  InstRow.mk Encoding.ExtRmRi 8229 209, -- #551 Psrldq
  InstRow.mk Encoding.ExtRmRi_P 8237 210, -- #552 Psrlq
  InstRow.mk Encoding.ExtRmRi_P 8268 211, -- #553 Psrlw
  InstRow.mk Encoding.ExtRm_P 8275 172, -- #554 Psubb
  InstRow.mk Encoding.ExtRm_P 8282 172, -- #555 Psubd
  InstRow.mk Encoding.ExtRm_P 8289 172, -- #556 Psubq
  InstRow.mk Encoding.ExtRm_P 8296 172, -- #557 Psubsb
  InstRow.mk Encoding.ExtRm_P 8304 172, -- #558 Psubsw
  InstRow.mk Encoding.ExtRm_P 8312 172, -- #559 Psubusb
  InstRow.mk Encoding.ExtRm_P 8321 172, -- #560 Psubusw
  InstRow.mk Encoding.ExtRm_P 8330 172, -- #561 Psubw
  InstRow.mk Encoding.Ext3dNow 1981 184, -- #562 Pswapd
  InstRow.mk Encoding.ExtRm 8359 212, -- #563 Ptest
  InstRow.mk Encoding.ExtRm_P 8442 172, -- #564 Punpckhbw
  InstRow.mk Encoding.ExtRm_P 8453 172, -- #565 Punpckhdq
  InstRow.mk Encoding.ExtRm 8464 4, -- #566 Punpckhqdq
  InstRow.mk Encoding.ExtRm_P 8476 172, -- #567 Punpckhwd
  InstRow.mk Encoding.ExtRm_P 8487 172, -- #568 Punpcklbw
  InstRow.mk Encoding.ExtRm_P 8498 172, -- #569 Punpckldq
  InstRow.mk Encoding.ExtRm 8509 4, -- #570 Punpcklqdq
  InstRow.mk Encoding.ExtRm_P 8521 172, -- #571 Punpcklwd
  InstRow.mk Encoding.X86Push 1988 213, -- #572 Push
  InstRow.mk Encoding.X86Op 1993 194, -- #573 Pusha
  InstRow.mk Encoding.X86Op 1999 214, -- #574 Pushf
  InstRow.mk Encoding.ExtRm_P 8532 172, -- #575 Pxor
  InstRow.mk Encoding.X86Rot 2005 215, -- #576 Rcl
  InstRow.mk Encoding.ExtRm 8660 53, -- #577 Rcpps
  InstRow.mk Encoding.ExtRm 8667 216, -- #578 Rcpss
  InstRow.mk Encoding.X86Rot 2009 215, -- #579 Rcr
  InstRow.mk Encoding.X86M 2013 217, -- #580 Rdfsbase
  InstRow.mk Encoding.X86M 2022 217, -- #581 Rdgsbase
  InstRow.mk Encoding.X86M 2031 218, -- #582 Rdrand
  InstRow.mk Encoding.X86M 2038 218, -- #583 Rdseed
  InstRow.mk Encoding.X86Op 2045 219, -- #584 Rdtsc
  InstRow.mk Encoding.X86Op 2051 220, -- #585 Rdtscp
  InstRow.mk Encoding.X86Rep 2058 221, -- #586 RepLodsB
  InstRow.mk Encoding.X86Rep 2069 221, -- #587 RepLodsD
  InstRow.mk Encoding.X86Rep 2080 221, -- #588 RepLodsQ
  InstRow.mk Encoding.X86Rep 2091 221, -- #589 RepLodsW
  InstRow.mk Encoding.X86Rep 2102 221, -- #590 RepMovsB
  InstRow.mk Encoding.X86Rep 2113 221, -- #591 RepMovsD
  InstRow.mk Encoding.X86Rep 2124 221, -- #592 RepMovsQ
  InstRow.mk Encoding.X86Rep 2135 221, -- #593 RepMovsW
  InstRow.mk Encoding.X86Rep 2146 221, -- #594 RepStosB
  InstRow.mk Encoding.X86Rep 2157 221, -- #595 RepStosD
  InstRow.mk Encoding.X86Rep 2168 221, -- #596 RepStosQ
  InstRow.mk Encoding.X86Rep 2179 221, -- #597 RepStosW
  InstRow.mk Encoding.X86Rep 2190 41, -- #598 RepeCmpsB
  InstRow.mk Encoding.X86Rep 2202 41, -- #599 RepeCmpsD
  InstRow.mk Encoding.X86Rep 2214 41, -- #600 RepeCmpsQ
  InstRow.mk Encoding.X86Rep 2226 41, -- #601 RepeCmpsW
  InstRow.mk Encoding.X86Rep 2238 41, -- #602 RepeScasB
  InstRow.mk Encoding.X86Rep 2250 41, -- #603 RepeScasD
  InstRow.mk Encoding.X86Rep 2262 41, -- #604 RepeScasQ
  InstRow.mk Encoding.X86Rep 2274 41, -- #605 RepeScasW
  InstRow.mk Encoding.X86Rep 2286 41, -- #606 RepneCmpsB
  InstRow.mk Encoding.X86Rep 2299 41, -- #607 RepneCmpsD
  InstRow.mk Encoding.X86Rep 2312 41, -- #608 RepneCmpsQ
  InstRow.mk Encoding.X86Rep 2325 41, -- #609 RepneCmpsW
  InstRow.mk Encoding.X86Rep 2338 41, -- #610 RepneScasB
  InstRow.mk Encoding.X86Rep 2351 41, -- #611 RepneScasD
  InstRow.mk Encoding.X86Rep 2364 41, -- #612 RepneScasQ
  InstRow.mk Encoding.X86Rep 2377 41, -- #613 RepneScasW
  InstRow.mk Encoding.X86Ret 2390 222, -- #614 Ret
  InstRow.mk Encoding.X86Rot 2394 223, -- #615 Rol
  InstRow.mk Encoding.X86Rot 2398 223, -- #616 Ror
  InstRow.mk Encoding.VexRmi_Wx 2402 224, -- #617 Rorx
  InstRow.mk Encoding.ExtRmi 8762 200, -- #618 Roundpd
  InstRow.mk Encoding.ExtRmi 8771 200, -- #619 Roundps
  InstRow.mk Encoding.ExtRmi 8780 225, -- #620 Roundsd
  InstRow.mk Encoding.ExtRmi 8789 226, -- #621 Roundss
  InstRow.mk Encoding.ExtRm 8886 53, -- #622 Rsqrtps
  InstRow.mk Encoding.ExtRm 8895 216, -- #623 Rsqrtss
  InstRow.mk Encoding.X86Op 2407 227, -- #624 Sahf
  InstRow.mk Encoding.X86Rot 2412 228, -- #625 Sal
  InstRow.mk Encoding.X86Rot 2416 228, -- #626 Sar
  InstRow.mk Encoding.VexRmv_Wx 2420 229, -- #627 Sarx
  InstRow.mk Encoding.X86Arith 2425 1, -- #628 Sbb
  InstRow.mk Encoding.X86Op 2344 41, -- #629 ScasB
  InstRow.mk Encoding.X86Op 2357 41, -- #630 ScasD
  InstRow.mk Encoding.X86Op 2370 41, -- #631 ScasQ
  InstRow.mk Encoding.X86Op 2383 41, -- #632 ScasW
  InstRow.mk Encoding.X86Set 2429 230, -- #633 Seta
  InstRow.mk Encoding.X86Set 2434 231, -- #634 Setae
  InstRow.mk Encoding.X86Set 2440 231, -- #635 Setb
  InstRow.mk Encoding.X86Set 2445 230, -- #636 Setbe
  InstRow.mk Encoding.X86Set 2451 231, -- #637 Setc
  InstRow.mk Encoding.X86Set 2456 232, -- #638 Sete
  InstRow.mk Encoding.X86Set 2461 233, -- #639 Setg
  InstRow.mk Encoding.X86Set 2466 234, -- #640 Setge
  InstRow.mk Encoding.X86Set 2472 234, -- #641 Setl
  InstRow.mk Encoding.X86Set 2477 233, -- #642 Setle
  InstRow.mk Encoding.X86Set 2483 230, -- #643 Setna
  InstRow.mk Encoding.X86Set 2489 231, -- #644 Setnae
  InstRow.mk Encoding.X86Set 2496 231, -- #645 Setnb
  InstRow.mk Encoding.X86Set 2502 230, -- #646 Setnbe
  InstRow.mk Encoding.X86Set 2509 231, -- #647 Setnc
  InstRow.mk Encoding.X86Set 2515 232, -- #648 Setne
  InstRow.mk Encoding.X86Set 2521 233, -- #649 Setng
  InstRow.mk Encoding.X86Set 2527 234, -- #650 Setnge
  InstRow.mk Encoding.X86Set 2534 234, -- #651 Setnl
  InstRow.mk Encoding.X86Set 2540 233, -- #652 Setnle
  InstRow.mk Encoding.X86Set 2547 235, -- #653 Setno
  InstRow.mk Encoding.X86Set 2553 236, -- #654 Setnp
  InstRow.mk Encoding.X86Set 2559 237, -- #655 Setns
  InstRow.mk Encoding.X86Set 2565 232, -- #656 Setnz
  InstRow.mk Encoding.X86Set 2571 235, -- #657 Seto
  InstRow.mk Encoding.X86Set 2576 236, -- #658 Setp
  InstRow.mk Encoding.X86Set 2581 236, -- #659 Setpe
  InstRow.mk Encoding.X86Set 2587 236, -- #660 Setpo
  InstRow.mk Encoding.X86Set 2593 237, -- #661 Sets
  InstRow.mk Encoding.X86Set 2598 232, -- #662 Setz
  InstRow.mk Encoding.X86Fence 2603 69, -- #663 Sfence
  InstRow.mk Encoding.ExtRm 2610 4, -- #664 Sha1msg1
  InstRow.mk Encoding.ExtRm 2619 4, -- #665 Sha1msg2
  InstRow.mk Encoding.ExtRm 2628 4, -- #666 Sha1nexte
  InstRow.mk Encoding.ExtRmi 2638 13, -- #667 Sha1rnds4
  InstRow.mk Encoding.ExtRm 2648 4, -- #668 Sha256msg1
  InstRow.mk Encoding.ExtRm 2659 4, -- #669 Sha256msg2
  InstRow.mk Encoding.ExtRmXMM0 2670 14, -- #670 Sha256rnds2
  InstRow.mk Encoding.X86Rot 2682 228, -- #671 Shl
  InstRow.mk Encoding.X86ShldShrd 8046 238, -- #672 Shld
  InstRow.mk Encoding.VexRmv_Wx 2686 229, -- #673 Shlx
  InstRow.mk Encoding.X86Rot 2691 228, -- #674 Shr
  InstRow.mk Encoding.X86ShldShrd 2695 238, -- #675 Shrd
  InstRow.mk Encoding.VexRmv_Wx 2700 229, -- #676 Shrx
  InstRow.mk Encoding.ExtRmi 9156 13, -- #677 Shufpd
  InstRow.mk Encoding.ExtRmi 9164 13, -- #678 Shufps
  InstRow.mk Encoding.ExtRm 9172 53, -- #679 Sqrtpd
  InstRow.mk Encoding.ExtRm 8887 53, -- #680 Sqrtps
  InstRow.mk Encoding.ExtRm 9188 239, -- #681 Sqrtsd
  InstRow.mk Encoding.ExtRm 8896 216, -- #682 Sqrtss
  InstRow.mk Encoding.X86Op 2705 26, -- #683 Stac
  InstRow.mk Encoding.X86Op 2710 240, -- #684 Stc
  InstRow.mk Encoding.X86Op 6147 241, -- #685 Std
  InstRow.mk Encoding.X86Op 2714 242, -- #686 Sti
  InstRow.mk Encoding.X86M_Only 9204 243, -- #687 Stmxcsr
  InstRow.mk Encoding.X86Op 2150 221, -- #688 StosB
  InstRow.mk Encoding.X86Op 2161 221, -- #689 StosD
  InstRow.mk Encoding.X86Op 2172 221, -- #690 StosQ
  InstRow.mk Encoding.X86Op 2183 221, -- #691 StosW
  InstRow.mk Encoding.X86Arith 732 3, -- #692 Sub
  InstRow.mk Encoding.ExtRm 4287 4, -- #693 Subpd
  InstRow.mk Encoding.ExtRm 4299 4, -- #694 Subps
  InstRow.mk Encoding.ExtRm 4975 5, -- #695 Subsd
  InstRow.mk Encoding.ExtRm 4985 6, -- #696 Subss
  InstRow.mk Encoding.VexVm_Wx 2718 12, -- #697 T1mskc
  InstRow.mk Encoding.X86Test 8360 244, -- #698 Test
  InstRow.mk Encoding.X86Rm 2725 195, -- #699 Tzcnt
  InstRow.mk Encoding.VexVm_Wx 2731 12, -- #700 Tzmsk
  InstRow.mk Encoding.ExtRm 9257 47, -- #701 Ucomisd
  InstRow.mk Encoding.ExtRm 9266 48, -- #702 Ucomiss
  InstRow.mk Encoding.X86Op 2737 245, -- #703 Ud2
  InstRow.mk Encoding.ExtRm 9275 4, -- #704 Unpckhpd
  InstRow.mk Encoding.ExtRm 9285 4, -- #705 Unpckhps
  InstRow.mk Encoding.ExtRm 9295 4, -- #706 Unpcklpd
  InstRow.mk Encoding.ExtRm 9305 4, -- #707 Unpcklps
  InstRow.mk Encoding.VexRvm_Lx 2741 246, -- #708 Vaddpd
  InstRow.mk Encoding.VexRvm_Lx 2748 247, -- #709 Vaddps
  InstRow.mk Encoding.VexRvm 2755 248, -- #710 Vaddsd
  InstRow.mk Encoding.VexRvm 2762 249, -- #711 Vaddss
  InstRow.mk Encoding.VexRvm_Lx 2769 250, -- #712 Vaddsubpd
  InstRow.mk Encoding.VexRvm_Lx 2779 250, -- #713 Vaddsubps
  InstRow.mk Encoding.VexRvm 2789 251, -- #714 Vaesdec
  InstRow.mk Encoding.VexRvm 2797 251, -- #715 Vaesdeclast
  InstRow.mk Encoding.VexRvm 2809 251, -- #716 Vaesenc
  InstRow.mk Encoding.VexRvm 2817 251, -- #717 Vaesenclast
  InstRow.mk Encoding.VexRm 2829 252, -- #718 Vaesimc
  InstRow.mk Encoding.VexRmi 2837 253, -- #719 Vaeskeygenassist
  InstRow.mk Encoding.VexRvmi_Lx 2854 254, -- #720 Valignd
  InstRow.mk Encoding.VexRvmi_Lx 2862 255, -- #721 Valignq
  InstRow.mk Encoding.VexRvm_Lx 2870 256, -- #722 Vandnpd
  InstRow.mk Encoding.VexRvm_Lx 2878 257, -- #723 Vandnps
  InstRow.mk Encoding.VexRvm_Lx 2886 256, -- #724 Vandpd
  InstRow.mk Encoding.VexRvm_Lx 2893 257, -- #725 Vandps
  InstRow.mk Encoding.VexRvm_Lx 2900 258, -- #726 Vblendmb
  InstRow.mk Encoding.VexRvm_Lx 2909 259, -- #727 Vblendmd
  InstRow.mk Encoding.VexRvm_Lx 2918 260, -- #728 Vblendmpd
  InstRow.mk Encoding.VexRvm_Lx 2928 259, -- #729 Vblendmps
  InstRow.mk Encoding.VexRvm_Lx 2938 260, -- #730 Vblendmq
  InstRow.mk Encoding.VexRvm_Lx 2947 258, -- #731 Vblendmw
  InstRow.mk Encoding.VexRvmi_Lx 2956 261, -- #732 Vblendpd
  InstRow.mk Encoding.VexRvmi_Lx 2965 261, -- #733 Vblendps
  InstRow.mk Encoding.VexRvmr_Lx 2974 262, -- #734 Vblendvpd
  InstRow.mk Encoding.VexRvmr_Lx 2984 262, -- #735 Vblendvps
  InstRow.mk Encoding.VexRm 2994 263, -- #736 Vbroadcastf128
  InstRow.mk Encoding.VexRm_Lx 3009 264, -- #737 Vbroadcastf32x2
  InstRow.mk Encoding.VexRm_Lx 3025 265, -- #738 Vbroadcastf32x4
  InstRow.mk Encoding.VexRm 3041 266, -- #739 Vbroadcastf32x8
  InstRow.mk Encoding.VexRm_Lx 3057 267, -- #740 Vbroadcastf64x2
  InstRow.mk Encoding.VexRm 3073 268, -- #741 Vbroadcastf64x4
  InstRow.mk Encoding.VexRm 3089 263, -- #742 Vbroadcasti128
  InstRow.mk Encoding.VexRm_Lx 3104 269, -- #743 Vbroadcasti32x2
  InstRow.mk Encoding.VexRm_Lx 3120 270, -- #744 Vbroadcasti32x4
  InstRow.mk Encoding.VexRm 3136 271, -- #745 Vbroadcasti32x8
  InstRow.mk Encoding.VexRm_Lx 3152 264, -- #746 Vbroadcasti64x2
  InstRow.mk Encoding.VexRm 3168 272, -- #747 Vbroadcasti64x4
  InstRow.mk Encoding.VexRm_Lx 3184 273, -- #748 Vbroadcastsd
  InstRow.mk Encoding.VexRm_Lx 3197 274, -- #749 Vbroadcastss
  InstRow.mk Encoding.VexRvmi_Lx 3210 275, -- #750 Vcmppd
  InstRow.mk Encoding.VexRvmi_Lx 3217 276, -- #751 Vcmpps
  InstRow.mk Encoding.VexRvmi 3224 277, -- #752 Vcmpsd
  InstRow.mk Encoding.VexRvmi 3231 278, -- #753 Vcmpss
  InstRow.mk Encoding.VexRm 3238 279, -- #754 Vcomisd
  InstRow.mk Encoding.VexRm 3246 280, -- #755 Vcomiss
  InstRow.mk Encoding.VexMr_Lx 3254 281, -- #756 Vcompresspd
  InstRow.mk Encoding.VexMr_Lx 3266 281, -- #757 Vcompressps
  InstRow.mk Encoding.VexRm_Lx 3278 282, -- #758 Vcvtdq2pd
  InstRow.mk Encoding.VexRm_Lx 3288 283, -- #759 Vcvtdq2ps
  InstRow.mk Encoding.VexRm_Lx 3298 284, -- #760 Vcvtpd2dq
  InstRow.mk Encoding.VexRm_Lx 3308 285, -- #761 Vcvtpd2ps
  InstRow.mk Encoding.VexRm_Lx 3318 286, -- #762 Vcvtpd2qq
  InstRow.mk Encoding.VexRm_Lx 3328 287, -- #763 Vcvtpd2udq
  InstRow.mk Encoding.VexRm_Lx 3339 286, -- #764 Vcvtpd2uqq
  InstRow.mk Encoding.VexRm_Lx 3350 288, -- #765 Vcvtph2ps
  InstRow.mk Encoding.VexRm_Lx 3360 283, -- #766 Vcvtps2dq
  InstRow.mk Encoding.VexRm_Lx 3370 289, -- #767 Vcvtps2pd
  InstRow.mk Encoding.VexMri_Lx 3380 290, -- #768 Vcvtps2ph
  InstRow.mk Encoding.VexRm_Lx 3390 291, -- #769 Vcvtps2qq
  InstRow.mk Encoding.VexRm_Lx 3400 292, -- #770 Vcvtps2udq
  InstRow.mk Encoding.VexRm_Lx 3411 291, -- #771 Vcvtps2uqq
  InstRow.mk Encoding.VexRm_Lx 3422 286, -- #772 Vcvtqq2pd
  InstRow.mk Encoding.VexRm_Lx 3432 293, -- #773 Vcvtqq2ps
  InstRow.mk Encoding.VexRm 3442 294, -- #774 Vcvtsd2si
  InstRow.mk Encoding.VexRvm 3452 248, -- #775 Vcvtsd2ss
  InstRow.mk Encoding.VexRm 3462 295, -- #776 Vcvtsd2usi
  InstRow.mk Encoding.VexRvm 3473 296, -- #777 Vcvtsi2sd
  InstRow.mk Encoding.VexRvm 3483 296, -- #778 Vcvtsi2ss
  InstRow.mk Encoding.VexRvm 3493 297, -- #779 Vcvtss2sd
  InstRow.mk Encoding.VexRm 3503 298, -- #780 Vcvtss2si
  InstRow.mk Encoding.VexRm 3513 299, -- #781 Vcvtss2usi
  InstRow.mk Encoding.VexRm_Lx 3524 300, -- #782 Vcvttpd2dq
  InstRow.mk Encoding.VexRm_Lx 3535 301, -- #783 Vcvttpd2qq
  InstRow.mk Encoding.VexRm_Lx 3546 302, -- #784 Vcvttpd2udq
  InstRow.mk Encoding.VexRm_Lx 3558 303, -- #785 Vcvttpd2uqq
  InstRow.mk Encoding.VexRm_Lx 3570 304, -- #786 Vcvttps2dq
  InstRow.mk Encoding.VexRm_Lx 3581 305, -- #787 Vcvttps2qq
  InstRow.mk Encoding.VexRm_Lx 3592 306, -- #788 Vcvttps2udq
  InstRow.mk Encoding.VexRm_Lx 3604 305, -- #789 Vcvttps2uqq
  InstRow.mk Encoding.VexRm 3616 307, -- #790 Vcvttsd2si
  InstRow.mk Encoding.VexRm 3627 308, -- #791 Vcvttsd2usi
  InstRow.mk Encoding.VexRm 3639 309, -- #792 Vcvttss2si
  InstRow.mk Encoding.VexRm 3650 310, -- #793 Vcvttss2usi
  InstRow.mk Encoding.VexRm_Lx 3662 311, -- #794 Vcvtudq2pd
  InstRow.mk Encoding.VexRm_Lx 3673 292, -- #795 Vcvtudq2ps
  InstRow.mk Encoding.VexRm_Lx 3684 286, -- #796 Vcvtuqq2pd
  InstRow.mk Encoding.VexRm_Lx 3695 293, -- #797 Vcvtuqq2ps
  InstRow.mk Encoding.VexRvm 3706 312, -- #798 Vcvtusi2sd
  InstRow.mk Encoding.VexRvm 3717 312 -- #799 Vcvtusi2ss
]

/-- Rows 800-1199 of the table. -/
def instDataPart2 : List InstRow := [
  InstRow.mk Encoding.VexRvmi_Lx 3728 313, -- #800 Vdbpsadbw
  InstRow.mk Encoding.VexRvm_Lx 3738 246, -- #801 Vdivpd
  InstRow.mk Encoding.VexRvm_Lx 3745 247, -- #802 Vdivps
  InstRow.mk Encoding.VexRvm 3752 248, -- #803 Vdivsd
  InstRow.mk Encoding.VexRvm 3759 249, -- #804 Vdivss
  InstRow.mk Encoding.VexRvmi_Lx 3766 261, -- #805 Vdppd
  InstRow.mk Encoding.VexRvmi_Lx 3772 261, -- #806 Vdpps
  InstRow.mk Encoding.VexRm 3778 314, -- #807 Vexp2pd
  InstRow.mk Encoding.VexRm 3786 315, -- #808 Vexp2ps
  InstRow.mk Encoding.VexRm_Lx 3794 316, -- #809 Vexpandpd
  InstRow.mk Encoding.VexRm_Lx 3804 316, -- #810 Vexpandps
  InstRow.mk Encoding.VexMri 3814 317, -- #811 Vextractf128
  InstRow.mk Encoding.VexMri_Lx 3827 318, -- #812 Vextractf32x4
  InstRow.mk Encoding.VexMri 3841 319, -- #813 Vextractf32x8
  InstRow.mk Encoding.VexMri_Lx 3855 320, -- #814 Vextractf64x2
  InstRow.mk Encoding.VexMri 3869 321, -- #815 Vextractf64x4
  InstRow.mk Encoding.VexMri 3883 317, -- #816 Vextracti128
  InstRow.mk Encoding.VexMri_Lx 3896 318, -- #817 Vextracti32x4
  InstRow.mk Encoding.VexMri 3910 319, -- #818 Vextracti32x8
  InstRow.mk Encoding.VexMri_Lx 3924 320, -- #819 Vextracti64x2
  InstRow.mk Encoding.VexMri 3938 321, -- #820 Vextracti64x4
  InstRow.mk Encoding.VexMri 3952 322, -- #821 Vextractps
  InstRow.mk Encoding.VexRvmi_Lx 3963 323, -- #822 Vfixupimmpd
  InstRow.mk Encoding.VexRvmi_Lx 3975 324, -- #823 Vfixupimmps
  InstRow.mk Encoding.VexRvmi 3987 325, -- #824 Vfixupimmsd
  InstRow.mk Encoding.VexRvmi 3999 326, -- #825 Vfixupimmss
  InstRow.mk Encoding.VexRvm_Lx 4011 327, -- #826 Vfmadd132pd
  InstRow.mk Encoding.VexRvm_Lx 4023 328, -- #827 Vfmadd132ps
  InstRow.mk Encoding.VexRvm 4035 329, -- #828 Vfmadd132sd
  InstRow.mk Encoding.VexRvm 4047 330, -- #829 Vfmadd132ss
  InstRow.mk Encoding.VexRvm_Lx 4059 327, -- #830 Vfmadd213pd
  InstRow.mk Encoding.VexRvm_Lx 4071 328, -- #831 Vfmadd213ps
  InstRow.mk Encoding.VexRvm 4083 329, -- #832 Vfmadd213sd
  InstRow.mk Encoding.VexRvm 4095 330, -- #833 Vfmadd213ss
  InstRow.mk Encoding.VexRvm_Lx 4107 327, -- #834 Vfmadd231pd
  InstRow.mk Encoding.VexRvm_Lx 4119 328, -- #835 Vfmadd231ps
  InstRow.mk Encoding.VexRvm 4131 329, -- #836 Vfmadd231sd
  InstRow.mk Encoding.VexRvm 4143 330, -- #837 Vfmadd231ss
  InstRow.mk Encoding.Fma4_Lx 4155 331, -- #838 Vfmaddpd
  InstRow.mk Encoding.Fma4_Lx 4164 331, -- #839 Vfmaddps
  InstRow.mk Encoding.Fma4 4173 332, -- #840 Vfmaddsd
  InstRow.mk Encoding.Fma4 4182 333, -- #841 Vfmaddss
  InstRow.mk Encoding.VexRvm_Lx 4191 327, -- #842 Vfmaddsub132pd
  InstRow.mk Encoding.VexRvm_Lx 4206 328, -- #843 Vfmaddsub132ps
  InstRow.mk Encoding.VexRvm_Lx 4221 327, -- #844 Vfmaddsub213pd
  InstRow.mk Encoding.VexRvm_Lx 4236 328, -- #845 Vfmaddsub213ps
  InstRow.mk Encoding.VexRvm_Lx 4251 327, -- #846 Vfmaddsub231pd
  InstRow.mk Encoding.VexRvm_Lx 4266 328, -- #847 Vfmaddsub231ps
  InstRow.mk Encoding.Fma4_Lx 4281 331, -- #848 Vfmaddsubpd
  InstRow.mk Encoding.Fma4_Lx 4293 331, -- #849 Vfmaddsubps
  InstRow.mk Encoding.VexRvm_Lx 4305 327, -- #850 Vfmsub132pd
  InstRow.mk Encoding.VexRvm_Lx 4317 328, -- #851 Vfmsub132ps
  InstRow.mk Encoding.VexRvm 4329 329, -- #852 Vfmsub132sd
  InstRow.mk Encoding.VexRvm 4341 330, -- #853 Vfmsub132ss
  InstRow.mk Encoding.VexRvm_Lx 4353 327, -- #854 Vfmsub213pd
  InstRow.mk Encoding.VexRvm_Lx 4365 328, -- #855 Vfmsub213ps
  InstRow.mk Encoding.VexRvm 4377 329, -- #856 Vfmsub213sd
  InstRow.mk Encoding.VexRvm 4389 330, -- #857 Vfmsub213ss
  InstRow.mk Encoding.VexRvm_Lx 4401 327, -- #858 Vfmsub231pd
  InstRow.mk Encoding.VexRvm_Lx 4413 328, -- #859 Vfmsub231ps
  InstRow.mk Encoding.VexRvm 4425 329, -- #860 Vfmsub231sd
  InstRow.mk Encoding.VexRvm 4437 330, -- #861 Vfmsub231ss
  InstRow.mk Encoding.VexRvm_Lx 4449 327, -- #862 Vfmsubadd132pd
  InstRow.mk Encoding.VexRvm_Lx 4464 328, -- #863 Vfmsubadd132ps
  InstRow.mk Encoding.VexRvm_Lx 4479 327, -- #864 Vfmsubadd213pd
  InstRow.mk Encoding.VexRvm_Lx 4494 328, -- #865 Vfmsubadd213ps
  InstRow.mk Encoding.VexRvm_Lx 4509 327, -- #866 Vfmsubadd231pd
  InstRow.mk Encoding.VexRvm_Lx 4524 328, -- #867 Vfmsubadd231ps
  InstRow.mk Encoding.Fma4_Lx 4539 331, -- #868 Vfmsubaddpd
  InstRow.mk Encoding.Fma4_Lx 4551 331, -- #869 Vfmsubaddps
  InstRow.mk Encoding.Fma4_Lx 4563 331, -- #870 Vfmsubpd
  InstRow.mk Encoding.Fma4_Lx 4572 331, -- #871 Vfmsubps
  InstRow.mk Encoding.Fma4 4581 332, -- #872 Vfmsubsd
  InstRow.mk Encoding.Fma4 4590 333, -- #873 Vfmsubss
  InstRow.mk Encoding.VexRvm_Lx 4599 327, -- #874 Vfnmadd132pd
  InstRow.mk Encoding.VexRvm_Lx 4612 328, -- #875 Vfnmadd132ps
  InstRow.mk Encoding.VexRvm 4625 329, -- #876 Vfnmadd132sd
  InstRow.mk Encoding.VexRvm 4638 330, -- #877 Vfnmadd132ss
  InstRow.mk Encoding.VexRvm_Lx 4651 327, -- #878 Vfnmadd213pd
  InstRow.mk Encoding.VexRvm_Lx 4664 328, -- #879 Vfnmadd213ps
  InstRow.mk Encoding.VexRvm 4677 329, -- #880 Vfnmadd213sd
  InstRow.mk Encoding.VexRvm 4690 330, -- #881 Vfnmadd213ss
  InstRow.mk Encoding.VexRvm_Lx 4703 327, -- #882 Vfnmadd231pd
  InstRow.mk Encoding.VexRvm_Lx 4716 328, -- #883 Vfnmadd231ps
  InstRow.mk Encoding.VexRvm 4729 329, -- #884 Vfnmadd231sd
  InstRow.mk Encoding.VexRvm 4742 330, -- #885 Vfnmadd231ss
  InstRow.mk Encoding.Fma4_Lx 4755 331, -- #886 Vfnmaddpd
  InstRow.mk Encoding.Fma4_Lx 4765 331, -- #887 Vfnmaddps
  InstRow.mk Encoding.Fma4 4775 332, -- #888 Vfnmaddsd
  InstRow.mk Encoding.Fma4 4785 333, -- #889 Vfnmaddss
  InstRow.mk Encoding.VexRvm_Lx 4795 327, -- #890 Vfnmsub132pd
  InstRow.mk Encoding.VexRvm_Lx 4808 328, -- #891 Vfnmsub132ps
  InstRow.mk Encoding.VexRvm 4821 329, -- #892 Vfnmsub132sd
  InstRow.mk Encoding.VexRvm 4834 330, -- #893 Vfnmsub132ss
  InstRow.mk Encoding.VexRvm_Lx 4847 327, -- #894 Vfnmsub213pd
  InstRow.mk Encoding.VexRvm_Lx 4860 328, -- #895 Vfnmsub213ps
  InstRow.mk Encoding.VexRvm 4873 329, -- #896 Vfnmsub213sd
  InstRow.mk Encoding.VexRvm 4886 330, -- #897 Vfnmsub213ss
  InstRow.mk Encoding.VexRvm_Lx 4899 327, -- #898 Vfnmsub231pd
  InstRow.mk Encoding.VexRvm_Lx 4912 328, -- #899 Vfnmsub231ps
  InstRow.mk Encoding.VexRvm 4925 329, -- #900 Vfnmsub231sd
  InstRow.mk Encoding.VexRvm 4938 330, -- #901 Vfnmsub231ss
  InstRow.mk Encoding.Fma4_Lx 4951 331, -- #902 Vfnmsubpd
  InstRow.mk Encoding.Fma4_Lx 4961 331, -- #903 Vfnmsubps
  InstRow.mk Encoding.Fma4 4971 332, -- #904 Vfnmsubsd
  InstRow.mk Encoding.Fma4 4981 333, -- #905 Vfnmsubss
  InstRow.mk Encoding.VexRmi_Lx 4991 334, -- #906 Vfpclasspd
  InstRow.mk Encoding.VexRmi_Lx 5002 335, -- #907 Vfpclassps
  InstRow.mk Encoding.VexRmi_Lx 5013 336, -- #908 Vfpclasssd
  InstRow.mk Encoding.VexRmi_Lx 5024 337, -- #909 Vfpclassss
  InstRow.mk Encoding.VexRm_Lx 5035 338, -- #910 Vfrczpd
  InstRow.mk Encoding.VexRm_Lx 5043 338, -- #911 Vfrczps
  InstRow.mk Encoding.VexRm 5051 339, -- #912 Vfrczsd
  InstRow.mk Encoding.VexRm 5059 340, -- #913 Vfrczss
  InstRow.mk Encoding.VexRmvRm_VM 5067 341, -- #914 Vgatherdpd
  InstRow.mk Encoding.VexRmvRm_VM 5078 342, -- #915 Vgatherdps
  InstRow.mk Encoding.VexM_VM 5089 343, -- #916 Vgatherpf0dpd
  InstRow.mk Encoding.VexM_VM 5103 344, -- #917 Vgatherpf0dps
  InstRow.mk Encoding.VexM_VM 5117 345, -- #918 Vgatherpf0qpd
  InstRow.mk Encoding.VexM_VM 5131 345, -- #919 Vgatherpf0qps
  InstRow.mk Encoding.VexM_VM 5145 343, -- #920 Vgatherpf1dpd
  InstRow.mk Encoding.VexM_VM 5159 344, -- #921 Vgatherpf1dps
  InstRow.mk Encoding.VexM_VM 5173 345, -- #922 Vgatherpf1qpd
  InstRow.mk Encoding.VexM_VM 5187 345, -- #923 Vgatherpf1qps
  InstRow.mk Encoding.VexRmvRm_VM 5201 346, -- #924 Vgatherqpd
  InstRow.mk Encoding.VexRmvRm_VM 5212 347, -- #925 Vgatherqps
  InstRow.mk Encoding.VexRm_Lx 5223 301, -- #926 Vgetexppd
  InstRow.mk Encoding.VexRm_Lx 5233 306, -- #927 Vgetexpps
  InstRow.mk Encoding.VexRm 5243 348, -- #928 Vgetexpsd
  InstRow.mk Encoding.VexRm 5253 349, -- #929 Vgetexpss
  InstRow.mk Encoding.VexRmi_Lx 5263 350, -- #930 Vgetmantpd
  InstRow.mk Encoding.VexRmi_Lx 5274 351, -- #931 Vgetmantps
  InstRow.mk Encoding.VexRmi 5285 352, -- #932 Vgetmantsd
  InstRow.mk Encoding.VexRmi 5296 353, -- #933 Vgetmantss
  InstRow.mk Encoding.VexRvm_Lx 5307 250, -- #934 Vhaddpd
  InstRow.mk Encoding.VexRvm_Lx 5315 250, -- #935 Vhaddps
  InstRow.mk Encoding.VexRvm_Lx 5323 250, -- #936 Vhsubpd
  InstRow.mk Encoding.VexRvm_Lx 5331 250, -- #937 Vhsubps
  InstRow.mk Encoding.VexRvmi 5339 354, -- #938 Vinsertf128
  InstRow.mk Encoding.VexRvmi_Lx 5351 355, -- #939 Vinsertf32x4
  InstRow.mk Encoding.VexRvmi 5364 356, -- #940 Vinsertf32x8
  InstRow.mk Encoding.VexRvmi_Lx 5377 357, -- #941 Vinsertf64x2
  InstRow.mk Encoding.VexRvmi 5390 358, -- #942 Vinsertf64x4
  InstRow.mk Encoding.VexRvmi 5403 354, -- #943 Vinserti128
  InstRow.mk Encoding.VexRvmi_Lx 5415 355, -- #944 Vinserti32x4
  InstRow.mk Encoding.VexRvmi 5428 356, -- #945 Vinserti32x8
  InstRow.mk Encoding.VexRvmi_Lx 5441 357, -- #946 Vinserti64x2
  InstRow.mk Encoding.VexRvmi 5454 358, -- #947 Vinserti64x4
  InstRow.mk Encoding.VexRvmi 5467 359, -- #948 Vinsertps
  InstRow.mk Encoding.VexRm_Lx 5477 360, -- #949 Vlddqu
  InstRow.mk Encoding.VexM 5484 361, -- #950 Vldmxcsr
  InstRow.mk Encoding.VexRmZDI 5493 362, -- #951 Vmaskmovdqu
  InstRow.mk Encoding.VexRvmMvr_Lx 5505 363, -- #952 Vmaskmovpd
  InstRow.mk Encoding.VexRvmMvr_Lx 5516 364, -- #953 Vmaskmovps
  InstRow.mk Encoding.VexRvm_Lx 5527 365, -- #954 Vmaxpd
  InstRow.mk Encoding.VexRvm_Lx 5534 366, -- #955 Vmaxps
  InstRow.mk Encoding.VexRvm 5541 367, -- #956 Vmaxsd
  InstRow.mk Encoding.VexRvm 5548 368, -- #957 Vmaxss
  InstRow.mk Encoding.VexRvm_Lx 5555 365, -- #958 Vminpd
  InstRow.mk Encoding.VexRvm_Lx 5562 366, -- #959 Vminps
  InstRow.mk Encoding.VexRvm 5569 367, -- #960 Vminsd
  InstRow.mk Encoding.VexRvm 5576 368, -- #961 Vminss
  InstRow.mk Encoding.VexRmMr_Lx 5583 369, -- #962 Vmovapd
  InstRow.mk Encoding.VexRmMr_Lx 5591 370, -- #963 Vmovaps
  InstRow.mk Encoding.VexMovDQ 5599 371, -- #964 Vmovd
  InstRow.mk Encoding.VexRm_Lx 5605 372, -- #965 Vmovddup
  InstRow.mk Encoding.VexRmMr_Lx 5614 373, -- #966 Vmovdqa
  InstRow.mk Encoding.VexRmMr_Lx 5622 374, -- #967 Vmovdqa32
  InstRow.mk Encoding.VexRmMr_Lx 5632 375, -- #968 Vmovdqa64
  InstRow.mk Encoding.VexRmMr_Lx 5642 376, -- #969 Vmovdqu
  InstRow.mk Encoding.VexRmMr_Lx 5650 377, -- #970 Vmovdqu16
  InstRow.mk Encoding.VexRmMr_Lx 5660 378, -- #971 Vmovdqu32
  InstRow.mk Encoding.VexRmMr_Lx 5670 379, -- #972 Vmovdqu64
  InstRow.mk Encoding.VexRmMr_Lx 5680 380, -- #973 Vmovdqu8
  InstRow.mk Encoding.VexRvm 5689 381, -- #974 Vmovhlps
  InstRow.mk Encoding.VexRvmMr 5698 382, -- #975 Vmovhpd
  InstRow.mk Encoding.VexRvmMr 5706 383, -- #976 Vmovhps
  InstRow.mk Encoding.VexRvm 5714 381, -- #977 Vmovlhps
  InstRow.mk Encoding.VexRvmMr 5723 384, -- #978 Vmovlpd
  InstRow.mk Encoding.VexRvmMr 5731 385, -- #979 Vmovlps
  InstRow.mk Encoding.VexRm_Lx 5739 386, -- #980 Vmovmskpd
  InstRow.mk Encoding.VexRm_Lx 5749 386, -- #981 Vmovmskps
  InstRow.mk Encoding.VexMr_Lx 5759 387, -- #982 Vmovntdq
  InstRow.mk Encoding.VexRm_Lx 5768 388, -- #983 Vmovntdqa
  InstRow.mk Encoding.VexMr_Lx 5778 387, -- #984 Vmovntpd
  InstRow.mk Encoding.VexMr_Lx 5787 387, -- #985 Vmovntps
  InstRow.mk Encoding.VexMovDQ 5796 389, -- #986 Vmovq
  InstRow.mk Encoding.VexMovSsSd 5802 390, -- #987 Vmovsd
  InstRow.mk Encoding.VexRm_Lx 5809 391, -- #988 Vmovshdup
  InstRow.mk Encoding.VexRm_Lx 5819 391, -- #989 Vmovsldup
  InstRow.mk Encoding.VexMovSsSd 5829 392, -- #990 Vmovss
  InstRow.mk Encoding.VexRmMr_Lx 5836 393, -- #991 Vmovupd
  InstRow.mk Encoding.VexRmMr_Lx 5844 394, -- #992 Vmovups
  InstRow.mk Encoding.VexRvmi_Lx 5852 261, -- #993 Vmpsadbw
  InstRow.mk Encoding.VexRvm_Lx 5861 246, -- #994 Vmulpd
  InstRow.mk Encoding.VexRvm_Lx 5868 247, -- #995 Vmulps
  InstRow.mk Encoding.VexRvm_Lx 5875 248, -- #996 Vmulsd
  InstRow.mk Encoding.VexRvm_Lx 5882 249, -- #997 Vmulss
  InstRow.mk Encoding.VexRvm_Lx 5889 256, -- #998 Vorpd
  InstRow.mk Encoding.VexRvm_Lx 5895 395, -- #999 Vorps
  InstRow.mk Encoding.VexRm_Lx 5901 396, -- #1000 Vpabsb
  InstRow.mk Encoding.VexRm_Lx 5908 391, -- #1001 Vpabsd
  InstRow.mk Encoding.VexRm_Lx 5915 316, -- #1002 Vpabsq
  InstRow.mk Encoding.VexRm_Lx 5922 396, -- #1003 Vpabsw
  InstRow.mk Encoding.VexRvm_Lx 5929 397, -- #1004 Vpackssdw
  InstRow.mk Encoding.VexRvm_Lx 5939 398, -- #1005 Vpacksswb
  InstRow.mk Encoding.VexRvm_Lx 5949 397, -- #1006 Vpackusdw
  InstRow.mk Encoding.VexRvm_Lx 5959 398, -- #1007 Vpackuswb
  InstRow.mk Encoding.VexRvm_Lx 5969 398, -- #1008 Vpaddb
  InstRow.mk Encoding.VexRvm_Lx 5976 395, -- #1009 Vpaddd
  InstRow.mk Encoding.VexRvm_Lx 5983 399, -- #1010 Vpaddq
  InstRow.mk Encoding.VexRvm_Lx 5990 398, -- #1011 Vpaddsb
  InstRow.mk Encoding.VexRvm_Lx 5998 398, -- #1012 Vpaddsw
  InstRow.mk Encoding.VexRvm_Lx 6006 398, -- #1013 Vpaddusb
  InstRow.mk Encoding.VexRvm_Lx 6015 398, -- #1014 Vpaddusw
  InstRow.mk Encoding.VexRvm_Lx 6024 398, -- #1015 Vpaddw
  InstRow.mk Encoding.VexRvmi_Lx 6031 400, -- #1016 Vpalignr
  InstRow.mk Encoding.VexRvm_Lx 6040 250, -- #1017 Vpand
  InstRow.mk Encoding.VexRvm_Lx 6046 259, -- #1018 Vpandd
  InstRow.mk Encoding.VexRvm_Lx 6053 250, -- #1019 Vpandn
  InstRow.mk Encoding.VexRvm_Lx 6060 259, -- #1020 Vpandnd
  InstRow.mk Encoding.VexRvm_Lx 6068 260, -- #1021 Vpandnq
  InstRow.mk Encoding.VexRvm_Lx 6076 260, -- #1022 Vpandq
  InstRow.mk Encoding.VexRvm_Lx 6083 398, -- #1023 Vpavgb
  InstRow.mk Encoding.VexRvm_Lx 6090 398, -- #1024 Vpavgw
  InstRow.mk Encoding.VexRvmi_Lx 6097 261, -- #1025 Vpblendd
  InstRow.mk Encoding.VexRvmr 6106 262, -- #1026 Vpblendvb
  InstRow.mk Encoding.VexRvmi_Lx 6116 261, -- #1027 Vpblendw
  InstRow.mk Encoding.VexRm_Lx 6125 401, -- #1028 Vpbroadcastb
  InstRow.mk Encoding.VexRm_Lx 6138 402, -- #1029 Vpbroadcastd
  InstRow.mk Encoding.VexRm_Lx 6151 403, -- #1030 Vpbroadcastmb2d
  InstRow.mk Encoding.VexRm_Lx 6167 403, -- #1031 Vpbroadcastmb2q
  InstRow.mk Encoding.VexRm_Lx 6183 404, -- #1032 Vpbroadcastq
  InstRow.mk Encoding.VexRm_Lx 6196 405, -- #1033 Vpbroadcastw
  InstRow.mk Encoding.VexRvmi 6209 406, -- #1034 Vpclmulqdq
  InstRow.mk Encoding.VexRvrmRvmr_Lx 6220 331, -- #1035 Vpcmov
  InstRow.mk Encoding.VexRvm_Lx 6227 407, -- #1036 Vpcmpb
  InstRow.mk Encoding.VexRvm_Lx 6234 408, -- #1037 Vpcmpd
  InstRow.mk Encoding.VexRvm_Lx 6241 409, -- #1038 Vpcmpeqb
  InstRow.mk Encoding.VexRvm_Lx 6250 410, -- #1039 Vpcmpeqd
  InstRow.mk Encoding.VexRvm_Lx 6259 411, -- #1040 Vpcmpeqq
  InstRow.mk Encoding.VexRvm_Lx 6268 409, -- #1041 Vpcmpeqw
  InstRow.mk Encoding.VexRmi 6277 412, -- #1042 Vpcmpestri
  InstRow.mk Encoding.VexRmi 6288 413, -- #1043 Vpcmpestrm
  InstRow.mk Encoding.VexRvm_Lx 6299 409, -- #1044 Vpcmpgtb
  InstRow.mk Encoding.VexRvm_Lx 6308 410, -- #1045 Vpcmpgtd
  InstRow.mk Encoding.VexRvm_Lx 6317 411, -- #1046 Vpcmpgtq
  InstRow.mk Encoding.VexRvm_Lx 6326 409, -- #1047 Vpcmpgtw
  InstRow.mk Encoding.VexRmi 6335 414, -- #1048 Vpcmpistri
  InstRow.mk Encoding.VexRmi 6346 415, -- #1049 Vpcmpistrm
  InstRow.mk Encoding.VexRvm_Lx 6357 416, -- #1050 Vpcmpq
  InstRow.mk Encoding.VexRvm_Lx 6364 407, -- #1051 Vpcmpub
  InstRow.mk Encoding.VexRvm_Lx 6372 408, -- #1052 Vpcmpud
  InstRow.mk Encoding.VexRvm_Lx 6380 416, -- #1053 Vpcmpuq
  InstRow.mk Encoding.VexRvm_Lx 6388 417, -- #1054 Vpcmpuw
  InstRow.mk Encoding.VexRvm_Lx 6396 417, -- #1055 Vpcmpw
  InstRow.mk Encoding.VexRvmi 6403 406, -- #1056 Vpcomb
  InstRow.mk Encoding.VexRvmi 6410 406, -- #1057 Vpcomd
  InstRow.mk Encoding.VexMr_Lx 6417 281, -- #1058 Vpcompressd
  InstRow.mk Encoding.VexMr_Lx 6429 281, -- #1059 Vpcompressq
  InstRow.mk Encoding.VexRvmi 6441 406, -- #1060 Vpcomq
  InstRow.mk Encoding.VexRvmi 6448 406, -- #1061 Vpcomub
  InstRow.mk Encoding.VexRvmi 6456 406, -- #1062 Vpcomud
  InstRow.mk Encoding.VexRvmi 6464 406, -- #1063 Vpcomuq
  InstRow.mk Encoding.VexRvmi 6472 406, -- #1064 Vpcomuw
  InstRow.mk Encoding.VexRvmi 6480 406, -- #1065 Vpcomw
  InstRow.mk Encoding.VexRm_Lx 6487 418, -- #1066 Vpconflictd
  InstRow.mk Encoding.VexRm_Lx 6499 418, -- #1067 Vpconflictq
  InstRow.mk Encoding.VexRvmi 6511 419, -- #1068 Vperm2f128
  InstRow.mk Encoding.VexRvmi 6522 419, -- #1069 Vperm2i128
  InstRow.mk Encoding.VexRvm_Lx 6533 420, -- #1070 Vpermb
  InstRow.mk Encoding.VexRvm_Lx 6540 421, -- #1071 Vpermd
  InstRow.mk Encoding.VexRvm_Lx 6547 420, -- #1072 Vpermi2b
  InstRow.mk Encoding.VexRvm_Lx 6556 422, -- #1073 Vpermi2d
  InstRow.mk Encoding.VexRvm_Lx 6565 260, -- #1074 Vpermi2pd
  InstRow.mk Encoding.VexRvm_Lx 6575 259, -- #1075 Vpermi2ps
  InstRow.mk Encoding.VexRvm_Lx 6585 423, -- #1076 Vpermi2q
  InstRow.mk Encoding.VexRvm_Lx 6594 424, -- #1077 Vpermi2w
  InstRow.mk Encoding.VexRvrmiRvmri_Lx 6603 425, -- #1078 Vpermil2pd
  InstRow.mk Encoding.VexRvrmiRvmri_Lx 6614 425, -- #1079 Vpermil2ps
  InstRow.mk Encoding.VexRvmRmi_Lx 6625 426, -- #1080 Vpermilpd
  InstRow.mk Encoding.VexRvmRmi_Lx 6635 427, -- #1081 Vpermilps
  InstRow.mk Encoding.VexRmi 6645 428, -- #1082 Vpermpd
  InstRow.mk Encoding.VexRvm 6653 429, -- #1083 Vpermps
  InstRow.mk Encoding.VexRvmRmi_Lx 6661 430, -- #1084 Vpermq
  InstRow.mk Encoding.VexRvm_Lx 6668 420, -- #1085 Vpermt2b
  InstRow.mk Encoding.VexRvm_Lx 6677 422, -- #1086 Vpermt2d
  InstRow.mk Encoding.VexRvm_Lx 6686 423, -- #1087 Vpermt2pd
  InstRow.mk Encoding.VexRvm_Lx 6696 422, -- #1088 Vpermt2ps
  InstRow.mk Encoding.VexRvm_Lx 6706 423, -- #1089 Vpermt2q
  InstRow.mk Encoding.VexRvm_Lx 6715 424, -- #1090 Vpermt2w
  InstRow.mk Encoding.VexRvm_Lx 6724 258, -- #1091 Vpermw
  InstRow.mk Encoding.VexRm_Lx 6731 316, -- #1092 Vpexpandd
  InstRow.mk Encoding.VexRm_Lx 6741 316, -- #1093 Vpexpandq
  InstRow.mk Encoding.VexMri 6751 431, -- #1094 Vpextrb
  InstRow.mk Encoding.VexMri 6759 432, -- #1095 Vpextrd
  InstRow.mk Encoding.VexMri 6767 433, -- #1096 Vpextrq
  InstRow.mk Encoding.VexMri 6775 434, -- #1097 Vpextrw
  InstRow.mk Encoding.VexRmvRm_VM 6783 435, -- #1098 Vpgatherdd
  InstRow.mk Encoding.VexRmvRm_VM 6794 436, -- #1099 Vpgatherdq
  InstRow.mk Encoding.VexRmvRm_VM 6805 437, -- #1100 Vpgatherqd
  InstRow.mk Encoding.VexRmvRm_VM 6816 438, -- #1101 Vpgatherqq
  InstRow.mk Encoding.VexRm 6827 252, -- #1102 Vphaddbd
  InstRow.mk Encoding.VexRm 6836 252, -- #1103 Vphaddbq
  InstRow.mk Encoding.VexRm 6845 252, -- #1104 Vphaddbw
  InstRow.mk Encoding.VexRvm_Lx 6854 250, -- #1105 Vphaddd
  InstRow.mk Encoding.VexRm 6862 252, -- #1106 Vphadddq
  InstRow.mk Encoding.VexRvm_Lx 6871 250, -- #1107 Vphaddsw
  InstRow.mk Encoding.VexRm 6880 252, -- #1108 Vphaddubd
  InstRow.mk Encoding.VexRm 6890 252, -- #1109 Vphaddubq
  InstRow.mk Encoding.VexRm 6900 252, -- #1110 Vphaddubw
  InstRow.mk Encoding.VexRm 6910 252, -- #1111 Vphaddudq
  InstRow.mk Encoding.VexRm 6920 252, -- #1112 Vphadduwd
  InstRow.mk Encoding.VexRm 6930 252, -- #1113 Vphadduwq
  InstRow.mk Encoding.VexRvm_Lx 6940 250, -- #1114 Vphaddw
  InstRow.mk Encoding.VexRm 6948 252, -- #1115 Vphaddwd
  InstRow.mk Encoding.VexRm 6957 252, -- #1116 Vphaddwq
  InstRow.mk Encoding.VexRm 6966 252, -- #1117 Vphminposuw
  InstRow.mk Encoding.VexRm 6978 252, -- #1118 Vphsubbw
  InstRow.mk Encoding.VexRvm_Lx 6987 250, -- #1119 Vphsubd
  InstRow.mk Encoding.VexRm 6995 252, -- #1120 Vphsubdq
  InstRow.mk Encoding.VexRvm_Lx 7004 250, -- #1121 Vphsubsw
  InstRow.mk Encoding.VexRvm_Lx 7013 250, -- #1122 Vphsubw
  InstRow.mk Encoding.VexRm 7021 252, -- #1123 Vphsubwd
  InstRow.mk Encoding.VexRvmi 7030 439, -- #1124 Vpinsrb
  InstRow.mk Encoding.VexRvmi 7038 440, -- #1125 Vpinsrd
  InstRow.mk Encoding.VexRvmi 7046 441, -- #1126 Vpinsrq
  InstRow.mk Encoding.VexRvmi 7054 442, -- #1127 Vpinsrw
  InstRow.mk Encoding.VexRm_Lx 7062 418, -- #1128 Vplzcntd
  InstRow.mk Encoding.VexRm_Lx 7071 443, -- #1129 Vplzcntq
  InstRow.mk Encoding.VexRvmr 7080 444, -- #1130 Vpmacsdd
  InstRow.mk Encoding.VexRvmr 7089 444, -- #1131 Vpmacsdqh
  InstRow.mk Encoding.VexRvmr 7099 444, -- #1132 Vpmacsdql
  InstRow.mk Encoding.VexRvmr 7109 444, -- #1133 Vpmacssdd
  InstRow.mk Encoding.VexRvmr 7119 444, -- #1134 Vpmacssdqh
  InstRow.mk Encoding.VexRvmr 7130 444, -- #1135 Vpmacssdql
  InstRow.mk Encoding.VexRvmr 7141 444, -- #1136 Vpmacsswd
  InstRow.mk Encoding.VexRvmr 7151 444, -- #1137 Vpmacssww
  InstRow.mk Encoding.VexRvmr 7161 444, -- #1138 Vpmacswd
  InstRow.mk Encoding.VexRvmr 7170 444, -- #1139 Vpmacsww
  InstRow.mk Encoding.VexRvmr 7179 444, -- #1140 Vpmadcsswd
  InstRow.mk Encoding.VexRvmr 7190 444, -- #1141 Vpmadcswd
  InstRow.mk Encoding.VexRvm_Lx 7200 445, -- #1142 Vpmadd52huq
  InstRow.mk Encoding.VexRvm_Lx 7212 445, -- #1143 Vpmadd52luq
  InstRow.mk Encoding.VexRvm_Lx 7224 398, -- #1144 Vpmaddubsw
  InstRow.mk Encoding.VexRvm_Lx 7235 398, -- #1145 Vpmaddwd
  InstRow.mk Encoding.VexRvmMvr_Lx 7244 446, -- #1146 Vpmaskmovd
  InstRow.mk Encoding.VexRvmMvr_Lx 7255 447, -- #1147 Vpmaskmovq
  InstRow.mk Encoding.VexRvm_Lx 7266 398, -- #1148 Vpmaxsb
  InstRow.mk Encoding.VexRvm_Lx 7274 395, -- #1149 Vpmaxsd
  InstRow.mk Encoding.VexRvm_Lx 7282 260, -- #1150 Vpmaxsq
  InstRow.mk Encoding.VexRvm_Lx 7290 398, -- #1151 Vpmaxsw
  InstRow.mk Encoding.VexRvm_Lx 7298 398, -- #1152 Vpmaxub
  InstRow.mk Encoding.VexRvm_Lx 7306 395, -- #1153 Vpmaxud
  InstRow.mk Encoding.VexRvm_Lx 7314 260, -- #1154 Vpmaxuq
  InstRow.mk Encoding.VexRvm_Lx 7322 398, -- #1155 Vpmaxuw
  InstRow.mk Encoding.VexRvm_Lx 7330 398, -- #1156 Vpminsb
  InstRow.mk Encoding.VexRvm_Lx 7338 395, -- #1157 Vpminsd
  InstRow.mk Encoding.VexRvm_Lx 7346 260, -- #1158 Vpminsq
  InstRow.mk Encoding.VexRvm_Lx 7354 398, -- #1159 Vpminsw
  InstRow.mk Encoding.VexRvm_Lx 7362 398, -- #1160 Vpminub
  InstRow.mk Encoding.VexRvm_Lx 7370 395, -- #1161 Vpminud
  InstRow.mk Encoding.VexRvm_Lx 7378 260, -- #1162 Vpminuq
  InstRow.mk Encoding.VexRvm_Lx 7386 398, -- #1163 Vpminuw
  InstRow.mk Encoding.VexRm_Lx 7394 448, -- #1164 Vpmovb2m
  InstRow.mk Encoding.VexRm_Lx 7403 449, -- #1165 Vpmovd2m
  InstRow.mk Encoding.VexMr_Lx 7412 450, -- #1166 Vpmovdb
  InstRow.mk Encoding.VexMr_Lx 7420 451, -- #1167 Vpmovdw
  InstRow.mk Encoding.VexRm_Lx 7428 452, -- #1168 Vpmovm2b
  InstRow.mk Encoding.VexRm_Lx 7437 453, -- #1169 Vpmovm2d
  InstRow.mk Encoding.VexRm_Lx 7446 453, -- #1170 Vpmovm2q
  InstRow.mk Encoding.VexRm_Lx 7455 452, -- #1171 Vpmovm2w
  InstRow.mk Encoding.VexRm_Lx 7464 386, -- #1172 Vpmovmskb
  InstRow.mk Encoding.VexRm_Lx 7474 449, -- #1173 Vpmovq2m
  InstRow.mk Encoding.VexMr_Lx 7483 454, -- #1174 Vpmovqb
  InstRow.mk Encoding.VexMr_Lx 7491 451, -- #1175 Vpmovqd
  InstRow.mk Encoding.VexMr_Lx 7499 450, -- #1176 Vpmovqw
  InstRow.mk Encoding.VexMr_Lx 7507 450, -- #1177 Vpmovsdb
  InstRow.mk Encoding.VexMr_Lx 7516 451, -- #1178 Vpmovsdw
  InstRow.mk Encoding.VexMr_Lx 7525 454, -- #1179 Vpmovsqb
  InstRow.mk Encoding.VexMr_Lx 7534 451, -- #1180 Vpmovsqd
  InstRow.mk Encoding.VexMr_Lx 7543 450, -- #1181 Vpmovsqw
  InstRow.mk Encoding.VexMr_Lx 7552 455, -- #1182 Vpmovswb
  InstRow.mk Encoding.VexRm_Lx 7561 456, -- #1183 Vpmovsxbd
  InstRow.mk Encoding.VexRm_Lx 7571 457, -- #1184 Vpmovsxbq
  InstRow.mk Encoding.VexRm_Lx 7581 458, -- #1185 Vpmovsxbw
  InstRow.mk Encoding.VexRm_Lx 7591 459, -- #1186 Vpmovsxdq
  InstRow.mk Encoding.VexRm_Lx 7601 460, -- #1187 Vpmovsxwd
  InstRow.mk Encoding.VexRm_Lx 7611 456, -- #1188 Vpmovsxwq
  InstRow.mk Encoding.VexMr_Lx 7621 450, -- #1189 Vpmovusdb
  InstRow.mk Encoding.VexMr_Lx 7631 451, -- #1190 Vpmovusdw
  InstRow.mk Encoding.VexMr_Lx 7641 454, -- #1191 Vpmovusqb
  InstRow.mk Encoding.VexMr_Lx 7651 451, -- #1192 Vpmovusqd
  InstRow.mk Encoding.VexMr_Lx 7661 450, -- #1193 Vpmovusqw
  InstRow.mk Encoding.VexMr_Lx 7671 455, -- #1194 Vpmovuswb
  InstRow.mk Encoding.VexRm_Lx 7681 448, -- #1195 Vpmovw2m
  InstRow.mk Encoding.VexMr_Lx 7690 455, -- #1196 Vpmovwb
  InstRow.mk Encoding.VexRm_Lx 7698 456, -- #1197 Vpmovzxbd
  InstRow.mk Encoding.VexRm_Lx 7708 457, -- #1198 Vpmovzxbq
  InstRow.mk Encoding.VexRm_Lx 7718 458 -- #1199 Vpmovzxbw
]

/-- Rows 1200-1397 of the table. -/
def instDataPart3 : List InstRow := [
  InstRow.mk Encoding.VexRm_Lx 7728 459, -- #1200 Vpmovzxdq
  InstRow.mk Encoding.VexRm_Lx 7738 460, -- #1201 Vpmovzxwd
  InstRow.mk Encoding.VexRm_Lx 7748 456, -- #1202 Vpmovzxwq
  InstRow.mk Encoding.VexRvm_Lx 7758 399, -- #1203 Vpmuldq
  InstRow.mk Encoding.VexRvm_Lx 7766 398, -- #1204 Vpmulhrsw
  InstRow.mk Encoding.VexRvm_Lx 7776 398, -- #1205 Vpmulhuw
  InstRow.mk Encoding.VexRvm_Lx 7785 398, -- #1206 Vpmulhw
  InstRow.mk Encoding.VexRvm_Lx 7793 395, -- #1207 Vpmulld
  InstRow.mk Encoding.VexRvm_Lx 7801 461, -- #1208 Vpmullq
  InstRow.mk Encoding.VexRvm_Lx 7809 398, -- #1209 Vpmullw
  InstRow.mk Encoding.VexRvm_Lx 7817 462, -- #1210 Vpmultishiftqb
  InstRow.mk Encoding.VexRvm_Lx 7832 399, -- #1211 Vpmuludq
  InstRow.mk Encoding.VexRvm_Lx 7841 250, -- #1212 Vpor
  InstRow.mk Encoding.VexRvm_Lx 7846 259, -- #1213 Vpord
  InstRow.mk Encoding.VexRvm_Lx 7852 260, -- #1214 Vporq
  InstRow.mk Encoding.VexRvrmRvmr 7858 463, -- #1215 Vpperm
  InstRow.mk Encoding.VexVmi_Lx 7865 464, -- #1216 Vprold
  InstRow.mk Encoding.VexVmi_Lx 7872 465, -- #1217 Vprolq
  InstRow.mk Encoding.VexRvm_Lx 7879 259, -- #1218 Vprolvd
  InstRow.mk Encoding.VexRvm_Lx 7887 260, -- #1219 Vprolvq
  InstRow.mk Encoding.VexVmi_Lx 7895 464, -- #1220 Vprord
  InstRow.mk Encoding.VexVmi_Lx 7902 465, -- #1221 Vprorq
  InstRow.mk Encoding.VexRvm_Lx 7909 259, -- #1222 Vprorvd
  InstRow.mk Encoding.VexRvm_Lx 7917 260, -- #1223 Vprorvq
  InstRow.mk Encoding.VexRvmRmvRmi 7925 466, -- #1224 Vprotb
  InstRow.mk Encoding.VexRvmRmvRmi 7932 467, -- #1225 Vprotd
  InstRow.mk Encoding.VexRvmRmvRmi 7939 468, -- #1226 Vprotq
  InstRow.mk Encoding.VexRvmRmvRmi 7946 469, -- #1227 Vprotw
  InstRow.mk Encoding.VexRvm_Lx 7953 470, -- #1228 Vpsadbw
  InstRow.mk Encoding.VexMr_VM 7961 471, -- #1229 Vpscatterdd
  InstRow.mk Encoding.VexMr_VM 7973 471, -- #1230 Vpscatterdq
  InstRow.mk Encoding.VexMr_VM 7985 472, -- #1231 Vpscatterqd
  InstRow.mk Encoding.VexMr_VM 7997 473, -- #1232 Vpscatterqq
  InstRow.mk Encoding.VexRvmRmv 8009 474, -- #1233 Vpshab
  InstRow.mk Encoding.VexRvmRmv 8016 474, -- #1234 Vpshad
  InstRow.mk Encoding.VexRvmRmv 8023 474, -- #1235 Vpshaq
  InstRow.mk Encoding.VexRvmRmv 8030 474, -- #1236 Vpshaw
  InstRow.mk Encoding.VexRvmRmv 8037 474, -- #1237 Vpshlb
  InstRow.mk Encoding.VexRvmRmv 8044 474, -- #1238 Vpshld
  InstRow.mk Encoding.VexRvmRmv 8051 474, -- #1239 Vpshlq
  InstRow.mk Encoding.VexRvmRmv 8058 474, -- #1240 Vpshlw
  InstRow.mk Encoding.VexRvm_Lx 8065 398, -- #1241 Vpshufb
  InstRow.mk Encoding.VexRmi_Lx 8073 475, -- #1242 Vpshufd
  InstRow.mk Encoding.VexRmi_Lx 8081 476, -- #1243 Vpshufhw
  InstRow.mk Encoding.VexRmi_Lx 8090 476, -- #1244 Vpshuflw
  InstRow.mk Encoding.VexRvm_Lx 8099 250, -- #1245 Vpsignb
  InstRow.mk Encoding.VexRvm_Lx 8107 250, -- #1246 Vpsignd
  InstRow.mk Encoding.VexRvm_Lx 8115 250, -- #1247 Vpsignw
  InstRow.mk Encoding.VexRvmVmi_Lx 8123 477, -- #1248 Vpslld
  InstRow.mk Encoding.VexEvexVmi_Lx 8130 478, -- #1249 Vpslldq
  InstRow.mk Encoding.VexRvmVmi_Lx 8138 479, -- #1250 Vpsllq
  InstRow.mk Encoding.VexRvm_Lx 8145 395, -- #1251 Vpsllvd
  InstRow.mk Encoding.VexRvm_Lx 8153 399, -- #1252 Vpsllvq
  InstRow.mk Encoding.VexRvm_Lx 8161 258, -- #1253 Vpsllvw
  InstRow.mk Encoding.VexRvmVmi_Lx 8169 480, -- #1254 Vpsllw
  InstRow.mk Encoding.VexRvmVmi_Lx 8176 481, -- #1255 Vpsrad
  InstRow.mk Encoding.VexRvmVmi_Lx 8183 482, -- #1256 Vpsraq
  InstRow.mk Encoding.VexRvm_Lx 8190 395, -- #1257 Vpsravd
  InstRow.mk Encoding.VexRvm_Lx 8198 260, -- #1258 Vpsravq
  InstRow.mk Encoding.VexRvm_Lx 8206 258, -- #1259 Vpsravw
  InstRow.mk Encoding.VexRvmVmi_Lx 8214 483, -- #1260 Vpsraw
  InstRow.mk Encoding.VexRvmVmi_Lx 8221 484, -- #1261 Vpsrld
  InstRow.mk Encoding.VexEvexVmi_Lx 8228 478, -- #1262 Vpsrldq
  InstRow.mk Encoding.VexRvmVmi_Lx 8236 485, -- #1263 Vpsrlq
  InstRow.mk Encoding.VexRvm_Lx 8243 395, -- #1264 Vpsrlvd
  InstRow.mk Encoding.VexRvm_Lx 8251 399, -- #1265 Vpsrlvq
  InstRow.mk Encoding.VexRvm_Lx 8259 258, -- #1266 Vpsrlvw
  InstRow.mk Encoding.VexRvmVmi_Lx 8267 486, -- #1267 Vpsrlw
  InstRow.mk Encoding.VexRvm_Lx 8274 398, -- #1268 Vpsubb
  InstRow.mk Encoding.VexRvm_Lx 8281 395, -- #1269 Vpsubd
  InstRow.mk Encoding.VexRvm_Lx 8288 399, -- #1270 Vpsubq
  InstRow.mk Encoding.VexRvm_Lx 8295 398, -- #1271 Vpsubsb
  InstRow.mk Encoding.VexRvm_Lx 8303 398, -- #1272 Vpsubsw
  InstRow.mk Encoding.VexRvm_Lx 8311 398, -- #1273 Vpsubusb
  InstRow.mk Encoding.VexRvm_Lx 8320 398, -- #1274 Vpsubusw
  InstRow.mk Encoding.VexRvm_Lx 8329 398, -- #1275 Vpsubw
  InstRow.mk Encoding.VexRvmi_Lx 8336 487, -- #1276 Vpternlogd
  InstRow.mk Encoding.VexRvmi_Lx 8347 488, -- #1277 Vpternlogq
  InstRow.mk Encoding.VexRm_Lx 8358 489, -- #1278 Vptest
  InstRow.mk Encoding.VexRvm_Lx 8365 490, -- #1279 Vptestmb
  InstRow.mk Encoding.VexRvm_Lx 8374 491, -- #1280 Vptestmd
  InstRow.mk Encoding.VexRvm_Lx 8383 492, -- #1281 Vptestmq
  InstRow.mk Encoding.VexRvm_Lx 8392 490, -- #1282 Vptestmw
  InstRow.mk Encoding.VexRvm_Lx 8401 490, -- #1283 Vptestnmb
  InstRow.mk Encoding.VexRvm_Lx 8411 491, -- #1284 Vptestnmd
  InstRow.mk Encoding.VexRvm_Lx 8421 492, -- #1285 Vptestnmq
  InstRow.mk Encoding.VexRvm_Lx 8431 490, -- #1286 Vptestnmw
  InstRow.mk Encoding.VexRvm_Lx 8441 398, -- #1287 Vpunpckhbw
  InstRow.mk Encoding.VexRvm_Lx 8452 395, -- #1288 Vpunpckhdq
  InstRow.mk Encoding.VexRvm_Lx 8463 399, -- #1289 Vpunpckhqdq
  InstRow.mk Encoding.VexRvm_Lx 8475 398, -- #1290 Vpunpckhwd
  InstRow.mk Encoding.VexRvm_Lx 8486 398, -- #1291 Vpunpcklbw
  InstRow.mk Encoding.VexRvm_Lx 8497 395, -- #1292 Vpunpckldq
  InstRow.mk Encoding.VexRvm_Lx 8508 399, -- #1293 Vpunpcklqdq
  InstRow.mk Encoding.VexRvm_Lx 8520 398, -- #1294 Vpunpcklwd
  InstRow.mk Encoding.VexRvm_Lx 8531 250, -- #1295 Vpxor
  InstRow.mk Encoding.VexRvm_Lx 8537 259, -- #1296 Vpxord
  InstRow.mk Encoding.VexRvm_Lx 8544 260, -- #1297 Vpxorq
  InstRow.mk Encoding.VexRvmi_Lx 8551 493, -- #1298 Vrangepd
  InstRow.mk Encoding.VexRvmi_Lx 8560 494, -- #1299 Vrangeps
  InstRow.mk Encoding.VexRvmi 8569 495, -- #1300 Vrangesd
  InstRow.mk Encoding.VexRvmi 8578 496, -- #1301 Vrangess
  InstRow.mk Encoding.VexRm_Lx 8587 497, -- #1302 Vrcp14pd
  InstRow.mk Encoding.VexRm_Lx 8596 498, -- #1303 Vrcp14ps
  InstRow.mk Encoding.VexRvm 8605 499, -- #1304 Vrcp14sd
  InstRow.mk Encoding.VexRvm 8614 500, -- #1305 Vrcp14ss
  InstRow.mk Encoding.VexRm 8623 314, -- #1306 Vrcp28pd
  InstRow.mk Encoding.VexRm 8632 315, -- #1307 Vrcp28ps
  InstRow.mk Encoding.VexRvm 8641 501, -- #1308 Vrcp28sd
  InstRow.mk Encoding.VexRvm 8650 502, -- #1309 Vrcp28ss
  InstRow.mk Encoding.VexRm_Lx 8659 338, -- #1310 Vrcpps
  InstRow.mk Encoding.VexRvm 8666 503, -- #1311 Vrcpss
  InstRow.mk Encoding.VexRmi_Lx 8673 504, -- #1312 Vreducepd
  InstRow.mk Encoding.VexRmi_Lx 8683 505, -- #1313 Vreduceps
  InstRow.mk Encoding.VexRvmi 8693 506, -- #1314 Vreducesd
  InstRow.mk Encoding.VexRvmi 8703 507, -- #1315 Vreducess
  InstRow.mk Encoding.VexRmi_Lx 8713 350, -- #1316 Vrndscalepd
  InstRow.mk Encoding.VexRmi_Lx 8725 351, -- #1317 Vrndscaleps
  InstRow.mk Encoding.VexRvmi 8737 508, -- #1318 Vrndscalesd
  InstRow.mk Encoding.VexRvmi 8749 509, -- #1319 Vrndscaless
  InstRow.mk Encoding.VexRmi_Lx 8761 510, -- #1320 Vroundpd
  InstRow.mk Encoding.VexRmi_Lx 8770 510, -- #1321 Vroundps
  InstRow.mk Encoding.VexRvmi 8779 511, -- #1322 Vroundsd
  InstRow.mk Encoding.VexRvmi 8788 512, -- #1323 Vroundss
  InstRow.mk Encoding.VexRm_Lx 8797 497, -- #1324 Vrsqrt14pd
  InstRow.mk Encoding.VexRm_Lx 8808 498, -- #1325 Vrsqrt14ps
  InstRow.mk Encoding.VexRvm 8819 499, -- #1326 Vrsqrt14sd
  InstRow.mk Encoding.VexRvm 8830 500, -- #1327 Vrsqrt14ss
  InstRow.mk Encoding.VexRm 8841 314, -- #1328 Vrsqrt28pd
  InstRow.mk Encoding.VexRm 8852 315, -- #1329 Vrsqrt28ps
  InstRow.mk Encoding.VexRvm 8863 501, -- #1330 Vrsqrt28sd
  InstRow.mk Encoding.VexRvm 8874 502, -- #1331 Vrsqrt28ss
  InstRow.mk Encoding.VexRm_Lx 8885 338, -- #1332 Vrsqrtps
  InstRow.mk Encoding.VexRvm 8894 503, -- #1333 Vrsqrtss
  InstRow.mk Encoding.VexRvm_Lx 8903 513, -- #1334 Vscalefpd
  InstRow.mk Encoding.VexRvm_Lx 8913 514, -- #1335 Vscalefps
  InstRow.mk Encoding.VexRvm 8923 515, -- #1336 Vscalefsd
  InstRow.mk Encoding.VexRvm 8933 516, -- #1337 Vscalefss
  InstRow.mk Encoding.VexMr_Lx 8943 517, -- #1338 Vscatterdpd
  InstRow.mk Encoding.VexMr_Lx 8955 471, -- #1339 Vscatterdps
  InstRow.mk Encoding.VexM_VM 8967 343, -- #1340 Vscatterpf0dpd
  InstRow.mk Encoding.VexM_VM 8982 344, -- #1341 Vscatterpf0dps
  InstRow.mk Encoding.VexM_VM 8997 345, -- #1342 Vscatterpf0qpd
  InstRow.mk Encoding.VexM_VM 9012 345, -- #1343 Vscatterpf0qps
  InstRow.mk Encoding.VexM_VM 9027 343, -- #1344 Vscatterpf1dpd
  InstRow.mk Encoding.VexM_VM 9042 344, -- #1345 Vscatterpf1dps
  InstRow.mk Encoding.VexM_VM 9057 345, -- #1346 Vscatterpf1qpd
  InstRow.mk Encoding.VexM_VM 9072 345, -- #1347 Vscatterpf1qps
  InstRow.mk Encoding.VexMr_Lx 9087 473, -- #1348 Vscatterqpd
  InstRow.mk Encoding.VexMr_Lx 9099 472, -- #1349 Vscatterqps
  InstRow.mk Encoding.VexRvmi_Lx 9111 518, -- #1350 Vshuff32x4
  InstRow.mk Encoding.VexRvmi_Lx 9122 519, -- #1351 Vshuff64x2
  InstRow.mk Encoding.VexRvmi_Lx 9133 518, -- #1352 Vshufi32x4
  InstRow.mk Encoding.VexRvmi_Lx 9144 519, -- #1353 Vshufi64x2
  InstRow.mk Encoding.VexRvmi_Lx 9155 520, -- #1354 Vshufpd
  InstRow.mk Encoding.VexRvmi_Lx 9163 521, -- #1355 Vshufps
  InstRow.mk Encoding.VexRm_Lx 9171 522, -- #1356 Vsqrtpd
  InstRow.mk Encoding.VexRm_Lx 9179 283, -- #1357 Vsqrtps
  InstRow.mk Encoding.VexRvm 9187 248, -- #1358 Vsqrtsd
  InstRow.mk Encoding.VexRvm 9195 249, -- #1359 Vsqrtss
  InstRow.mk Encoding.VexM 9203 523, -- #1360 Vstmxcsr
  InstRow.mk Encoding.VexRvm_Lx 9212 246, -- #1361 Vsubpd
  InstRow.mk Encoding.VexRvm_Lx 9219 247, -- #1362 Vsubps
  InstRow.mk Encoding.VexRvm 9226 248, -- #1363 Vsubsd
  InstRow.mk Encoding.VexRvm 9233 249, -- #1364 Vsubss
  InstRow.mk Encoding.VexRm_Lx 9240 489, -- #1365 Vtestpd
  InstRow.mk Encoding.VexRm_Lx 9248 489, -- #1366 Vtestps
  InstRow.mk Encoding.VexRm 9256 279, -- #1367 Vucomisd
  InstRow.mk Encoding.VexRm 9265 280, -- #1368 Vucomiss
  InstRow.mk Encoding.VexRvm_Lx 9274 399, -- #1369 Vunpckhpd
  InstRow.mk Encoding.VexRvm_Lx 9284 395, -- #1370 Vunpckhps
  InstRow.mk Encoding.VexRvm_Lx 9294 399, -- #1371 Vunpcklpd
  InstRow.mk Encoding.VexRvm_Lx 9304 395, -- #1372 Vunpcklps
  InstRow.mk Encoding.VexRvm_Lx 9314 256, -- #1373 Vxorpd
  InstRow.mk Encoding.VexRvm_Lx 9321 257, -- #1374 Vxorps
  InstRow.mk Encoding.VexOp 9328 524, -- #1375 Vzeroall
  InstRow.mk Encoding.VexOp 9337 524, -- #1376 Vzeroupper
  InstRow.mk Encoding.X86M 9348 525, -- #1377 Wrfsbase
  InstRow.mk Encoding.X86M 9357 525, -- #1378 Wrgsbase
  InstRow.mk Encoding.X86Xadd 9366 526, -- #1379 Xadd
  InstRow.mk Encoding.X86Xchg 353 527, -- #1380 Xchg
  InstRow.mk Encoding.X86Op 9371 528, -- #1381 Xgetbv
  InstRow.mk Encoding.X86Arith 8533 3, -- #1382 Xor
  InstRow.mk Encoding.ExtRm 9315 4, -- #1383 Xorpd
  InstRow.mk Encoding.ExtRm 9322 4, -- #1384 Xorps
  InstRow.mk Encoding.X86M_Only 1030 529, -- #1385 Xrstor
  InstRow.mk Encoding.X86M_Only 1038 530, -- #1386 Xrstor64
  InstRow.mk Encoding.X86M_Only 9378 529, -- #1387 Xrstors
  InstRow.mk Encoding.X86M_Only 9386 530, -- #1388 Xrstors64
  InstRow.mk Encoding.X86M_Only 1048 531, -- #1389 Xsave
  InstRow.mk Encoding.X86M_Only 1055 532, -- #1390 Xsave64
  InstRow.mk Encoding.X86M_Only 9396 531, -- #1391 Xsavec
  InstRow.mk Encoding.X86M_Only 9403 532, -- #1392 Xsavec64
  InstRow.mk Encoding.X86M_Only 9412 531, -- #1393 Xsaveopt
  InstRow.mk Encoding.X86M_Only 9421 532, -- #1394 Xsaveopt64
  InstRow.mk Encoding.X86M_Only 9432 531, -- #1395 Xsaves
  InstRow.mk Encoding.X86M_Only 9439 532, -- #1396 Xsaves64
  InstRow.mk Encoding.X86Op 9448 533 -- #1397 Xsetbv
]

/-- `X86InstDB::instData` (encoding, nameDataIndex, commonDataIndex per id). -/
def instData : List InstRow := instDataPart0 ++ (instDataPart1 ++ (instDataPart2 ++ (instDataPart3)))

/-- Rows 0-399 of the table. -/
def commonDataPart0 : List CommonData := [
  CommonData.mk [] 0 0, -- #0
  CommonData.mk [InstFlag.RW, InstFlag.Lock] 13 10, -- #1
  CommonData.mk [InstFlag.RW] 21 2, -- #2
  CommonData.mk [InstFlag.RW, InstFlag.Lock] 13 10, -- #3
  CommonData.mk [InstFlag.RW] 288 1, -- #4
  CommonData.mk [InstFlag.RW] 345 1, -- #5
  CommonData.mk [InstFlag.RW] 346 1, -- #6
  CommonData.mk [InstFlag.RW] 21 2, -- #7
  CommonData.mk [InstFlag.WO] 63 1, -- #8
  CommonData.mk [InstFlag.WO] 70 1, -- #9
  CommonData.mk [InstFlag.RW] 245 2, -- #10
  CommonData.mk [InstFlag.RW] 247 2, -- #11
  CommonData.mk [InstFlag.WO] 153 2, -- #12
  CommonData.mk [InstFlag.RW] 290 1, -- #13
  CommonData.mk [InstFlag.RW, InstFlag.Special] 347 1, -- #14
  CommonData.mk [InstFlag.RW] 153 2, -- #15
  CommonData.mk [InstFlag.RW] 20 3, -- #16
  CommonData.mk [InstFlag.RW] 348 1, -- #17
  CommonData.mk [InstFlag.RO] 143 3, -- #18
  CommonData.mk [InstFlag.RW, InstFlag.Lock] 146 3, -- #19
  CommonData.mk [InstFlag.RW, InstFlag.Lock] 146 3, -- #20
  CommonData.mk [InstFlag.RW, InstFlag.Lock] 146 3, -- #21
  CommonData.mk [InstFlag.RW, InstFlag.Flow, InstFlag.Volatile] 249 2, -- #22
  CommonData.mk [InstFlag.RW, InstFlag.Special] 349 1, -- #23
  CommonData.mk [InstFlag.RW, InstFlag.Special] 350 1, -- #24
  CommonData.mk [InstFlag.RW, InstFlag.Special] 351 1, -- #25
  CommonData.mk [InstFlag.Volatile] 259 1, -- #26
  CommonData.mk [InstFlag.Volatile] 259 1, -- #27
  CommonData.mk [InstFlag.Volatile] 259 1, -- #28
  CommonData.mk [InstFlag.RO, InstFlag.Volatile] 352 1, -- #29
  CommonData.mk [InstFlag.WO, InstFlag.Volatile, InstFlag.Special] 353 1, -- #30
  CommonData.mk [] 259 1, -- #31
  CommonData.mk [InstFlag.RW] 20 3, -- #32
  CommonData.mk [InstFlag.RW] 20 3, -- #33
  CommonData.mk [InstFlag.RW] 20 3, -- #34
  CommonData.mk [InstFlag.RW] 20 3, -- #35
  CommonData.mk [InstFlag.RW] 20 3, -- #36
  CommonData.mk [InstFlag.RW] 20 3, -- #37
  CommonData.mk [InstFlag.RW] 20 3, -- #38
  CommonData.mk [InstFlag.RW] 20 3, -- #39
  CommonData.mk [InstFlag.RO] 23 10, -- #40
  CommonData.mk [InstFlag.RW, InstFlag.Volatile, InstFlag.Special] 0 0, -- #41
  CommonData.mk [InstFlag.RW] 251 2, -- #42
  CommonData.mk [InstFlag.RW] 354 1, -- #43
  CommonData.mk [InstFlag.RW, InstFlag.Lock, InstFlag.Special] 107 4, -- #44
  CommonData.mk [InstFlag.RW, InstFlag.Lock, InstFlag.Special] 355 1, -- #45
  CommonData.mk [InstFlag.RW, InstFlag.Lock, InstFlag.Special] 356 1, -- #46
  CommonData.mk [InstFlag.RO] 357 1, -- #47
  CommonData.mk [InstFlag.RO] 358 1, -- #48
  CommonData.mk [InstFlag.RW, InstFlag.Volatile, InstFlag.Special] 359 1, -- #49
  CommonData.mk [InstFlag.RW, InstFlag.Special] 360 1, -- #50
  CommonData.mk [InstFlag.RW] 253 2, -- #51
  CommonData.mk [InstFlag.WO] 61 1, -- #52
  CommonData.mk [InstFlag.WO] 63 1, -- #53
  CommonData.mk [InstFlag.WO] 361 1, -- #54
  CommonData.mk [InstFlag.WO] 362 1, -- #55
  CommonData.mk [InstFlag.WO] 362 1, -- #56
  CommonData.mk [InstFlag.WO] 363 1, -- #57
  CommonData.mk [InstFlag.WO] 364 1, -- #58
  CommonData.mk [InstFlag.WO] 61 1, -- #59
  CommonData.mk [InstFlag.WO] 365 1, -- #60
  CommonData.mk [InstFlag.WO] 365 1, -- #61
  CommonData.mk [InstFlag.WO] 227 1, -- #62
  CommonData.mk [InstFlag.WO] 309 1, -- #63
  CommonData.mk [InstFlag.RW, InstFlag.Special] 366 1, -- #64
  CommonData.mk [InstFlag.RW, InstFlag.Special] 367 1, -- #65
  CommonData.mk [InstFlag.RW, InstFlag.Special] 368 1, -- #66
  CommonData.mk [InstFlag.RW, InstFlag.Lock] 255 2, -- #67
  CommonData.mk [InstFlag.RW, InstFlag.Special] 111 4, -- #68
  CommonData.mk [InstFlag.Volatile] 259 1, -- #69
  CommonData.mk [InstFlag.Volatile, InstFlag.Special] 369 1, -- #70
  CommonData.mk [InstFlag.WO] 370 1, -- #71
  CommonData.mk [InstFlag.RW] 257 2, -- #72
  CommonData.mk [InstFlag.Fp] 259 1, -- #73
  CommonData.mk [InstFlag.Fp, InstFlag.FPU_M4, InstFlag.FPU_M8] 149 3, -- #74
  CommonData.mk [InstFlag.Fp] 259 2, -- #75
  CommonData.mk [InstFlag.Fp] 371 1, -- #76
  CommonData.mk [InstFlag.Fp] 260 1, -- #77
  CommonData.mk [InstFlag.Fp] 260 1, -- #78
  CommonData.mk [InstFlag.Fp] 260 1, -- #79
  CommonData.mk [InstFlag.Fp] 260 1, -- #80
  CommonData.mk [InstFlag.Fp] 261 2, -- #81
  CommonData.mk [InstFlag.Fp] 260 1, -- #82
  CommonData.mk [InstFlag.Fp] 260 1, -- #83
  CommonData.mk [InstFlag.Fp, InstFlag.FPU_M2, InstFlag.FPU_M4] 372 1, -- #84
  CommonData.mk [InstFlag.Fp, InstFlag.FPU_M2, InstFlag.FPU_M4, InstFlag.FPU_M8] 373 1, -- #85
  CommonData.mk [InstFlag.Fp, InstFlag.FPU_M2, InstFlag.FPU_M4, InstFlag.FPU_M8] 373 1, -- #86
  CommonData.mk [InstFlag.Fp, InstFlag.FPU_M2, InstFlag.FPU_M4, InstFlag.FPU_M8] 373 1, -- #87
  CommonData.mk [InstFlag.Fp, InstFlag.FPU_M2, InstFlag.FPU_M4, InstFlag.FPU_M8] 374 1, -- #88
  CommonData.mk [InstFlag.Fp] 375 1, -- #89
  CommonData.mk [InstFlag.Fp] 376 1, -- #90
  CommonData.mk [InstFlag.Fp] 377 1, -- #91
  CommonData.mk [InstFlag.Fp, InstFlag.FPU_M4, InstFlag.FPU_M8] 262 1, -- #92
  CommonData.mk [InstFlag.Fp, InstFlag.FPU_M4, InstFlag.FPU_M8, InstFlag.FPU_M10] 374 1, -- #93
  CommonData.mk [InstFlag.Fp] 377 1, -- #94
  CommonData.mk [InstFlag.Fp, InstFlag.Volatile] 259 1, -- #95
  CommonData.mk [InstFlag.Fp] 378 1, -- #96
  CommonData.mk [InstFlag.RW, InstFlag.Special] 115 4, -- #97
  CommonData.mk [InstFlag.RW, InstFlag.Special] 33 10, -- #98
  CommonData.mk [InstFlag.RW, InstFlag.Lock] 255 2, -- #99
  CommonData.mk [InstFlag.RW] 263 2, -- #100
  CommonData.mk [InstFlag.Volatile] 379 1, -- #101
  CommonData.mk [InstFlag.Volatile] 259 1, -- #102
  CommonData.mk [InstFlag.Flow, InstFlag.Volatile] 380 1, -- #103
  CommonData.mk [InstFlag.Flow, InstFlag.Volatile] 380 1, -- #104
  CommonData.mk [InstFlag.Flow, InstFlag.Volatile] 381 1, -- #105
  CommonData.mk [InstFlag.Flow, InstFlag.Volatile] 380 1, -- #106
  CommonData.mk [InstFlag.Flow, InstFlag.Volatile] 380 1, -- #107
  CommonData.mk [InstFlag.Flow, InstFlag.Volatile] 380 1, -- #108
  CommonData.mk [InstFlag.Flow, InstFlag.Volatile] 380 1, -- #109
  CommonData.mk [InstFlag.Flow, InstFlag.Volatile] 380 1, -- #110
  CommonData.mk [InstFlag.Flow, InstFlag.Volatile] 380 1, -- #111
  CommonData.mk [InstFlag.Flow, InstFlag.Volatile, InstFlag.Special] 265 2, -- #112
  CommonData.mk [InstFlag.Flow, InstFlag.Volatile] 267 2, -- #113
  CommonData.mk [InstFlag.WO, InstFlag.Vex] 382 1, -- #114
  CommonData.mk [InstFlag.WO, InstFlag.Vex] 269 2, -- #115
  CommonData.mk [InstFlag.WO, InstFlag.Vex] 271 2, -- #116
  CommonData.mk [InstFlag.WO, InstFlag.Vex] 273 2, -- #117
  CommonData.mk [InstFlag.WO, InstFlag.Vex] 275 2, -- #118
  CommonData.mk [InstFlag.WO, InstFlag.Vex] 383 1, -- #119
  CommonData.mk [InstFlag.RO, InstFlag.Vex] 384 1, -- #120
  CommonData.mk [InstFlag.WO, InstFlag.Vex] 385 1, -- #121
  CommonData.mk [InstFlag.RW, InstFlag.Volatile, InstFlag.Special] 386 1, -- #122
  CommonData.mk [InstFlag.WO] 200 1, -- #123
  CommonData.mk [InstFlag.RO, InstFlag.Volatile] 387 1, -- #124
  CommonData.mk [InstFlag.WO] 388 1, -- #125
  CommonData.mk [InstFlag.Volatile, InstFlag.Special] 259 1, -- #126
  CommonData.mk [InstFlag.WO, InstFlag.Special] 0 0, -- #127
  CommonData.mk [InstFlag.WO, InstFlag.Special] 0 0, -- #128
  CommonData.mk [InstFlag.WO, InstFlag.Special] 0 0, -- #129
  CommonData.mk [InstFlag.WO, InstFlag.Special] 0 0, -- #130
  CommonData.mk [InstFlag.RW] 152 3, -- #131
  CommonData.mk [InstFlag.RO, InstFlag.Special] 389 1, -- #132
  CommonData.mk [InstFlag.RO, InstFlag.Special] 390 1, -- #133
  CommonData.mk [InstFlag.RW, InstFlag.Volatile] 259 1, -- #134
  CommonData.mk [InstFlag.RO, InstFlag.Volatile, InstFlag.Special] 0 0, -- #135
  CommonData.mk [InstFlag.WO] 0 13, -- #136
  CommonData.mk [InstFlag.WO] 63 2, -- #137
  CommonData.mk [InstFlag.WO] 63 2, -- #138
  CommonData.mk [InstFlag.WO] 51 6, -- #139
  CommonData.mk [InstFlag.WO] 277 2, -- #140
  CommonData.mk [InstFlag.WO] 391 1, -- #141
  CommonData.mk [InstFlag.WO] 63 2, -- #142
  CommonData.mk [InstFlag.WO] 63 2, -- #143
  CommonData.mk [InstFlag.WO] 392 1, -- #144
  CommonData.mk [InstFlag.RW] 206 2, -- #145
  CommonData.mk [InstFlag.RW] 206 2, -- #146
  CommonData.mk [InstFlag.RW] 392 1, -- #147
  CommonData.mk [InstFlag.WO] 206 2, -- #148
  CommonData.mk [InstFlag.WO] 206 2, -- #149
  CommonData.mk [InstFlag.WO] 393 1, -- #150
  CommonData.mk [InstFlag.WO] 197 1, -- #151
  CommonData.mk [InstFlag.WO] 55 2, -- #152
  CommonData.mk [InstFlag.WO] 197 1, -- #153
  CommonData.mk [InstFlag.WO] 197 1, -- #154
  CommonData.mk [InstFlag.WO] 394 1, -- #155
  CommonData.mk [InstFlag.WO] 157 1, -- #156
  CommonData.mk [InstFlag.WO] 280 1, -- #157
  CommonData.mk [InstFlag.WO] 57 6, -- #158
  CommonData.mk [InstFlag.WO] 395 1, -- #159
  CommonData.mk [InstFlag.WO, InstFlag.Special] 0 0, -- #160
  CommonData.mk [InstFlag.WO, InstFlag.ZeroIfMem] 155 3, -- #161
  CommonData.mk [InstFlag.WO, InstFlag.ZeroIfMem] 279 2, -- #162
  CommonData.mk [InstFlag.WO] 281 2, -- #163
  CommonData.mk [InstFlag.WO] 396 1, -- #164
  CommonData.mk [InstFlag.WO] 63 2, -- #165
  CommonData.mk [InstFlag.WO] 63 2, -- #166
  CommonData.mk [InstFlag.RW, InstFlag.Special] 33 4, -- #167
  CommonData.mk [InstFlag.RW, InstFlag.Special] 283 2, -- #168
  CommonData.mk [InstFlag.RW, InstFlag.Lock] 256 1, -- #169
  CommonData.mk [] 285 2, -- #170
  CommonData.mk [InstFlag.RW, InstFlag.Lock] 256 1, -- #171
  CommonData.mk [InstFlag.RW] 287 2, -- #172
  CommonData.mk [InstFlag.RW] 289 2, -- #173
  CommonData.mk [InstFlag.RW] 259 1, -- #174
  CommonData.mk [InstFlag.RW] 287 1, -- #175
  CommonData.mk [InstFlag.WO, InstFlag.Special] 397 1, -- #176
  CommonData.mk [InstFlag.WO, InstFlag.Special] 398 1, -- #177
  CommonData.mk [InstFlag.WO, InstFlag.Special] 399 1, -- #178
  CommonData.mk [InstFlag.WO, InstFlag.Special] 400 1, -- #179
  CommonData.mk [InstFlag.WO] 245 2, -- #180
  CommonData.mk [InstFlag.WO] 401 1, -- #181
  CommonData.mk [InstFlag.WO] 402 1, -- #182
  CommonData.mk [InstFlag.WO] 291 2, -- #183
  CommonData.mk [InstFlag.WO] 295 1, -- #184
  CommonData.mk [InstFlag.WO] 295 1, -- #185
  CommonData.mk [InstFlag.RW] 403 1, -- #186
  CommonData.mk [InstFlag.RW] 404 1, -- #187
  CommonData.mk [InstFlag.RW] 405 1, -- #188
  CommonData.mk [InstFlag.RW] 406 1, -- #189
  CommonData.mk [InstFlag.WO] 407 1, -- #190
  CommonData.mk [InstFlag.WO] 227 1, -- #191
  CommonData.mk [InstFlag.WO] 230 1, -- #192
  CommonData.mk [InstFlag.WO, InstFlag.Volatile, InstFlag.Special] 293 2, -- #193
  CommonData.mk [InstFlag.Volatile, InstFlag.Special] 408 1, -- #194
  CommonData.mk [InstFlag.WO] 152 3, -- #195
  CommonData.mk [InstFlag.Volatile, InstFlag.Special] 259 1, -- #196
  CommonData.mk [InstFlag.RO, InstFlag.Volatile] 0 0, -- #197
  CommonData.mk [InstFlag.RO, InstFlag.Volatile] 352 1, -- #198
  CommonData.mk [InstFlag.RW] 295 2, -- #199
  CommonData.mk [InstFlag.WO] 70 1, -- #200
  CommonData.mk [InstFlag.WO] 409 1, -- #201
  CommonData.mk [InstFlag.RW] 297 2, -- #202
  CommonData.mk [InstFlag.RW] 410 1, -- #203
  CommonData.mk [InstFlag.RW] 297 2, -- #204
  CommonData.mk [InstFlag.RW] 297 2, -- #205
  CommonData.mk [InstFlag.RW] 297 2, -- #206
  CommonData.mk [InstFlag.RW] 297 2, -- #207
  CommonData.mk [InstFlag.RW] 297 2, -- #208
  CommonData.mk [InstFlag.RW] 410 1, -- #209
  CommonData.mk [InstFlag.RW] 297 2, -- #210
  CommonData.mk [InstFlag.RW] 297 2, -- #211
  CommonData.mk [InstFlag.RO] 341 1, -- #212
  CommonData.mk [InstFlag.RO, InstFlag.Volatile, InstFlag.Special] 299 2, -- #213
  CommonData.mk [InstFlag.Volatile, InstFlag.Special] 259 1, -- #214
  CommonData.mk [InstFlag.RW, InstFlag.Special] 411 1, -- #215
  CommonData.mk [InstFlag.WO] 227 1, -- #216
  CommonData.mk [InstFlag.WO] 412 1, -- #217
  CommonData.mk [InstFlag.WO] 413 1, -- #218
  CommonData.mk [InstFlag.WO, InstFlag.Volatile, InstFlag.Special] 414 1, -- #219
  CommonData.mk [InstFlag.WO, InstFlag.Volatile, InstFlag.Special] 415 1, -- #220
  CommonData.mk [InstFlag.RW, InstFlag.Volatile, InstFlag.Special] 0 0, -- #221
  CommonData.mk [InstFlag.RW, InstFlag.Volatile, InstFlag.Special] 301 2, -- #222
  CommonData.mk [InstFlag.RW, InstFlag.Special] 411 1, -- #223
  CommonData.mk [InstFlag.WO] 303 2, -- #224
  CommonData.mk [InstFlag.WO] 416 1, -- #225
  CommonData.mk [InstFlag.WO] 417 1, -- #226
  CommonData.mk [InstFlag.RO, InstFlag.Volatile, InstFlag.Special] 418 1, -- #227
  CommonData.mk [InstFlag.RW, InstFlag.Special] 411 1, -- #228
  CommonData.mk [InstFlag.WO] 247 2, -- #229
  CommonData.mk [InstFlag.WO] 419 1, -- #230
  CommonData.mk [InstFlag.WO] 419 1, -- #231
  CommonData.mk [InstFlag.WO] 419 1, -- #232
  CommonData.mk [InstFlag.WO] 419 1, -- #233
  CommonData.mk [InstFlag.WO] 419 1, -- #234
  CommonData.mk [InstFlag.WO] 419 1, -- #235
  CommonData.mk [InstFlag.WO] 419 1, -- #236
  CommonData.mk [InstFlag.WO] 419 1, -- #237
  CommonData.mk [InstFlag.RW, InstFlag.Special] 158 3, -- #238
  CommonData.mk [InstFlag.WO] 61 1, -- #239
  CommonData.mk [] 259 1, -- #240
  CommonData.mk [] 259 1, -- #241
  CommonData.mk [] 259 1, -- #242
  CommonData.mk [InstFlag.Volatile] 420 1, -- #243
  CommonData.mk [InstFlag.RO] 87 5, -- #244
  CommonData.mk [] 259 1, -- #245
  CommonData.mk [InstFlag.WO, InstFlag.Vex, InstFlag.Evex, InstFlag.EvexSet_F_, InstFlag.EvexVL, InstFlag.EvexKZ, InstFlag.EvexK_, InstFlag.EvexER, InstFlag.EvexB8] 161 3, -- #246
  CommonData.mk [InstFlag.WO, InstFlag.Vex, InstFlag.Evex, InstFlag.EvexSet_F_, InstFlag.EvexVL, InstFlag.EvexKZ, InstFlag.EvexK_, InstFlag.EvexER, InstFlag.EvexB4] 161 3, -- #247
  CommonData.mk [InstFlag.WO, InstFlag.Vex, InstFlag.Evex, InstFlag.EvexSet_F_, InstFlag.EvexKZ, InstFlag.EvexK_, InstFlag.EvexER] 421 1, -- #248
  CommonData.mk [InstFlag.WO, InstFlag.Vex, InstFlag.Evex, InstFlag.EvexSet_F_, InstFlag.EvexKZ, InstFlag.EvexK_, InstFlag.EvexER] 422 1, -- #249
  CommonData.mk [InstFlag.WO, InstFlag.Vex] 161 2, -- #250
  CommonData.mk [InstFlag.WO, InstFlag.Vex] 69 1, -- #251
  CommonData.mk [InstFlag.WO, InstFlag.Vex] 63 1, -- #252
  CommonData.mk [InstFlag.WO, InstFlag.Vex] 70 1, -- #253
  CommonData.mk [InstFlag.WO, InstFlag.Evex, InstFlag.EvexSet_F_, InstFlag.EvexVL, InstFlag.EvexKZ, InstFlag.EvexK_, InstFlag.EvexB4] 164 3, -- #254
  CommonData.mk [InstFlag.WO, InstFlag.Evex, InstFlag.EvexSet_F_, InstFlag.EvexVL, InstFlag.EvexKZ, InstFlag.EvexK_, InstFlag.EvexB8] 164 3, -- #255
  CommonData.mk [InstFlag.WO, InstFlag.Vex, InstFlag.Evex, InstFlag.EvexSet_DQ, InstFlag.EvexVL, InstFlag.EvexKZ, InstFlag.EvexK_, InstFlag.EvexB8] 161 3, -- #256
  CommonData.mk [InstFlag.WO, InstFlag.Vex, InstFlag.Evex, InstFlag.EvexSet_DQ, InstFlag.EvexVL, InstFlag.EvexKZ, InstFlag.EvexK_, InstFlag.EvexB4] 161 3, -- #257
  CommonData.mk [InstFlag.WO, InstFlag.Evex, InstFlag.EvexSet_BW, InstFlag.EvexVL, InstFlag.EvexKZ, InstFlag.EvexK_] 161 3, -- #258
  CommonData.mk [InstFlag.WO, InstFlag.Evex, InstFlag.EvexSet_F_, InstFlag.EvexVL, InstFlag.EvexKZ, InstFlag.EvexK_, InstFlag.EvexB4] 161 3, -- #259
  CommonData.mk [InstFlag.WO, InstFlag.Evex, InstFlag.EvexSet_F_, InstFlag.EvexVL, InstFlag.EvexKZ, InstFlag.EvexK_, InstFlag.EvexB8] 161 3, -- #260
  CommonData.mk [InstFlag.WO, InstFlag.Vex] 164 2, -- #261
  CommonData.mk [InstFlag.WO, InstFlag.Vex] 305 2, -- #262
  CommonData.mk [InstFlag.WO, InstFlag.Vex] 423 1, -- #263
  CommonData.mk [InstFlag.WO, InstFlag.Evex, InstFlag.EvexSet_DQ, InstFlag.EvexVL, InstFlag.EvexKZ, InstFlag.EvexK_] 424 1, -- #264
  CommonData.mk [InstFlag.WO, InstFlag.Evex, InstFlag.EvexSet_F_, InstFlag.EvexKZ, InstFlag.EvexK_] 425 1, -- #265
  CommonData.mk [InstFlag.WO, InstFlag.Evex, InstFlag.EvexSet_DQ, InstFlag.EvexKZ, InstFlag.EvexK_] 426 1, -- #266
  CommonData.mk [InstFlag.WO, InstFlag.Evex, InstFlag.EvexSet_DQ, InstFlag.EvexVL, InstFlag.EvexKZ, InstFlag.EvexK_] 425 1, -- #267
  CommonData.mk [InstFlag.WO, InstFlag.Evex, InstFlag.EvexSet_F_, InstFlag.EvexKZ, InstFlag.EvexK_] 426 1, -- #268
  CommonData.mk [InstFlag.WO, InstFlag.Evex, InstFlag.EvexSet_DQ, InstFlag.EvexVL, InstFlag.EvexKZ, InstFlag.EvexK_] 427 1, -- #269
  CommonData.mk [InstFlag.WO, InstFlag.Evex, InstFlag.EvexSet_F_, InstFlag.EvexVL, InstFlag.EvexKZ, InstFlag.EvexK_] 424 1, -- #270
  CommonData.mk [InstFlag.WO, InstFlag.Evex, InstFlag.EvexSet_DQ, InstFlag.EvexKZ, InstFlag.EvexK_] 232 1, -- #271
  CommonData.mk [InstFlag.WO, InstFlag.Evex, InstFlag.EvexSet_F_, InstFlag.EvexKZ, InstFlag.EvexK_] 232 1, -- #272
  CommonData.mk [InstFlag.WO, InstFlag.Vex, InstFlag.Evex, InstFlag.EvexSet_F_, InstFlag.EvexVL, InstFlag.EvexKZ, InstFlag.EvexK_] 424 1, -- #273
  CommonData.mk [InstFlag.WO, InstFlag.Vex, InstFlag.Evex, InstFlag.EvexSet_F_, InstFlag.EvexVL, InstFlag.EvexKZ, InstFlag.EvexK_] 325 1, -- #274
  CommonData.mk [InstFlag.WO, InstFlag.Vex, InstFlag.Evex, InstFlag.EvexSet_F_, InstFlag.EvexVL, InstFlag.EvexKZ, InstFlag.EvexK_, InstFlag.EvexSAE, InstFlag.EvexB8] 167 3, -- #275
  CommonData.mk [InstFlag.WO, InstFlag.Vex, InstFlag.Evex, InstFlag.EvexSet_F_, InstFlag.EvexVL, InstFlag.EvexKZ, InstFlag.EvexK_, InstFlag.EvexSAE, InstFlag.EvexB4] 167 3, -- #276
  CommonData.mk [InstFlag.WO, InstFlag.Vex, InstFlag.Evex, InstFlag.EvexSet_F_, InstFlag.EvexKZ, InstFlag.EvexK_, InstFlag.EvexSAE] 428 1, -- #277
  CommonData.mk [InstFlag.WO, InstFlag.Vex, InstFlag.Evex, InstFlag.EvexSet_F_, InstFlag.EvexKZ, InstFlag.EvexK_, InstFlag.EvexSAE] 429 1, -- #278
  CommonData.mk [InstFlag.RO, InstFlag.Vex, InstFlag.Evex, InstFlag.EvexSet_F_, InstFlag.EvexSAE] 357 1, -- #279
  CommonData.mk [InstFlag.RO, InstFlag.Vex, InstFlag.Evex, InstFlag.EvexSet_F_, InstFlag.EvexSAE] 358 1, -- #280
  CommonData.mk [InstFlag.WO, InstFlag.Evex, InstFlag.EvexSet_F_, InstFlag.EvexVL, InstFlag.EvexKZ, InstFlag.EvexK_] 170 3, -- #281
  CommonData.mk [InstFlag.WO, InstFlag.Vex, InstFlag.Evex, InstFlag.EvexSet_F_, InstFlag.EvexVL, InstFlag.EvexKZ, InstFlag.EvexK_, InstFlag.EvexB4] 173 3, -- #282
  CommonData.mk [InstFlag.WO, InstFlag.Vex, InstFlag.Evex, InstFlag.EvexSet_F_, InstFlag.EvexVL, InstFlag.EvexKZ, InstFlag.EvexK_, InstFlag.EvexER, InstFlag.EvexB4] 176 3, -- #283
  CommonData.mk [InstFlag.WO, InstFlag.Vex, InstFlag.Evex, InstFlag.EvexSet_F_, InstFlag.EvexVL, InstFlag.EvexKZ, InstFlag.EvexK_, InstFlag.EvexER, InstFlag.EvexB8] 307 2, -- #284
  CommonData.mk [InstFlag.WO, InstFlag.Vex, InstFlag.Evex, InstFlag.EvexSet_F_, InstFlag.EvexVL, InstFlag.EvexKZ, InstFlag.EvexK_, InstFlag.EvexER, InstFlag.EvexB8] 179 3, -- #285
  CommonData.mk [InstFlag.WO, InstFlag.Evex, InstFlag.EvexSet_DQ, InstFlag.EvexVL, InstFlag.EvexKZ, InstFlag.EvexK_, InstFlag.EvexER, InstFlag.EvexB8] 176 3, -- #286
  CommonData.mk [InstFlag.WO, InstFlag.Evex, InstFlag.EvexSet_F_, InstFlag.EvexVL, InstFlag.EvexKZ, InstFlag.EvexK_, InstFlag.EvexER, InstFlag.EvexB8] 307 2, -- #287
  CommonData.mk [InstFlag.WO, InstFlag.Vex, InstFlag.Evex, InstFlag.EvexSet_F_, InstFlag.EvexVL, InstFlag.EvexKZ, InstFlag.EvexK_, InstFlag.EvexSAE] 173 3, -- #288
  CommonData.mk [InstFlag.WO, InstFlag.Vex, InstFlag.Evex, InstFlag.EvexSet_F_, InstFlag.EvexVL, InstFlag.EvexKZ, InstFlag.EvexK_, InstFlag.EvexER, InstFlag.EvexB4] 173 3, -- #289
  CommonData.mk [InstFlag.WO, InstFlag.Vex, InstFlag.Evex, InstFlag.EvexSet_F_, InstFlag.EvexVL, InstFlag.EvexKZ, InstFlag.EvexK_, InstFlag.EvexSAE] 182 3, -- #290
  CommonData.mk [InstFlag.WO, InstFlag.Evex, InstFlag.EvexSet_DQ, InstFlag.EvexVL, InstFlag.EvexKZ, InstFlag.EvexK_, InstFlag.EvexER, InstFlag.EvexB4] 173 3, -- #291
  CommonData.mk [InstFlag.WO, InstFlag.Evex, InstFlag.EvexSet_F_, InstFlag.EvexVL, InstFlag.EvexKZ, InstFlag.EvexK_, InstFlag.EvexER, InstFlag.EvexB4] 176 3, -- #292
  CommonData.mk [InstFlag.WO, InstFlag.Evex, InstFlag.EvexSet_DQ, InstFlag.EvexVL, InstFlag.EvexKZ, InstFlag.EvexK_, InstFlag.EvexER, InstFlag.EvexB8] 307 2, -- #293
  CommonData.mk [InstFlag.WO, InstFlag.Vex, InstFlag.Evex, InstFlag.EvexSet_F_, InstFlag.EvexER] 364 1, -- #294
  CommonData.mk [InstFlag.WO, InstFlag.Evex, InstFlag.EvexSet_F_, InstFlag.EvexER] 364 1, -- #295
  CommonData.mk [InstFlag.WO, InstFlag.Vex, InstFlag.Evex, InstFlag.EvexSet_F_, InstFlag.EvexER] 430 1, -- #296
  CommonData.mk [InstFlag.WO, InstFlag.Vex, InstFlag.Evex, InstFlag.EvexSet_F_, InstFlag.EvexKZ, InstFlag.EvexK_, InstFlag.EvexSAE] 422 1, -- #297
  CommonData.mk [InstFlag.WO, InstFlag.Vex, InstFlag.Evex, InstFlag.EvexSet_F_, InstFlag.EvexER] 309 2, -- #298
  CommonData.mk [InstFlag.WO, InstFlag.Evex, InstFlag.EvexSet_F_, InstFlag.EvexER] 311 2, -- #299
  CommonData.mk [InstFlag.WO, InstFlag.Vex, InstFlag.Evex, InstFlag.EvexSet_F_, InstFlag.EvexVL, InstFlag.EvexKZ, InstFlag.EvexK_, InstFlag.EvexSAE, InstFlag.EvexB8] 307 2, -- #300
  CommonData.mk [InstFlag.WO, InstFlag.Evex, InstFlag.EvexSet_F_, InstFlag.EvexVL, InstFlag.EvexKZ, InstFlag.EvexK_, InstFlag.EvexSAE, InstFlag.EvexB8] 176 3, -- #301
  CommonData.mk [InstFlag.WO, InstFlag.Evex, InstFlag.EvexSet_F_, InstFlag.EvexVL, InstFlag.EvexKZ, InstFlag.EvexK_, InstFlag.EvexSAE, InstFlag.EvexB8] 307 2, -- #302
  CommonData.mk [InstFlag.WO, InstFlag.Evex, InstFlag.EvexSet_DQ, InstFlag.EvexVL, InstFlag.EvexKZ, InstFlag.EvexK_, InstFlag.EvexSAE, InstFlag.EvexB8] 176 3, -- #303
  CommonData.mk [InstFlag.WO, InstFlag.Vex, InstFlag.Evex, InstFlag.EvexSet_F_, InstFlag.EvexVL, InstFlag.EvexKZ, InstFlag.EvexK_, InstFlag.EvexSAE, InstFlag.EvexB4] 176 3, -- #304
  CommonData.mk [InstFlag.WO, InstFlag.Evex, InstFlag.EvexSet_DQ, InstFlag.EvexVL, InstFlag.EvexKZ, InstFlag.EvexK_, InstFlag.EvexSAE, InstFlag.EvexB4] 173 3, -- #305
  CommonData.mk [InstFlag.WO, InstFlag.Evex, InstFlag.EvexSet_F_, InstFlag.EvexVL, InstFlag.EvexKZ, InstFlag.EvexK_, InstFlag.EvexSAE, InstFlag.EvexB4] 176 3, -- #306
  CommonData.mk [InstFlag.WO, InstFlag.Vex, InstFlag.Evex, InstFlag.EvexSet_F_, InstFlag.EvexSAE] 364 1, -- #307
  CommonData.mk [InstFlag.WO, InstFlag.Evex, InstFlag.EvexSet_F_, InstFlag.EvexSAE] 364 1, -- #308
  CommonData.mk [InstFlag.WO, InstFlag.Vex, InstFlag.Evex, InstFlag.EvexSet_F_, InstFlag.EvexSAE] 309 2, -- #309
  CommonData.mk [InstFlag.WO, InstFlag.Evex, InstFlag.EvexSet_F_, InstFlag.EvexSAE] 311 2, -- #310
  CommonData.mk [InstFlag.WO, InstFlag.Evex, InstFlag.EvexSet_F_, InstFlag.EvexVL, InstFlag.EvexKZ, InstFlag.EvexK_, InstFlag.EvexB4] 173 3, -- #311
  CommonData.mk [InstFlag.WO, InstFlag.Evex, InstFlag.EvexSet_F_, InstFlag.EvexER] 430 1, -- #312
  CommonData.mk [InstFlag.WO, InstFlag.Evex, InstFlag.EvexSet_BW, InstFlag.EvexVL, InstFlag.EvexKZ, InstFlag.EvexK_] 164 3, -- #313
  CommonData.mk [InstFlag.WO, InstFlag.Evex, InstFlag.EvexSet_ERI, InstFlag.EvexKZ, InstFlag.EvexK_, InstFlag.EvexSAE, InstFlag.EvexB8] 67 1, -- #314
  CommonData.mk [InstFlag.WO, InstFlag.Evex, InstFlag.EvexSet_ERI, InstFlag.EvexKZ, InstFlag.EvexK_, InstFlag.EvexSAE, InstFlag.EvexB4] 67 1, -- #315
  CommonData.mk [InstFlag.WO, InstFlag.Evex, InstFlag.EvexSet_F_, InstFlag.EvexVL, InstFlag.EvexKZ, InstFlag.EvexK_] 176 3, -- #316
  CommonData.mk [InstFlag.WO, InstFlag.Vex] 183 1, -- #317
  CommonData.mk [InstFlag.WO, InstFlag.Evex, InstFlag.EvexSet_F_, InstFlag.EvexVL, InstFlag.EvexKZ, InstFlag.EvexK_] 431 1, -- #318
  CommonData.mk [InstFlag.WO, InstFlag.Evex, InstFlag.EvexSet_DQ, InstFlag.EvexKZ, InstFlag.EvexK_] 184 1, -- #319
  CommonData.mk [InstFlag.WO, InstFlag.Evex, InstFlag.EvexSet_DQ, InstFlag.EvexVL, InstFlag.EvexKZ, InstFlag.EvexK_] 431 1, -- #320
  CommonData.mk [InstFlag.WO, InstFlag.Evex, InstFlag.EvexSet_F_, InstFlag.EvexKZ, InstFlag.EvexK_] 184 1, -- #321
  CommonData.mk [InstFlag.WO, InstFlag.Vex, InstFlag.Evex, InstFlag.EvexSet_F_] 370 1, -- #322
  CommonData.mk [InstFlag.RW, InstFlag.Evex, InstFlag.EvexSet_F_, InstFlag.EvexVL, InstFlag.EvexKZ, InstFlag.EvexK_, InstFlag.EvexSAE, InstFlag.EvexB8] 185 3, -- #323
  CommonData.mk [InstFlag.RW, InstFlag.Evex, InstFlag.EvexSet_F_, InstFlag.EvexVL, InstFlag.EvexKZ, InstFlag.EvexK_, InstFlag.EvexSAE, InstFlag.EvexB4] 185 3, -- #324
  CommonData.mk [InstFlag.RW, InstFlag.Evex, InstFlag.EvexSet_F_, InstFlag.EvexKZ, InstFlag.EvexK_, InstFlag.EvexSAE] 432 1, -- #325
  CommonData.mk [InstFlag.RW, InstFlag.Evex, InstFlag.EvexSet_F_, InstFlag.EvexKZ, InstFlag.EvexK_, InstFlag.EvexSAE] 433 1, -- #326
  CommonData.mk [InstFlag.RW, InstFlag.Vex, InstFlag.Evex, InstFlag.EvexSet_F_, InstFlag.EvexVL, InstFlag.EvexKZ, InstFlag.EvexK_, InstFlag.EvexER, InstFlag.EvexB8] 188 3, -- #327
  CommonData.mk [InstFlag.RW, InstFlag.Vex, InstFlag.Evex, InstFlag.EvexSet_F_, InstFlag.EvexVL, InstFlag.EvexKZ, InstFlag.EvexK_, InstFlag.EvexER, InstFlag.EvexB4] 188 3, -- #328
  CommonData.mk [InstFlag.RW, InstFlag.Vex, InstFlag.Evex, InstFlag.EvexSet_F_, InstFlag.EvexKZ, InstFlag.EvexK_, InstFlag.EvexER] 434 1, -- #329
  CommonData.mk [InstFlag.RW, InstFlag.Vex, InstFlag.Evex, InstFlag.EvexSet_F_, InstFlag.EvexKZ, InstFlag.EvexK_, InstFlag.EvexER] 435 1, -- #330
  CommonData.mk [InstFlag.WO, InstFlag.Vex] 119 4, -- #331
  CommonData.mk [InstFlag.WO, InstFlag.Vex] 313 2, -- #332
  CommonData.mk [InstFlag.WO, InstFlag.Vex] 315 2, -- #333
  CommonData.mk [InstFlag.WO, InstFlag.Evex, InstFlag.EvexSet_DQ, InstFlag.EvexVL, InstFlag.EvexK_, InstFlag.EvexB8] 436 1, -- #334
  CommonData.mk [InstFlag.WO, InstFlag.Evex, InstFlag.EvexSet_DQ, InstFlag.EvexVL, InstFlag.EvexK_, InstFlag.EvexB4] 436 1, -- #335
  CommonData.mk [InstFlag.WO, InstFlag.Evex, InstFlag.EvexSet_DQ, InstFlag.EvexK_] 437 1, -- #336
  CommonData.mk [InstFlag.WO, InstFlag.Evex, InstFlag.EvexSet_DQ, InstFlag.EvexK_] 438 1, -- #337
  CommonData.mk [InstFlag.WO, InstFlag.Vex] 176 2, -- #338
  CommonData.mk [InstFlag.WO, InstFlag.Vex] 61 1, -- #339
  CommonData.mk [InstFlag.WO, InstFlag.Vex] 227 1, -- #340
  CommonData.mk [InstFlag.RW, InstFlag.Vex_VM, InstFlag.Evex, InstFlag.EvexSet_F_, InstFlag.EvexVL, InstFlag.EvexK_] 92 5, -- #341
  CommonData.mk [InstFlag.RW, InstFlag.Vex_VM, InstFlag.Evex, InstFlag.EvexSet_F_, InstFlag.EvexVL, InstFlag.EvexK_] 97 5, -- #342
  CommonData.mk [InstFlag.RO, InstFlag.VM, InstFlag.Evex, InstFlag.EvexSet_PFI, InstFlag.EvexK_] 439 1, -- #343
  CommonData.mk [InstFlag.RO, InstFlag.VM, InstFlag.Evex, InstFlag.EvexSet_PFI, InstFlag.EvexK_] 440 1, -- #344
  CommonData.mk [InstFlag.RO, InstFlag.VM, InstFlag.Evex, InstFlag.EvexSet_PFI, InstFlag.EvexK_] 441 1, -- #345
  CommonData.mk [InstFlag.RW, InstFlag.Vex_VM, InstFlag.Evex, InstFlag.EvexSet_F_, InstFlag.EvexVL, InstFlag.EvexK_] 102 5, -- #346
  CommonData.mk [InstFlag.RW, InstFlag.Vex_VM, InstFlag.Evex, InstFlag.EvexSet_F_, InstFlag.EvexVL, InstFlag.EvexK_] 123 4, -- #347
  CommonData.mk [InstFlag.WO, InstFlag.Evex, InstFlag.EvexSet_F_, InstFlag.EvexKZ, InstFlag.EvexK_, InstFlag.EvexSAE] 61 1, -- #348
  CommonData.mk [InstFlag.WO, InstFlag.Evex, InstFlag.EvexSet_F_, InstFlag.EvexKZ, InstFlag.EvexK_, InstFlag.EvexSAE] 227 1, -- #349
  CommonData.mk [InstFlag.WO, InstFlag.Evex, InstFlag.EvexSet_F_, InstFlag.EvexVL, InstFlag.EvexKZ, InstFlag.EvexK_, InstFlag.EvexSAE, InstFlag.EvexB8] 191 3, -- #350
  CommonData.mk [InstFlag.WO, InstFlag.Evex, InstFlag.EvexSet_F_, InstFlag.EvexVL, InstFlag.EvexKZ, InstFlag.EvexK_, InstFlag.EvexSAE, InstFlag.EvexB4] 191 3, -- #351
  CommonData.mk [InstFlag.WO, InstFlag.Evex, InstFlag.EvexSet_F_, InstFlag.EvexKZ, InstFlag.EvexK_, InstFlag.EvexSAE] 416 1, -- #352
  CommonData.mk [InstFlag.WO, InstFlag.Evex, InstFlag.EvexSet_F_, InstFlag.EvexKZ, InstFlag.EvexK_, InstFlag.EvexSAE] 417 1, -- #353
  CommonData.mk [InstFlag.WO, InstFlag.Vex] 317 1, -- #354
  CommonData.mk [InstFlag.WO, InstFlag.Evex, InstFlag.EvexSet_F_, InstFlag.EvexVL, InstFlag.EvexKZ, InstFlag.EvexK_] 317 2, -- #355
  CommonData.mk [InstFlag.WO, InstFlag.Evex, InstFlag.EvexSet_DQ, InstFlag.EvexKZ, InstFlag.EvexK_] 442 1, -- #356
  CommonData.mk [InstFlag.WO, InstFlag.Evex, InstFlag.EvexSet_DQ, InstFlag.EvexVL, InstFlag.EvexKZ, InstFlag.EvexK_] 317 2, -- #357
  CommonData.mk [InstFlag.WO, InstFlag.Evex, InstFlag.EvexSet_F_, InstFlag.EvexKZ, InstFlag.EvexK_] 442 1, -- #358
  CommonData.mk [InstFlag.WO, InstFlag.Vex, InstFlag.Evex, InstFlag.EvexSet_F_] 443 1, -- #359
  CommonData.mk [InstFlag.WO, InstFlag.Vex] 200 2, -- #360
  CommonData.mk [InstFlag.RO, InstFlag.Vex, InstFlag.Volatile] 387 1, -- #361
  CommonData.mk [InstFlag.RO, InstFlag.Vex, InstFlag.Special] 444 1, -- #362
  CommonData.mk [InstFlag.RW, InstFlag.Vex] 127 4, -- #363
  CommonData.mk [InstFlag.RW, InstFlag.Vex] 127 4, -- #364
  CommonData.mk [InstFlag.WO, InstFlag.Vex, InstFlag.Evex, InstFlag.EvexSet_F_, InstFlag.EvexVL, InstFlag.EvexKZ, InstFlag.EvexK_, InstFlag.EvexSAE, InstFlag.EvexB8] 161 3, -- #365
  CommonData.mk [InstFlag.WO, InstFlag.Vex, InstFlag.Evex, InstFlag.EvexSet_F_, InstFlag.EvexVL, InstFlag.EvexKZ, InstFlag.EvexK_, InstFlag.EvexSAE, InstFlag.EvexB4] 161 3, -- #366
  CommonData.mk [InstFlag.WO, InstFlag.Vex, InstFlag.Evex, InstFlag.EvexSet_F_, InstFlag.EvexVL, InstFlag.EvexKZ, InstFlag.EvexK_, InstFlag.EvexSAE] 421 1, -- #367
  CommonData.mk [InstFlag.WO, InstFlag.Vex, InstFlag.Evex, InstFlag.EvexSet_F_, InstFlag.EvexVL, InstFlag.EvexKZ, InstFlag.EvexK_, InstFlag.EvexSAE] 422 1, -- #368
  CommonData.mk [InstFlag.WO, InstFlag.Vex, InstFlag.Evex, InstFlag.EvexSet_F_, InstFlag.EvexVL, InstFlag.EvexKZ, InstFlag.EvexK_] 63 6, -- #369
  CommonData.mk [InstFlag.WO, InstFlag.Vex, InstFlag.Evex, InstFlag.EvexSet_F_, InstFlag.EvexVL, InstFlag.EvexKZ, InstFlag.EvexK_] 63 6, -- #370
  CommonData.mk [InstFlag.WO, InstFlag.Vex, InstFlag.Evex, InstFlag.EvexSet_F_] 319 2, -- #371
  CommonData.mk [InstFlag.WO, InstFlag.Vex, InstFlag.Evex, InstFlag.EvexSet_F_, InstFlag.EvexVL, InstFlag.EvexKZ, InstFlag.EvexK_] 194 3, -- #372
  CommonData.mk [InstFlag.WO, InstFlag.Vex] 63 4, -- #373
  CommonData.mk [InstFlag.WO, InstFlag.Evex, InstFlag.EvexSet_F_, InstFlag.EvexVL, InstFlag.EvexKZ, InstFlag.EvexK_] 63 6, -- #374
  CommonData.mk [InstFlag.WO, InstFlag.Evex, InstFlag.EvexSet_F_, InstFlag.EvexVL, InstFlag.EvexKZ, InstFlag.EvexK_] 63 6, -- #375
  CommonData.mk [InstFlag.WO, InstFlag.Vex] 63 4, -- #376
  CommonData.mk [InstFlag.WO, InstFlag.Evex, InstFlag.EvexSet_BW, InstFlag.EvexVL, InstFlag.EvexKZ, InstFlag.EvexK_] 63 6, -- #377
  CommonData.mk [InstFlag.WO, InstFlag.Evex, InstFlag.EvexSet_F_, InstFlag.EvexVL, InstFlag.EvexKZ, InstFlag.EvexK_] 63 6, -- #378
  CommonData.mk [InstFlag.WO, InstFlag.Evex, InstFlag.EvexSet_F_, InstFlag.EvexVL, InstFlag.EvexKZ, InstFlag.EvexK_] 63 6, -- #379
  CommonData.mk [InstFlag.WO, InstFlag.Evex, InstFlag.EvexSet_BW, InstFlag.EvexVL, InstFlag.EvexKZ, InstFlag.EvexK_] 63 6, -- #380
  CommonData.mk [InstFlag.WO, InstFlag.Vex, InstFlag.Evex, InstFlag.EvexSet_F_] 208 1, -- #381
  CommonData.mk [InstFlag.WO, InstFlag.Vex, InstFlag.Evex, InstFlag.EvexSet_F_] 321 2, -- #382
  CommonData.mk [InstFlag.WO, InstFlag.Vex, InstFlag.Evex, InstFlag.EvexSet_F_] 321 2, -- #383
  CommonData.mk [InstFlag.WO, InstFlag.Vex, InstFlag.Evex, InstFlag.EvexSet_F_] 321 2, -- #384
  CommonData.mk [InstFlag.WO, InstFlag.Vex, InstFlag.Evex, InstFlag.EvexSet_F_] 321 2, -- #385
  CommonData.mk [InstFlag.WO, InstFlag.Vex] 445 1, -- #386
  CommonData.mk [InstFlag.WO, InstFlag.Vex, InstFlag.Evex, InstFlag.EvexSet_F_, InstFlag.EvexVL] 197 3, -- #387
  CommonData.mk [InstFlag.WO, InstFlag.Vex, InstFlag.Evex, InstFlag.EvexSet_F_, InstFlag.EvexVL] 200 3, -- #388
  CommonData.mk [InstFlag.WO, InstFlag.Vex, InstFlag.Evex, InstFlag.EvexSet_F_] 203 3, -- #389
  CommonData.mk [InstFlag.WO, InstFlag.Vex, InstFlag.Evex, InstFlag.EvexSet_F_, InstFlag.EvexKZ, InstFlag.EvexK_] 206 3, -- #390
  CommonData.mk [InstFlag.WO, InstFlag.Vex, InstFlag.Evex, InstFlag.EvexSet_F_, InstFlag.EvexVL, InstFlag.EvexKZ, InstFlag.EvexK_] 176 3, -- #391
  CommonData.mk [InstFlag.WO, InstFlag.Vex, InstFlag.Evex, InstFlag.EvexSet_F_, InstFlag.EvexKZ, InstFlag.EvexK_] 209 3, -- #392
  CommonData.mk [InstFlag.WO, InstFlag.Vex, InstFlag.Evex, InstFlag.EvexSet_F_, InstFlag.EvexVL, InstFlag.EvexKZ, InstFlag.EvexK_] 63 6, -- #393
  CommonData.mk [InstFlag.WO, InstFlag.Vex, InstFlag.Evex, InstFlag.EvexSet_F_, InstFlag.EvexVL, InstFlag.EvexKZ, InstFlag.EvexK_] 63 6, -- #394
  CommonData.mk [InstFlag.WO, InstFlag.Vex, InstFlag.Evex, InstFlag.EvexSet_F_, InstFlag.EvexVL, InstFlag.EvexKZ, InstFlag.EvexK_, InstFlag.EvexB4] 161 3, -- #395
  CommonData.mk [InstFlag.WO, InstFlag.Vex, InstFlag.Evex, InstFlag.EvexSet_BW, InstFlag.EvexVL, InstFlag.EvexKZ, InstFlag.EvexK_] 176 3, -- #396
  CommonData.mk [InstFlag.WO, InstFlag.Vex, InstFlag.Evex, InstFlag.EvexSet_BW, InstFlag.EvexVL, InstFlag.EvexKZ, InstFlag.EvexK_, InstFlag.EvexB4] 161 3, -- #397
  CommonData.mk [InstFlag.WO, InstFlag.Vex, InstFlag.Evex, InstFlag.EvexSet_BW, InstFlag.EvexVL, InstFlag.EvexKZ, InstFlag.EvexK_] 161 3, -- #398
  CommonData.mk [InstFlag.WO, InstFlag.Vex, InstFlag.Evex, InstFlag.EvexSet_F_, InstFlag.EvexVL, InstFlag.EvexKZ, InstFlag.EvexK_, InstFlag.EvexB8] 161 3 -- #399
]

/-- Rows 400-533 of the table. -/
def commonDataPart1 : List CommonData := [
  CommonData.mk [InstFlag.WO, InstFlag.Vex, InstFlag.Evex, InstFlag.EvexSet_BW, InstFlag.EvexVL, InstFlag.EvexKZ, InstFlag.EvexK_] 164 3, -- #400
  CommonData.mk [InstFlag.WO, InstFlag.Vex, InstFlag.Evex, InstFlag.EvexSet_BW, InstFlag.EvexVL, InstFlag.EvexKZ, InstFlag.EvexK_] 323 2, -- #401
  CommonData.mk [InstFlag.WO, InstFlag.Vex, InstFlag.Evex, InstFlag.EvexSet_F_, InstFlag.EvexVL, InstFlag.EvexKZ, InstFlag.EvexK_] 325 2, -- #402
  CommonData.mk [InstFlag.WO, InstFlag.Evex, InstFlag.EvexSet_CDI, InstFlag.EvexVL] 446 1, -- #403
  CommonData.mk [InstFlag.WO, InstFlag.Vex, InstFlag.Evex, InstFlag.EvexSet_F_, InstFlag.EvexVL, InstFlag.EvexKZ, InstFlag.EvexK_] 447 1, -- #404
  CommonData.mk [InstFlag.WO, InstFlag.Vex, InstFlag.Evex, InstFlag.EvexSet_BW, InstFlag.EvexVL, InstFlag.EvexKZ, InstFlag.EvexK_] 327 2, -- #405
  CommonData.mk [InstFlag.WO, InstFlag.Vex] 164 1, -- #406
  CommonData.mk [InstFlag.WO, InstFlag.Evex, InstFlag.EvexSet_BW, InstFlag.EvexVL, InstFlag.EvexK_] 212 3, -- #407
  CommonData.mk [InstFlag.WO, InstFlag.Evex, InstFlag.EvexSet_F_, InstFlag.EvexVL, InstFlag.EvexK_, InstFlag.EvexB4] 212 3, -- #408
  CommonData.mk [InstFlag.WO, InstFlag.Vex, InstFlag.Evex, InstFlag.EvexSet_BW, InstFlag.EvexVL, InstFlag.EvexK_] 215 3, -- #409
  CommonData.mk [InstFlag.WO, InstFlag.Vex, InstFlag.Evex, InstFlag.EvexSet_F_, InstFlag.EvexVL, InstFlag.EvexK_, InstFlag.EvexB4] 215 3, -- #410
  CommonData.mk [InstFlag.WO, InstFlag.Vex, InstFlag.Evex, InstFlag.EvexSet_F_, InstFlag.EvexVL, InstFlag.EvexK_, InstFlag.EvexB8] 215 3, -- #411
  CommonData.mk [InstFlag.WO, InstFlag.Vex, InstFlag.Special] 397 1, -- #412
  CommonData.mk [InstFlag.WO, InstFlag.Vex, InstFlag.Special] 398 1, -- #413
  CommonData.mk [InstFlag.WO, InstFlag.Vex, InstFlag.Special] 399 1, -- #414
  CommonData.mk [InstFlag.WO, InstFlag.Vex, InstFlag.Special] 400 1, -- #415
  CommonData.mk [InstFlag.WO, InstFlag.Evex, InstFlag.EvexSet_F_, InstFlag.EvexVL, InstFlag.EvexK_, InstFlag.EvexB8] 212 3, -- #416
  CommonData.mk [InstFlag.WO, InstFlag.Evex, InstFlag.EvexSet_BW, InstFlag.EvexVL, InstFlag.EvexK_, InstFlag.EvexB8] 212 3, -- #417
  CommonData.mk [InstFlag.WO, InstFlag.Evex, InstFlag.EvexSet_CDI, InstFlag.EvexVL, InstFlag.EvexKZ, InstFlag.EvexK_, InstFlag.EvexB4] 176 3, -- #418
  CommonData.mk [InstFlag.WO, InstFlag.Vex] 165 1, -- #419
  CommonData.mk [InstFlag.WO, InstFlag.Evex, InstFlag.EvexSet_VBMI, InstFlag.EvexVL, InstFlag.EvexKZ, InstFlag.EvexK_] 161 3, -- #420
  CommonData.mk [InstFlag.WO, InstFlag.Vex, InstFlag.Evex, InstFlag.EvexSet_F_, InstFlag.EvexVL, InstFlag.EvexKZ, InstFlag.EvexK_, InstFlag.EvexB4] 136 2, -- #421
  CommonData.mk [InstFlag.RW, InstFlag.Evex, InstFlag.EvexSet_F_, InstFlag.EvexVL, InstFlag.EvexKZ, InstFlag.EvexK_, InstFlag.EvexB4] 188 3, -- #422
  CommonData.mk [InstFlag.RW, InstFlag.Evex, InstFlag.EvexSet_F_, InstFlag.EvexVL, InstFlag.EvexKZ, InstFlag.EvexK_, InstFlag.EvexB8] 188 3, -- #423
  CommonData.mk [InstFlag.RW, InstFlag.Evex, InstFlag.EvexSet_BW, InstFlag.EvexVL, InstFlag.EvexKZ, InstFlag.EvexK_] 188 3, -- #424
  CommonData.mk [InstFlag.WO, InstFlag.Vex] 131 4, -- #425
  CommonData.mk [InstFlag.WO, InstFlag.Vex, InstFlag.Evex, InstFlag.EvexSet_F_, InstFlag.EvexVL, InstFlag.EvexKZ, InstFlag.EvexK_, InstFlag.EvexB8] 69 6, -- #426
  CommonData.mk [InstFlag.WO, InstFlag.Vex, InstFlag.Evex, InstFlag.EvexSet_F_, InstFlag.EvexVL, InstFlag.EvexKZ, InstFlag.EvexK_, InstFlag.EvexB8] 69 6, -- #427
  CommonData.mk [InstFlag.WO, InstFlag.Vex] 72 1, -- #428
  CommonData.mk [InstFlag.WO, InstFlag.Vex] 71 1, -- #429
  CommonData.mk [InstFlag.WO, InstFlag.Vex, InstFlag.Evex, InstFlag.EvexSet_F_, InstFlag.EvexVL, InstFlag.EvexKZ, InstFlag.EvexK_, InstFlag.EvexB8] 135 4, -- #430
  CommonData.mk [InstFlag.WO, InstFlag.Vex, InstFlag.Evex, InstFlag.EvexSet_BW] 401 1, -- #431
  CommonData.mk [InstFlag.WO, InstFlag.Vex, InstFlag.Evex, InstFlag.EvexSet_DQ] 370 1, -- #432
  CommonData.mk [InstFlag.WO, InstFlag.Vex, InstFlag.Evex, InstFlag.EvexSet_DQ] 402 1, -- #433
  CommonData.mk [InstFlag.WO, InstFlag.Vex, InstFlag.Evex, InstFlag.EvexSet_BW] 292 1, -- #434
  CommonData.mk [InstFlag.RW, InstFlag.Vex_VM, InstFlag.Evex, InstFlag.EvexSet_F_, InstFlag.EvexVL, InstFlag.EvexK_] 97 5, -- #435
  CommonData.mk [InstFlag.RW, InstFlag.Vex_VM, InstFlag.Evex, InstFlag.EvexSet_F_, InstFlag.EvexVL, InstFlag.EvexK_] 92 5, -- #436
  CommonData.mk [InstFlag.RW, InstFlag.Vex_VM, InstFlag.Evex, InstFlag.EvexSet_F_, InstFlag.EvexVL, InstFlag.EvexK_] 123 4, -- #437
  CommonData.mk [InstFlag.RW, InstFlag.Vex_VM, InstFlag.Evex, InstFlag.EvexSet_F_, InstFlag.EvexVL, InstFlag.EvexK_] 102 5, -- #438
  CommonData.mk [InstFlag.WO, InstFlag.Vex, InstFlag.Evex, InstFlag.EvexSet_BW, InstFlag.EvexKZ, InstFlag.EvexK_] 329 2, -- #439
  CommonData.mk [InstFlag.WO, InstFlag.Vex, InstFlag.Evex, InstFlag.EvexSet_DQ, InstFlag.EvexKZ, InstFlag.EvexK_] 331 2, -- #440
  CommonData.mk [InstFlag.WO, InstFlag.Vex, InstFlag.Evex, InstFlag.EvexSet_DQ, InstFlag.EvexKZ, InstFlag.EvexK_] 333 2, -- #441
  CommonData.mk [InstFlag.WO, InstFlag.Vex, InstFlag.Evex, InstFlag.EvexSet_BW, InstFlag.EvexKZ, InstFlag.EvexK_] 448 1, -- #442
  CommonData.mk [InstFlag.WO, InstFlag.Evex, InstFlag.EvexSet_CDI, InstFlag.EvexVL, InstFlag.EvexKZ, InstFlag.EvexK_, InstFlag.EvexB8] 176 3, -- #443
  CommonData.mk [InstFlag.WO, InstFlag.Vex] 120 1, -- #444
  CommonData.mk [InstFlag.WO, InstFlag.Evex, InstFlag.EvexSet_IFMA, InstFlag.EvexVL, InstFlag.EvexKZ, InstFlag.EvexK_, InstFlag.EvexB8] 161 3, -- #445
  CommonData.mk [InstFlag.WO, InstFlag.Vex] 127 4, -- #446
  CommonData.mk [InstFlag.WO, InstFlag.Vex] 127 4, -- #447
  CommonData.mk [InstFlag.WO, InstFlag.Evex, InstFlag.EvexSet_BW, InstFlag.EvexVL] 449 1, -- #448
  CommonData.mk [InstFlag.WO, InstFlag.Evex, InstFlag.EvexSet_DQ, InstFlag.EvexVL] 449 1, -- #449
  CommonData.mk [InstFlag.WO, InstFlag.Evex, InstFlag.EvexSet_F_, InstFlag.EvexVL, InstFlag.EvexKZ, InstFlag.EvexK_] 218 3, -- #450
  CommonData.mk [InstFlag.WO, InstFlag.Evex, InstFlag.EvexSet_F_, InstFlag.EvexVL, InstFlag.EvexKZ, InstFlag.EvexK_] 221 3, -- #451
  CommonData.mk [InstFlag.WO, InstFlag.Evex, InstFlag.EvexSet_BW, InstFlag.EvexVL] 446 1, -- #452
  CommonData.mk [InstFlag.WO, InstFlag.Evex, InstFlag.EvexSet_DQ, InstFlag.EvexVL] 446 1, -- #453
  CommonData.mk [InstFlag.WO, InstFlag.Evex, InstFlag.EvexSet_F_, InstFlag.EvexVL, InstFlag.EvexKZ, InstFlag.EvexK_] 224 3, -- #454
  CommonData.mk [InstFlag.WO, InstFlag.Evex, InstFlag.EvexSet_BW, InstFlag.EvexVL, InstFlag.EvexKZ, InstFlag.EvexK_] 221 3, -- #455
  CommonData.mk [InstFlag.WO, InstFlag.Vex, InstFlag.Evex, InstFlag.EvexSet_F_, InstFlag.EvexVL, InstFlag.EvexKZ, InstFlag.EvexK_] 227 3, -- #456
  CommonData.mk [InstFlag.WO, InstFlag.Vex, InstFlag.Evex, InstFlag.EvexSet_F_, InstFlag.EvexVL, InstFlag.EvexKZ, InstFlag.EvexK_] 230 3, -- #457
  CommonData.mk [InstFlag.WO, InstFlag.Vex, InstFlag.Evex, InstFlag.EvexSet_BW, InstFlag.EvexVL, InstFlag.EvexKZ, InstFlag.EvexK_] 173 3, -- #458
  CommonData.mk [InstFlag.WO, InstFlag.Vex, InstFlag.Evex, InstFlag.EvexSet_F_, InstFlag.EvexVL, InstFlag.EvexKZ, InstFlag.EvexK_] 233 3, -- #459
  CommonData.mk [InstFlag.WO, InstFlag.Vex, InstFlag.Evex, InstFlag.EvexSet_F_, InstFlag.EvexVL, InstFlag.EvexKZ, InstFlag.EvexK_] 173 3, -- #460
  CommonData.mk [InstFlag.WO, InstFlag.Evex, InstFlag.EvexSet_DQ, InstFlag.EvexVL, InstFlag.EvexKZ, InstFlag.EvexK_, InstFlag.EvexB8] 161 3, -- #461
  CommonData.mk [InstFlag.WO, InstFlag.Evex, InstFlag.EvexSet_VBMI, InstFlag.EvexVL, InstFlag.EvexKZ, InstFlag.EvexK_, InstFlag.EvexB8] 161 3, -- #462
  CommonData.mk [InstFlag.WO, InstFlag.Vex] 119 2, -- #463
  CommonData.mk [InstFlag.WO, InstFlag.Evex, InstFlag.EvexSet_F_, InstFlag.EvexVL, InstFlag.EvexKZ, InstFlag.EvexK_, InstFlag.EvexB4] 191 3, -- #464
  CommonData.mk [InstFlag.WO, InstFlag.Evex, InstFlag.EvexSet_F_, InstFlag.EvexVL, InstFlag.EvexKZ, InstFlag.EvexK_, InstFlag.EvexB8] 191 3, -- #465
  CommonData.mk [InstFlag.WO, InstFlag.Vex] 335 2, -- #466
  CommonData.mk [InstFlag.WO, InstFlag.Vex] 335 2, -- #467
  CommonData.mk [InstFlag.WO, InstFlag.Vex] 335 2, -- #468
  CommonData.mk [InstFlag.WO, InstFlag.Vex] 335 2, -- #469
  CommonData.mk [InstFlag.WO, InstFlag.Vex, InstFlag.Evex, InstFlag.EvexSet_BW, InstFlag.EvexVL] 161 3, -- #470
  CommonData.mk [InstFlag.WO, InstFlag.VM, InstFlag.Evex, InstFlag.EvexSet_F_, InstFlag.EvexVL, InstFlag.EvexK_] 236 3, -- #471
  CommonData.mk [InstFlag.WO, InstFlag.VM, InstFlag.Evex, InstFlag.EvexSet_F_, InstFlag.EvexVL, InstFlag.EvexK_] 337 2, -- #472
  CommonData.mk [InstFlag.WO, InstFlag.VM, InstFlag.Evex, InstFlag.EvexSet_F_, InstFlag.EvexVL, InstFlag.EvexK_] 239 3, -- #473
  CommonData.mk [InstFlag.WO, InstFlag.Vex] 339 2, -- #474
  CommonData.mk [InstFlag.WO, InstFlag.Vex, InstFlag.Evex, InstFlag.EvexSet_F_, InstFlag.EvexVL, InstFlag.EvexKZ, InstFlag.EvexK_, InstFlag.EvexB4] 191 3, -- #475
  CommonData.mk [InstFlag.WO, InstFlag.Vex, InstFlag.Evex, InstFlag.EvexSet_BW, InstFlag.EvexVL, InstFlag.EvexKZ, InstFlag.EvexK_] 191 3, -- #476
  CommonData.mk [InstFlag.WO, InstFlag.Vex, InstFlag.Evex, InstFlag.EvexSet_F_, InstFlag.EvexVL, InstFlag.EvexKZ, InstFlag.EvexK_, InstFlag.EvexB4] 75 6, -- #477
  CommonData.mk [InstFlag.WO, InstFlag.Vex, InstFlag.Evex, InstFlag.EvexSet_BW, InstFlag.EvexVL] 191 3, -- #478
  CommonData.mk [InstFlag.WO, InstFlag.Vex, InstFlag.Evex, InstFlag.EvexSet_F_, InstFlag.EvexVL, InstFlag.EvexKZ, InstFlag.EvexK_, InstFlag.EvexB8] 75 6, -- #479
  CommonData.mk [InstFlag.WO, InstFlag.Vex, InstFlag.Evex, InstFlag.EvexSet_BW, InstFlag.EvexVL, InstFlag.EvexKZ, InstFlag.EvexK_] 75 6, -- #480
  CommonData.mk [InstFlag.WO, InstFlag.Vex, InstFlag.Evex, InstFlag.EvexSet_F_, InstFlag.EvexVL, InstFlag.EvexKZ, InstFlag.EvexK_, InstFlag.EvexB4] 75 6, -- #481
  CommonData.mk [InstFlag.WO, InstFlag.Evex, InstFlag.EvexSet_F_, InstFlag.EvexVL, InstFlag.EvexKZ, InstFlag.EvexK_, InstFlag.EvexB8] 81 6, -- #482
  CommonData.mk [InstFlag.WO, InstFlag.Vex, InstFlag.Evex, InstFlag.EvexSet_BW, InstFlag.EvexVL, InstFlag.EvexKZ, InstFlag.EvexK_] 75 6, -- #483
  CommonData.mk [InstFlag.WO, InstFlag.Vex, InstFlag.Evex, InstFlag.EvexSet_F_, InstFlag.EvexVL, InstFlag.EvexKZ, InstFlag.EvexK_, InstFlag.EvexB4] 75 6, -- #484
  CommonData.mk [InstFlag.WO, InstFlag.Vex, InstFlag.Evex, InstFlag.EvexSet_F_, InstFlag.EvexVL, InstFlag.EvexKZ, InstFlag.EvexK_, InstFlag.EvexB8] 75 6, -- #485
  CommonData.mk [InstFlag.WO, InstFlag.Vex, InstFlag.Evex, InstFlag.EvexSet_BW, InstFlag.EvexVL, InstFlag.EvexKZ, InstFlag.EvexK_] 75 6, -- #486
  CommonData.mk [InstFlag.RW, InstFlag.Evex, InstFlag.EvexSet_F_, InstFlag.EvexVL, InstFlag.EvexKZ, InstFlag.EvexK_, InstFlag.EvexB4] 185 3, -- #487
  CommonData.mk [InstFlag.RW, InstFlag.Evex, InstFlag.EvexSet_F_, InstFlag.EvexVL, InstFlag.EvexKZ, InstFlag.EvexK_, InstFlag.EvexB8] 185 3, -- #488
  CommonData.mk [InstFlag.RO, InstFlag.Vex] 341 2, -- #489
  CommonData.mk [InstFlag.WO, InstFlag.Evex, InstFlag.EvexSet_BW, InstFlag.EvexVL, InstFlag.EvexK_] 242 3, -- #490
  CommonData.mk [InstFlag.WO, InstFlag.Evex, InstFlag.EvexSet_F_, InstFlag.EvexVL, InstFlag.EvexK_, InstFlag.EvexB4] 242 3, -- #491
  CommonData.mk [InstFlag.WO, InstFlag.Evex, InstFlag.EvexSet_F_, InstFlag.EvexVL, InstFlag.EvexK_, InstFlag.EvexB8] 242 3, -- #492
  CommonData.mk [InstFlag.WO, InstFlag.Evex, InstFlag.EvexSet_DQ, InstFlag.EvexVL, InstFlag.EvexKZ, InstFlag.EvexK_, InstFlag.EvexSAE, InstFlag.EvexB8] 164 3, -- #493
  CommonData.mk [InstFlag.WO, InstFlag.Evex, InstFlag.EvexSet_DQ, InstFlag.EvexVL, InstFlag.EvexKZ, InstFlag.EvexK_, InstFlag.EvexSAE, InstFlag.EvexB4] 164 3, -- #494
  CommonData.mk [InstFlag.WO, InstFlag.Evex, InstFlag.EvexSet_DQ, InstFlag.EvexKZ, InstFlag.EvexK_, InstFlag.EvexSAE] 450 1, -- #495
  CommonData.mk [InstFlag.WO, InstFlag.Evex, InstFlag.EvexSet_DQ, InstFlag.EvexKZ, InstFlag.EvexK_, InstFlag.EvexSAE] 443 1, -- #496
  CommonData.mk [InstFlag.WO, InstFlag.Evex, InstFlag.EvexSet_F_, InstFlag.EvexVL, InstFlag.EvexKZ, InstFlag.EvexK_, InstFlag.EvexB8] 176 3, -- #497
  CommonData.mk [InstFlag.WO, InstFlag.Evex, InstFlag.EvexSet_F_, InstFlag.EvexVL, InstFlag.EvexKZ, InstFlag.EvexK_, InstFlag.EvexB4] 176 3, -- #498
  CommonData.mk [InstFlag.WO, InstFlag.Evex, InstFlag.EvexSet_F_, InstFlag.EvexKZ, InstFlag.EvexK_] 421 1, -- #499
  CommonData.mk [InstFlag.WO, InstFlag.Evex, InstFlag.EvexSet_F_, InstFlag.EvexKZ, InstFlag.EvexK_] 422 1, -- #500
  CommonData.mk [InstFlag.WO, InstFlag.Evex, InstFlag.EvexSet_ERI, InstFlag.EvexKZ, InstFlag.EvexK_, InstFlag.EvexSAE] 421 1, -- #501
  CommonData.mk [InstFlag.WO, InstFlag.Evex, InstFlag.EvexSet_ERI, InstFlag.EvexKZ, InstFlag.EvexK_, InstFlag.EvexSAE] 422 1, -- #502
  CommonData.mk [InstFlag.WO, InstFlag.Vex] 422 1, -- #503
  CommonData.mk [InstFlag.WO, InstFlag.Evex, InstFlag.EvexSet_DQ, InstFlag.EvexVL, InstFlag.EvexKZ, InstFlag.EvexK_, InstFlag.EvexB8] 191 3, -- #504
  CommonData.mk [InstFlag.WO, InstFlag.Evex, InstFlag.EvexSet_DQ, InstFlag.EvexVL, InstFlag.EvexKZ, InstFlag.EvexK_, InstFlag.EvexB4] 191 3, -- #505
  CommonData.mk [InstFlag.WO, InstFlag.Evex, InstFlag.EvexSet_DQ, InstFlag.EvexKZ, InstFlag.EvexK_] 450 1, -- #506
  CommonData.mk [InstFlag.WO, InstFlag.Evex, InstFlag.EvexSet_DQ, InstFlag.EvexKZ, InstFlag.EvexK_] 443 1, -- #507
  CommonData.mk [InstFlag.WO, InstFlag.Evex, InstFlag.EvexSet_F_, InstFlag.EvexKZ, InstFlag.EvexK_, InstFlag.EvexSAE] 450 1, -- #508
  CommonData.mk [InstFlag.WO, InstFlag.Evex, InstFlag.EvexSet_F_, InstFlag.EvexKZ, InstFlag.EvexK_, InstFlag.EvexSAE] 443 1, -- #509
  CommonData.mk [InstFlag.WO, InstFlag.Vex] 77 2, -- #510
  CommonData.mk [InstFlag.WO, InstFlag.Vex] 450 1, -- #511
  CommonData.mk [InstFlag.WO, InstFlag.Vex] 443 1, -- #512
  CommonData.mk [InstFlag.WO, InstFlag.Evex, InstFlag.EvexSet_F_, InstFlag.EvexVL, InstFlag.EvexKZ, InstFlag.EvexK_, InstFlag.EvexER, InstFlag.EvexB8] 161 3, -- #513
  CommonData.mk [InstFlag.WO, InstFlag.Evex, InstFlag.EvexSet_F_, InstFlag.EvexVL, InstFlag.EvexKZ, InstFlag.EvexK_, InstFlag.EvexER, InstFlag.EvexB4] 161 3, -- #514
  CommonData.mk [InstFlag.WO, InstFlag.Evex, InstFlag.EvexSet_F_, InstFlag.EvexKZ, InstFlag.EvexK_, InstFlag.EvexER] 421 1, -- #515
  CommonData.mk [InstFlag.WO, InstFlag.Evex, InstFlag.EvexSet_F_, InstFlag.EvexKZ, InstFlag.EvexK_, InstFlag.EvexER] 422 1, -- #516
  CommonData.mk [InstFlag.WO, InstFlag.VM, InstFlag.Evex, InstFlag.EvexSet_F_, InstFlag.EvexVL, InstFlag.EvexK_] 343 2, -- #517
  CommonData.mk [InstFlag.WO, InstFlag.Evex, InstFlag.EvexSet_F_, InstFlag.EvexVL, InstFlag.EvexKZ, InstFlag.EvexK_, InstFlag.EvexB4] 165 2, -- #518
  CommonData.mk [InstFlag.WO, InstFlag.Evex, InstFlag.EvexSet_F_, InstFlag.EvexVL, InstFlag.EvexKZ, InstFlag.EvexK_, InstFlag.EvexB8] 165 2, -- #519
  CommonData.mk [InstFlag.WO, InstFlag.Vex, InstFlag.Evex, InstFlag.EvexSet_F_, InstFlag.EvexVL, InstFlag.EvexKZ, InstFlag.EvexK_, InstFlag.EvexB4] 164 3, -- #520
  CommonData.mk [InstFlag.WO, InstFlag.Vex, InstFlag.Evex, InstFlag.EvexSet_F_, InstFlag.EvexVL, InstFlag.EvexKZ, InstFlag.EvexK_, InstFlag.EvexB8] 164 3, -- #521
  CommonData.mk [InstFlag.WO, InstFlag.Vex, InstFlag.Evex, InstFlag.EvexSet_F_, InstFlag.EvexVL, InstFlag.EvexKZ, InstFlag.EvexK_, InstFlag.EvexER, InstFlag.EvexB8] 176 3, -- #522
  CommonData.mk [InstFlag.Vex, InstFlag.Volatile] 420 1, -- #523
  CommonData.mk [InstFlag.Vex, InstFlag.Volatile] 259 1, -- #524
  CommonData.mk [InstFlag.RO, InstFlag.Volatile] 451 1, -- #525
  CommonData.mk [InstFlag.RW, InstFlag.Xchg, InstFlag.Lock] 139 4, -- #526
  CommonData.mk [InstFlag.RW, InstFlag.Xchg, InstFlag.Lock] 43 8, -- #527
  CommonData.mk [InstFlag.WO, InstFlag.Special] 452 1, -- #528
  CommonData.mk [InstFlag.RO, InstFlag.Volatile, InstFlag.Special] 453 1, -- #529
  CommonData.mk [InstFlag.RO, InstFlag.Volatile, InstFlag.Special] 454 1, -- #530
  CommonData.mk [InstFlag.WO, InstFlag.Volatile, InstFlag.Special] 453 1, -- #531
  CommonData.mk [InstFlag.WO, InstFlag.Volatile, InstFlag.Special] 454 1, -- #532
  CommonData.mk [InstFlag.RO, InstFlag.Volatile, InstFlag.Special] 455 1 -- #533
]

/-- `X86InstDB::commonData` (flags, iSignatureIndex, iSignatureCount per row). -/
def commonData : List CommonData := commonDataPart0 ++ (commonDataPart1)

/-- Rows 0-399 of the table. -/
def x86InstISignatureDataPart0 : List ISignature := [
  ISignature.mk 2 3 0 [1, 2, 0, 0, 0, 0], -- #0
  ISignature.mk 2 3 0 [3, 4, 0, 0, 0, 0], -- #1
  ISignature.mk 2 3 0 [5, 6, 0, 0, 0, 0], -- #2
  ISignature.mk 2 2 0 [7, 8, 0, 0, 0, 0], -- #3
  ISignature.mk 2 3 0 [9, 10, 0, 0, 0, 0], -- #4
  ISignature.mk 2 3 0 [11, 12, 0, 0, 0, 0], -- #5
  ISignature.mk 2 3 0 [13, 14, 0, 0, 0, 0], -- #6
  ISignature.mk 2 2 0 [15, 16, 0, 0, 0, 0], -- #7
  ISignature.mk 2 3 0 [17, 18, 0, 0, 0, 0], -- #8
  ISignature.mk 2 2 0 [19, 20, 0, 0, 0, 0], -- #9
  ISignature.mk 2 1 0 [13, 21, 0, 0, 0, 0], -- #10
  ISignature.mk 2 1 0 [22, 23, 0, 0, 0, 0], -- #11
  ISignature.mk 2 2 0 [22, 24, 0, 0, 0, 0], -- #12
  ISignature.mk 2 3 0 [25, 26, 0, 0, 0, 0], -- #13
  ISignature.mk 2 3 0 [27, 28, 0, 0, 0, 0], -- #14
  ISignature.mk 2 3 0 [29, 30, 0, 0, 0, 0], -- #15
  ISignature.mk 2 3 0 [31, 32, 0, 0, 0, 0], -- #16
  ISignature.mk 2 3 0 [33, 23, 0, 0, 0, 0], -- #17
  ISignature.mk 2 2 0 [34, 24, 0, 0, 0, 0], -- #18
  ISignature.mk 2 3 0 [35, 36, 0, 0, 0, 0], -- #19
  ISignature.mk 2 3 0 [37, 12, 0, 0, 0, 0], -- #20
  ISignature.mk 2 3 0 [38, 39, 0, 0, 0, 0], -- #21
  ISignature.mk 2 2 0 [40, 16, 0, 0, 0, 0], -- #22
  ISignature.mk 2 3 0 [41, 26, 0, 0, 0, 0], -- #23
  ISignature.mk 2 3 0 [12, 28, 0, 0, 0, 0], -- #24
  ISignature.mk 2 3 0 [42, 30, 0, 0, 0, 0], -- #25
  ISignature.mk 2 3 0 [36, 32, 0, 0, 0, 0], -- #26
  ISignature.mk 2 3 0 [39, 23, 0, 0, 0, 0], -- #27
  ISignature.mk 2 2 0 [16, 24, 0, 0, 0, 0], -- #28
  ISignature.mk 2 3 0 [32, 36, 0, 0, 0, 0], -- #29
  ISignature.mk 2 3 0 [43, 12, 0, 0, 0, 0], -- #30
  ISignature.mk 2 3 0 [23, 39, 0, 0, 0, 0], -- #31
  ISignature.mk 2 2 0 [24, 16, 0, 0, 0, 0], -- #32
  ISignature.mk 2 3 1 [44, 36, 0, 0, 0, 0], -- #33
  ISignature.mk 3 3 2 [45, 44, 12, 0, 0, 0], -- #34
  ISignature.mk 3 3 2 [46, 47, 39, 0, 0, 0], -- #35
  ISignature.mk 3 2 2 [48, 49, 16, 0, 0, 0], -- #36
  ISignature.mk 2 3 0 [37, 50, 0, 0, 0, 0], -- #37
  ISignature.mk 2 3 0 [38, 51, 0, 0, 0, 0], -- #38
  ISignature.mk 2 2 0 [40, 52, 0, 0, 0, 0], -- #39
  ISignature.mk 3 3 0 [17, 12, 53, 0, 0, 0], -- #40
  ISignature.mk 3 3 0 [13, 39, 54, 0, 0, 0], -- #41
  ISignature.mk 3 2 0 [19, 16, 54, 0, 0, 0], -- #42
  ISignature.mk 2 3 0 [27, 37, 0, 0, 0, 0], -- #43
  ISignature.mk 2 3 0 [33, 38, 0, 0, 0, 0], -- #44
  ISignature.mk 2 2 0 [34, 40, 0, 0, 0, 0], -- #45
  ISignature.mk 2 3 0 [37, 27, 0, 0, 0, 0], -- #46
  ISignature.mk 2 3 0 [38, 33, 0, 0, 0, 0], -- #47
  ISignature.mk 2 2 0 [40, 34, 0, 0, 0, 0], -- #48
  ISignature.mk 2 3 0 [31, 35, 0, 0, 0, 0], -- #49
  ISignature.mk 2 3 0 [35, 31, 0, 0, 0, 0], -- #50
  ISignature.mk 2 3 0 [17, 55, 0, 0, 0, 0], -- #51
  ISignature.mk 2 3 0 [13, 56, 0, 0, 0, 0], -- #52
  ISignature.mk 2 2 0 [19, 57, 0, 0, 0, 0], -- #53
  ISignature.mk 2 3 0 [58, 43, 0, 0, 0, 0], -- #54
  ISignature.mk 2 3 0 [59, 23, 0, 0, 0, 0], -- #55
  ISignature.mk 2 2 0 [60, 24, 0, 0, 0, 0], -- #56
  ISignature.mk 2 3 0 [61, 62, 0, 0, 0, 0], -- #57
  ISignature.mk 2 3 0 [63, 64, 0, 0, 0, 0], -- #58
  ISignature.mk 2 2 0 [7, 65, 0, 0, 0, 0], -- #59
  ISignature.mk 2 2 0 [66, 16, 0, 0, 0, 0], -- #60
  ISignature.mk 2 3 0 [66, 67, 0, 0, 0, 0], -- #61
  ISignature.mk 2 3 0 [68, 65, 0, 0, 0, 0], -- #62
  ISignature.mk 2 3 0 [66, 69, 0, 0, 0, 0], -- #63
  ISignature.mk 2 3 0 [70, 65, 0, 0, 0, 0], -- #64
  ISignature.mk 2 3 0 [71, 72, 0, 0, 0, 0], -- #65
  ISignature.mk 2 3 0 [73, 74, 0, 0, 0, 0], -- #66
  ISignature.mk 2 3 0 [75, 76, 0, 0, 0, 0], -- #67
  ISignature.mk 2 3 0 [77, 78, 0, 0, 0, 0], -- #68
  ISignature.mk 3 3 0 [66, 65, 69, 0, 0, 0], -- #69
  ISignature.mk 3 3 0 [66, 69, 26, 0, 0, 0], -- #70
  ISignature.mk 3 3 0 [71, 74, 72, 0, 0, 0], -- #71
  ISignature.mk 3 3 0 [71, 72, 26, 0, 0, 0], -- #72
  ISignature.mk 3 3 0 [75, 78, 76, 0, 0, 0], -- #73
  ISignature.mk 3 3 0 [75, 76, 26, 0, 0, 0], -- #74
  ISignature.mk 3 3 0 [66, 65, 79, 0, 0, 0], -- #75
  ISignature.mk 3 3 0 [71, 74, 79, 0, 0, 0], -- #76
  ISignature.mk 3 3 0 [66, 69, 26, 0, 0, 0], -- #77
  ISignature.mk 3 3 0 [71, 72, 26, 0, 0, 0], -- #78
  ISignature.mk 3 3 0 [75, 78, 69, 0, 0, 0], -- #79
  ISignature.mk 3 3 0 [75, 76, 26, 0, 0, 0], -- #80
  ISignature.mk 3 3 0 [66, 65, 69, 0, 0, 0], -- #81
  ISignature.mk 3 3 0 [66, 69, 26, 0, 0, 0], -- #82
  ISignature.mk 3 3 0 [71, 74, 69, 0, 0, 0], -- #83
  ISignature.mk 3 3 0 [71, 72, 26, 0, 0, 0], -- #84
  ISignature.mk 3 3 0 [75, 78, 69, 0, 0, 0], -- #85
  ISignature.mk 3 3 0 [75, 76, 26, 0, 0, 0], -- #86
  ISignature.mk 2 3 0 [36, 2, 0, 0, 0, 0], -- #87
  ISignature.mk 2 3 0 [12, 28, 0, 0, 0, 0], -- #88
  ISignature.mk 2 3 0 [42, 30, 0, 0, 0, 0], -- #89
  ISignature.mk 2 3 0 [39, 23, 0, 0, 0, 0], -- #90
  ISignature.mk 2 2 0 [16, 24, 0, 0, 0, 0], -- #91
  ISignature.mk 3 3 0 [66, 80, 65, 0, 0, 0], -- #92
  ISignature.mk 3 3 0 [71, 80, 74, 0, 0, 0], -- #93
  ISignature.mk 2 3 0 [66, 80, 0, 0, 0, 0], -- #94
  ISignature.mk 2 3 0 [71, 81, 0, 0, 0, 0], -- #95
  ISignature.mk 2 3 0 [75, 82, 0, 0, 0, 0], -- #96
  ISignature.mk 3 3 0 [66, 80, 65, 0, 0, 0], -- #97
  ISignature.mk 3 3 0 [71, 81, 74, 0, 0, 0], -- #98
  ISignature.mk 2 3 0 [66, 80, 0, 0, 0, 0], -- #99
  ISignature.mk 2 3 0 [71, 81, 0, 0, 0, 0], -- #100
  ISignature.mk 2 3 0 [75, 82, 0, 0, 0, 0], -- #101
  ISignature.mk 3 3 0 [66, 83, 65, 0, 0, 0], -- #102
  ISignature.mk 3 3 0 [71, 84, 74, 0, 0, 0], -- #103
  ISignature.mk 2 3 0 [66, 83, 0, 0, 0, 0], -- #104
  ISignature.mk 2 3 0 [71, 84, 0, 0, 0, 0], -- #105
  ISignature.mk 2 3 0 [75, 85, 0, 0, 0, 0], -- #106
  ISignature.mk 3 3 1 [31, 32, 86, 0, 0, 0], -- #107
  ISignature.mk 3 3 1 [27, 43, 87, 0, 0, 0], -- #108
  ISignature.mk 3 3 1 [33, 23, 88, 0, 0, 0], -- #109
  ISignature.mk 3 2 1 [34, 24, 89, 0, 0, 0], -- #110
  ISignature.mk 2 3 1 [44, 36, 0, 0, 0, 0], -- #111
  ISignature.mk 3 3 2 [44, 90, 12, 0, 0, 0], -- #112
  ISignature.mk 3 3 2 [47, 91, 39, 0, 0, 0], -- #113
  ISignature.mk 3 2 2 [49, 92, 16, 0, 0, 0], -- #114
  ISignature.mk 2 3 1 [44, 36, 0, 0, 0, 0], -- #115
  ISignature.mk 3 3 2 [90, 44, 12, 0, 0, 0], -- #116
  ISignature.mk 3 3 2 [91, 47, 39, 0, 0, 0], -- #117
  ISignature.mk 3 2 2 [92, 49, 16, 0, 0, 0], -- #118
  ISignature.mk 4 3 0 [66, 65, 65, 69, 0, 0], -- #119
  ISignature.mk 4 3 0 [66, 65, 69, 65, 0, 0], -- #120
  ISignature.mk 4 3 0 [71, 74, 74, 72, 0, 0], -- #121
  ISignature.mk 4 3 0 [71, 74, 72, 74, 0, 0], -- #122
  ISignature.mk 3 3 0 [66, 93, 65, 0, 0, 0], -- #123
  ISignature.mk 2 3 0 [66, 83, 0, 0, 0, 0], -- #124
  ISignature.mk 2 3 0 [71, 84, 0, 0, 0, 0], -- #125
  ISignature.mk 2 3 0 [75, 85, 0, 0, 0, 0], -- #126
  ISignature.mk 3 3 0 [94, 65, 65, 0, 0, 0], -- #127
  ISignature.mk 3 3 0 [95, 74, 74, 0, 0, 0], -- #128
  ISignature.mk 3 3 0 [66, 65, 96, 0, 0, 0], -- #129
  ISignature.mk 3 3 0 [71, 74, 97, 0, 0, 0], -- #130
  ISignature.mk 5 3 0 [66, 65, 69, 65, 98, 0], -- #131
  ISignature.mk 5 3 0 [66, 65, 65, 69, 98, 0], -- #132
  ISignature.mk 5 3 0 [71, 74, 72, 74, 98, 0], -- #133
  ISignature.mk 5 3 0 [71, 74, 74, 72, 98, 0], -- #134
  ISignature.mk 3 3 0 [71, 72, 26, 0, 0, 0], -- #135
  ISignature.mk 3 3 0 [71, 74, 72, 0, 0, 0], -- #136
  ISignature.mk 3 3 0 [75, 78, 76, 0, 0, 0], -- #137
  ISignature.mk 3 3 0 [75, 76, 26, 0, 0, 0], -- #138
  ISignature.mk 2 3 0 [31, 35, 0, 0, 0, 0], -- #139
  ISignature.mk 2 3 0 [27, 37, 0, 0, 0, 0], -- #140
  ISignature.mk 2 3 0 [33, 38, 0, 0, 0, 0], -- #141
  ISignature.mk 2 2 0 [34, 40, 0, 0, 0, 0], -- #142
  ISignature.mk 2 3 0 [12, 99, 0, 0, 0, 0], -- #143
  ISignature.mk 2 3 0 [39, 100, 0, 0, 0, 0], -- #144
  ISignature.mk 2 2 0 [16, 101, 0, 0, 0, 0], -- #145
  ISignature.mk 2 3 0 [27, 99, 0, 0, 0, 0], -- #146
  ISignature.mk 2 3 0 [33, 100, 0, 0, 0, 0], -- #147
  ISignature.mk 2 2 0 [34, 101, 0, 0, 0, 0], -- #148
  ISignature.mk 1 3 0 [102, 0, 0, 0, 0, 0], -- #149
  ISignature.mk 2 3 0 [103, 104, 0, 0, 0, 0], -- #150
  ISignature.mk 2 3 0 [105, 106, 0, 0, 0, 0], -- #151
  ISignature.mk 2 3 0 [17, 12, 0, 0, 0, 0], -- #152
  ISignature.mk 2 3 0 [13, 39, 0, 0, 0, 0], -- #153
  ISignature.mk 2 2 0 [19, 16, 0, 0, 0, 0], -- #154
  ISignature.mk 2 3 2 [107, 107, 0, 0, 0, 0], -- #155
  ISignature.mk 2 3 0 [66, 67, 0, 0, 0, 0], -- #156
  ISignature.mk 2 3 0 [60, 65, 0, 0, 0, 0], -- #157
  ISignature.mk 3 3 0 [27, 43, 108, 0, 0, 0], -- #158
  ISignature.mk 3 3 0 [33, 23, 108, 0, 0, 0], -- #159
  ISignature.mk 3 2 0 [34, 24, 108, 0, 0, 0], -- #160
  ISignature.mk 3 3 0 [66, 65, 69, 0, 0, 0], -- #161
  ISignature.mk 3 3 0 [71, 74, 72, 0, 0, 0], -- #162
  ISignature.mk 3 3 0 [75, 78, 76, 0, 0, 0], -- #163
  ISignature.mk 4 3 0 [66, 65, 69, 26, 0, 0], -- #164
  ISignature.mk 4 3 0 [71, 74, 72, 26, 0, 0], -- #165
  ISignature.mk 4 3 0 [75, 78, 76, 26, 0, 0], -- #166
  ISignature.mk 4 3 0 [109, 65, 69, 26, 0, 0], -- #167
  ISignature.mk 4 3 0 [110, 74, 72, 26, 0, 0], -- #168
  ISignature.mk 4 3 0 [111, 78, 76, 26, 0, 0], -- #169
  ISignature.mk 2 3 0 [70, 65, 0, 0, 0, 0], -- #170
  ISignature.mk 2 3 0 [73, 74, 0, 0, 0, 0], -- #171
  ISignature.mk 2 3 0 [77, 78, 0, 0, 0, 0], -- #172
  ISignature.mk 2 3 0 [66, 67, 0, 0, 0, 0], -- #173
  ISignature.mk 2 3 0 [71, 69, 0, 0, 0, 0], -- #174
  ISignature.mk 2 3 0 [75, 72, 0, 0, 0, 0], -- #175
  ISignature.mk 2 3 0 [66, 69, 0, 0, 0, 0], -- #176
  ISignature.mk 2 3 0 [71, 72, 0, 0, 0, 0], -- #177
  ISignature.mk 2 3 0 [75, 76, 0, 0, 0, 0], -- #178
  ISignature.mk 2 3 0 [66, 112, 0, 0, 0, 0], -- #179
  ISignature.mk 2 3 0 [71, 69, 0, 0, 0, 0], -- #180
  ISignature.mk 2 3 0 [75, 72, 0, 0, 0, 0], -- #181
  ISignature.mk 3 3 0 [68, 65, 26, 0, 0, 0], -- #182
  ISignature.mk 3 3 0 [70, 74, 26, 0, 0, 0], -- #183
  ISignature.mk 3 3 0 [73, 78, 26, 0, 0, 0], -- #184
  ISignature.mk 4 3 0 [113, 65, 69, 26, 0, 0], -- #185
  ISignature.mk 4 3 0 [114, 74, 72, 26, 0, 0], -- #186
  ISignature.mk 4 3 0 [115, 78, 76, 26, 0, 0], -- #187
  ISignature.mk 3 3 0 [113, 65, 69, 0, 0, 0], -- #188
  ISignature.mk 3 3 0 [114, 74, 72, 0, 0, 0], -- #189
  ISignature.mk 3 3 0 [115, 78, 76, 0, 0, 0], -- #190
  ISignature.mk 3 3 0 [66, 69, 26, 0, 0, 0], -- #191
  ISignature.mk 3 3 0 [71, 72, 26, 0, 0, 0], -- #192
  ISignature.mk 3 3 0 [75, 76, 26, 0, 0, 0], -- #193
  ISignature.mk 2 3 0 [66, 67, 0, 0, 0, 0], -- #194
  ISignature.mk 2 3 0 [71, 72, 0, 0, 0, 0], -- #195
  ISignature.mk 2 3 0 [75, 76, 0, 0, 0, 0], -- #196
  ISignature.mk 2 3 0 [94, 65, 0, 0, 0, 0], -- #197
  ISignature.mk 2 3 0 [95, 74, 0, 0, 0, 0], -- #198
  ISignature.mk 2 3 0 [116, 78, 0, 0, 0, 0], -- #199
  ISignature.mk 2 3 0 [66, 96, 0, 0, 0, 0], -- #200
  ISignature.mk 2 3 0 [71, 97, 0, 0, 0, 0], -- #201
  ISignature.mk 2 3 0 [75, 117, 0, 0, 0, 0], -- #202
  ISignature.mk 2 2 0 [7, 65, 0, 0, 0, 0], -- #203
  ISignature.mk 2 3 0 [66, 118, 0, 0, 0, 0], -- #204
  ISignature.mk 2 3 0 [68, 65, 0, 0, 0, 0], -- #205
  ISignature.mk 2 3 0 [60, 65, 0, 0, 0, 0], -- #206
  ISignature.mk 2 3 0 [66, 57, 0, 0, 0, 0], -- #207
  ISignature.mk 3 3 0 [66, 65, 65, 0, 0, 0], -- #208
  ISignature.mk 2 3 0 [119, 65, 0, 0, 0, 0], -- #209
  ISignature.mk 2 3 0 [66, 120, 0, 0, 0, 0], -- #210
  ISignature.mk 3 3 0 [66, 65, 65, 0, 0, 0], -- #211
  ISignature.mk 4 3 0 [111, 65, 69, 26, 0, 0], -- #212
  ISignature.mk 4 3 0 [111, 74, 72, 26, 0, 0], -- #213
  ISignature.mk 4 3 0 [111, 78, 76, 26, 0, 0], -- #214
  ISignature.mk 3 3 0 [109, 65, 69, 0, 0, 0], -- #215
  ISignature.mk 3 3 0 [110, 74, 72, 0, 0, 0], -- #216
  ISignature.mk 3 3 0 [111, 78, 76, 0, 0, 0], -- #217
  ISignature.mk 2 3 0 [121, 65, 0, 0, 0, 0], -- #218
  ISignature.mk 2 3 0 [68, 74, 0, 0, 0, 0], -- #219
  ISignature.mk 2 3 0 [70, 78, 0, 0, 0, 0], -- #220
  ISignature.mk 2 3 0 [68, 65, 0, 0, 0, 0], -- #221
  ISignature.mk 2 3 0 [70, 74, 0, 0, 0, 0], -- #222
  ISignature.mk 2 3 0 [73, 78, 0, 0, 0, 0], -- #223
  ISignature.mk 2 3 0 [122, 65, 0, 0, 0, 0], -- #224
  ISignature.mk 2 3 0 [121, 74, 0, 0, 0, 0], -- #225
  ISignature.mk 2 3 0 [68, 78, 0, 0, 0, 0], -- #226
  ISignature.mk 2 3 0 [66, 123, 0, 0, 0, 0], -- #227
  ISignature.mk 2 3 0 [71, 67, 0, 0, 0, 0], -- #228
  ISignature.mk 2 3 0 [75, 69, 0, 0, 0, 0], -- #229
  ISignature.mk 2 3 0 [66, 124, 0, 0, 0, 0], -- #230
  ISignature.mk 2 3 0 [71, 123, 0, 0, 0, 0], -- #231
  ISignature.mk 2 3 0 [75, 67, 0, 0, 0, 0], -- #232
  ISignature.mk 2 3 0 [66, 125, 0, 0, 0, 0], -- #233
  ISignature.mk 2 3 0 [71, 126, 0, 0, 0, 0], -- #234
  ISignature.mk 2 3 0 [75, 69, 0, 0, 0, 0], -- #235
  ISignature.mk 2 3 0 [127, 65, 0, 0, 0, 0], -- #236
  ISignature.mk 2 3 0 [128, 74, 0, 0, 0, 0], -- #237
  ISignature.mk 2 3 0 [129, 78, 0, 0, 0, 0], -- #238
  ISignature.mk 2 3 0 [130, 65, 0, 0, 0, 0], -- #239
  ISignature.mk 2 3 0 [131, 74, 0, 0, 0, 0], -- #240
  ISignature.mk 2 3 0 [132, 78, 0, 0, 0, 0], -- #241
  ISignature.mk 3 3 0 [111, 65, 69, 0, 0, 0], -- #242
  ISignature.mk 3 3 0 [111, 74, 72, 0, 0, 0], -- #243
  ISignature.mk 3 3 0 [111, 78, 76, 0, 0, 0], -- #244
  ISignature.mk 3 3 0 [13, 23, 39, 0, 0, 0], -- #245
  ISignature.mk 3 2 0 [19, 24, 16, 0, 0, 0], -- #246
  ISignature.mk 3 3 0 [13, 39, 23, 0, 0, 0], -- #247
  ISignature.mk 3 2 0 [19, 16, 24, 0, 0, 0], -- #248
  ISignature.mk 1 3 0 [133, 0, 0, 0, 0, 0], -- #249
  ISignature.mk 1 1 0 [39, 0, 0, 0, 0, 0], -- #250
  ISignature.mk 2 3 2 [107, 107, 0, 0, 0, 0], -- #251
  ISignature.mk 3 3 0 [113, 67, 26, 0, 0, 0], -- #252
  ISignature.mk 2 3 0 [38, 134, 0, 0, 0, 0], -- #253
  ISignature.mk 2 2 0 [40, 135, 0, 0, 0, 0], -- #254
  ISignature.mk 1 1 0 [136, 0, 0, 0, 0, 0], -- #255
  ISignature.mk 1 3 0 [25, 0, 0, 0, 0, 0], -- #256
  ISignature.mk 3 3 0 [113, 26, 26, 0, 0, 0], -- #257
  ISignature.mk 2 3 0 [113, 65, 0, 0, 0, 0], -- #258
  ISignature.mk 0 3 0 [0, 0, 0, 0, 0, 0], -- #259
  ISignature.mk 1 3 0 [105, 0, 0, 0, 0, 0], -- #260
  ISignature.mk 0 3 0 [0, 0, 0, 0, 0, 0], -- #261
  ISignature.mk 1 3 0 [137, 0, 0, 0, 0, 0], -- #262
  ISignature.mk 2 3 0 [113, 65, 0, 0, 0, 0], -- #263
  ISignature.mk 4 3 0 [113, 65, 26, 26, 0, 0], -- #264
  ISignature.mk 2 1 0 [138, 139, 0, 0, 0, 0], -- #265
  ISignature.mk 2 2 0 [140, 139, 0, 0, 0, 0], -- #266
  ISignature.mk 1 3 0 [141, 0, 0, 0, 0, 0], -- #267
  ISignature.mk 1 1 0 [39, 0, 0, 0, 0, 0], -- #268
  ISignature.mk 2 3 0 [111, 142, 0, 0, 0, 0], -- #269
  ISignature.mk 2 3 0 [143, 144, 0, 0, 0, 0], -- #270
  ISignature.mk 2 3 0 [111, 145, 0, 0, 0, 0], -- #271
  ISignature.mk 2 3 0 [146, 144, 0, 0, 0, 0], -- #272
  ISignature.mk 2 3 0 [111, 147, 0, 0, 0, 0], -- #273
  ISignature.mk 2 3 0 [7, 144, 0, 0, 0, 0], -- #274
  ISignature.mk 2 3 0 [111, 148, 0, 0, 0, 0], -- #275
  ISignature.mk 2 3 0 [149, 144, 0, 0, 0, 0], -- #276
  ISignature.mk 2 3 0 [150, 151, 0, 0, 0, 0], -- #277
  ISignature.mk 2 3 0 [146, 152, 0, 0, 0, 0], -- #278
  ISignature.mk 2 3 0 [66, 123, 0, 0, 0, 0], -- #279
  ISignature.mk 2 3 0 [59, 65, 0, 0, 0, 0], -- #280
  ISignature.mk 2 3 0 [153, 36, 0, 0, 0, 0], -- #281
  ISignature.mk 2 3 0 [154, 12, 0, 0, 0, 0], -- #282
  ISignature.mk 4 3 1 [13, 13, 39, 155, 0, 0], -- #283
  ISignature.mk 4 2 1 [19, 19, 16, 156, 0, 0], -- #284
  ISignature.mk 0 3 0 [0, 0, 0, 0, 0, 0], -- #285
  ISignature.mk 1 3 0 [157, 0, 0, 0, 0, 0], -- #286
  ISignature.mk 2 3 0 [158, 159, 0, 0, 0, 0], -- #287
  ISignature.mk 2 3 0 [113, 69, 0, 0, 0, 0], -- #288
  ISignature.mk 3 3 0 [158, 159, 26, 0, 0, 0], -- #289
  ISignature.mk 3 3 0 [113, 69, 26, 0, 0, 0], -- #290
  ISignature.mk 3 3 0 [154, 64, 26, 0, 0, 0], -- #291
  ISignature.mk 3 3 0 [149, 65, 26, 0, 0, 0], -- #292
  ISignature.mk 1 3 0 [160, 0, 0, 0, 0, 0], -- #293
  ISignature.mk 1 1 0 [5, 0, 0, 0, 0, 0], -- #294
  ISignature.mk 2 3 0 [61, 159, 0, 0, 0, 0], -- #295
  ISignature.mk 2 3 0 [66, 69, 0, 0, 0, 0], -- #296
  ISignature.mk 2 3 0 [158, 161, 0, 0, 0, 0], -- #297
  ISignature.mk 2 3 0 [113, 79, 0, 0, 0, 0], -- #298
  ISignature.mk 1 3 0 [162, 0, 0, 0, 0, 0], -- #299
  ISignature.mk 1 1 0 [39, 0, 0, 0, 0, 0], -- #300
  ISignature.mk 0 3 0 [0, 0, 0, 0, 0, 0], -- #301
  ISignature.mk 1 3 0 [163, 0, 0, 0, 0, 0], -- #302
  ISignature.mk 3 3 0 [13, 39, 26, 0, 0, 0], -- #303
  ISignature.mk 3 2 0 [19, 16, 26, 0, 0, 0], -- #304
  ISignature.mk 4 3 0 [66, 65, 69, 65, 0, 0], -- #305
  ISignature.mk 4 3 0 [71, 74, 72, 74, 0, 0], -- #306
  ISignature.mk 2 3 0 [66, 164, 0, 0, 0, 0], -- #307
  ISignature.mk 2 3 0 [71, 76, 0, 0, 0, 0], -- #308
  ISignature.mk 2 3 0 [154, 123, 0, 0, 0, 0], -- #309
  ISignature.mk 2 2 0 [19, 67, 0, 0, 0, 0], -- #310
  ISignature.mk 2 3 0 [13, 123, 0, 0, 0, 0], -- #311
  ISignature.mk 2 2 0 [19, 67, 0, 0, 0, 0], -- #312
  ISignature.mk 4 3 0 [66, 65, 65, 67, 0, 0], -- #313
  ISignature.mk 4 3 0 [66, 65, 67, 65, 0, 0], -- #314
  ISignature.mk 4 3 0 [66, 65, 65, 123, 0, 0], -- #315
  ISignature.mk 4 3 0 [66, 65, 123, 65, 0, 0], -- #316
  ISignature.mk 4 3 0 [71, 74, 69, 26, 0, 0], -- #317
  ISignature.mk 4 3 0 [75, 78, 69, 26, 0, 0], -- #318
  ISignature.mk 2 3 0 [146, 65, 0, 0, 0, 0], -- #319
  ISignature.mk 2 3 0 [66, 151, 0, 0, 0, 0], -- #320
  ISignature.mk 2 3 0 [60, 65, 0, 0, 0, 0], -- #321
  ISignature.mk 3 3 0 [66, 65, 57, 0, 0, 0], -- #322
  ISignature.mk 2 3 0 [165, 166, 0, 0, 0, 0], -- #323
  ISignature.mk 2 3 0 [165, 167, 0, 0, 0, 0], -- #324
  ISignature.mk 2 3 0 [165, 123, 0, 0, 0, 0], -- #325
  ISignature.mk 2 3 0 [165, 167, 0, 0, 0, 0], -- #326
  ISignature.mk 2 3 0 [165, 124, 0, 0, 0, 0], -- #327
  ISignature.mk 2 3 0 [165, 167, 0, 0, 0, 0], -- #328
  ISignature.mk 3 3 0 [66, 168, 26, 0, 0, 0], -- #329
  ISignature.mk 4 3 0 [66, 65, 168, 26, 0, 0], -- #330
  ISignature.mk 3 3 0 [66, 151, 26, 0, 0, 0], -- #331
  ISignature.mk 4 3 0 [66, 65, 151, 26, 0, 0], -- #332
  ISignature.mk 3 2 0 [66, 16, 26, 0, 0, 0], -- #333
  ISignature.mk 4 2 0 [66, 65, 16, 26, 0, 0], -- #334
  ISignature.mk 3 3 0 [66, 65, 69, 0, 0, 0], -- #335
  ISignature.mk 3 3 0 [66, 69, 169, 0, 0, 0], -- #336
  ISignature.mk 2 3 0 [170, 65, 0, 0, 0, 0], -- #337
  ISignature.mk 2 3 0 [132, 74, 0, 0, 0, 0], -- #338
  ISignature.mk 3 3 0 [66, 65, 69, 0, 0, 0], -- #339
  ISignature.mk 3 3 0 [66, 69, 65, 0, 0, 0], -- #340
  ISignature.mk 2 3 0 [65, 69, 0, 0, 0, 0], -- #341
  ISignature.mk 2 3 0 [74, 72, 0, 0, 0, 0], -- #342
  ISignature.mk 2 3 0 [127, 171, 0, 0, 0, 0], -- #343
  ISignature.mk 2 3 0 [128, 78, 0, 0, 0, 0], -- #344
  ISignature.mk 2 3 0 [113, 67, 0, 0, 0, 0], -- #345
  ISignature.mk 2 3 0 [113, 123, 0, 0, 0, 0], -- #346
  ISignature.mk 3 3 1 [113, 69, 172, 0, 0, 0], -- #347
  ISignature.mk 1 3 0 [173, 0, 0, 0, 0, 0], -- #348
  ISignature.mk 1 3 1 [44, 0, 0, 0, 0, 0], -- #349
  ISignature.mk 2 3 2 [46, 88, 0, 0, 0, 0], -- #350
  ISignature.mk 1 2 1 [49, 0, 0, 0, 0, 0], -- #351
  ISignature.mk 1 3 0 [174, 0, 0, 0, 0, 0], -- #352
  ISignature.mk 1 3 1 [175, 0, 0, 0, 0, 0], -- #353
  ISignature.mk 3 3 0 [113, 123, 26, 0, 0, 0], -- #354
  ISignature.mk 5 2 4 [176, 92, 49, 177, 178, 0], -- #355
  ISignature.mk 5 3 4 [179, 91, 47, 180, 181, 0], -- #356
  ISignature.mk 2 3 0 [65, 67, 0, 0, 0, 0], -- #357
  ISignature.mk 2 3 0 [65, 123, 0, 0, 0, 0], -- #358
  ISignature.mk 4 3 4 [47, 182, 183, 46, 0, 0], -- #359
  ISignature.mk 2 2 2 [48, 89, 0, 0, 0, 0], -- #360
  ISignature.mk 2 3 0 [61, 69, 0, 0, 0, 0], -- #361
  ISignature.mk 2 3 0 [66, 159, 0, 0, 0, 0], -- #362
  ISignature.mk 2 3 0 [61, 67, 0, 0, 0, 0], -- #363
  ISignature.mk 2 3 0 [154, 67, 0, 0, 0, 0], -- #364
  ISignature.mk 2 3 0 [66, 42, 0, 0, 0, 0], -- #365
  ISignature.mk 2 3 2 [45, 87, 0, 0, 0, 0], -- #366
  ISignature.mk 1 3 1 [47, 0, 0, 0, 0, 0], -- #367
  ISignature.mk 1 1 1 [44, 0, 0, 0, 0, 0], -- #368
  ISignature.mk 2 3 0 [163, 26, 0, 0, 0, 0], -- #369
  ISignature.mk 3 3 0 [146, 65, 26, 0, 0, 0], -- #370
  ISignature.mk 1 3 0 [184, 0, 0, 0, 0, 0], -- #371
  ISignature.mk 1 3 0 [185, 0, 0, 0, 0, 0], -- #372
  ISignature.mk 1 3 0 [186, 0, 0, 0, 0, 0], -- #373
  ISignature.mk 1 3 0 [187, 0, 0, 0, 0, 0], -- #374
  ISignature.mk 1 3 0 [188, 0, 0, 0, 0, 0], -- #375
  ISignature.mk 1 3 0 [189, 0, 0, 0, 0, 0], -- #376
  ISignature.mk 1 3 0 [190, 0, 0, 0, 0, 0], -- #377
  ISignature.mk 1 2 0 [189, 0, 0, 0, 0, 0], -- #378
  ISignature.mk 1 3 0 [191, 0, 0, 0, 0, 0], -- #379
  ISignature.mk 1 3 0 [192, 0, 0, 0, 0, 0], -- #380
  ISignature.mk 1 3 0 [193, 0, 0, 0, 0, 0], -- #381
  ISignature.mk 3 3 0 [111, 144, 144, 0, 0, 0], -- #382
  ISignature.mk 2 3 0 [111, 144, 0, 0, 0, 0], -- #383
  ISignature.mk 2 3 0 [144, 144, 0, 0, 0, 0], -- #384
  ISignature.mk 3 3 0 [111, 144, 26, 0, 0, 0], -- #385
  ISignature.mk 1 3 1 [194, 0, 0, 0, 0, 0], -- #386
  ISignature.mk 1 3 0 [56, 0, 0, 0, 0, 0], -- #387
  ISignature.mk 2 3 0 [153, 174, 0, 0, 0, 0], -- #388
  ISignature.mk 3 3 1 [113, 65, 175, 0, 0, 0], -- #389
  ISignature.mk 3 3 1 [158, 64, 175, 0, 0, 0], -- #390
  ISignature.mk 2 3 0 [61, 65, 0, 0, 0, 0], -- #391
  ISignature.mk 2 3 0 [66, 65, 0, 0, 0, 0], -- #392
  ISignature.mk 2 3 0 [154, 65, 0, 0, 0, 0], -- #393
  ISignature.mk 2 3 0 [60, 64, 0, 0, 0, 0], -- #394
  ISignature.mk 2 3 0 [66, 64, 0, 0, 0, 0], -- #395
  ISignature.mk 2 2 0 [19, 39, 0, 0, 0, 0], -- #396
  ISignature.mk 6 3 3 [65, 69, 26, 195, 88, 155], -- #397
  ISignature.mk 6 3 3 [65, 69, 26, 196, 88, 155], -- #398
  ISignature.mk 4 3 1 [65, 69, 26, 195, 0, 0] -- #399
]

/-- Rows 400-455 of the table. -/
def x86InstISignatureDataPart1 : List ISignature := [
  ISignature.mk 4 3 1 [65, 69, 26, 196, 0, 0], -- #400
  ISignature.mk 3 3 0 [143, 65, 26, 0, 0, 0], -- #401
  ISignature.mk 3 2 0 [7, 65, 26, 0, 0, 0], -- #402
  ISignature.mk 3 3 0 [113, 168, 26, 0, 0, 0], -- #403
  ISignature.mk 3 3 0 [113, 151, 26, 0, 0, 0], -- #404
  ISignature.mk 3 2 0 [113, 16, 26, 0, 0, 0], -- #405
  ISignature.mk 3 3 0 [197, 198, 26, 0, 0, 0], -- #406
  ISignature.mk 2 3 0 [154, 152, 0, 0, 0, 0], -- #407
  ISignature.mk 0 1 0 [0, 0, 0, 0, 0, 0], -- #408
  ISignature.mk 3 3 0 [61, 159, 26, 0, 0, 0], -- #409
  ISignature.mk 2 3 0 [113, 26, 0, 0, 0, 0], -- #410
  ISignature.mk 2 3 0 [25, 108, 0, 0, 0, 0], -- #411
  ISignature.mk 1 2 0 [154, 0, 0, 0, 0, 0], -- #412
  ISignature.mk 1 3 0 [153, 0, 0, 0, 0, 0], -- #413
  ISignature.mk 2 3 2 [46, 199, 0, 0, 0, 0], -- #414
  ISignature.mk 3 3 3 [46, 199, 195, 0, 0, 0], -- #415
  ISignature.mk 3 3 0 [66, 67, 26, 0, 0, 0], -- #416
  ISignature.mk 3 3 0 [66, 123, 26, 0, 0, 0], -- #417
  ISignature.mk 1 3 1 [200, 0, 0, 0, 0, 0], -- #418
  ISignature.mk 1 3 0 [1, 0, 0, 0, 0, 0], -- #419
  ISignature.mk 1 3 0 [59, 0, 0, 0, 0, 0], -- #420
  ISignature.mk 3 3 0 [66, 65, 67, 0, 0, 0], -- #421
  ISignature.mk 3 3 0 [66, 65, 123, 0, 0, 0], -- #422
  ISignature.mk 2 3 0 [71, 96, 0, 0, 0, 0], -- #423
  ISignature.mk 2 3 0 [201, 67, 0, 0, 0, 0], -- #424
  ISignature.mk 2 3 0 [201, 96, 0, 0, 0, 0], -- #425
  ISignature.mk 2 3 0 [75, 97, 0, 0, 0, 0], -- #426
  ISignature.mk 2 3 0 [165, 67, 0, 0, 0, 0], -- #427
  ISignature.mk 4 3 0 [109, 65, 67, 26, 0, 0], -- #428
  ISignature.mk 4 3 0 [109, 65, 123, 26, 0, 0], -- #429
  ISignature.mk 3 3 0 [66, 65, 42, 0, 0, 0], -- #430
  ISignature.mk 3 3 0 [70, 202, 26, 0, 0, 0], -- #431
  ISignature.mk 4 3 0 [113, 65, 67, 26, 0, 0], -- #432
  ISignature.mk 4 3 0 [113, 65, 123, 26, 0, 0], -- #433
  ISignature.mk 3 3 0 [113, 65, 67, 0, 0, 0], -- #434
  ISignature.mk 3 3 0 [113, 65, 123, 0, 0, 0], -- #435
  ISignature.mk 3 3 0 [111, 203, 26, 0, 0, 0], -- #436
  ISignature.mk 3 3 0 [111, 67, 26, 0, 0, 0], -- #437
  ISignature.mk 3 3 0 [111, 123, 26, 0, 0, 0], -- #438
  ISignature.mk 1 3 0 [81, 0, 0, 0, 0, 0], -- #439
  ISignature.mk 1 3 0 [82, 0, 0, 0, 0, 0], -- #440
  ISignature.mk 1 3 0 [85, 0, 0, 0, 0, 0], -- #441
  ISignature.mk 4 3 0 [75, 78, 72, 26, 0, 0], -- #442
  ISignature.mk 4 3 0 [66, 65, 123, 26, 0, 0], -- #443
  ISignature.mk 3 3 1 [65, 65, 175, 0, 0, 0], -- #444
  ISignature.mk 2 3 0 [154, 171, 0, 0, 0, 0], -- #445
  ISignature.mk 2 3 0 [165, 144, 0, 0, 0, 0], -- #446
  ISignature.mk 2 3 0 [165, 118, 0, 0, 0, 0], -- #447
  ISignature.mk 4 3 0 [66, 65, 198, 26, 0, 0], -- #448
  ISignature.mk 2 3 0 [111, 204, 0, 0, 0, 0], -- #449
  ISignature.mk 4 3 0 [66, 65, 67, 26, 0, 0], -- #450
  ISignature.mk 1 2 0 [167, 0, 0, 0, 0, 0], -- #451
  ISignature.mk 3 3 3 [180, 46, 199, 0, 0, 0], -- #452
  ISignature.mk 3 3 2 [189, 155, 88, 0, 0, 0], -- #453
  ISignature.mk 3 2 2 [189, 155, 88, 0, 0, 0], -- #454
  ISignature.mk 3 3 3 [180, 155, 88, 0, 0, 0] -- #455
]

/-- `_x86InstISignatureData`. -/
def x86InstISignatureData : List ISignature := x86InstISignatureDataPart0 ++ (x86InstISignatureDataPart1)

/-- Rows 0-204 of the table. -/
def x86InstOSignatureDataPart0 : List OSignature := [
  OSignature.mk [] [] 255, -- #0
  OSignature.mk [OpFlag.W, OpFlag.GpbLo, OpFlag.GpbHi, OpFlag.Mem] [MemFlag.M8] 255, -- #1
  OSignature.mk [OpFlag.R, OpFlag.GpbLo, OpFlag.GpbHi, OpFlag.I8] [] 255, -- #2
  OSignature.mk [OpFlag.W, OpFlag.Gpw, OpFlag.Mem] [MemFlag.M16] 255, -- #3
  OSignature.mk [OpFlag.R, OpFlag.Gpw, OpFlag.Seg, OpFlag.I16] [] 255, -- #4
  OSignature.mk [OpFlag.W, OpFlag.Gpd, OpFlag.Mem] [MemFlag.M32] 255, -- #5
  OSignature.mk [OpFlag.R, OpFlag.Gpd, OpFlag.I32] [] 255, -- #6
  OSignature.mk [OpFlag.W, OpFlag.Gpq, OpFlag.Mem] [MemFlag.M64] 255, -- #7
  OSignature.mk [OpFlag.R, OpFlag.Gpq, OpFlag.Seg, OpFlag.I32] [] 255, -- #8
  OSignature.mk [OpFlag.W, OpFlag.GpbLo, OpFlag.GpbHi] [] 255, -- #9
  OSignature.mk [OpFlag.R, OpFlag.GpbLo, OpFlag.GpbHi, OpFlag.Mem, OpFlag.I8] [MemFlag.M8] 255, -- #10
  OSignature.mk [OpFlag.W, OpFlag.Gpw, OpFlag.Seg] [] 255, -- #11
  OSignature.mk [OpFlag.R, OpFlag.Gpw, OpFlag.Mem] [MemFlag.M16] 255, -- #12
  OSignature.mk [OpFlag.W, OpFlag.Gpd] [] 255, -- #13
  OSignature.mk [OpFlag.R, OpFlag.Gpd, OpFlag.Mem, OpFlag.I32] [MemFlag.M32] 255, -- #14
  OSignature.mk [OpFlag.W, OpFlag.Gpq, OpFlag.Seg] [] 255, -- #15
  OSignature.mk [OpFlag.R, OpFlag.Gpq, OpFlag.Mem] [MemFlag.M64] 255, -- #16
  OSignature.mk [OpFlag.W, OpFlag.Gpw] [] 255, -- #17
  OSignature.mk [OpFlag.R, OpFlag.I16] [] 255, -- #18
  OSignature.mk [OpFlag.W, OpFlag.Gpq] [] 255, -- #19
  OSignature.mk [OpFlag.R, OpFlag.Cr, OpFlag.Dr, OpFlag.I64] [] 255, -- #20
  OSignature.mk [OpFlag.R, OpFlag.Cr, OpFlag.Dr] [] 255, -- #21
  OSignature.mk [OpFlag.W, OpFlag.Cr, OpFlag.Dr] [] 255, -- #22
  OSignature.mk [OpFlag.R, OpFlag.Gpd] [] 255, -- #23
  OSignature.mk [OpFlag.R, OpFlag.Gpq] [] 255, -- #24
  OSignature.mk [OpFlag.X, OpFlag.GpbLo, OpFlag.GpbHi, OpFlag.Gpw, OpFlag.Gpd, OpFlag.Gpq, OpFlag.Mem] [MemFlag.M8, MemFlag.M16, MemFlag.M32, MemFlag.M64] 255, -- #25
  OSignature.mk [OpFlag.R, OpFlag.I8] [] 255, -- #26
  OSignature.mk [OpFlag.X, OpFlag.Gpw, OpFlag.Mem] [MemFlag.M16] 255, -- #27
  OSignature.mk [OpFlag.R, OpFlag.Gpw, OpFlag.I16] [] 255, -- #28
  OSignature.mk [OpFlag.X, OpFlag.Gpd, OpFlag.Gpq, OpFlag.Mem] [MemFlag.M32, MemFlag.M64] 255, -- #29
  OSignature.mk [OpFlag.R, OpFlag.I32] [] 255, -- #30
  OSignature.mk [OpFlag.X, OpFlag.GpbLo, OpFlag.GpbHi, OpFlag.Mem] [MemFlag.M8] 255, -- #31
  OSignature.mk [OpFlag.R, OpFlag.GpbLo, OpFlag.GpbHi] [] 255, -- #32
  OSignature.mk [OpFlag.X, OpFlag.Gpd, OpFlag.Mem] [MemFlag.M32] 255, -- #33
  OSignature.mk [OpFlag.X, OpFlag.Gpq, OpFlag.Mem] [MemFlag.M64] 255, -- #34
  OSignature.mk [OpFlag.X, OpFlag.GpbLo, OpFlag.GpbHi] [] 255, -- #35
  OSignature.mk [OpFlag.R, OpFlag.GpbLo, OpFlag.GpbHi, OpFlag.Mem] [MemFlag.M8] 255, -- #36
  OSignature.mk [OpFlag.X, OpFlag.Gpw] [] 255, -- #37
  OSignature.mk [OpFlag.X, OpFlag.Gpd] [] 255, -- #38
  OSignature.mk [OpFlag.R, OpFlag.Gpd, OpFlag.Mem] [MemFlag.M32] 255, -- #39
  OSignature.mk [OpFlag.X, OpFlag.Gpq] [] 255, -- #40
  OSignature.mk [OpFlag.R, OpFlag.GpbLo, OpFlag.GpbHi, OpFlag.Gpw, OpFlag.Gpd, OpFlag.Gpq, OpFlag.Mem] [MemFlag.M8, MemFlag.M16, MemFlag.M32, MemFlag.M64] 255, -- #41
  OSignature.mk [OpFlag.R, OpFlag.Gpd, OpFlag.Gpq, OpFlag.Mem] [MemFlag.M32, MemFlag.M64] 255, -- #42
  OSignature.mk [OpFlag.R, OpFlag.Gpw] [] 255, -- #43
  OSignature.mk [OpFlag.X, OpFlag.Implicit, OpFlag.Gpw] [] 0, -- #44
  OSignature.mk [OpFlag.W, OpFlag.Implicit, OpFlag.Gpw] [] 2, -- #45
  OSignature.mk [OpFlag.W, OpFlag.Implicit, OpFlag.Gpd] [] 2, -- #46
  OSignature.mk [OpFlag.X, OpFlag.Implicit, OpFlag.Gpd] [] 0, -- #47
  OSignature.mk [OpFlag.W, OpFlag.Implicit, OpFlag.Gpq] [] 2, -- #48
  OSignature.mk [OpFlag.X, OpFlag.Implicit, OpFlag.Gpq] [] 0, -- #49
  OSignature.mk [OpFlag.R, OpFlag.Gpw, OpFlag.Mem, OpFlag.I8, OpFlag.I16] [MemFlag.M16] 255, -- #50
  OSignature.mk [OpFlag.R, OpFlag.Gpd, OpFlag.Mem, OpFlag.I8, OpFlag.I32] [MemFlag.M32] 255, -- #51
  OSignature.mk [OpFlag.R, OpFlag.Gpq, OpFlag.Mem, OpFlag.I8, OpFlag.I32] [MemFlag.M64] 255, -- #52
  OSignature.mk [OpFlag.R, OpFlag.I8, OpFlag.I16] [] 255, -- #53
  OSignature.mk [OpFlag.R, OpFlag.I8, OpFlag.I32] [] 255, -- #54
  OSignature.mk [OpFlag.R, OpFlag.Mem] [MemFlag.M16] 255, -- #55
  OSignature.mk [OpFlag.R, OpFlag.Mem] [MemFlag.M32] 255, -- #56
  OSignature.mk [OpFlag.R, OpFlag.Mem] [MemFlag.M64] 255, -- #57
  OSignature.mk [OpFlag.W, OpFlag.Mem] [MemFlag.M16] 255, -- #58
  OSignature.mk [OpFlag.W, OpFlag.Mem] [MemFlag.M32] 255, -- #59
  OSignature.mk [OpFlag.W, OpFlag.Mem] [MemFlag.M64] 255, -- #60
  OSignature.mk [OpFlag.W, OpFlag.Mm] [] 255, -- #61
  OSignature.mk [OpFlag.R, OpFlag.Gpq, OpFlag.Mm, OpFlag.Xmm, OpFlag.Mem] [MemFlag.M64] 255, -- #62
  OSignature.mk [OpFlag.W, OpFlag.Gpq, OpFlag.Mm, OpFlag.Xmm, OpFlag.Mem] [MemFlag.M64] 255, -- #63
  OSignature.mk [OpFlag.R, OpFlag.Mm] [] 255, -- #64
  OSignature.mk [OpFlag.R, OpFlag.Xmm] [] 255, -- #65
  OSignature.mk [OpFlag.W, OpFlag.Xmm] [] 255, -- #66
  OSignature.mk [OpFlag.R, OpFlag.Xmm, OpFlag.Mem] [MemFlag.M64] 255, -- #67
  OSignature.mk [OpFlag.W, OpFlag.Xmm, OpFlag.Mem] [MemFlag.M64] 255, -- #68
  OSignature.mk [OpFlag.R, OpFlag.Xmm, OpFlag.Mem] [MemFlag.M128] 255, -- #69
  OSignature.mk [OpFlag.W, OpFlag.Xmm, OpFlag.Mem] [MemFlag.M128] 255, -- #70
  OSignature.mk [OpFlag.W, OpFlag.Ymm] [] 255, -- #71
  OSignature.mk [OpFlag.R, OpFlag.Ymm, OpFlag.Mem] [MemFlag.M256] 255, -- #72
  OSignature.mk [OpFlag.W, OpFlag.Ymm, OpFlag.Mem] [MemFlag.M256] 255, -- #73
  OSignature.mk [OpFlag.R, OpFlag.Ymm] [] 255, -- #74
  OSignature.mk [OpFlag.W, OpFlag.Zmm] [] 255, -- #75
  OSignature.mk [OpFlag.R, OpFlag.Zmm, OpFlag.Mem] [MemFlag.M512] 255, -- #76
  OSignature.mk [OpFlag.W, OpFlag.Zmm, OpFlag.Mem] [MemFlag.M512] 255, -- #77
  OSignature.mk [OpFlag.R, OpFlag.Zmm] [] 255, -- #78
  OSignature.mk [OpFlag.R, OpFlag.Xmm, OpFlag.Mem, OpFlag.I8] [MemFlag.M128] 255, -- #79
  OSignature.mk [OpFlag.R, OpFlag.Vm] [MemFlag.Vm32x] 255, -- #80
  OSignature.mk [OpFlag.R, OpFlag.Vm] [MemFlag.Vm32y] 255, -- #81
  OSignature.mk [OpFlag.R, OpFlag.Vm] [MemFlag.Vm32z] 255, -- #82
  OSignature.mk [OpFlag.R, OpFlag.Vm] [MemFlag.Vm64x] 255, -- #83
  OSignature.mk [OpFlag.R, OpFlag.Vm] [MemFlag.Vm64y] 255, -- #84
  OSignature.mk [OpFlag.R, OpFlag.Vm] [MemFlag.Vm64z] 255, -- #85
  OSignature.mk [OpFlag.R, OpFlag.Implicit, OpFlag.GpbLo] [] 0, -- #86
  OSignature.mk [OpFlag.R, OpFlag.Implicit, OpFlag.Gpw] [] 0, -- #87
  OSignature.mk [OpFlag.R, OpFlag.Implicit, OpFlag.Gpd] [] 0, -- #88
  OSignature.mk [OpFlag.R, OpFlag.Implicit, OpFlag.Gpq] [] 0, -- #89
  OSignature.mk [OpFlag.X, OpFlag.Implicit, OpFlag.Gpw] [] 2, -- #90
  OSignature.mk [OpFlag.X, OpFlag.Implicit, OpFlag.Gpd] [] 2, -- #91
  OSignature.mk [OpFlag.X, OpFlag.Implicit, OpFlag.Gpq] [] 2, -- #92
  OSignature.mk [OpFlag.R, OpFlag.Vm] [MemFlag.Vm64x, MemFlag.Vm64y] 255, -- #93
  OSignature.mk [OpFlag.W, OpFlag.Mem] [MemFlag.M128] 255, -- #94
  OSignature.mk [OpFlag.W, OpFlag.Mem] [MemFlag.M256] 255, -- #95
  OSignature.mk [OpFlag.R, OpFlag.Mem] [MemFlag.M128] 255, -- #96
  OSignature.mk [OpFlag.R, OpFlag.Mem] [MemFlag.M256] 255, -- #97
  OSignature.mk [OpFlag.R, OpFlag.I4] [] 255, -- #98
  OSignature.mk [OpFlag.R, OpFlag.Gpw, OpFlag.I8] [] 255, -- #99
  OSignature.mk [OpFlag.R, OpFlag.Gpd, OpFlag.I8] [] 255, -- #100
  OSignature.mk [OpFlag.R, OpFlag.Gpq, OpFlag.I8] [] 255, -- #101
  OSignature.mk [OpFlag.X, OpFlag.Mem] [MemFlag.M32, MemFlag.M64] 255, -- #102
  OSignature.mk [OpFlag.X, OpFlag.Fp] [] 0, -- #103
  OSignature.mk [OpFlag.R, OpFlag.Fp] [] 255, -- #104
  OSignature.mk [OpFlag.X, OpFlag.Fp] [] 255, -- #105
  OSignature.mk [OpFlag.R, OpFlag.Fp] [] 0, -- #106
  OSignature.mk [OpFlag.X, OpFlag.Implicit] [] 255, -- #107
  OSignature.mk [OpFlag.R, OpFlag.GpbLo, OpFlag.I8] [] 1, -- #108
  OSignature.mk [OpFlag.W, OpFlag.K, OpFlag.Xmm] [] 255, -- #109
  OSignature.mk [OpFlag.W, OpFlag.K, OpFlag.Ymm] [] 255, -- #110
  OSignature.mk [OpFlag.W, OpFlag.K] [] 255, -- #111
  OSignature.mk [OpFlag.R, OpFlag.Xmm, OpFlag.Ymm, OpFlag.Mem] [MemFlag.M64, MemFlag.M128, MemFlag.M256] 255, -- #112
  OSignature.mk [OpFlag.X, OpFlag.Xmm] [] 255, -- #113
  OSignature.mk [OpFlag.X, OpFlag.Ymm] [] 255, -- #114
  OSignature.mk [OpFlag.X, OpFlag.Zmm] [] 255, -- #115
  OSignature.mk [OpFlag.W, OpFlag.Mem] [MemFlag.M512] 255, -- #116
  OSignature.mk [OpFlag.R, OpFlag.Mem] [MemFlag.M512] 255, -- #117
  OSignature.mk [OpFlag.R, OpFlag.Gpq, OpFlag.Xmm, OpFlag.Mem] [MemFlag.M64] 255, -- #118
  OSignature.mk [OpFlag.W, OpFlag.Mem] [MemFlag.M32, MemFlag.M64] 255, -- #119
  OSignature.mk [OpFlag.R, OpFlag.Mem] [MemFlag.M32, MemFlag.M64] 255, -- #120
  OSignature.mk [OpFlag.W, OpFlag.Xmm, OpFlag.Mem] [MemFlag.M32] 255, -- #121
  OSignature.mk [OpFlag.W, OpFlag.Xmm, OpFlag.Mem] [MemFlag.M16] 255, -- #122
  OSignature.mk [OpFlag.R, OpFlag.Xmm, OpFlag.Mem] [MemFlag.M32] 255, -- #123
  OSignature.mk [OpFlag.R, OpFlag.Xmm, OpFlag.Mem] [MemFlag.M16] 255, -- #124
  OSignature.mk [OpFlag.R, OpFlag.Xmm, OpFlag.Mem] [MemFlag.M32, MemFlag.M64] 255, -- #125
  OSignature.mk [OpFlag.R, OpFlag.Xmm, OpFlag.Mem] [MemFlag.M64, MemFlag.M128] 255, -- #126
  OSignature.mk [OpFlag.W, OpFlag.Vm] [MemFlag.Vm32x] 255, -- #127
  OSignature.mk [OpFlag.W, OpFlag.Vm] [MemFlag.Vm32y] 255, -- #128
  OSignature.mk [OpFlag.W, OpFlag.Vm] [MemFlag.Vm32z] 255, -- #129
  OSignature.mk [OpFlag.W, OpFlag.Vm] [MemFlag.Vm64x] 255, -- #130
  OSignature.mk [OpFlag.W, OpFlag.Vm] [MemFlag.Vm64y] 255, -- #131
  OSignature.mk [OpFlag.W, OpFlag.Vm] [MemFlag.Vm64z] 255, -- #132
  OSignature.mk [OpFlag.X, OpFlag.Gpq, OpFlag.Mem, OpFlag.I32, OpFlag.I64, OpFlag.Rel32] [MemFlag.M64] 255, -- #133
  OSignature.mk [OpFlag.R, OpFlag.GpbLo, OpFlag.GpbHi, OpFlag.Gpw, OpFlag.Gpd, OpFlag.Mem] [MemFlag.M8, MemFlag.M16, MemFlag.M32] 255, -- #134
  OSignature.mk [OpFlag.R, OpFlag.GpbLo, OpFlag.GpbHi, OpFlag.Gpq, OpFlag.Mem] [MemFlag.M8, MemFlag.M64] 255, -- #135
  OSignature.mk [OpFlag.X, OpFlag.Gpw, OpFlag.Gpd] [] 255, -- #136
  OSignature.mk [OpFlag.X, OpFlag.Fp, OpFlag.Mem] [MemFlag.M32, MemFlag.M64] 255, -- #137
  OSignature.mk [OpFlag.R, OpFlag.Gpw, OpFlag.Gpd] [] 1, -- #138
  OSignature.mk [OpFlag.R, OpFlag.Rel8] [] 255, -- #139
  OSignature.mk [OpFlag.R, OpFlag.Gpd, OpFlag.Gpq] [] 1, -- #140
  OSignature.mk [OpFlag.X, OpFlag.Gpq, OpFlag.Mem, OpFlag.I32, OpFlag.I64, OpFlag.Rel8, OpFlag.Rel32] [MemFlag.M64] 255, -- #141
  OSignature.mk [OpFlag.R, OpFlag.GpbLo, OpFlag.GpbHi, OpFlag.Gpw, OpFlag.Gpd, OpFlag.Gpq, OpFlag.K, OpFlag.Mem] [MemFlag.M8] 255, -- #142
  OSignature.mk [OpFlag.W, OpFlag.GpbLo, OpFlag.GpbHi, OpFlag.Gpw, OpFlag.Gpd, OpFlag.Gpq, OpFlag.Mem] [MemFlag.M8] 255, -- #143
  OSignature.mk [OpFlag.R, OpFlag.K] [] 255, -- #144
  OSignature.mk [OpFlag.R, OpFlag.Gpd, OpFlag.Gpq, OpFlag.K, OpFlag.Mem] [MemFlag.M32] 255, -- #145
  OSignature.mk [OpFlag.W, OpFlag.Gpd, OpFlag.Gpq, OpFlag.Mem] [MemFlag.M32] 255, -- #146
  OSignature.mk [OpFlag.R, OpFlag.Gpq, OpFlag.K, OpFlag.Mem] [MemFlag.M64] 255, -- #147
  OSignature.mk [OpFlag.R, OpFlag.Gpw, OpFlag.Gpd, OpFlag.Gpq, OpFlag.K, OpFlag.Mem] [MemFlag.M16] 255, -- #148
  OSignature.mk [OpFlag.W, OpFlag.Gpw, OpFlag.Gpd, OpFlag.Gpq, OpFlag.Mem] [MemFlag.M16] 255, -- #149
  OSignature.mk [OpFlag.W, OpFlag.Mm, OpFlag.Xmm] [] 255, -- #150
  OSignature.mk [OpFlag.R, OpFlag.Gpd, OpFlag.Gpq, OpFlag.Mem] [MemFlag.M32] 255, -- #151
  OSignature.mk [OpFlag.R, OpFlag.Mm, OpFlag.Xmm] [] 255, -- #152
  OSignature.mk [OpFlag.W, OpFlag.Gpw, OpFlag.Gpd, OpFlag.Gpq] [] 255, -- #153
  OSignature.mk [OpFlag.W, OpFlag.Gpd, OpFlag.Gpq] [] 255, -- #154
  OSignature.mk [OpFlag.R, OpFlag.Implicit, OpFlag.Gpd] [] 2, -- #155
  OSignature.mk [OpFlag.R, OpFlag.Implicit, OpFlag.Gpq] [] 2, -- #156
  OSignature.mk [OpFlag.R, OpFlag.Gpw, OpFlag.Gpd, OpFlag.Mem] [MemFlag.M16, MemFlag.M32] 255, -- #157
  OSignature.mk [OpFlag.X, OpFlag.Mm] [] 255, -- #158
  OSignature.mk [OpFlag.R, OpFlag.Mm, OpFlag.Mem] [MemFlag.M64] 255, -- #159
  OSignature.mk [OpFlag.W, OpFlag.Gpw, OpFlag.Gpq, OpFlag.Mem] [MemFlag.M16, MemFlag.M64] 255, -- #160
  OSignature.mk [OpFlag.R, OpFlag.Mm, OpFlag.Mem, OpFlag.I8] [MemFlag.M64] 255, -- #161
  OSignature.mk [OpFlag.X, OpFlag.Gpw, OpFlag.Gpq, OpFlag.Mem, OpFlag.I8, OpFlag.I16, OpFlag.I32] [MemFlag.M16, MemFlag.M64] 255, -- #162
  OSignature.mk [OpFlag.X, OpFlag.I16] [] 255, -- #163
  OSignature.mk [OpFlag.R, OpFlag.Xmm, OpFlag.Ymm, OpFlag.Mem] [MemFlag.M128, MemFlag.M256] 255, -- #164
  OSignature.mk [OpFlag.W, OpFlag.Xmm, OpFlag.Ymm, OpFlag.Zmm] [] 255, -- #165
  OSignature.mk [OpFlag.R, OpFlag.Xmm, OpFlag.Mem] [MemFlag.M8] 255, -- #166
  OSignature.mk [OpFlag.R, OpFlag.Gpd, OpFlag.Gpq] [] 255, -- #167
  OSignature.mk [OpFlag.R, OpFlag.GpbLo, OpFlag.GpbHi, OpFlag.Gpw, OpFlag.Gpd, OpFlag.Gpq, OpFlag.Mem] [MemFlag.M8] 255, -- #168
  OSignature.mk [OpFlag.R, OpFlag.Xmm, OpFlag.I8] [] 255, -- #169
  OSignature.mk [OpFlag.W, OpFlag.Vm] [MemFlag.Vm64x, MemFlag.Vm64y] 255, -- #170
  OSignature.mk [OpFlag.R, OpFlag.Xmm, OpFlag.Ymm] [] 255, -- #171
  OSignature.mk [OpFlag.R, OpFlag.Implicit, OpFlag.Xmm] [] 0, -- #172
  OSignature.mk [OpFlag.X, OpFlag.Gpd, OpFlag.Gpq] [] 255, -- #173
  OSignature.mk [OpFlag.R, OpFlag.Mem] [MemFlag.Any] 255, -- #174
  OSignature.mk [OpFlag.R, OpFlag.Implicit] [] 255, -- #175
  OSignature.mk [OpFlag.X, OpFlag.Mem] [MemFlag.M128] 255, -- #176
  OSignature.mk [OpFlag.R, OpFlag.Implicit, OpFlag.Gpq] [] 1, -- #177
  OSignature.mk [OpFlag.R, OpFlag.Implicit, OpFlag.Gpq] [] 3, -- #178
  OSignature.mk [OpFlag.X, OpFlag.Mem] [MemFlag.M64] 255, -- #179
  OSignature.mk [OpFlag.R, OpFlag.Implicit, OpFlag.Gpd] [] 1, -- #180
  OSignature.mk [OpFlag.R, OpFlag.Implicit, OpFlag.Gpd] [] 3, -- #181
  OSignature.mk [OpFlag.W, OpFlag.Implicit, OpFlag.Gpd] [] 3, -- #182
  OSignature.mk [OpFlag.X, OpFlag.Implicit, OpFlag.Gpd] [] 1, -- #183
  OSignature.mk [OpFlag.X, OpFlag.Mem] [MemFlag.M80] 255, -- #184
  OSignature.mk [OpFlag.X, OpFlag.Mem] [MemFlag.M16, MemFlag.M32] 255, -- #185
  OSignature.mk [OpFlag.X, OpFlag.Mem] [MemFlag.M16, MemFlag.M32, MemFlag.M64] 255, -- #186
  OSignature.mk [OpFlag.X, OpFlag.Fp, OpFlag.Mem] [MemFlag.M32, MemFlag.M64, MemFlag.M80] 255, -- #187
  OSignature.mk [OpFlag.X, OpFlag.Mem] [MemFlag.M16] 255, -- #188
  OSignature.mk [OpFlag.X, OpFlag.Mem] [MemFlag.Any] 255, -- #189
  OSignature.mk [OpFlag.X, OpFlag.Gpw, OpFlag.Mem] [MemFlag.M16] 0, -- #190
  OSignature.mk [OpFlag.X, OpFlag.I8] [] 255, -- #191
  OSignature.mk [OpFlag.X, OpFlag.Rel8, OpFlag.Rel32] [] 255, -- #192
  OSignature.mk [OpFlag.X, OpFlag.Rel8] [] 255, -- #193
  OSignature.mk [OpFlag.W, OpFlag.Implicit, OpFlag.GpbHi] [] 0, -- #194
  OSignature.mk [OpFlag.W, OpFlag.Implicit, OpFlag.Gpd] [] 1, -- #195
  OSignature.mk [OpFlag.W, OpFlag.Implicit, OpFlag.Xmm] [] 0, -- #196
  OSignature.mk [OpFlag.X, OpFlag.Mm, OpFlag.Xmm] [] 255, -- #197
  OSignature.mk [OpFlag.R, OpFlag.Gpw, OpFlag.Gpd, OpFlag.Gpq, OpFlag.Mem] [MemFlag.M16] 255, -- #198
  OSignature.mk [OpFlag.W, OpFlag.Implicit, OpFlag.Gpd] [] 0, -- #199
  OSignature.mk [OpFlag.R, OpFlag.Implicit, OpFlag.GpbHi] [] 0, -- #200
  OSignature.mk [OpFlag.W, OpFlag.Ymm, OpFlag.Zmm] [] 255, -- #201
  OSignature.mk [OpFlag.R, OpFlag.Ymm, OpFlag.Zmm] [] 255, -- #202
  OSignature.mk [OpFlag.R, OpFlag.Xmm, OpFlag.Ymm, OpFlag.Zmm, OpFlag.Mem] [MemFlag.M128, MemFlag.M256, MemFlag.M512] 255, -- #203
  OSignature.mk [OpFlag.R, OpFlag.Xmm, OpFlag.Ymm, OpFlag.Zmm] [] 255 -- #204
]

/-- `_x86InstOSignatureData`. -/
def x86InstOSignatureData : List OSignature := x86InstOSignatureDataPart0

/-- `_x86InstAlphaIndex`: first instruction id per initial letter, 0xFFFF when
the letter is unused. -/
def x86InstAlphaIndex : List Nat := [1, 23, 46, 129, 139, 143, 65535, 241, 245, 253, 285, 336, 347, 407, 410, 413, 65535, 576, 624, 697, 701, 708, 1377, 1379, 65535, 65535]

/-- Number of instruction ids (`X86Inst::_kIdCount`). -/
def kIdCount : Nat := 1398

/-- `_x86CondToJcc` (CC_TO_INST(X86Inst::kIdJ); last four entries kInvalidInst). -/
def x86CondToJcc : List Nat := [277, 273, 255, 254, 258, 268, 256, 253, 281, 275, 279, 280, 261, 260, 262, 259, 0, 0, 0, 0]
/-- `_x86CondToCmovcc` (CC_TO_INST(X86Inst::kIdCmov)). -/
def x86CondToCmovcc : List Nat := [82, 78, 60, 59, 63, 73, 61, 58, 86, 80, 84, 85, 66, 65, 67, 64, 0, 0, 0, 0]
/-- `_x86CondToSetcc` (CC_TO_INST(X86Inst::kIdSet)). -/
def x86CondToSetcc : List Nat := [657, 653, 635, 634, 638, 648, 636, 633, 661, 655, 659, 660, 641, 640, 642, 639, 0, 0, 0, 0]
/-- `_x86ReverseCond`. Condition-code numbering is modelled from the spec's
listing order (O, NO, B, AE, E, NE, BE, A, S, NS, PE, PO, L, GE, LE, G, then the
two FPU aggregates), which the literal tail entries 0x12, 0x13 of the source
table confirm. -/
def x86ReverseCond : List Nat := [0, 1, 7, 6, 4, 5, 3, 2, 8, 9, 10, 11, 15, 14, 13, 12, 16, 17, 18, 19]

/-- `X86Inst::kIdMov` (position of Mov in the instruction table). -/
def kIdMov : Nat := 359
/-- `X86Inst::kIdCmp` (position of Cmp in the instruction table). -/
def kIdCmp : Nat := 88
/-- `X86Inst::kIdVaddpd` (position of Vaddpd in the instruction table). -/
def kIdVaddpd : Nat := 708
/-- `X86Inst::kIdAdc` (position of Adc in the instruction table). -/
def kIdAdc : Nat := 1
/-- `X86Inst::kIdVpmovd2m` (position of Vpmovd2m in the instruction table). -/
def kIdVpmovd2m : Nat := 1165

-- ============================================================================
-- Constants.  Values marked "modelled from the spec" live in headers that are
-- not part of this repository snapshot (x86inst.h / x86operand.h / globals.h);
-- they are modelled from spec.md, faithful to its words.  Only their identity /
-- relative structure is ever used.
-- ============================================================================

deriving instance DecidableEq for Except

/-- Modelled from the spec: architecture tag for 32-bit x86
(`ArchInfo::kTypeX86`; the spec's interface takes arch in the x86 family). -/
def kTypeX86 : Nat := 1

/-- Modelled from the spec: architecture tag for 64-bit x86 (`ArchInfo::kTypeX64`). -/
def kTypeX64 : Nat := 2

/-- Modelled from the spec: `ArchInfo::isX86Family` — the arch must be one of the
two x86-family tags this database serves. -/
def isX86Family (archType : Nat) : Bool :=
  archType == kTypeX86 || archType == kTypeX64

/-- `X86Inst::kArchMaskX86` (distinct bit; exact value in the absent header). -/
def kArchMaskX86 : Nat := 1

/-- `X86Inst::kArchMaskX64` (distinct bit; exact value in the absent header). -/
def kArchMaskX64 : Nat := 2

/-- Modelled from the spec: the invalid/none instruction id returned by failed
name lookup (`kInvalidInst`); the spec says id 0 represents "none". -/
def kInvalidInst : Nat := 0

/-- `kInvalidIndex`: the all-ones `size_t` sentinel meaning "no explicit length". -/
def kInvalidIndex : Nat := 2 ^ 64 - 1

/-- Modelled from the spec: `kInvalidReg`, the uint8 sentinel meaning "any
register"; the operand-signature table stores it as 0xFF. -/
def kInvalidReg : Nat := 0xFF

/-- Modelled from the spec: `Operand::kPackedIdMin`, the threshold above which a
register id denotes a virtual register to be assigned later. -/
def kPackedIdMin : Nat := 0x100

/-- `kX86InstMaxLength` (x86inst.cpp line 2546). -/
def kX86InstMaxLength : Nat := 16

/-- `kX86InstAlphaIndexInvalid` (x86inst.cpp line 2552). -/
def kX86InstAlphaIndexInvalid : Nat := 0xFFFF

-- Register-type tags; the numbering is fixed by the row comments of
-- `_x86ValidationData` and `_x86OpFlagFromRegType` in x86inst.cpp.
/-- `X86Reg::kRegRip` (row #02 of the validation tables). -/
def kRegRip : Nat := 2
/-- `X86Reg::kRegSeg` (row #03). -/
def kRegSeg : Nat := 3
/-- `X86Reg::kRegGpbLo` (row #04). -/
def kRegGpbLo : Nat := 4
/-- `X86Reg::kRegGpbHi` (row #05). -/
def kRegGpbHi : Nat := 5
/-- `X86Reg::kRegGpw` (row #06). -/
def kRegGpw : Nat := 6
/-- `X86Reg::kRegGpd` (row #07). -/
def kRegGpd : Nat := 7
/-- `X86Reg::kRegGpq` (row #08). -/
def kRegGpq : Nat := 8
/-- `X86Reg::kRegFp` (row #09). -/
def kRegFp : Nat := 9
/-- `X86Reg::kRegMm` (row #10). -/
def kRegMm : Nat := 10
/-- `X86Reg::kRegK` (row #11). -/
def kRegK : Nat := 11
/-- `X86Reg::kRegXmm` (row #12). -/
def kRegXmm : Nat := 12
/-- `X86Reg::kRegYmm` (row #13). -/
def kRegYmm : Nat := 13
/-- `X86Reg::kRegZmm` (row #14). -/
def kRegZmm : Nat := 14
/-- `X86Reg::kRegBnd` (row #16). -/
def kRegBnd : Nat := 16
/-- `X86Reg::kRegCr` (row #17). -/
def kRegCr : Nat := 17
/-- `X86Reg::kRegDr` (row #18). -/
def kRegDr : Nat := 18
/-- `X86Reg::kRegCount` (the validation tables have 19 rows). -/
def kRegCount : Nat := 19
/-- Modelled from the spec: `Label::kLabelTag`, the operand tag a label-based
memory operand stores as its base type (row #01 "Reserved" of the tables). -/
def kLabelTag : Nat := 1

-- Validation option bits.  The header defining `X86Inst::kOption...` is absent;
-- the spec lists the recognized options as a bitset, so distinct bits are
-- modelled for the five AVX-512 options the validator reads.
/-- Modelled from the spec: `X86Inst::kOptionK` (attached writemask). -/
def kOptionK : Nat := 0x10
/-- Modelled from the spec: `X86Inst::kOption1ToX` (broadcast). -/
def kOption1ToX : Nat := 0x20
/-- Modelled from the spec: `X86Inst::kOptionKZ` (zeroing writemask). -/
def kOptionKZ : Nat := 0x40
/-- Modelled from the spec: `X86Inst::kOptionSAE` (suppress-all-exceptions). -/
def kOptionSAE : Nat := 0x80
/-- Modelled from the spec: `X86Inst::kOptionER` (embedded rounding). -/
def kOptionER : Nat := 0x100
/-- `kAvx512Options` as formed in `X86Inst::validate`. -/
def kAvx512Options : Nat := kOptionK ||| kOption1ToX ||| kOptionKZ ||| kOptionSAE ||| kOptionER

/-- Error tags raised by this core (base/globals.h is absent; the tags are the
flat enumeration the spec's section 7 lists, names as in the source's
`kError...`). -/
inductive Err where
  | InvalidArch
  | InvalidArgument
  | InvalidInstruction
  | InvalidRegType
  | InvalidPhysId
  | InvalidUseOfGpq
  | InvalidUseOfGpbHi
  | InvalidAddress
  | InvalidState
  | InvalidKMaskReg
  | InvalidKMaskUse
  | InvalidKZeroUse
  | InvalidBroadcast
  | InvalidSAEOrER
deriving DecidableEq

/-- Modelled from the spec: an operand as the validator reads it (x86operand.h
is absent).  A register carries its type tag and id; a memory operand carries
its explicit size and the register-type tags of base and index (0 = none); an
immediate and a label carry nothing the validator reads. -/
inductive Operand where
  | none
  | reg (regType : Nat) (id : Nat)
  | mem (size : Nat) (baseType : Nat) (indexType : Nat)
  | imm (value : Int)
  | label
deriving DecidableEq

/-- `x86::isK`: the operand is a K (mask) register. -/
def isK : Operand → Bool
  | .reg t _ => t == kRegK
  | _ => false

/-- `x86::isZmm`: the operand is a ZMM register. -/
def isZmm : Operand → Bool
  | .reg t _ => t == kRegZmm
  | _ => false

/-- `_x86OpFlagFromRegType` (x86inst.cpp lines 3387-3407): operand flag for each
register type tag; empty = `kOpNone`. -/
def x86OpFlagFromRegType : List (List OpFlag) :=
  [ []        -- #00 None.
  , []        -- #01 Reserved.
  , []        -- #02 RIP.
  , [.Seg]    -- #03 SEG.
  , [.GpbLo]  -- #04 GPB-LO.
  , [.GpbHi]  -- #05 GPB-HI.
  , [.Gpw]    -- #06 GPW.
  , [.Gpd]    -- #07 GPD.
  , [.Gpq]    -- #08 GPQ.
  , [.Fp]     -- #09 FP.
  , [.Mm]     -- #10 MM.
  , [.K]      -- #11 K.
  , [.Xmm]    -- #12 XMM.
  , [.Ymm]    -- #13 YMM.
  , [.Zmm]    -- #14 ZMM.
  , []        -- #15 FUTURE.
  , [.Bnd]    -- #16 BND.
  , [.Cr]     -- #17 CR.
  , [.Dr]     -- #18 DR.
  ]

/-- `X86ValidationData`: per-register-type encodable-id masks plus the sets of
register types permitted as memory base and index. -/
structure X86ValidationData where
  allowedRegMask : List Nat
  allowedMemBaseRegs : Nat
  allowedMemIndexRegs : Nat

/-- `_x86ValidationData` (x86inst.cpp lines 3416-3443). -/
def x86ValidationData : X86ValidationData :=
  { allowedRegMask :=
      [ 0x00000000  -- #00 None.
      , 0x00000000  -- #01 Reserved.
      , 0x00000001  -- #02 RIP.
      , 0x0000007E  -- #03 SEG (ES|CS|SS|DS|FS|GS).
      , 0x0000000F  -- #04 GPB-LO.
      , 0x0000000F  -- #05 GPB-HI.
      , 0x000000FF  -- #06 GPW.
      , 0x000000FF  -- #07 GPD.
      , 0x000000FF  -- #08 GPQ.
      , 0x000000FF  -- #09 FP.
      , 0x000000FF  -- #10 MM.
      , 0x000000FF  -- #11 K.
      , 0x000000FF  -- #12 XMM.
      , 0x000000FF  -- #13 YMM.
      , 0x000000FF  -- #14 ZMM.
      , 0x00000000  -- #15 FUTURE.
      , 0x0000000F  -- #16 BND.
      , 0x000000FF  -- #17 CR.
      , 0x000000FF  -- #18 DR.
      ]
  , allowedMemBaseRegs :=
      (1 <<< kRegGpw) ||| (1 <<< kRegGpd) ||| (1 <<< kRegRip) ||| (1 <<< kLabelTag)
  , allowedMemIndexRegs :=
      (1 <<< kRegGpw) ||| (1 <<< kRegGpd) ||| (1 <<< kRegXmm) ||| (1 <<< kRegYmm) ||| (1 <<< kRegZmm) }

/-- `_x64ValidationData` (x86inst.cpp lines 3445-3472). -/
def x64ValidationData : X86ValidationData :=
  { allowedRegMask :=
      [ 0x00000000  -- #00 None.
      , 0x00000000  -- #01 Reserved.
      , 0x00000001  -- #02 RIP.
      , 0x00000060  -- #03 SEG (FS|GS).
      , 0x0000FFFF  -- #04 GPB-LO.
      , 0x0000000F  -- #05 GPB-HI.
      , 0x0000FFFF  -- #06 GPW.
      , 0x0000FFFF  -- #07 GPD.
      , 0x0000FFFF  -- #08 GPQ.
      , 0x000000FF  -- #09 FP.
      , 0x000000FF  -- #10 MM.
      , 0x000000FF  -- #11 K.
      , 0xFFFFFFFF  -- #12 XMM.
      , 0xFFFFFFFF  -- #13 YMM.
      , 0xFFFFFFFF  -- #14 ZMM.
      , 0x00000000  -- #15 FUTURE.
      , 0x0000000F  -- #16 BND.
      , 0x000001FF  -- #17 CR.
      , 0x000000FF  -- #18 DR.
      ]
  , allowedMemBaseRegs :=
      (1 <<< kRegGpd) ||| (1 <<< kRegGpq) ||| (1 <<< kRegRip) ||| (1 <<< kLabelTag)
  , allowedMemIndexRegs :=
      (1 <<< kRegGpd) ||| (1 <<< kRegGpq) ||| (1 <<< kRegXmm) ||| (1 <<< kRegYmm) ||| (1 <<< kRegZmm) }

/-- Validation data selected for an architecture tag (the `vd` pointer of
`X86Inst::validate`). -/
def vdOf (archType : Nat) : X86ValidationData :=
  if archType == kTypeX86 then x86ValidationData else x64ValidationData

/-- Architecture mask selected for an architecture tag. -/
def archMaskOf (archType : Nat) : Nat :=
  if archType == kTypeX86 then kArchMaskX86 else kArchMaskX64

-- ============================================================================
-- Validator (X86Inst::validate, x86inst.cpp lines 3474-3798)
-- ============================================================================

/-- The `Operand::kOpReg` case of the operand-translation loop of
`X86Inst::validate`: the register-type flag lookup, the virtual-register
threshold, and the per-architecture encodable-id mask check. -/
def translateRegOp (vd : X86ValidationData) (regType rid : Nat) : Except Err (OSignature × Nat × Option Nat) :=
  if regType ≥ kRegCount then .error .InvalidRegType
  else if x86OpFlagFromRegType.getD regType [] = [] then .error .InvalidRegType
  else if rid < kPackedIdMin then
    if rid ≥ 32 then .error .InvalidPhysId
    else if vd.allowedRegMask.getD regType 0 &&& (1 <<< rid) = 0 then .error .InvalidPhysId
    else .ok (⟨x86OpFlagFromRegType.getD regType [], [], rid % 256⟩, 1 <<< rid, Option.none)
  else .ok (⟨x86OpFlagFromRegType.getD regType [], [], rid % 256⟩, 0, Option.none)

/-- The `Operand::kOpMem` case of the operand-translation loop: base / index
permission checks and the vector-index or any-size memory flags. -/
def translateMemOp (vd : X86ValidationData) (size baseType indexType : Nat) : Except Err (OSignature × Nat × Option Nat) :=
  if baseType ≠ 0 ∧ vd.allowedMemBaseRegs &&& (1 <<< baseType) = 0 then
    .error .InvalidAddress
  else if indexType ≠ 0 then
    if vd.allowedMemIndexRegs &&& (1 <<< indexType) = 0 then .error .InvalidAddress
    else if indexType = kRegXmm then
      .ok (⟨[.Vm], [.Vm32x, .Vm64x], kInvalidReg⟩, 0, some size)
    else if indexType = kRegYmm then
      .ok (⟨[.Vm], [.Vm32y, .Vm64y], kInvalidReg⟩, 0, some size)
    else if indexType = kRegZmm then
      .ok (⟨[.Vm], [.Vm32z, .Vm64z], kInvalidReg⟩, 0, some size)
    else
      .ok (⟨[.Mem], [], kInvalidReg⟩, 0, some size)
  else
    .ok (⟨[.Mem], [.M8, .M16, .M32, .M64, .M80, .M128, .M256, .M512, .M1024, .Any],
          kInvalidReg⟩, 0, some size)

/-- The body of the operand-translation loop of `X86Inst::validate` for one
non-none operand: the translated `OSignature`, the contribution to
`combinedRegMask`, and `some size` when the operand is a memory operand (the
loop keeps a pointer to the last memory operand; only its size is read later). -/
def translateOp (vd : X86ValidationData) (op : Operand) : Except Err (OSignature × Nat × Option Nat) :=
  match op with
  | .reg regType rid => translateRegOp vd regType rid
  | .mem size baseType indexType => translateMemOp vd size baseType indexType
  | .imm _ => .ok (⟨[.I4, .I8, .I16, .I32, .I64], [], kInvalidReg⟩, 0, Option.none)
  | .label => .ok (⟨[.Rel8, .Rel32], [], kInvalidReg⟩, 0, Option.none)
  | .none => .error .InvalidState

/-- Accumulated state of the translation loop: the translated rows, the two
aggregates `combinedOpFlags` / `combinedRegMask`, and the last memory operand's
size. -/
structure TransResult where
  oSigs : List OSignature
  combinedOpFlags : List OpFlag
  combinedRegMask : Nat
  memSize : Option Nat
deriving DecidableEq

/-- Initial translation state. -/
def initTrans : TransResult := ⟨[], [], 0, Option.none⟩

/-- The operand-translation loop: walk the operand vector until a none operand,
translating each real operand.  Returns the final state and the operands after
the first none (which the caller must verify are all none). -/
def translateOps (vd : X86ValidationData) : List Operand → TransResult → Except Err (TransResult × List Operand)
  | [], st => .ok (st, [])
  | .none :: rest, st => .ok (st, rest)
  | op :: rest, st =>
      match translateOp vd op with
      | .error e => .error e
      | .ok (sig, regMask, msz) =>
          translateOps vd rest
            ⟨st.oSigs ++ [sig], st.combinedOpFlags ++ sig.flags,
             st.combinedRegMask ||| regMask,
             match msz with
             | some s => some s
             | Option.none => st.memSize⟩

/-- Phase C of `validate`: in x86 mode any 64-bit GP flag is illegal; in x64
mode a high-byte GP register combined with a referenced id in 8-31 is illegal. -/
def archCheck (archMask : Nat) (combinedOpFlags : List OpFlag) (combinedRegMask : Nat) : Except Err Unit :=
  if archMask == kArchMaskX86 then
    if OpFlag.Gpq ∈ combinedOpFlags then .error .InvalidUseOfGpq else .ok ()
  else
    if OpFlag.GpbHi ∈ combinedOpFlags ∧ combinedRegMask &&& 0xFFFFFF00 ≠ 0 then
      .error .InvalidUseOfGpbHi
    else .ok ()

/-- Comparison of one translated operand row against one reference row of the
operand-signature table (the three checks inside the matching loops). -/
def matchOSig (oRef oChk : OSignature) : Bool :=
  oRef.flags.any (fun f => oChk.flags.contains f) &&
  (oChk.memFlags.isEmpty || oRef.memFlags.any (fun f => oChk.memFlags.contains f)) &&
  (oRef.regId == kInvalidReg || oChk.regId == kInvalidReg || oRef.regId == oChk.regId)

/-- Exact-count matching: compare the referenced operand-signature rows against
the translated rows positionally. -/
def matchExact : List Nat → List OSignature → Bool
  | [], [] => true
  | r :: rs, c :: cs => matchOSig (x86InstOSignatureData.getD r ⟨[], [], 0⟩) c && matchExact rs cs
  | _, _ => false

/-- Implicit-accepting matching: reference rows whose flags contain `Implicit`
are skipped (consuming a reference position but no caller position). -/
def matchImplicit : List Nat → List OSignature → Bool
  | _, [] => true
  | [], _ :: _ => false
  | r :: rs, c :: cs =>
      let oRef := x86InstOSignatureData.getD r ⟨[], [], 0⟩
      if oRef.flags.contains .Implicit then matchImplicit rs (c :: cs)
      else matchOSig oRef c && matchImplicit rs cs

/-- Whether one instruction-signature row accepts the translated operands on
the given architecture (one iteration of the scanning loop). -/
def sigMatches (archMask : Nat) (chks : List OSignature) (iSig : ISignature) : Bool :=
  if iSig.archMask &&& archMask == 0 then false
  else if iSig.opCount == chks.length then
    matchExact (iSig.operands.take iSig.opCount) chks
  else if iSig.opCount - iSig.implicit == chks.length then
    matchImplicit (iSig.operands.take iSig.opCount) chks
  else false

/-- Scan `count` instruction-signature rows starting at `idx` for a match. -/
def sigScan (archMask : Nat) (chks : List OSignature) : Nat → Nat → Bool
  | _, 0 => false
  | idx, count + 1 =>
      sigMatches archMask chks (x86InstISignatureData.getD idx ⟨0, 0, 0, []⟩) ||
      sigScan archMask chks (idx + 1) count

/-- Phase D of `validate`: when the signature group is non-empty, some row must
match, else `InvalidInstruction`. -/
def sigPhase (archMask : Nat) (cd : CommonData) (chks : List OSignature) : Except Err Unit :=
  if cd.iSignatureCount == 0 then .ok ()
  else if sigScan archMask chks cd.iSignatureIndex cd.iSignatureCount then .ok ()
  else .error .InvalidInstruction

/-- AVX-512 `{k}` / `{k}{z}` checks of phase E. -/
def kmaskCheck (cdFlags : List InstFlag) (options : Nat) (opExtra : Operand) : Except Err Unit :=
  if options &&& (kOptionK ||| kOptionKZ) ≠ 0 then
    if options &&& kOptionK = 0 then .error .InvalidKZeroUse
    else if ¬ isK opExtra then .error .InvalidKMaskReg
    else if ¬ (InstFlag.EvexK_ ∈ cdFlags) then .error .InvalidKMaskUse
    else if options &&& kOptionKZ ≠ 0 ∧ ¬ (InstFlag.EvexKZ ∈ cdFlags) then .error .InvalidKZeroUse
    else .ok ()
  else .ok ()

/-- AVX-512 broadcast checks of phase E (`memSize` is the last memory operand's
size, none when there is no memory operand). -/
def broadcastCheck (cdFlags : List InstFlag) (options : Nat) (memSize : Option Nat) : Except Err Unit :=
  if options &&& kOption1ToX ≠ 0 then
    match memSize with
    | Option.none => .error .InvalidBroadcast
    | some size =>
        if size ≠ 0 then
          if InstFlag.EvexB4 ∈ cdFlags ∧ size ≠ 4 then .error .InvalidBroadcast
          else if InstFlag.EvexB8 ∈ cdFlags ∧ size ≠ 8 then .error .InvalidBroadcast
          else .ok ()
        else .ok ()
  else .ok ()

/-- AVX-512 `{sae}` / `{er}` checks of phase E. -/
def saeErCheck (cdFlags : List InstFlag) (options : Nat) (memSize : Option Nat)
    (ops : List Operand) : Except Err Unit :=
  if options &&& (kOptionSAE ||| kOptionER) ≠ 0 then
    if memSize.isSome then .error .InvalidSAEOrER
    else if options &&& kOptionER ≠ 0 then
      if InstFlag.EvexER ∈ cdFlags then
        if InstFlag.EvexB4 ∈ cdFlags ∨ InstFlag.EvexB8 ∈ cdFlags then
          if ¬ isZmm (ops.getD 0 .none) ∧ ¬ isZmm (ops.getD 1 .none) then .error .InvalidSAEOrER
          else .ok ()
        else .ok ()
      else .error .InvalidSAEOrER
    else if InstFlag.EvexSAE ∈ cdFlags then .ok ()
    else .error .InvalidSAEOrER
  else .ok ()

/-- Phase E of `validate`: the AVX-512 option checks, in source order. -/
def avx512Check (cdFlags : List InstFlag) (options : Nat) (opExtra : Operand)
    (memSize : Option Nat) (ops : List Operand) : Except Err Unit :=
  if options &&& kAvx512Options = 0 then .ok ()
  else
    match kmaskCheck cdFlags options opExtra with
    | .error e => .error e
    | .ok _ =>
        match broadcastCheck cdFlags options memSize with
        | .error e => .error e
        | .ok _ => saeErCheck cdFlags options memSize ops

/-- The common-data row of an instruction id (`iData->getCommonData()`). -/
def cdOf (instId : Nat) : CommonData :=
  commonData.getD (instData.getD instId ⟨.None, 0, 0⟩).commonDataIndex ⟨[], 0, 0⟩

/-- `X86Inst::validate` (x86inst.cpp lines 3474-3798). -/
def validate (archType instId options : Nat) (opExtra : Operand) (ops : List Operand) : Except Err Unit :=
  if ¬ isX86Family archType then .error .InvalidArch
  else if instId ≥ kIdCount then .error .InvalidArgument
  else
    match translateOps (vdOf archType) ops initTrans with
    | .error e => .error e
    | .ok (st, rest) =>
        if rest.all (fun o => o == Operand.none) then
          match archCheck (archMaskOf archType) st.combinedOpFlags st.combinedRegMask with
          | .error e => .error e
          | .ok _ =>
              match sigPhase (archMaskOf archType) (cdOf instId) st.oSigs with
              | .error e => .error e
              | .ok _ => avx512Check (cdOf instId).flags options opExtra st.memSize ops
        else .error .InvalidState

-- ============================================================================
-- Name lookup (X86Inst::getIdByName / getNameById, x86inst.cpp 2592-2691)
-- ============================================================================

/-- Modelled from the spec: `Utils::toLower` folds an ASCII byte to lowercase. -/
def toLowerByte (c : Nat) : Nat := if 65 ≤ c ∧ c ≤ 90 then c + 32 else c

/-- Byte of the name blob at absolute position `i`.  A read past the end of the
array is a read of unspecified adjacent memory, supplied by `junk`. -/
def blobByte (junk : Nat → Nat) (i : Nat) : Nat := nameData.getD i (junk i)

/-- `X86Inst_compareName(a, b, len)`: compare `len` bytes; on the first
difference return it, otherwise return `a[len]` (so a zero result needs the
stored name's `len`-th byte to be NUL). -/
def compareNameGo (a b : Nat → Nat) : Nat → Nat → Int
  | i, 0 => Int.ofNat (a i)
  | i, fuel + 1 =>
      let d : Int := Int.ofNat (a i) - Int.ofNat (b i)
      if d ≠ 0 then d else compareNameGo a b (i + 1) fuel

/-- `X86Inst_compareName` with the loop counter starting at 0. -/
def compareName (a b : Nat → Nat) (len : Nat) : Int := compareNameGo a b 0 len

/-- The lowercase-copy loop of the `len == kInvalidIndex` branch of
`getIdByName`: copy bytes until the NUL terminator (the end of the list),
failing when the index check `i > kX86InstMaxLength` fires.  Note: the branch
never assigns `len`. -/
def copyLowerNoLen : List Nat → Nat → Option (List Nat)
  | [], _ => some []
  | c :: cs, i =>
      if c = 0 then some []
      else if i > kX86InstMaxLength then Option.none
      else
        match copyLowerNoLen cs (i + 1) with
        | Option.none => Option.none
        | some r => some (toLowerByte c :: r)

/-- Byte `i` of the `nameLower` stack buffer: a copied byte when `i` is within
the copied portion, otherwise indeterminate residual stack content `junk i`. -/
def bufByte (stored : List Nat) (junk : Nat → Nat) (i : Nat) : Nat := stored.getD i (junk i)

/-- The loop that bounds the search slice: the first used alpha-index bucket
after `p`, or `_kIdCount` when none is used (fuel-driven; fuel 26 suffices). -/
def nextAlphaEnd : Nat → Nat → Nat
  | _, 0 => kIdCount
  | p, fuel + 1 =>
      if p > 25 then kIdCount
      else if x86InstAlphaIndex.getD p kX86InstAlphaIndexInvalid == kX86InstAlphaIndexInvalid then
        nextAlphaEnd (p + 1) fuel
      else x86InstAlphaIndex.getD p kX86InstAlphaIndexInvalid

/-- The linear search used for the 'j' bucket (`while (base != end)`), driven by
fuel `end - base`. -/
def linSearch (cmp : Nat → Int) (base : Nat) : Nat → Nat
  | 0 => kInvalidInst
  | fuel + 1 => if cmp base = 0 then base else linSearch cmp (base + 1) fuel

/-- The binary search (`for (lim = end - base; lim != 0; lim >>= 1)`): on a
negative comparison `base = cur + 1; lim--` then the halving, on a positive one
just the halving.  `lim` strictly decreases, so fuel `lim` suffices. -/
def binSearch (cmp : Nat → Int) : Nat → Nat → Nat → Nat
  | _, _, 0 => kInvalidInst
  | base, lim, fuel + 1 =>
      if lim = 0 then kInvalidInst
      else
        let cur := base + lim / 2
        let r := cmp cur
        if r < 0 then binSearch cmp (cur + 1) ((lim - 1) / 2) fuel
        else if r > 0 then binSearch cmp base (lim / 2) fuel
        else cur

/-- `X86Inst::getIdByName(name, len)`.  `name` is the input C string as its byte
list before the NUL terminator (`Option.none` models a null pointer).  `len` is
the explicit length, `kInvalidIndex` meaning "measure the string" — but that
branch of the source never assigns `len`, so the comparisons below run with
`len` still equal to `kInvalidIndex`.  `bufJunk` supplies the indeterminate
bytes of the `nameLower` stack buffer beyond the copied portion, and `blobJunk`
the unspecified memory past the end of the name blob. -/
def getIdByName (name : Option (List Nat)) (len : Nat) (bufJunk blobJunk : Nat → Nat) : Nat :=
  match name with
  | Option.none => kInvalidInst
  | some nm =>
      match
        (if len = kInvalidIndex then copyLowerNoLen nm 0
         else if len > kX86InstMaxLength then Option.none
         else some ((List.range len).map fun i => toLowerByte (nm.getD i (bufJunk i)))) with
      | Option.none => kInvalidInst
      | some stored =>
          if len = 0 then kInvalidInst
          else
            let buf := bufByte stored bufJunk
            let pfx := (buf 0 + 2 ^ 32 - 97) % 2 ^ 32
            if pfx > 25 then kInvalidInst
            else if x86InstAlphaIndex.getD pfx kX86InstAlphaIndexInvalid == kX86InstAlphaIndexInvalid then
              kInvalidInst
            else
              let base := x86InstAlphaIndex.getD pfx kX86InstAlphaIndexInvalid
              let theEnd := nextAlphaEnd (pfx + 1) 26
              let cmp : Nat → Int := fun id =>
                compareName
                  (fun k => blobByte blobJunk ((instData.getD id ⟨.None, 0, 0⟩).nameDataIndex + k))
                  buf len
              if pfx = 9 then linSearch cmp base (theEnd - base)
              else binSearch cmp base (theEnd - base) (theEnd - base)

/-- Read a stored name out of the blob, from `pos` to the next NUL (fuel-driven;
the blob length bounds the walk). -/
def readName : Nat → Nat → List Nat
  | _, 0 => []
  | pos, fuel + 1 =>
      let c := nameData.getD pos 0
      if c = 0 then [] else c :: readName (pos + 1) fuel

/-- `X86Inst::getNameById` for an id in range: the NUL-terminated string at the
record's name-data index, as a byte list. -/
def nameOfId (id : Nat) : List Nat :=
  readName (instData.getD id ⟨.None, 0, 0⟩).nameDataIndex 9455

-- Concrete register and operand shorthands used by the scenario theorems
-- (x86operand.h is absent; a register is its type tag and index, per the spec).
/-- `x86::eax` (GPD register 0). -/
def eax : Operand := .reg kRegGpd 0
/-- `x86::rax` (GPQ register 0). -/
def rax : Operand := .reg kRegGpq 0
/-- `x86::rdx` (GPQ register 2). -/
def rdx : Operand := .reg kRegGpq 2
/-- `x86::cr8` (CR register 8). -/
def cr8 : Operand := .reg kRegCr 8
/-- `x86::xmm0`. -/
def xmm0 : Operand := .reg kRegXmm 0
/-- `x86::xmm1`. -/
def xmm1 : Operand := .reg kRegXmm 1
/-- `x86::xmm2`. -/
def xmm2 : Operand := .reg kRegXmm 2
/-- A 4-byte memory operand based on `ebx` (a GPD base, no index). -/
def m32ebx : Operand := .mem 4 kRegGpd 0
/-- An unsized memory operand based on `ebx`. -/
def memEbx : Operand := .mem 0 kRegGpd 0
-- ============================================================================
-- Helper lemmas
-- ============================================================================

/-- If every bit of `m` lies in `M`, a value with no bit in `M` has none in `m`. -/
theorem and_mask_mono (x m M : Nat) (hsub : M &&& m = m) (hM : x &&& M = 0) :
    x &&& m = 0 := by
  have h2 : (x &&& M) &&& m = x &&& m := by rw [Nat.and_assoc, hsub]
  rw [← h2, hM, Nat.zero_and]

/-- The translation loop only grows `combinedOpFlags`. -/
theorem translateOps_mono (vd : X86ValidationData) (l : List Operand) (st st2 : TransResult)
    (rest : List Operand) (h : translateOps vd l st = .ok (st2, rest)) :
    ∀ f, f ∈ st.combinedOpFlags → f ∈ st2.combinedOpFlags := by
  induction l generalizing st with
  | nil =>
      intro f hf
      simp only [translateOps] at h
      cases h
      exact hf
  | cons op t ih =>
      intro f hf
      cases op with
      | none =>
          simp only [translateOps] at h
          cases h
          exact hf
      | reg rt rid =>
          simp only [translateOps] at h
          cases htr : translateOp vd (.reg rt rid) with
          | error e => rw [htr] at h; cases h
          | ok v =>
              rw [htr] at h
              exact ih _ h f (List.mem_append_left _ hf)
      | mem s b i =>
          simp only [translateOps] at h
          cases htr : translateOp vd (.mem s b i) with
          | error e => rw [htr] at h; cases h
          | ok v =>
              rw [htr] at h
              exact ih _ h f (List.mem_append_left _ hf)
      | imm v0 =>
          simp only [translateOps] at h
          cases htr : translateOp vd (.imm v0) with
          | error e => rw [htr] at h; cases h
          | ok v =>
              rw [htr] at h
              exact ih _ h f (List.mem_append_left _ hf)
      | label =>
          simp only [translateOps] at h
          cases htr : translateOp vd .label with
          | error e => rw [htr] at h; cases h
          | ok v =>
              rw [htr] at h
              exact ih _ h f (List.mem_append_left _ hf)

/-- A successfully translated register operand contributes exactly the flag set
of its register type. -/
theorem translateOp_reg_flags (vd : X86ValidationData) (rt rid : Nat) (sig : OSignature)
    (m : Nat) (s : Option Nat) (h : translateOp vd (.reg rt rid) = .ok (sig, m, s)) :
    sig.flags = x86OpFlagFromRegType.getD rt [] := by
  simp only [translateOp] at h
  unfold translateRegOp at h
  repeat' split at h
  all_goals cases h
  all_goals rfl

/-- If the translated prefix of the operand list contains a GPQ register, the
final combined flag set contains `Gpq`. -/
theorem translateOps_gpq (vd : X86ValidationData) (l : List Operand) (st st2 : TransResult)
    (rest : List Operand) (rid : Nat) (h : translateOps vd l st = .ok (st2, rest))
    (hmem : Operand.reg kRegGpq rid ∈ l) (hrest : ∀ o ∈ rest, o = Operand.none) :
    OpFlag.Gpq ∈ st2.combinedOpFlags := by
  induction l generalizing st with
  | nil => cases hmem
  | cons op t ih =>
      rcases List.mem_cons.mp hmem with heq | hmem2
      · subst heq
        simp only [translateOps] at h
        cases htr : translateOp vd (.reg kRegGpq rid) with
        | error e => rw [htr] at h; cases h
        | ok v =>
            obtain ⟨sig, m, s⟩ := v
            rw [htr] at h
            have hfl : sig.flags = [OpFlag.Gpq] := translateOp_reg_flags vd kRegGpq rid sig m s htr
            refine translateOps_mono vd t _ _ _ h OpFlag.Gpq ?_
            refine List.mem_append_right _ ?_
            rw [hfl]
            exact List.mem_singleton.mpr rfl
      · cases op with
        | none =>
            simp only [translateOps] at h
            cases h
            exact absurd (hrest _ hmem2) (by intro hx; cases hx)
        | reg rt rid2 =>
            simp only [translateOps] at h
            cases htr : translateOp vd (.reg rt rid2) with
            | error e => rw [htr] at h; cases h
            | ok v => rw [htr] at h; exact ih _ h hmem2
        | mem s b i =>
            simp only [translateOps] at h
            cases htr : translateOp vd (.mem s b i) with
            | error e => rw [htr] at h; cases h
            | ok v => rw [htr] at h; exact ih _ h hmem2
        | imm v0 =>
            simp only [translateOps] at h
            cases htr : translateOp vd (.imm v0) with
            | error e => rw [htr] at h; cases h
            | ok v => rw [htr] at h; exact ih _ h hmem2
        | label =>
            simp only [translateOps] at h
            cases htr : translateOp vd .label with
            | error e => rw [htr] at h; cases h
            | ok v => rw [htr] at h; exact ih _ h hmem2

-- ============================================================================
-- C1
-- ============================================================================

/-- C1: the claim says `find_id_by_name(name_of(i)) = i` for every valid id with
a non-empty name; but `getIdByName`'s measure-the-string branch never assigns
`len`, so the comparisons run with `len = kInvalidIndex` and read indeterminate
bytes past both buffers.  At id 1 (name "adc"), with any non-zero residual
stack byte after the copied name (junk value 1 here), the lookup returns
`kInvalidInst` (0) instead of 1 — while the same lookup with the explicit
length 3 does return 1, isolating the missing `len` assignment as the cause. -/
theorem c1_roundtrip_fails_without_len :
    nameOfId 1 = [97, 100, 99] ∧
    getIdByName (some (nameOfId 1)) kInvalidIndex (fun _ => 1) (fun _ => 1) = kInvalidInst ∧
    kInvalidInst ≠ 1 ∧
    getIdByName (some (nameOfId 1)) 3 (fun _ => 1) (fun _ => 1) = 1 := by
  refine ⟨by decide, by decide, by decide, by decide⟩

-- ============================================================================
-- C2
-- ============================================================================

/-- C2 counterexample: on x64 the claimed call returns `InvalidInstruction`
(the r32, creg signature of MOV is x86-only), not `InvalidPhysId`. -/
theorem c2_counterexample :
    validate kTypeX64 kIdMov 0 Operand.none [eax, cr8] = .error .InvalidInstruction ∧
    Err.InvalidInstruction ≠ Err.InvalidPhysId := by
  refine ⟨by decide, by decide⟩

/-- C2 amended: on x86 (where cr8 is not encodable, matching the spec's own
rationale and the repository's unit test) validate of MOV with (eax, cr8)
returns `InvalidPhysId`. -/
theorem c2_mov_eax_cr8 :
    validate kTypeX86 kIdMov 0 Operand.none [eax, cr8] = .error .InvalidPhysId := by
  decide

-- ============================================================================
-- C3
-- ============================================================================

/-- C3 counterexample: the claim says all 20 entries, including the two
FPU-specific aggregates, are valid non-sentinel ids; but entry 16
(FpuUnordered) of each table is `kInvalidInst`. -/
theorem c3_counterexample :
    x86CondToJcc.getD 16 999 = kInvalidInst ∧
    x86CondToCmovcc.getD 16 999 = kInvalidInst ∧
    x86CondToSetcc.getD 16 999 = kInvalidInst := by
  refine ⟨by decide, by decide, by decide⟩

/-- C3 amended: for the sixteen concrete condition codes O..G the three tables
yield ids in the valid range (never the sentinel), whose records carry the
family's encoding kind (Jcc → X86Jcc, CMOVcc → X86Rm, SETcc → X86Set); the
remaining four entries (the two FPU aggregates and the two padding slots) hold
the sentinel `kInvalidInst`. -/
theorem c3_cond_tables (c : Nat) (h : c < 16) :
    (x86CondToJcc.getD c 0 ≠ kInvalidInst ∧ x86CondToJcc.getD c 0 < kIdCount ∧
       (instData.getD (x86CondToJcc.getD c 0) ⟨.None, 0, 0⟩).encoding = .X86Jcc) ∧
    (x86CondToCmovcc.getD c 0 ≠ kInvalidInst ∧ x86CondToCmovcc.getD c 0 < kIdCount ∧
       (instData.getD (x86CondToCmovcc.getD c 0) ⟨.None, 0, 0⟩).encoding = .X86Rm) ∧
    (x86CondToSetcc.getD c 0 ≠ kInvalidInst ∧ x86CondToSetcc.getD c 0 < kIdCount ∧
       (instData.getD (x86CondToSetcc.getD c 0) ⟨.None, 0, 0⟩).encoding = .X86Set) ∧
    (x86CondToJcc.getD (c + 16) 999 = kInvalidInst ∧
       x86CondToCmovcc.getD (c + 16) 999 = kInvalidInst ∧
       x86CondToSetcc.getD (c + 16) 999 = kInvalidInst ∨ c ≥ 4) := by
  interval_cases c <;> exact ⟨by decide, by decide, by decide, by decide⟩

/-- C3 witness: the amended statement instantiated at condition code 0 (O). -/
theorem c3_cond_tables_witness :
    (0 < 16) ∧
    ((x86CondToJcc.getD 0 0 ≠ kInvalidInst ∧ x86CondToJcc.getD 0 0 < kIdCount ∧
       (instData.getD (x86CondToJcc.getD 0 0) ⟨.None, 0, 0⟩).encoding = .X86Jcc) ∧
    (x86CondToCmovcc.getD 0 0 ≠ kInvalidInst ∧ x86CondToCmovcc.getD 0 0 < kIdCount ∧
       (instData.getD (x86CondToCmovcc.getD 0 0) ⟨.None, 0, 0⟩).encoding = .X86Rm) ∧
    (x86CondToSetcc.getD 0 0 ≠ kInvalidInst ∧ x86CondToSetcc.getD 0 0 < kIdCount ∧
       (instData.getD (x86CondToSetcc.getD 0 0) ⟨.None, 0, 0⟩).encoding = .X86Set) ∧
    (x86CondToJcc.getD (0 + 16) 999 = kInvalidInst ∧
       x86CondToCmovcc.getD (0 + 16) 999 = kInvalidInst ∧
       x86CondToSetcc.getD (0 + 16) 999 = kInvalidInst ∨ 0 ≥ 4)) :=
  ⟨by decide, c3_cond_tables 0 (by decide)⟩

-- ============================================================================
-- C4
-- ============================================================================

/-- C4 counterexample: `reverse_cond` does not negate — it maps O to O (and B
to A), not O to NO. -/
theorem c4_counterexample :
    x86ReverseCond.getD 0 999 = 0 ∧ (0 : Nat) ≠ 1 := by
  refine ⟨by decide, by decide⟩

/-- C4 amended: `reverse_cond` swaps the direction of the comparison (the
condition that holds when the comparison operands are exchanged) rather than
negating it: O→O, NO→NO, B→A, AE→BE, E→E, NE→NE, BE→AE, A→B, S→S, NS→NS,
PE→PE, PO→PO, L→G, GE→LE, LE→GE, G→L, and fixes the two FPU aggregates. -/
theorem c4_reverse_cond_swaps :
    x86ReverseCond = [0, 1, 7, 6, 4, 5, 3, 2, 8, 9, 10, 11, 15, 14, 13, 12, 16, 17, 18, 19] ∧
    x86ReverseCond.getD 0 999 = 0 ∧ x86ReverseCond.getD 1 999 = 1 ∧
    x86ReverseCond.getD 2 999 = 7 ∧ x86ReverseCond.getD 3 999 = 6 := by
  refine ⟨by decide, by decide, by decide, by decide⟩

-- ============================================================================
-- C8
-- ============================================================================

/-- C8: `reverse_cond` is an involution on the sixteen concrete condition codes
O..G. -/
theorem c8_reverse_cond_involution (c : Nat) (h : c < 16) :
    x86ReverseCond.getD (x86ReverseCond.getD c 0) 0 = c := by
  interval_cases c <;> rfl

/-- C8 witness at condition code 2 (B). -/
theorem c8_reverse_cond_involution_witness :
    2 < 16 ∧ x86ReverseCond.getD (x86ReverseCond.getD 2 0) 0 = 2 :=
  ⟨by decide, c8_reverse_cond_involution 2 (by decide)⟩

-- ============================================================================
-- C9
-- ============================================================================

/-- Every common-data row's signature group stays inside the signature table. -/
theorem commonData_rows_bounded :
    commonData.all
      (fun cd => decide (cd.iSignatureIndex + cd.iSignatureCount ≤ 456)) = true := by
  decide

/-- Every instruction row's common-data index is a valid row number. -/
theorem instData_commonIndex_bounded :
    instData.all (fun r => decide (r.commonDataIndex < 534)) = true := by
  decide

/-- C9: for every instruction id in range, the common-data row is in bounds and
its `signature_group_index + signature_group_count` is at most the length of
the instruction-signature table, so the validator's scan never leaves the
table. -/
theorem c9_signature_group_in_bounds (i : Nat) (h : i < kIdCount) :
    (instData.getD i ⟨.None, 0, 0⟩).commonDataIndex < commonData.length ∧
    (cdOf i).iSignatureIndex + (cdOf i).iSignatureCount ≤ x86InstISignatureData.length := by
  have hlen : instData.length = kIdCount := by decide
  have hclen : commonData.length = 534 := by decide
  have hslen : x86InstISignatureData.length = 456 := by decide
  have hi : i < instData.length := by omega
  have hmem : instData.getD i ⟨.None, 0, 0⟩ ∈ instData := by
    rw [List.getD_eq_getElem _ _ hi]
    exact List.getElem_mem hi
  have h1 : (instData.getD i ⟨.None, 0, 0⟩).commonDataIndex < 534 :=
    of_decide_eq_true (List.all_eq_true.mp instData_commonIndex_bounded _ hmem)
  refine ⟨by omega, ?_⟩
  have hc : (instData.getD i ⟨.None, 0, 0⟩).commonDataIndex < commonData.length := by omega
  have hcmem : commonData.getD (instData.getD i ⟨.None, 0, 0⟩).commonDataIndex ⟨[], 0, 0⟩ ∈ commonData := by
    rw [List.getD_eq_getElem _ _ hc]
    exact List.getElem_mem hc
  have h2 := of_decide_eq_true (List.all_eq_true.mp commonData_rows_bounded _ hcmem)
  unfold cdOf
  omega

/-- C9 witness at id 1 (ADC). -/
theorem c9_signature_group_in_bounds_witness :
    1 < kIdCount ∧
    ((instData.getD 1 ⟨.None, 0, 0⟩).commonDataIndex < commonData.length ∧
     (cdOf 1).iSignatureIndex + (cdOf 1).iSignatureCount ≤ x86InstISignatureData.length) :=
  ⟨by decide, c9_signature_group_in_bounds 1 (by decide)⟩
-- ============================================================================
-- More helper lemmas (translation-loop structure)
-- ============================================================================

/-- A register type whose flag mapping is non-empty is a valid type tag. -/
theorem regType_lt_of_flags (regType : Nat)
    (h : x86OpFlagFromRegType.getD regType [] ≠ []) : regType < kRegCount := by
  by_contra hge
  refine h (List.getD_eq_default _ _ ?_)
  have hlen : x86OpFlagFromRegType.length = 19 := by decide
  have hk : kRegCount = 19 := rfl
  omega

/-- Translating a list that was fully consumed and then more operands is
translating the extra operands from the reached state. -/
theorem translateOps_append (vd : X86ValidationData) (l1 l2 : List Operand) (st2 : TransResult) :
    ∀ st, (∀ o ∈ l1, o ≠ Operand.none) →
      translateOps vd l1 st = .ok (st2, []) →
      translateOps vd (l1 ++ l2) st = translateOps vd l2 st2 := by
  induction l1 with
  | nil =>
      intro st _ h
      simp only [translateOps] at h
      cases h
      rfl
  | cons op t ih =>
      intro st hnn h
      cases op with
      | none => exact absurd rfl (hnn _ (List.mem_cons_self _ _))
      | reg rt rid =>
          simp only [translateOps, List.cons_append] at h ⊢
          cases htr : translateOp vd (.reg rt rid) with
          | error e => rw [htr] at h; cases h
          | ok v =>
              rw [htr] at h
              obtain ⟨sig, regMask, msz⟩ := v
              exact ih _ (fun o ho => hnn o (List.mem_cons_of_mem _ ho)) h
      | mem sz b i =>
          simp only [translateOps, List.cons_append] at h ⊢
          cases htr : translateOp vd (.mem sz b i) with
          | error e => rw [htr] at h; cases h
          | ok v =>
              rw [htr] at h
              obtain ⟨sig, regMask, msz⟩ := v
              exact ih _ (fun o ho => hnn o (List.mem_cons_of_mem _ ho)) h
      | imm v0 =>
          simp only [translateOps, List.cons_append] at h ⊢
          cases htr : translateOp vd (.imm v0) with
          | error e => rw [htr] at h; cases h
          | ok v =>
              rw [htr] at h
              obtain ⟨sig, regMask, msz⟩ := v
              exact ih _ (fun o ho => hnn o (List.mem_cons_of_mem _ ho)) h
      | label =>
          simp only [translateOps, List.cons_append] at h ⊢
          cases htr : translateOp vd .label with
          | error e => rw [htr] at h; cases h
          | ok v =>
              rw [htr] at h
              obtain ⟨sig, regMask, msz⟩ := v
              exact ih _ (fun o ho => hnn o (List.mem_cons_of_mem _ ho)) h

/-- When translation, the gap check, the architecture check and the signature
match all succeed, `validate` is exactly the AVX-512 option check. -/
theorem validate_reaches_avx512 (archType instId options : Nat) (opExtra : Operand)
    (ops rest : List Operand) (st : TransResult)
    (harch : archType = kTypeX86 ∨ archType = kTypeX64)
    (hid : instId < kIdCount)
    (htr : translateOps (vdOf archType) ops initTrans = .ok (st, rest))
    (hrest : rest.all (fun o => o == Operand.none) = true)
    (hac : archCheck (archMaskOf archType) st.combinedOpFlags st.combinedRegMask = .ok ())
    (hsig : sigPhase (archMaskOf archType) (cdOf instId) st.oSigs = .ok ()) :
    validate archType instId options opExtra ops =
      avx512Check (cdOf instId).flags options opExtra st.memSize ops := by
  rcases harch with h | h <;> subst h <;>
    (unfold validate
     rw [if_neg (by decide), if_neg (by omega)]
     simp only [htr]
     rw [if_pos hrest]
     simp only [hac, hsig])

/-- When translation fails, `validate` reports the translation error. -/
theorem validate_translate_error (archType instId options : Nat) (opExtra : Operand)
    (ops : List Operand) (e : Err)
    (harch : archType = kTypeX86 ∨ archType = kTypeX64)
    (hid : instId < kIdCount)
    (htr : translateOps (vdOf archType) ops initTrans = .error e) :
    validate archType instId options opExtra ops = .error e := by
  rcases harch with h | h <;> subst h <;>
    (unfold validate
     rw [if_neg (by decide), if_neg (by omega)]
     simp only [htr])

/-- With SAE or ER requested, a reached phase E whose mask and broadcast checks
pass reports `InvalidSAEOrER` whenever a memory operand is present. -/
theorem avx512_sae_mem (cdFlags : List InstFlag) (options : Nat) (opExtra : Operand)
    (sz : Nat) (ops : List Operand)
    (hkm : kmaskCheck cdFlags options opExtra = .ok ())
    (hbc : broadcastCheck cdFlags options (some sz) = .ok ())
    (hopt : options &&& (kOptionSAE ||| kOptionER) ≠ 0) :
    avx512Check cdFlags options opExtra (some sz) ops = .error .InvalidSAEOrER := by
  unfold avx512Check
  rw [if_neg (fun h0 => hopt (and_mask_mono options _ kAvx512Options (by decide) h0)),
      hkm, hbc]
  unfold saeErCheck
  rw [if_pos hopt]
  rfl

/-- With ER requested, no memory operand, a broadcast-capable instruction and no
ZMM register in the first two slots, a reached phase E whose mask and broadcast
checks pass reports `InvalidSAEOrER`. -/
theorem avx512_er_not_zmm (cdFlags : List InstFlag) (options : Nat) (opExtra : Operand)
    (ops : List Operand)
    (hkm : kmaskCheck cdFlags options opExtra = .ok ())
    (hbc : broadcastCheck cdFlags options Option.none = .ok ())
    (her : options &&& kOptionER ≠ 0)
    (hb : InstFlag.EvexB4 ∈ cdFlags ∨ InstFlag.EvexB8 ∈ cdFlags)
    (hz0 : isZmm (ops.getD 0 Operand.none) = false)
    (hz1 : isZmm (ops.getD 1 Operand.none) = false) :
    avx512Check cdFlags options opExtra Option.none ops = .error .InvalidSAEOrER := by
  have hopt : options &&& (kOptionSAE ||| kOptionER) ≠ 0 := fun h0 =>
    her (and_mask_mono options kOptionER (kOptionSAE ||| kOptionER) (by decide) h0)
  unfold avx512Check
  rw [if_neg (fun h0 => hopt (and_mask_mono options _ kAvx512Options (by decide) h0)),
      hkm, hbc]
  unfold saeErCheck
  rw [if_pos hopt, if_neg (by decide : ¬ ((Option.none : Option Nat).isSome = true)),
      if_pos her]
  by_cases hER : InstFlag.EvexER ∈ cdFlags
  · rw [if_pos hER, if_pos hb,
        if_pos ⟨by rw [hz0]; decide, by rw [hz1]; decide⟩]
  · rw [if_neg hER]

/-- With broadcast requested and no memory operand, a reached phase E whose mask
check passes reports `InvalidBroadcast`. -/
theorem avx512_broadcast_nomem (cdFlags : List InstFlag) (options : Nat) (opExtra : Operand)
    (ops : List Operand)
    (hkm : kmaskCheck cdFlags options opExtra = .ok ())
    (hbx : options &&& kOption1ToX ≠ 0) :
    avx512Check cdFlags options opExtra Option.none ops = .error .InvalidBroadcast := by
  unfold avx512Check
  rw [if_neg (fun h0 => hbx (and_mask_mono options kOption1ToX kAvx512Options (by decide) h0)),
      hkm]
  unfold broadcastCheck
  rw [if_pos hbx]

/-- With broadcast requested and a memory operand whose non-zero size disagrees
with the declared broadcast element, a reached phase E whose mask check passes
reports `InvalidBroadcast`. -/
theorem avx512_broadcast_badsize (cdFlags : List InstFlag) (options : Nat) (opExtra : Operand)
    (ops : List Operand) (sz : Nat)
    (hkm : kmaskCheck cdFlags options opExtra = .ok ())
    (hbx : options &&& kOption1ToX ≠ 0)
    (hsz : sz ≠ 0)
    (hbad : (InstFlag.EvexB4 ∈ cdFlags ∧ sz ≠ 4) ∨ (InstFlag.EvexB8 ∈ cdFlags ∧ sz ≠ 8)) :
    avx512Check cdFlags options opExtra (some sz) ops = .error .InvalidBroadcast := by
  unfold avx512Check
  rw [if_neg (fun h0 => hbx (and_mask_mono options kOption1ToX kAvx512Options (by decide) h0)),
      hkm]
  unfold broadcastCheck
  rw [if_pos hbx]
  simp only []
  rcases hbad with h4 | h8
  · rw [if_pos hsz, if_pos h4]
  · by_cases h4 : InstFlag.EvexB4 ∈ cdFlags ∧ sz ≠ 4
    · rw [if_pos hsz, if_pos h4]
    · rw [if_pos hsz, if_neg h4, if_pos h8]

-- ============================================================================
-- C7
-- ============================================================================

/-- C7: on x86 (32-bit), for every valid instruction id and every operand
vector that translates successfully (no gaps, every operand accepted by the
translator) and contains a 64-bit general-purpose register, validate returns
`InvalidUseOfGpq`. -/
theorem c7_gpq_in_x86_mode (instId options : Nat) (opExtra : Operand)
    (ops rest : List Operand) (st : TransResult) (rid : Nat)
    (hid : instId < kIdCount)
    (htr : translateOps (vdOf kTypeX86) ops initTrans = .ok (st, rest))
    (hrest : rest.all (fun o => o == Operand.none) = true)
    (hmem : Operand.reg kRegGpq rid ∈ ops) :
    validate kTypeX86 instId options opExtra ops = .error .InvalidUseOfGpq := by
  have hrest2 : ∀ o ∈ rest, o = Operand.none := by
    intro o ho
    exact eq_of_beq (List.all_eq_true.mp hrest o ho)
  have hgpq : OpFlag.Gpq ∈ st.combinedOpFlags :=
    translateOps_gpq (vdOf kTypeX86) ops initTrans st rest rid htr hmem hrest2
  have hac : archCheck (archMaskOf kTypeX86) st.combinedOpFlags st.combinedRegMask =
      .error .InvalidUseOfGpq := by
    unfold archCheck
    rw [if_pos (by decide : (archMaskOf kTypeX86 == kArchMaskX86) = true), if_pos hgpq]
  unfold validate
  rw [if_neg (by decide), if_neg (by omega)]
  simp only [htr]
  rw [if_pos hrest]
  simp only [hac]

/-- C7 witness: the claim's concrete scenario S3, `CMP rax, rdx` on x86. -/
theorem c7_gpq_in_x86_mode_witness :
    kIdCmp < kIdCount ∧
    validate kTypeX86 kIdCmp 0 Operand.none [rax, rdx] = .error .InvalidUseOfGpq :=
  ⟨by decide,
   c7_gpq_in_x86_mode kIdCmp 0 Operand.none [rax, rdx] []
     ⟨[⟨[.Gpq], [], 0⟩, ⟨[.Gpq], [], 2⟩], [.Gpq, .Gpq], 5, Option.none⟩ 0
     (by decide) (by decide) (by decide) (by decide)⟩

-- ============================================================================
-- C10
-- ============================================================================

/-- C10 counterexample: the claim promises `InvalidPhysId` for every register
type; but a register whose type maps to an empty flag set (here RIP, type 2)
with id 40 in [32, kPackedIdMin) yields `InvalidRegType` instead. -/
theorem c10_counterexample :
    validate kTypeX64 1 0 Operand.none [Operand.reg kRegRip 40] = .error .InvalidRegType ∧
    Err.InvalidRegType ≠ Err.InvalidPhysId ∧
    32 ≤ 40 ∧ 40 < kPackedIdMin := by
  refine ⟨by decide, by decide, by decide, by decide⟩

/-- C10 amended: (1) for a register operand whose type maps to a non-empty flag
set, placed after a prefix of operands that translate successfully, a concrete
id in [32, kPackedIdMin) makes validate return `InvalidPhysId` — on both
architectures and for every register type with a non-empty mapping; (2) a
virtual id (at or above `kPackedIdMin`) bypasses the encodable-register mask
entirely: the translation succeeds for every validation-data table; (3) for a
concrete id below 32 the mask is consulted: translation fails with
`InvalidPhysId` exactly when the register's bit is absent from the mask. -/
theorem c10_phys_id_rules :
    (∀ (archType instId options : Nat) (opExtra : Operand) (pre suffix : List Operand)
       (st : TransResult) (regType rid : Nat),
       archType = kTypeX86 ∨ archType = kTypeX64 →
       instId < kIdCount →
       (∀ o ∈ pre, o ≠ Operand.none) →
       translateOps (vdOf archType) pre initTrans = .ok (st, []) →
       x86OpFlagFromRegType.getD regType [] ≠ [] →
       32 ≤ rid → rid < kPackedIdMin →
       validate archType instId options opExtra (pre ++ Operand.reg regType rid :: suffix) =
         .error .InvalidPhysId) ∧
    (∀ (vd : X86ValidationData) (regType rid : Nat),
       x86OpFlagFromRegType.getD regType [] ≠ [] →
       kPackedIdMin ≤ rid →
       translateRegOp vd regType rid =
         .ok (⟨x86OpFlagFromRegType.getD regType [], [], rid % 256⟩, 0, Option.none)) ∧
    (∀ (vd : X86ValidationData) (regType rid : Nat),
       x86OpFlagFromRegType.getD regType [] ≠ [] →
       rid < 32 →
       (vd.allowedRegMask.getD regType 0 &&& (1 <<< rid) = 0 →
          translateRegOp vd regType rid = .error .InvalidPhysId) ∧
       (vd.allowedRegMask.getD regType 0 &&& (1 <<< rid) ≠ 0 →
          translateRegOp vd regType rid =
            .ok (⟨x86OpFlagFromRegType.getD regType [], [], rid % 256⟩, 1 <<< rid, Option.none))) := by
  refine ⟨?part1, ?part2, ?part3⟩
  case part1 =>
    intro archType instId options opExtra pre suffix st regType rid harch hid hnn htr hflag hlo hhi
    have hlt := regType_lt_of_flags regType hflag
    have hreg : translateRegOp (vdOf archType) regType rid = .error .InvalidPhysId := by
      unfold translateRegOp
      rw [if_neg (by omega), if_neg hflag, if_pos hhi, if_pos hlo]
    have hops : translateOps (vdOf archType) (pre ++ Operand.reg regType rid :: suffix) initTrans =
        .error .InvalidPhysId := by
      rw [translateOps_append (vdOf archType) pre _ st initTrans hnn htr]
      simp only [translateOps, translateOp]
      rw [hreg]
    exact validate_translate_error archType instId options opExtra _ _ harch hid hops
  case part2 =>
    intro vd regType rid hflag hvirt
    have hlt := regType_lt_of_flags regType hflag
    unfold translateRegOp
    rw [if_neg (by omega), if_neg hflag, if_neg (by omega)]
  case part3 =>
    intro vd regType rid hflag hlo
    have hlt := regType_lt_of_flags regType hflag
    have hp : rid < kPackedIdMin := by
      have hk : kPackedIdMin = 256 := rfl
      omega
    constructor
    · intro hmask
      unfold translateRegOp
      rw [if_neg (by omega), if_neg hflag, if_pos hp, if_neg (by omega), if_pos hmask]
    · intro hmask
      unfold translateRegOp
      rw [if_neg (by omega), if_neg hflag, if_pos hp, if_neg (by omega), if_neg hmask]

/-- C10 witness: xmm40 (id 40 in [32, 256)) rejected on x64; a virtual xmm id
0x100 accepted with no mask consultation (x86 table shown); concrete xmm8 on the
x86 table rejected because bit 8 is outside the 0xFF mask. -/
theorem c10_phys_id_rules_witness :
    validate kTypeX64 1 0 Operand.none [Operand.reg kRegXmm 40] = .error .InvalidPhysId ∧
    translateRegOp x86ValidationData kRegXmm 0x100 =
      .ok (⟨x86OpFlagFromRegType.getD kRegXmm [], [], 0x100 % 256⟩, 0, Option.none) ∧
    translateRegOp x86ValidationData kRegXmm 8 = .error .InvalidPhysId :=
  ⟨c10_phys_id_rules.1 kTypeX64 1 0 Operand.none [] [] initTrans kRegXmm 40
     (Or.inr rfl) (by decide) (by intro o ho; cases ho) (by decide)
     (by decide) (by decide) (by decide),
   c10_phys_id_rules.2.1 x86ValidationData kRegXmm 0x100 (by decide) (by decide),
   (c10_phys_id_rules.2.2 x86ValidationData kRegXmm 8 (by decide) (by decide)).1 (by decide)⟩

-- ============================================================================
-- C5
-- ============================================================================

/-- C5 counterexample: a call with SAE set, a memory operand present, and all
phases up to signature matching succeeding can still return a different error
when another AVX-512 option trips an earlier phase-E check: with SAE and KZ
(but no K) the result is `InvalidKZeroUse`, not `InvalidSAEOrER`. -/
theorem c5_counterexample :
    validate kTypeX86 kIdVaddpd (kOptionSAE ||| kOptionKZ) Operand.none [xmm0, xmm1, memEbx] =
      .error .InvalidKZeroUse ∧
    Err.InvalidKZeroUse ≠ Err.InvalidSAEOrER := by
  refine ⟨by decide, by decide⟩

/-- C5 amended: once the phases up to signature matching succeed and the
AVX-512 mask-register and broadcast checks that precede the SAE/ER check pass,
(1) SAE or StaticRounding with a memory operand yields `InvalidSAEOrER`, and
(2) StaticRounding with no memory operand on an instruction declaring a
broadcast element width (EvexB4 or EvexB8) with neither of the first two
operands a ZMM register yields `InvalidSAEOrER`. -/
theorem c5_sae_er_rules :
    (∀ (archType instId options : Nat) (opExtra : Operand) (ops rest : List Operand)
       (st : TransResult) (sz : Nat),
       archType = kTypeX86 ∨ archType = kTypeX64 →
       instId < kIdCount →
       translateOps (vdOf archType) ops initTrans = .ok (st, rest) →
       rest.all (fun o => o == Operand.none) = true →
       archCheck (archMaskOf archType) st.combinedOpFlags st.combinedRegMask = .ok () →
       sigPhase (archMaskOf archType) (cdOf instId) st.oSigs = .ok () →
       kmaskCheck (cdOf instId).flags options opExtra = .ok () →
       broadcastCheck (cdOf instId).flags options st.memSize = .ok () →
       options &&& (kOptionSAE ||| kOptionER) ≠ 0 →
       st.memSize = some sz →
       validate archType instId options opExtra ops = .error .InvalidSAEOrER) ∧
    (∀ (archType instId options : Nat) (opExtra : Operand) (ops rest : List Operand)
       (st : TransResult),
       archType = kTypeX86 ∨ archType = kTypeX64 →
       instId < kIdCount →
       translateOps (vdOf archType) ops initTrans = .ok (st, rest) →
       rest.all (fun o => o == Operand.none) = true →
       archCheck (archMaskOf archType) st.combinedOpFlags st.combinedRegMask = .ok () →
       sigPhase (archMaskOf archType) (cdOf instId) st.oSigs = .ok () →
       kmaskCheck (cdOf instId).flags options opExtra = .ok () →
       broadcastCheck (cdOf instId).flags options st.memSize = .ok () →
       options &&& kOptionER ≠ 0 →
       st.memSize = Option.none →
       (InstFlag.EvexB4 ∈ (cdOf instId).flags ∨ InstFlag.EvexB8 ∈ (cdOf instId).flags) →
       isZmm (ops.getD 0 Operand.none) = false →
       isZmm (ops.getD 1 Operand.none) = false →
       validate archType instId options opExtra ops = .error .InvalidSAEOrER) := by
  constructor
  · intro archType instId options opExtra ops rest st sz harch hid htr hrest hac hsig hkm hbc hopt hms
    rw [validate_reaches_avx512 archType instId options opExtra ops rest st harch hid htr hrest hac hsig,
        hms]
    rw [hms] at hbc
    exact avx512_sae_mem _ options opExtra sz ops hkm hbc hopt
  · intro archType instId options opExtra ops rest st harch hid htr hrest hac hsig hkm hbc her hms hb hz0 hz1
    rw [validate_reaches_avx512 archType instId options opExtra ops rest st harch hid htr hrest hac hsig,
        hms]
    rw [hms] at hbc
    exact avx512_er_not_zmm _ options opExtra ops hkm hbc her hb hz0 hz1

/-- C5 witness: the claim's concrete scenario S17 — `VADDPD` with
StaticRounding and (xmm, xmm, xmm) — gives `InvalidSAEOrER`, as does `VADDPD`
with SAE and a register-memory form. -/
theorem c5_sae_er_rules_witness :
    validate kTypeX86 kIdVaddpd kOptionER Operand.none [xmm0, xmm1, xmm2] =
      .error .InvalidSAEOrER ∧
    validate kTypeX86 kIdVaddpd kOptionSAE Operand.none [xmm0, xmm1, memEbx] =
      .error .InvalidSAEOrER :=
  ⟨c5_sae_er_rules.2 kTypeX86 kIdVaddpd kOptionER Operand.none [xmm0, xmm1, xmm2] []
     ⟨[⟨[.Xmm], [], 0⟩, ⟨[.Xmm], [], 1⟩, ⟨[.Xmm], [], 2⟩], [.Xmm, .Xmm, .Xmm], 7, Option.none⟩
     (Or.inl rfl) (by decide) (by decide) (by decide) (by decide) (by decide)
     (by decide) (by decide) (by decide) (by decide) (by decide) (by decide) (by decide),
   c5_sae_er_rules.1 kTypeX86 kIdVaddpd kOptionSAE Operand.none [xmm0, xmm1, memEbx] []
     ⟨[⟨[.Xmm], [], 0⟩, ⟨[.Xmm], [], 1⟩,
       ⟨[.Mem], [.M8, .M16, .M32, .M64, .M80, .M128, .M256, .M512, .M1024, .Any], 255⟩],
      [.Xmm, .Xmm, .Mem], 3, some 0⟩ 0
     (Or.inl rfl) (by decide) (by decide) (by decide) (by decide) (by decide)
     (by decide) (by decide) (by decide) (by decide)⟩

-- ============================================================================
-- C6
-- ============================================================================

/-- C6 counterexample: a call with Broadcast set, no memory operand, and all
phases up to signature matching succeeding can still return a different error
when another AVX-512 option trips the earlier mask check: with Broadcast and KZ
(but no K) the result is `InvalidKZeroUse`, not `InvalidBroadcast`. -/
theorem c6_counterexample :
    validate kTypeX86 kIdVaddpd (kOption1ToX ||| kOptionKZ) Operand.none [xmm0, xmm1, xmm2] =
      .error .InvalidKZeroUse ∧
    Err.InvalidKZeroUse ≠ Err.InvalidBroadcast := by
  refine ⟨by decide, by decide⟩

/-- C6 amended: once the phases up to signature matching succeed and the AVX-512
mask-register checks that precede the broadcast check pass, (1) Broadcast with
no memory operand yields `InvalidBroadcast`, and (2) Broadcast with a memory
operand whose non-zero explicit size differs from the instruction's declared
broadcast element size (4 bytes under EvexB4, 8 bytes under EvexB8) yields
`InvalidBroadcast`. -/
theorem c6_broadcast_rules :
    (∀ (archType instId options : Nat) (opExtra : Operand) (ops rest : List Operand)
       (st : TransResult),
       archType = kTypeX86 ∨ archType = kTypeX64 →
       instId < kIdCount →
       translateOps (vdOf archType) ops initTrans = .ok (st, rest) →
       rest.all (fun o => o == Operand.none) = true →
       archCheck (archMaskOf archType) st.combinedOpFlags st.combinedRegMask = .ok () →
       sigPhase (archMaskOf archType) (cdOf instId) st.oSigs = .ok () →
       kmaskCheck (cdOf instId).flags options opExtra = .ok () →
       options &&& kOption1ToX ≠ 0 →
       st.memSize = Option.none →
       validate archType instId options opExtra ops = .error .InvalidBroadcast) ∧
    (∀ (archType instId options : Nat) (opExtra : Operand) (ops rest : List Operand)
       (st : TransResult) (sz : Nat),
       archType = kTypeX86 ∨ archType = kTypeX64 →
       instId < kIdCount →
       translateOps (vdOf archType) ops initTrans = .ok (st, rest) →
       rest.all (fun o => o == Operand.none) = true →
       archCheck (archMaskOf archType) st.combinedOpFlags st.combinedRegMask = .ok () →
       sigPhase (archMaskOf archType) (cdOf instId) st.oSigs = .ok () →
       kmaskCheck (cdOf instId).flags options opExtra = .ok () →
       options &&& kOption1ToX ≠ 0 →
       st.memSize = some sz →
       sz ≠ 0 →
       (InstFlag.EvexB4 ∈ (cdOf instId).flags ∧ sz ≠ 4) ∨
         (InstFlag.EvexB8 ∈ (cdOf instId).flags ∧ sz ≠ 8) →
       validate archType instId options opExtra ops = .error .InvalidBroadcast) := by
  constructor
  · intro archType instId options opExtra ops rest st harch hid htr hrest hac hsig hkm hbx hms
    rw [validate_reaches_avx512 archType instId options opExtra ops rest st harch hid htr hrest hac hsig,
        hms]
    exact avx512_broadcast_nomem _ options opExtra ops hkm hbx
  · intro archType instId options opExtra ops rest st sz harch hid htr hrest hac hsig hkm hbx hms hsz hbad
    rw [validate_reaches_avx512 archType instId options opExtra ops rest st harch hid htr hrest hac hsig,
        hms]
    exact avx512_broadcast_badsize _ options opExtra ops sz hkm hbx hsz hbad

/-- C6 witness: the claim's concrete scenario S16 — `VADDPD` with Broadcast and
a 4-byte memory operand (the instruction declares an 8-byte element) — gives
`InvalidBroadcast`; so do `VADDPD` with Broadcast and no memory operand, and
`VPMOVD2M` (whose sole signature is the k, xmm|ymm|zmm form) with Broadcast and
the register-only operands (k1, xmm0) on x64. -/
theorem c6_broadcast_rules_witness :
    validate kTypeX86 kIdVaddpd kOption1ToX Operand.none [xmm0, xmm1, m32ebx] =
      .error .InvalidBroadcast ∧
    validate kTypeX86 kIdVaddpd kOption1ToX Operand.none [xmm0, xmm1, xmm2] =
      .error .InvalidBroadcast ∧
    validate kTypeX64 kIdVpmovd2m kOption1ToX Operand.none [Operand.reg kRegK 1, xmm0] =
      .error .InvalidBroadcast :=
  ⟨c6_broadcast_rules.2 kTypeX86 kIdVaddpd kOption1ToX Operand.none [xmm0, xmm1, m32ebx] []
     ⟨[⟨[.Xmm], [], 0⟩, ⟨[.Xmm], [], 1⟩,
       ⟨[.Mem], [.M8, .M16, .M32, .M64, .M80, .M128, .M256, .M512, .M1024, .Any], 255⟩],
      [.Xmm, .Xmm, .Mem], 3, some 4⟩ 4
     (Or.inl rfl) (by decide) (by decide) (by decide) (by decide) (by decide)
     (by decide) (by decide) (by decide) (by decide) (by decide),
   c6_broadcast_rules.1 kTypeX86 kIdVaddpd kOption1ToX Operand.none [xmm0, xmm1, xmm2] []
     ⟨[⟨[.Xmm], [], 0⟩, ⟨[.Xmm], [], 1⟩, ⟨[.Xmm], [], 2⟩], [.Xmm, .Xmm, .Xmm], 7, Option.none⟩
     (Or.inl rfl) (by decide) (by decide) (by decide) (by decide) (by decide)
     (by decide) (by decide) (by decide),
   c6_broadcast_rules.1 kTypeX64 kIdVpmovd2m kOption1ToX Operand.none
     [Operand.reg kRegK 1, xmm0] []
     ⟨[⟨[.K], [], 1⟩, ⟨[.Xmm], [], 0⟩], [.K, .Xmm], 3, Option.none⟩
     (Or.inr rfl) (by decide) (by decide) (by decide) (by decide) (by decide)
     (by decide) (by decide) (by decide)⟩
